import Mathlib

/-!
# SpinnakerCamera: camera configuration and acquisition tools

A shallow embedding of the four programs of the repository

* `MonoDualCameraAcquisition` (`camera_manager.cpp`, `camera_settings.cpp`),
* `ColorCameraTrackbarCalibration` (`color_main_trackbar.cpp`),
* `MonoCameraTrackbarCalibration` (`mono_main_trackbar.cpp`),
* `ColorCameraInfinityCapture` (`main_color_infinity_images.cpp`).

Conventions of the embedding.

* A C++ `double` is a rational number (`ℚ`): every finite double is one, and the
  comparisons the programs make are the rational ones.
* `unsigned int` and `uint64_t` are natural numbers, with `% 2 ^ 32` and `% 2 ^ 64`
  written where the C++ arithmetic can wrap; `int64_t` and `int` are integers.
* A `std::string` is a list of characters.
* The vendor SDK is a record of nodes.  A node says whether it is readable and
  writable, which range it reports, and whether touching its value raises
  `Spinnaker::Exception`.  What a function writes to the device is returned as a log.
-/

namespace SpinnakerCamera

/-! ## The device: GenICam nodes -/

/-- A `CFloatPtr` node: `IsReadable`, `IsWritable`, `GetMin()`, `GetMax()`.  When `faulty`
is set, the first access to its value or range raises `Spinnaker::Exception`. -/
structure FloatNode where
  readable : Bool
  writable : Bool
  min : ℚ
  max : ℚ
  faulty : Bool
deriving DecidableEq

/-- A `CIntegerPtr` node (`Width`, `Height`, `OffsetX`, `OffsetY`). -/
structure IntegerNode where
  readable : Bool
  writable : Bool
  min : Int
  max : Int
  faulty : Bool
deriving DecidableEq

/-- A `CEnumerationPtr` or `CBooleanPtr` node.  `entry_readable` is `IsReadable` of the
enumeration entry the code looks up with `GetEntryByName` (`"Off"`, `"Continuous"`, ...). -/
structure SwitchNode where
  readable : Bool
  writable : Bool
  entry_readable : Bool
  faulty : Bool
deriving DecidableEq

/-- The nodes of one camera's `INodeMap` that the configurators ask for with `GetNode`. -/
structure NodeMap where
  ExposureAuto : SwitchNode
  autoBrightnessMode : SwitchNode
  ExposureTime : FloatNode
  GainAuto : SwitchNode
  Gain : FloatNode
  GammaEnable : SwitchNode
  Gamma : FloatNode
  SharpeningEnable : SwitchNode
  Sharpening : FloatNode
  SaturationEnable : SwitchNode
  Saturation : FloatNode
  Width : IntegerNode
  Height : IntegerNode
  OffsetX : IntegerNode
  OffsetY : IntegerNode
  PixelFormat : SwitchNode := ⟨true, true, true, false⟩
  SensorShutterMode : SwitchNode := ⟨true, true, true, false⟩
  BlackLevelClampingEnable : SwitchNode := ⟨true, true, true, false⟩
  AcquisitionMode : SwitchNode := ⟨true, true, true, false⟩
  /-- `IsReadable` of the entry `"Continuous"` of `ExposureAuto` (`entry_readable` of
  `ExposureAuto` is that of its entry `"Off"`) -/
  ExposureAutoContinuous : Bool := true
deriving DecidableEq

/-- One successful write to the device. -/
inductive Write where
  /-- `CFloatPtr::SetValue(value)` on the node called `node` -/
  | float (node : String) (value : ℚ)
  /-- `CIntegerPtr::SetValue(value)` -/
  | integer (node : String) (value : Int)
  /-- `CEnumerationPtr::SetIntValue` with the value of the entry called `name` -/
  | entry (node : String) (name : String)
  /-- `CBooleanPtr::SetValue(true)` -/
  | enable (node : String)
deriving DecidableEq

/-- What a single-camera configurator did: its return code and the device writes, in order. -/
structure Outcome where
  result : Int
  writes : List Write
deriving DecidableEq

/-- A readable and writable float node with the range `[lo, hi]`. -/
def FloatNode.ok (lo hi : ℚ) : FloatNode := ⟨true, true, lo, hi, false⟩

/-- A readable and writable integer node with the range `[lo, hi]`. -/
def IntegerNode.ok (lo hi : Int) : IntegerNode := ⟨true, true, lo, hi, false⟩

/-- A readable and writable switch whose entry is readable. -/
def SwitchNode.ok : SwitchNode := ⟨true, true, true, false⟩

/-- A switch the camera model does not have. -/
def SwitchNode.absent : SwitchNode := ⟨false, false, false, false⟩

/-- A colour camera in working order: exposure 33 µs to 500 ms, gain 0 to 48 dB,
gamma 0.25 to 4, sharpening -1 to 8, saturation 0 to 1, a 2448 x 2048 sensor. -/
def NodeMap.sample : NodeMap where
  ExposureAuto := SwitchNode.ok
  autoBrightnessMode := SwitchNode.ok
  ExposureTime := FloatNode.ok 33 500000
  GainAuto := SwitchNode.ok
  Gain := FloatNode.ok 0 48
  GammaEnable := SwitchNode.ok
  Gamma := FloatNode.ok (1 / 4) 4
  SharpeningEnable := SwitchNode.ok
  Sharpening := FloatNode.ok (-1) 8
  SaturationEnable := SwitchNode.ok
  Saturation := FloatNode.ok 0 1
  Width := IntegerNode.ok 8 2448
  Height := IntegerNode.ok 6 2048
  OffsetX := IntegerNode.ok 0 1232
  OffsetY := IntegerNode.ok 0 1696

/-! ## The clamp every parameter configurator performs -/

/-- The text `if (v > p->GetMax()) v = p->GetMax(); else if (v < p->GetMin()) v = p->GetMin();`
that precedes every `SetValue(v)` of a float setting. -/
def clamp_value (v lo hi : ℚ) : ℚ :=
  if v > hi then hi else if v < lo then lo else v

/-- How the value-node part of a configurator ended. -/
inductive Stage (α : Type) where
  /-- `!IsReadable(p) || !IsWritable(p)`: nothing was touched -/
  | unavailable
  /-- an SDK call raised `Spinnaker::Exception` before the write -/
  | raised
  /-- the tested value was out of the reported range and was not written (integers only) -/
  | rejected
  /-- `SetValue(v)` was called with `v` -/
  | written (v : α)
deriving DecidableEq

/-- The value-node part of every float configurator:
`if (!IsReadable(p) || !IsWritable(p)) ...`, then the clamp, then `p->SetValue(v)`. -/
def set_float_stage (node : FloatNode) (v : ℚ) : Stage ℚ :=
  if !node.readable || !node.writable then Stage.unavailable
  else if node.faulty then Stage.raised
  else Stage.written (clamp_value v node.min node.max)

/-- The value-node part of every `config_roi`:
`if (IsReadable(p) && IsWritable(p)) { if (v >= p->GetMin() && v <= p->GetMax()) p->SetValue(v); ... }`. -/
def set_integer_stage (node : IntegerNode) (v : Int) : Stage Int :=
  if node.readable && node.writable then
    if node.faulty then Stage.raised
    else if v ≥ node.min && v ≤ node.max then Stage.written v
    else Stage.rejected
  else Stage.unavailable

/-- The log after one node of a `config_roi` that only reports a node that is not available
or a value out of range: the write, if the stage made one, is appended. -/
def roi_writes (name : String) (st : Stage Int) (ws : List Write) : List Write :=
  match st with
  | Stage.written x => ws ++ [Write.integer name x]
  | _ => ws

/-- The text `if (IsReadable(entry)) node->SetIntValue(entry->GetValue());` for a switch
that is already known to be readable and writable: `none` when the call raises, else the
writes it made. -/
def select_entry_stage (name entry : String) (node : SwitchNode) : Option (List Write) :=
  if node.entry_readable then
    if node.faulty then none else some [Write.entry name entry]
  else some []

/-- The code `static_cast<int>(x)` on a double: truncation towards zero. -/
def static_cast_int (x : ℚ) : Int :=
  if 0 ≤ x then ⌊x⌋ else -⌊-x⌋

/-! ## ColorCameraInfinityCapture: the configurators of `main_color_infinity_images.cpp` -/

namespace Infinity

/-- The `camera_settings` struct of `CAMERA_CONFIG` (`ColorCameraInfinityCapture/main.h`). -/
structure camera_settings where
  exposure : ℚ
  gain : ℚ
  sharpening : ℚ
  gamma : ℚ
  saturation : ℚ
deriving DecidableEq

/-- The function `CAMERA_CONFIG::config_saturation(INodeMap&)`: the outcome and the settings
afterwards (the clamp is done on `settings.saturation` itself). -/
def config_saturation (nm : NodeMap) (s : camera_settings) : Outcome × camera_settings :=
  if nm.SaturationEnable.readable && nm.SaturationEnable.writable then
    if nm.SaturationEnable.faulty then (⟨-1, []⟩, s)
    else
      match set_float_stage nm.Saturation s.saturation with
      | Stage.written x =>
        (⟨0, [Write.enable "SaturationEnable", Write.float "Saturation" x]⟩,
          { s with saturation := x })
      | _ => (⟨-1, [Write.enable "SaturationEnable"]⟩, s)
  else (⟨-1, []⟩, s)

/-- The function `CAMERA_CONFIG::config_gain(INodeMap&)`: a `GainAuto` that cannot be switched
off is only reported. -/
def config_gain (nm : NodeMap) (s : camera_settings) : Outcome × camera_settings :=
  let auto : Option (List Write) :=
    if nm.GainAuto.readable && nm.GainAuto.writable then
      select_entry_stage "GainAuto" "Off" nm.GainAuto
    else some []
  match auto with
  | none => (⟨-1, []⟩, s)
  | some ws =>
    match set_float_stage nm.Gain s.gain with
    | Stage.written x => (⟨0, ws ++ [Write.float "Gain" x]⟩, { s with gain := x })
    | _ => (⟨-1, ws⟩, s)

/-- The function `CAMERA_CONFIG::config_gamma(INodeMap&)`: when `GammaEnable` is not
available the function only prints and returns 0. -/
def config_gamma (nm : NodeMap) (s : camera_settings) : Outcome × camera_settings :=
  if nm.GammaEnable.readable && nm.GammaEnable.writable then
    if nm.GammaEnable.faulty then (⟨-1, []⟩, s)
    else
      match set_float_stage nm.Gamma s.gamma with
      | Stage.written x =>
        (⟨0, [Write.enable "GammaEnable", Write.float "Gamma" x]⟩, { s with gamma := x })
      | _ => (⟨-1, [Write.enable "GammaEnable"]⟩, s)
  else (⟨0, []⟩, s)

/-- The function `CAMERA_CONFIG::config_sharpening(INodeMap&)`. -/
def config_sharpening (nm : NodeMap) (s : camera_settings) : Outcome × camera_settings :=
  if nm.SharpeningEnable.readable && nm.SharpeningEnable.writable then
    if nm.SharpeningEnable.faulty then (⟨-1, []⟩, s)
    else
      match set_float_stage nm.Sharpening s.sharpening with
      | Stage.written x =>
        (⟨0, [Write.enable "SharpeningEnable", Write.float "Sharpening" x]⟩,
          { s with sharpening := x })
      | _ => (⟨-1, [Write.enable "SharpeningEnable"]⟩, s)
  else (⟨0, []⟩, s)

/-- The function `CAMERA_CONFIG::config_exposure(INodeMap&)`: `result = 1` when `ExposureAuto`
cannot be switched off but `autoBrightnessMode` is there. -/
def config_exposure (nm : NodeMap) (s : camera_settings) : Outcome × camera_settings :=
  let auto : Option (Int × List Write) :=
    if nm.ExposureAuto.readable && nm.ExposureAuto.writable then
      (select_entry_stage "ExposureAuto" "Off" nm.ExposureAuto).map (fun ws => (0, ws))
    else if !nm.autoBrightnessMode.readable || !nm.autoBrightnessMode.writable then none
    else some (1, [])
  match auto with
  | none => (⟨-1, []⟩, s)
  | some (result, ws) =>
    match set_float_stage nm.ExposureTime s.exposure with
    | Stage.written x =>
      (⟨result, ws ++ [Write.float "ExposureTime" x]⟩, { s with exposure := x })
    | _ => (⟨-1, ws⟩, s)

/-- The function `CAMERA_CONFIG::config_roi(INodeMap&, width_value, height_value)`: `Width`,
then `Height`; a node that is not available or a value out of range is only reported. -/
def config_roi (nm : NodeMap) (width_value height_value : Int) : Outcome :=
  match set_integer_stage nm.Width width_value with
  | Stage.raised => ⟨-1, []⟩
  | s1 =>
    match set_integer_stage nm.Height height_value with
    | Stage.raised => ⟨-1, roi_writes "Width" s1 []⟩
    | s2 => ⟨0, roi_writes "Height" s2 (roi_writes "Width" s1 [])⟩

end Infinity

/-! ## The calibration tools: the configurators of `color_main_trackbar.cpp` and
`mono_main_trackbar.cpp`

The two files have the same text for `config_gamma`, `config_gain`, `config_exposure` and
`config_roi`; only the colour tool has `config_sharpening` and `config_saturation`, and the
constant `max_exposure` is 500000 in the colour tool and 150000 in the mono tool. -/

namespace Trackbar

/-- The constant `exposure_slider_max_value`. -/
def exposure_slider_max_value : Int := 10000
/-- The constant `min_exposure`. -/
def min_exposure : ℚ := 33
/-- The constant `max_exposure` of `color_main_trackbar.cpp`. -/
def color_max_exposure : ℚ := 500000
/-- The constant `max_exposure` of `mono_main_trackbar.cpp`. -/
def mono_max_exposure : ℚ := 150000
/-- The constant `gain_slider_max_value`. -/
def gain_slider_max_value : Int := 48
/-- The constant `min_gain`. -/
def min_gain : ℚ := 0
/-- The constant `max_gain`. -/
def max_gain : ℚ := 48
/-- The constant `gamma_slider_max_value`. -/
def gamma_slider_max_value : Int := 100
/-- The constant `min_gamma`. -/
def min_gamma : ℚ := 1 / 4
/-- The constant `max_gamma`. -/
def max_gamma : ℚ := 4

/-- The function `CAMERA_CONFIG::config_saturation(INodeMap&, double)`: the outcome and the
global `saturation_value_slider` afterwards. -/
def config_saturation (nm : NodeMap) (current_saturation_value : ℚ) (slider : Int) :
    Outcome × Int :=
  if nm.SaturationEnable.readable && nm.SaturationEnable.writable then
    if nm.SaturationEnable.faulty then (⟨-1, []⟩, slider)
    else
      match set_float_stage nm.Saturation current_saturation_value with
      | Stage.written x =>
        (⟨0, [Write.enable "SaturationEnable", Write.float "Saturation" x]⟩,
          static_cast_int (x * 20))
      | _ => (⟨-1, [Write.enable "SaturationEnable"]⟩, slider)
  else (⟨-1, []⟩, slider)

/-- The function `CAMERA_CONFIG::config_gamma(INodeMap&, double)` and `gamma_value_slider`. -/
def config_gamma (nm : NodeMap) (current_gamma_value : ℚ) (slider : Int) : Outcome × Int :=
  if nm.GammaEnable.readable && nm.GammaEnable.writable then
    if nm.GammaEnable.faulty then (⟨-1, []⟩, slider)
    else
      match set_float_stage nm.Gamma current_gamma_value with
      | Stage.written x =>
        (⟨0, [Write.enable "GammaEnable", Write.float "Gamma" x]⟩,
          static_cast_int ((x - min_gamma) / (max_gamma - min_gamma) * gamma_slider_max_value))
      | _ => (⟨-1, [Write.enable "GammaEnable"]⟩, slider)
  else (⟨-1, []⟩, slider)

/-- The function `CAMERA_CONFIG::config_sharpening(INodeMap&, double)` and
`sharpening_value_slider`. -/
def config_sharpening (nm : NodeMap) (current_sharpening_value : ℚ) (slider : Int) :
    Outcome × Int :=
  if nm.SharpeningEnable.readable && nm.SharpeningEnable.writable then
    if nm.SharpeningEnable.faulty then (⟨-1, []⟩, slider)
    else
      match set_float_stage nm.Sharpening current_sharpening_value with
      | Stage.written x =>
        (⟨0, [Write.enable "SharpeningEnable", Write.float "Sharpening" x]⟩,
          static_cast_int (x + 1))
      | _ => (⟨-1, [Write.enable "SharpeningEnable"]⟩, slider)
  else (⟨-1, []⟩, slider)

/-- The function `CAMERA_CONFIG::config_gain(INodeMap&, double)` and `gain_value_slider`. -/
def config_gain (nm : NodeMap) (current_gain_value : ℚ) (slider : Int) : Outcome × Int :=
  if nm.GainAuto.readable && nm.GainAuto.writable then
    match select_entry_stage "GainAuto" "Off" nm.GainAuto with
    | none => (⟨-1, []⟩, slider)
    | some ws =>
      match set_float_stage nm.Gain current_gain_value with
      | Stage.written x =>
        (⟨0, ws ++ [Write.float "Gain" x]⟩,
          static_cast_int ((x - min_gain) / (max_gain - min_gain) * gain_slider_max_value))
      | _ => (⟨-1, ws⟩, slider)
  else (⟨-1, []⟩, slider)

/-- The function `CAMERA_CONFIG::config_exposure(INodeMap&, double)` and
`exposure_value_slider`; `max_exposure` is the tool's constant. -/
def config_exposure (max_exposure : ℚ) (nm : NodeMap) (current_exposure_value : ℚ)
    (slider : Int) : Outcome × Int :=
  let auto : Option (Int × List Write) :=
    if nm.ExposureAuto.readable && nm.ExposureAuto.writable then
      (select_entry_stage "ExposureAuto" "Off" nm.ExposureAuto).map (fun ws => (0, ws))
    else if !nm.autoBrightnessMode.readable || !nm.autoBrightnessMode.writable then none
    else some (1, [])
  match auto with
  | none => (⟨-1, []⟩, slider)
  | some (result, ws) =>
    match set_float_stage nm.ExposureTime current_exposure_value with
    | Stage.written x =>
      (⟨result, ws ++ [Write.float "ExposureTime" x]⟩,
        static_cast_int ((x - min_exposure) / (max_exposure - min_exposure)
          * exposure_slider_max_value))
    | _ => (⟨-1, ws⟩, slider)

/-- One node of `config_roi`: `none` when the function ends here with -1 (node not
available, or an exception), else the writes so far. -/
def roi_node (name : String) (node : IntegerNode) (v : Int) (ws : List Write) :
    Option (List Write) :=
  match set_integer_stage node v with
  | Stage.unavailable => none
  | Stage.raised => none
  | Stage.rejected => some ws
  | Stage.written x => some (ws ++ [Write.integer name x])

/-- The function `CAMERA_CONFIG::config_roi(INodeMap&, width, height, x_offset, y_offset)`:
`OffsetX`, `OffsetY`, `Width`, `Height` in this order; a node that is not available ends
the function with -1, a value out of range is only reported. -/
def config_roi (nm : NodeMap) (width_value height_value x_offset_value y_offset_value : Int) :
    Outcome :=
  match roi_node "OffsetX" nm.OffsetX x_offset_value [] with
  | none => ⟨-1, []⟩
  | some w1 =>
    match roi_node "OffsetY" nm.OffsetY y_offset_value w1 with
    | none => ⟨-1, w1⟩
    | some w2 =>
      match roi_node "Width" nm.Width width_value w2 with
      | none => ⟨-1, w2⟩
      | some w3 =>
        match roi_node "Height" nm.Height height_value w3 with
        | none => ⟨-1, w3⟩
        | some w4 => ⟨0, w4⟩

end Trackbar

/-! ## MonoDualCameraAcquisition: the configurators of `camera_manager.cpp` -/

namespace CAMERA_MANAGER

/-- What a function of `CAMERA_MANAGER` that loops over the cameras did: the return code and
the device writes, each with the index of its camera. -/
structure MultiOutcome where
  result : Int
  writes : List (Nat × Write)
deriving DecidableEq

/-- The loop `for (unsigned int i = 0; i < node_maps.size(); i++)`, started at index `i`. -/
def for_each_camera (body : Nat → NodeMap → MultiOutcome → MultiOutcome) :
    Nat → List NodeMap → MultiOutcome → MultiOutcome
  | _, [], acc => acc
  | i, nm :: rest, acc => for_each_camera body (i + 1) rest (body i nm acc)

/-- The writes `ws` of camera `i`, appended to the log. -/
def MultiOutcome.log (acc : MultiOutcome) (i : Nat) (ws : List Write) : MultiOutcome :=
  { acc with writes := acc.writes ++ ws.map (fun w => (i, w)) }

/-- The body of the loop of `config_gain` for camera `i`: `continue` leaves `result` as it
is, the inner `catch` sets it to -1. -/
def config_gain_camera (gain_value : ℚ) (i : Nat) (nm : NodeMap) (acc : MultiOutcome) :
    MultiOutcome :=
  if !nm.GainAuto.readable || !nm.GainAuto.writable then acc
  else
    match select_entry_stage "GainAuto" "Off" nm.GainAuto with
    | none => { acc with result := -1 }
    | some ws =>
      match set_float_stage nm.Gain gain_value with
      | Stage.written x => acc.log i (ws ++ [Write.float "Gain" x])
      | Stage.raised => { acc.log i ws with result := -1 }
      | _ => acc.log i ws

/-- The function `CAMERA_MANAGER::config_gain`, called with `camera_settings->get_gain()`. -/
def config_gain (node_maps : List NodeMap) (gain_value : ℚ) : MultiOutcome :=
  for_each_camera (config_gain_camera gain_value) 0 node_maps ⟨0, []⟩

/-- The body of the loop of `config_gamma` for camera `i`. -/
def config_gamma_camera (gamma_value : ℚ) (i : Nat) (nm : NodeMap) (acc : MultiOutcome) :
    MultiOutcome :=
  if !nm.GammaEnable.readable || !nm.GammaEnable.writable then acc
  else if nm.GammaEnable.faulty then { acc with result := -1 }
  else
    match set_float_stage nm.Gamma gamma_value with
    | Stage.written x => acc.log i [Write.enable "GammaEnable", Write.float "Gamma" x]
    | Stage.raised => { acc.log i [Write.enable "GammaEnable"] with result := -1 }
    | _ => acc.log i [Write.enable "GammaEnable"]

/-- The function `CAMERA_MANAGER::config_gamma`, called with `camera_settings->get_gamma()`. -/
def config_gamma (node_maps : List NodeMap) (gamma_value : ℚ) : MultiOutcome :=
  for_each_camera (config_gamma_camera gamma_value) 0 node_maps ⟨0, []⟩

/-- The body of the loop of `config_exposure` for camera `i`. -/
def config_exposure_camera (exposure_value : ℚ) (i : Nat) (nm : NodeMap)
    (acc : MultiOutcome) : MultiOutcome :=
  if nm.ExposureAuto.readable && nm.ExposureAuto.writable then
    match select_entry_stage "ExposureAuto" "Off" nm.ExposureAuto with
    | none => { acc with result := -1 }
    | some ws =>
      match set_float_stage nm.ExposureTime exposure_value with
      | Stage.written x => acc.log i (ws ++ [Write.float "ExposureTime" x])
      | Stage.raised => { acc.log i ws with result := -1 }
      | _ => acc.log i ws
  else acc

/-- The function `CAMERA_MANAGER::config_exposure`, called with
`camera_settings->get_exposure()`. -/
def config_exposure (node_maps : List NodeMap) (exposure_value : ℚ) : MultiOutcome :=
  for_each_camera (config_exposure_camera exposure_value) 0 node_maps ⟨0, []⟩

/-- The function `CAMERA_MANAGER::config_roi(node_map, offset_x, offset_y, width, height, i)`:
`Width`, `OffsetX`, `Height`, `OffsetY` in this order.  Only a `Height` out of range sets
`result = -1`; an exception ends the function with -1. -/
def config_roi (nm : NodeMap) (offset_x offset_y width height : Int) : Outcome :=
  match set_integer_stage nm.Width width with
  | Stage.raised => ⟨-1, []⟩
  | s1 =>
    let w1 := roi_writes "Width" s1 []
    match set_integer_stage nm.OffsetX offset_x with
    | Stage.raised => ⟨-1, w1⟩
    | s2 =>
      let w2 := roi_writes "OffsetX" s2 w1
      match set_integer_stage nm.Height height with
      | Stage.raised => ⟨-1, w2⟩
      | s3 =>
        let w3 := roi_writes "Height" s3 w2
        let result : Int := if s3 = Stage.rejected then -1 else 0
        match set_integer_stage nm.OffsetY offset_y with
        | Stage.raised => ⟨-1, w3⟩
        | s4 => ⟨result, roi_writes "OffsetY" s4 w3⟩

end CAMERA_MANAGER

/-! ## MonoDualCameraAcquisition: file names and the frame timeout (`camera_manager.cpp`) -/

/-- The function `std::to_string` on an unsigned value: its decimal digits. -/
def to_string_unsigned (n : Nat) : List Char := Nat.toDigits 10 n

/-- The function `std::to_string` on a signed value: a `-` for a negative value, then the
decimal digits of its magnitude. -/
def to_string_signed (x : Int) : List Char :=
  if x < 0 then '-' :: Nat.toDigits 10 x.natAbs else Nat.toDigits 10 x.natAbs

/-- The code `static_cast<uint64_t>(x)` on a double: the fractional part is dropped.  (The
conversion of a double below -1 or from `2 ^ 64` on is undefined in C++; the model gives 0
for the first and wraps the second.) -/
def static_cast_uint64 (x : ℚ) : Nat := (static_cast_int x).toNat % 2 ^ 64

namespace CAMERA_MANAGER

/-- The line `unsigned int circular_index = image_counts[i][roi.offset_x] % 5;` of
`acquire_images`: what is passed to `capture_image` as `image_index`. -/
def acquire_circular_index (image_count : Nat) : Nat := image_count % 5

/-- The line `unsigned int circular_index = image_index % 3; // Limit to 5 images per offset`
of `capture_image`. -/
def capture_circular_index (image_index : Nat) : Nat := image_index % 3

/-- The index in the name of the file saved when the running count of the (camera, offset)
pair is `image_count`: `acquire_images` passes its circular index through `capture_image`. -/
def file_name_index (image_count : Nat) : Nat :=
  capture_circular_index (acquire_circular_index image_count)

/-- The statement `image_counts[i][roi.offset_x]++` on an `unsigned int`. -/
def increment_count (image_count : Nat) : Nat := (image_count + 1) % 2 ^ 32

/-- The running count of a pair after `k` visits: `k` increments of the initial 0. -/
def count_after : Nat → Nat
  | 0 => 0
  | k + 1 => increment_count (count_after k)

/-- What the SDK does during one `capture_image`: whether `GetNextImage(timeout)` raises,
whether the image it returns is incomplete, whether `Convert` raises, whether `Save` raises. -/
structure Grab where
  next_image_raises : Bool
  incomplete : Bool
  convert_raises : Bool
  save_raises : Bool
deriving DecidableEq

/-- A frame that arrives complete and is converted and saved without an exception. -/
def Grab.ok : Grab := ⟨false, false, false, false⟩

/-- The name `capture_image` builds: `full_filename`. -/
def full_filename (folder_path device_serial : List Char) (image_index : Nat)
    (offset_x : Int) : List Char :=
  folder_path ++ "Serial_".toList ++ device_serial ++ "_OffsetX_".toList
    ++ to_string_signed offset_x ++ "_Image_".toList
    ++ to_string_unsigned (capture_circular_index image_index) ++ ".jpg".toList

/-- The function `CAMERA_MANAGER::capture_image`: the path of the file it saved, or `none`
when it saved nothing (incomplete image, or an exception caught by its `catch`). -/
def capture_image (g : Grab) (folder_path device_serial : List Char) (image_index : Nat)
    (offset_x : Int) : Option (List Char) :=
  if g.next_image_raises then none
  else if g.incomplete then none
  else if g.convert_raises then none
  else if g.save_raises then none
  else some (full_filename folder_path device_serial image_index offset_x)

/-- The function `CAMERA_MANAGER::calculate_exposure_timeout`; `exposure` is what
`exposure_ptr->GetValue()` returns, in microseconds. -/
def calculate_exposure_timeout (node : FloatNode) (exposure : ℚ) : Nat :=
  if node.readable then
    if node.faulty then 100
    else
      let exposure_time := static_cast_uint64 (exposure / 1000)
      let buffer_time := max 10 (exposure_time / 10)
      (exposure_time + buffer_time) % 2 ^ 64
  else 100

end CAMERA_MANAGER

/-! ## Return codes: the `int` of the programs -/

/-- The bits of an `int`, as an unsigned 32-bit number (two's complement). -/
def to_unsigned32 (x : Int) : Nat := (x % 2 ^ 32).toNat

/-- The `int` with the given 32 bits. -/
def of_unsigned32 (n : Nat) : Int := if n < 2 ^ 31 then (n : Int) else (n : Int) - 2 ^ 32

/-- The operator `a | b` on `int`, as in `result |= step(...)` and `result = result | step(...)`. -/
def int_or (a b : Int) : Int := of_unsigned32 (to_unsigned32 a ||| to_unsigned32 b)

/-- The chain `result = 0; result = result | r1; result = result | r2; ...`. -/
def or_codes (codes : List Int) : Int := codes.foldl int_or 0

/-! ## MonoDualCameraAcquisition: cameras, the acquisition loop and the run
(`camera_manager.cpp`) -/

/-- The transport-layer node map of a camera (`GetTLDeviceNodeMap()`): whether the node
`DeviceSerialNumber` is there and readable, its value, whether asking for it raises, and
whether listing `DeviceInformation` raises. -/
structure DeviceNodeMap where
  serial_readable : Bool
  serial_number : List Char
  serial_faulty : Bool
  info_faulty : Bool
deriving DecidableEq

/-- The camera behind a non-null `CameraPtr`: its two node maps, what `ExposureTime`
currently holds (µs), whether `Init()`, `DeInit()` and `EndAcquisition()` raise on it, and
its state (`IsInitialized()`, `IsStreaming()`). -/
structure Camera where
  tl_device : DeviceNodeMap
  node_map : NodeMap
  exposure : ℚ
  init_raises : Bool
  deinit_raises : Bool
  end_raises : Bool
  initialized : Bool
  streaming : Bool
deriving DecidableEq

/-- What the world does during one visit of a (camera, ROI) pair: whether
`BeginAcquisition()` raises, how the frame fetch goes, and the key waiting on the terminal
when the keyboard is polled (`none`: no key). -/
structure Visit where
  begin_raises : Bool
  grab : CAMERA_MANAGER.Grab
  key : Option Char
deriving DecidableEq

namespace CAMERA_MANAGER

/-- The struct `ROI_CONFIG_VALUES` of `camera_manager.h`. -/
structure ROI_CONFIG_VALUES where
  offset_x : Int
  offset_y : Int
  width : Int
  height : Int
deriving DecidableEq

/-- The member `roi_config_values`: the two regions. -/
def roi_config_values : List ROI_CONFIG_VALUES :=
  [⟨0, 0, 1216, 352⟩, ⟨1216, 0, 1216, 352⟩]

/-- The body of the loop of `config_pixel_format` for camera `i` (entry `Mono16`). -/
def config_pixel_format_camera (i : Nat) (nm : NodeMap) (acc : MultiOutcome) : MultiOutcome :=
  if !nm.PixelFormat.readable || !nm.PixelFormat.writable then acc
  else
    match select_entry_stage "PixelFormat" "Mono16" nm.PixelFormat with
    | none => { acc with result := -1 }
    | some ws => acc.log i ws

/-- The function `CAMERA_MANAGER::config_pixel_format`. -/
def config_pixel_format (node_maps : List NodeMap) : MultiOutcome :=
  for_each_camera config_pixel_format_camera 0 node_maps ⟨0, []⟩

/-- The body of the loop of `config_sensor_shutter_mode` for camera `i` (entry `Global`). -/
def config_sensor_shutter_mode_camera (i : Nat) (nm : NodeMap) (acc : MultiOutcome) :
    MultiOutcome :=
  if !nm.SensorShutterMode.readable || !nm.SensorShutterMode.writable then acc
  else
    match select_entry_stage "SensorShutterMode" "Global" nm.SensorShutterMode with
    | none => { acc with result := -1 }
    | some ws => acc.log i ws

/-- The function `CAMERA_MANAGER::config_sensor_shutter_mode`. -/
def config_sensor_shutter_mode (node_maps : List NodeMap) : MultiOutcome :=
  for_each_camera config_sensor_shutter_mode_camera 0 node_maps ⟨0, []⟩

/-- The body of the loop of `config_black_level_clamping_enable` for camera `i`. -/
def config_black_level_clamping_enable_camera (i : Nat) (nm : NodeMap) (acc : MultiOutcome) :
    MultiOutcome :=
  if !nm.BlackLevelClampingEnable.readable || !nm.BlackLevelClampingEnable.writable then acc
  else if nm.BlackLevelClampingEnable.faulty then { acc with result := -1 }
  else acc.log i [Write.enable "BlackLevelClampingEnable"]

/-- The function `CAMERA_MANAGER::config_black_level_clamping_enable`. -/
def config_black_level_clamping_enable (node_maps : List NodeMap) : MultiOutcome :=
  for_each_camera config_black_level_clamping_enable_camera 0 node_maps ⟨0, []⟩

/-- The body of the loop of `reset_exposure` for camera `i`: both tests end in `continue`
(the `return -1` after it is never reached) and the inner `catch` only prints, so the result
is left as it is on every path. -/
def reset_exposure_camera (i : Nat) (nm : NodeMap) (acc : MultiOutcome) : MultiOutcome :=
  if !nm.ExposureAuto.readable || !nm.ExposureAuto.writable then acc
  else if !nm.ExposureAutoContinuous then acc
  else if nm.ExposureAuto.faulty then acc
  else acc.log i [Write.entry "ExposureAuto" "Continuous"]

/-- The function `CAMERA_MANAGER::reset_exposure`. -/
def reset_exposure (node_maps : List NodeMap) : MultiOutcome :=
  for_each_camera reset_exposure_camera 0 node_maps ⟨0, []⟩

/-- The function `CAMERA_MANAGER::print_device_info`: -1 when the SDK raises, else 0. -/
def print_device_info (tl : DeviceNodeMap) : Int := if tl.info_faulty then -1 else 0

/-- The function `CAMERA_MANAGER::get_camera_serial_number`: the empty string when the node
is not readable or the SDK raises. -/
def get_camera_serial_number (tl : DeviceNodeMap) : List Char :=
  if tl.serial_faulty then []
  else if tl.serial_readable then tl.serial_number
  else []

/-- The function `CAMERA_MANAGER::is_camera_valid`. -/
def is_camera_valid (camera : Option Camera) (node_map : Option NodeMap) : Bool :=
  camera.isSome && node_map.isSome

/-- The function `CAMERA_MANAGER::set_acquisition_mode`.  A node that is not readable or
writable sets `result = -1` without leaving; the calls that follow raise when the entry
`Continuous` cannot be read or the node cannot be written, and the `catch` gives -1. -/
def set_acquisition_mode (nm : NodeMap) : Outcome :=
  if !nm.AcquisitionMode.entry_readable then ⟨-1, []⟩
  else if nm.AcquisitionMode.faulty || !nm.AcquisitionMode.writable then ⟨-1, []⟩
  else
    ⟨if !nm.AcquisitionMode.readable || !nm.AcquisitionMode.writable then -1 else 0,
      [Write.entry "AcquisitionMode" "Continuous"]⟩

/-- The function `CAMERA_MANAGER::start_camera_acquisition`: `result = -1` is assigned after
`BeginAcquisition()` as well as in the `catch`.  The second component is the camera
afterwards. -/
def start_camera_acquisition (camera : Camera) (begin_raises : Bool) : Int × Camera :=
  if begin_raises then (-1, camera) else (-1, { camera with streaming := true })

/-- The body of the loop of `stop_camera_acquisition` for one entry of the vector. -/
def stop_camera (camera : Option Camera) : Option Camera :=
  match camera with
  | none => none
  | some c =>
    if !c.initialized then some c
    else if c.streaming then
      if c.end_raises then some c else some { c with streaming := false }
    else some c

/-- The function `CAMERA_MANAGER::stop_camera_acquisition`: the cameras afterwards. -/
def stop_camera_acquisition (cameras : List (Option Camera)) : List (Option Camera) :=
  cameras.map stop_camera

/-- The test `key == 'q' || key == 'Q'` of `handle_keyboard_interrupt`. -/
def handle_keyboard_interrupt (key : Char) : Bool := key = 'q' || key = 'Q'

/-- The test `keyboard_input() && handle_keyboard_interrupt()`: a key is waiting, and it is
`q` or `Q`. -/
def keyboard_interrupt (key : Option Char) : Bool :=
  match key with
  | none => false
  | some c => handle_keyboard_interrupt c

end CAMERA_MANAGER

/-! ## The settings file: `std::stringstream` extraction, the loaders and the writers -/

/-- The function `std::isspace` in the "C" locale: space, and the controls 9 to 13. -/
def isspace (c : Char) : Bool := c = ' ' || (9 ≤ c.toNat && c.toNat ≤ 13)

/-- A decimal digit. -/
def isdigit (c : Char) : Bool := 48 ≤ c.toNat && c.toNat ≤ 57

/-- The number a run of decimal digits denotes. -/
def digits_value (ds : List Char) : Nat :=
  ds.foldl (fun acc c => 10 * acc + (c.toNat - 48)) 0

/-- The value `std::numeric_limits<double>::max()`: `(2 - 2^-52) * 2^1023`. -/
def double_max : ℚ := 2 ^ 1024 - 2 ^ 971

/-- The magnitude from which on the conversion of a decimal text to `double` gives infinity
(round to nearest, ties to even): half-way between `double_max` and `2^1024`. -/
def overflow_threshold : ℚ := 2 ^ 1024 - 2 ^ 970

/-- How `stream >> value` on a `double` ended. -/
inductive Extracted where
  /-- the stream held nothing but white space: `value` is left as it was -/
  | no_input
  /-- the characters are not a number: `failbit`, and 0 is stored -/
  | failed
  /-- the number is too large for a `double`: `failbit`, and `double_max` is stored, with
  the sign of the number (`negative`) -/
  | overflow (negative : Bool)
  /-- the number `v` was read -/
  | value (v : ℚ)
deriving DecidableEq

/-- An optional sign: whether it is `-`, and the text after it. -/
def read_sign (s : List Char) : Bool × List Char :=
  match s with
  | [] => (false, [])
  | c :: t => if c = '-' then (true, t) else if c = '+' then (false, t) else (false, c :: t)

/-- An optional decimal point with the digits after it: the digits, and the text after. -/
def read_fraction (s : List Char) : List Char × List Char :=
  match s with
  | [] => ([], [])
  | c :: t => if c = '.' then (t.takeWhile isdigit, t.dropWhile isdigit) else ([], c :: t)

/-- An optional exponent `e`/`E`, sign, digits: the factor it stands for, or `none` when the
digits are missing (the field then is not a number). -/
def read_exponent (s : List Char) : Option ℚ :=
  match s with
  | [] => some 1
  | c :: t =>
    if c = 'e' ∨ c = 'E' then
      if ((read_sign t).2.takeWhile isdigit) = [] then none
      else if (read_sign t).1 then some (1 / 10 ^ digits_value ((read_sign t).2.takeWhile isdigit))
      else some (10 ^ digits_value ((read_sign t).2.takeWhile isdigit))
    else some 1

/-- The conversion of the field at the head of `t`, the text after the white space: the
longest field of the form sign, digits, point, digits, exponent is read and converted; a
field without a digit before the exponent, or with an exponent letter and no exponent
digits, is not a number, and a number whose magnitude converts to infinity overflows.
(A magnitude below the range of `double` is not an error; the rounding of the conversion is
not modelled.) -/
def extract_field (t : List Char) : Extracted :=
  let body := (read_sign t).2
  let whole := body.takeWhile isdigit
  let fraction := (read_fraction (body.dropWhile isdigit)).1
  let rest := (read_fraction (body.dropWhile isdigit)).2
  if whole = [] ∧ fraction = [] then Extracted.failed
  else
    match read_exponent rest with
    | none => Extracted.failed
    | some scale =>
      let magnitude : ℚ :=
        ((digits_value whole : ℚ) + (digits_value fraction : ℚ) / 10 ^ fraction.length) * scale
      if overflow_threshold ≤ magnitude then Extracted.overflow (read_sign t).1
      else Extracted.value (if (read_sign t).1 then -magnitude else magnitude)

/-- The extraction `stream >> value` of a `double` from a fresh stream over `s`: leading
white space is skipped (a stream that ends there gives no input), then the field is
converted. -/
def extract_double (s : List Char) : Extracted :=
  match s.dropWhile isspace with
  | [] => Extracted.no_input
  | c :: t => extract_field (c :: t)

/-- The call `std::getline(stream, key, ':')` on a fresh stream over `line`: the key and the
text left in the stream, or `none` when nothing at all could be extracted. -/
def getline_colon (line : List Char) : Option (List Char × List Char) :=
  match line with
  | [] => none
  | _ => some (line.takeWhile (fun c => c ≠ ':'), (line.dropWhile (fun c => c ≠ ':')).tail)

/-- The line feed. -/
def newline : Char := Char.ofNat 10

/-- The loop `while (std::getline(file_in, line)) file_content.push_back(line);`, with the
characters of the line being read kept in `current` (latest first). -/
def getlines (current : List Char) : List Char → List (List Char)
  | [] => if current = [] then [] else [current.reverse]
  | c :: s => if c = newline then current.reverse :: getlines [] s else getlines (c :: current) s

/-- The function `load_from_file` of both loaders, on a file with the text `file`. -/
def load_from_file (file : List Char) : List (List Char) := getlines [] file

/-- The test `line.find(pattern) != string::npos`. -/
def find (pattern : List Char) : List Char → Bool
  | [] => pattern.isEmpty
  | c :: s => pattern.isPrefixOf (c :: s) || find pattern s

/-- The nearest integer, ties to the even one: how a value is rounded when it is printed. -/
def round_half_even (x : ℚ) : Int :=
  if x - ⌊x⌋ < 1 / 2 then ⌊x⌋
  else if 1 / 2 < x - ⌊x⌋ then ⌊x⌋ + 1
  else if ⌊x⌋ % 2 = 0 then ⌊x⌋ else ⌊x⌋ + 1

/-- The output of `<< std::fixed << std::setprecision(1) << v`: sign, integer part, point,
one digit. -/
def format_fixed1 (v : ℚ) : List Char :=
  (if v < 0 then ['-'] else [])
    ++ to_string_unsigned ((round_half_even (|v| * 10)).toNat / 10) ++ ['.']
    ++ to_string_unsigned ((round_half_even (|v| * 10)).toNat % 10)

namespace CAMERA_SETTINGS

/-- The struct `SETTINGS` of `camera_settings.h`. -/
structure SETTINGS where
  exposure : ℚ
  gain : ℚ
  gamma : ℚ
deriving DecidableEq

/-- The function `CAMERA_SETTINGS::parse_line`. -/
def parse_line (line : List Char) : List Char × ℚ :=
  match getline_colon line with
  | none => ([], -1)
  | some (key, rest) =>
    match extract_double rest with
    | Extracted.value value => (key, value)
    | _ => ([], -1)

/-- The body of the loop of `CAMERA_SETTINGS::get_values` for one line. -/
def get_values_line (settings : SETTINGS) (line : List Char) : SETTINGS :=
  if (parse_line line).1 = "Exposure".toList then { settings with exposure := (parse_line line).2 }
  else if (parse_line line).1 = "Gain".toList then { settings with gain := (parse_line line).2 }
  else if (parse_line line).1 = "Gamma".toList then { settings with gamma := (parse_line line).2 }
  else settings

/-- The function `CAMERA_SETTINGS::get_values`: its return value, always 0, and the settings
afterwards. -/
def get_values (file_content : List (List Char)) (settings : SETTINGS) : Int × SETTINGS :=
  (0, file_content.foldl get_values_line settings)

end CAMERA_SETTINGS

namespace Infinity

/-- The function `CAMERA_CONFIG::extract_value_from_line`; `uninitialized` is what the local
`double value;` holds when the extraction does not touch it. -/
def extract_value_from_line (uninitialized : ℚ) (line : List Char) : ℚ :=
  if ':' ∈ line then
    match extract_double (line.dropWhile (fun c => c ≠ ':')).tail with
    | Extracted.value value => value
    | Extracted.failed => 0
    | Extracted.overflow negative => if negative then -double_max else double_max
    | Extracted.no_input => uninitialized
  else -1

/-- The body of the loop of `CAMERA_CONFIG::get_values` for one line. -/
def get_values_line (uninitialized : ℚ) (settings : camera_settings) (line : List Char) :
    camera_settings :=
  if find "Exposure".toList line then
    { settings with exposure := extract_value_from_line uninitialized line }
  else if find "Gain".toList line then
    { settings with gain := extract_value_from_line uninitialized line }
  else if find "Sharpening".toList line then
    { settings with sharpening := extract_value_from_line uninitialized line }
  else if find "Gamma".toList line then
    { settings with gamma := extract_value_from_line uninitialized line }
  else if find "Saturation".toList line then
    { settings with saturation := extract_value_from_line uninitialized line }
  else settings

/-- The function `CAMERA_CONFIG::get_values`. -/
def get_values (uninitialized : ℚ) (file_content : List (List Char))
    (settings : camera_settings) : camera_settings :=
  file_content.foldl (get_values_line uninitialized) settings

end Infinity

namespace Trackbar

/-- One statement `database_file << std::fixed << std::setprecision(1) << label << v << unit`
of `save_data_to_database`, the unit ending in a line feed: the characters it streams. -/
def database_line (label : List Char) (v : ℚ) (unit : List Char) : List Char :=
  label ++ format_fixed1 v ++ unit ++ [newline]

/-- The text `save_data_to_database` of `color_main_trackbar.cpp` streams to its file, from
the globals `exposure_value`, `gain_value`, `sharpening_value`, `gamma_value` and
`saturation_value`. -/
def color_save_data_to_database (exposure_value gain_value sharpening_value gamma_value
    saturation_value : ℚ) : List Char :=
  database_line "Exposure: ".toList exposure_value " [μs] ".toList
    ++ (database_line "Gain: ".toList gain_value " [dB] ".toList
    ++ (database_line "Sharpening: ".toList sharpening_value " ".toList
    ++ (database_line "Gamma: ".toList gamma_value " ".toList
    ++ database_line "Saturation: ".toList saturation_value " ".toList)))

/-- The text `save_data_to_database` of `mono_main_trackbar.cpp` streams to its file. -/
def mono_save_data_to_database (exposure_value gain_value gamma_value : ℚ) : List Char :=
  database_line "Exposure: ".toList exposure_value " [μs] ".toList
    ++ (database_line "Gain: ".toList gain_value " [dB] ".toList
    ++ database_line "Gamma: ".toList gamma_value " ".toList)

end Trackbar

/-! ## MonoDualCameraAcquisition: `acquire_images`, the cleanup and the run
(`camera_manager.cpp`) -/

namespace CAMERA_MANAGER

/-- The arguments of `acquire_images` that do not change while it runs, and what the world
does meanwhile: `exposure i` is what `ExposureTime->GetValue()` gives for camera `i` when
its timeout is computed, `visits n` is what happens during visit number `n` (from 0) of a
(camera, ROI) pair. -/
structure Scene where
  node_maps : List NodeMap
  node_maps_tl_device : List DeviceNodeMap
  folder_path : List Char
  exposure : Nat → ℚ
  visits : Nat → Visit

/-- One visit of a (camera, ROI) pair, as seen from outside: the camera index, the ROI
applied, the `image_index` and the `timeout` handed to `capture_image`, the device writes of
`config_roi` and `set_acquisition_mode`, and the file saved, if any. -/
structure VisitRecord where
  camera : Nat
  offset_x : Int
  image_index : Nat
  timeout : Nat
  writes : List Write
  saved : Option (List Char)
deriving DecidableEq

/-- The variables of `acquire_images`: `result`, `local_running`, the flag behind the
reference `global_running`, `image_counts` (an absent key counts as 0, as `operator[]`
makes it), the cameras, and the visits made so far. -/
structure AcquireState where
  result : Int
  local_running : Bool
  global_running : Bool
  image_counts : Nat → Int → Nat
  cameras : List (Option Camera)
  trace : List VisitRecord

/-- The value of `device_serial_numbers[i]` after the loop `// Prepare each camera`: the
initial `""` is kept when the serial number retrieved is empty. -/
def prepared_serial_number (node_maps_tl_device : List DeviceNodeMap) (i : Nat) : List Char :=
  match node_maps_tl_device[i]? with
  | none => []
  | some tl => get_camera_serial_number tl

/-- The value of `timeouts[i]` after the loop `// Prepare each camera`: the initial 1000 is
kept when the serial number is empty (`continue`), else it is what
`calculate_exposure_timeout` returns. -/
def prepared_timeout (sc : Scene) (i : Nat) : Nat :=
  if (prepared_serial_number sc.node_maps_tl_device i).isEmpty then 1000
  else
    match sc.node_maps[i]? with
    | none => 1000
    | some nm => calculate_exposure_timeout nm.ExposureTime (sc.exposure i)

/-- The body of the loop over `roi_config_values` up to the keyboard test, for camera `i`
with node map `nm`: ROI, acquisition mode, start, `capture_image`, the count, stop.
`capture_image` catches what the SDK raises, so the count is incremented on every visit and
the `catch` that sets `result = -1` is never entered. -/
def visit_pair (sc : Scene) (i : Nat) (camera : Camera) (nm : NodeMap)
    (roi : ROI_CONFIG_VALUES) (st : AcquireState) : AcquireState :=
  let v := sc.visits st.trace.length
  let circular_index := acquire_circular_index (st.image_counts i roi.offset_x)
  let roi_outcome := config_roi nm roi.offset_x roi.offset_y roi.width roi.height
  let mode_outcome := set_acquisition_mode nm
  let started := start_camera_acquisition camera v.begin_raises
  let saved := capture_image v.grab sc.folder_path
    (prepared_serial_number sc.node_maps_tl_device i) circular_index roi.offset_x
  { st with
    result := int_or (int_or (int_or st.result roi_outcome.result) mode_outcome.result)
      started.1
    image_counts := fun j x =>
      if j = i ∧ x = roi.offset_x then increment_count (st.image_counts j x)
      else st.image_counts j x
    cameras := st.cameras.set i (stop_camera (some started.2))
    trace := st.trace ++ [⟨i, roi.offset_x, circular_index, prepared_timeout sc i,
      roi_outcome.writes ++ mode_outcome.writes, saved⟩] }

/-- The loop `for (const auto& roi : roi_config_values)` for camera `i`, from the ROIs still
to do: after each visit the keyboard is tested, and `q` or `Q` clears both flags and leaves
the loop.  (`cameras[i]` and `node_maps[i]` are there: `is_camera_valid` was tested before
the loop.) -/
def roi_loop (sc : Scene) (i : Nat) : List ROI_CONFIG_VALUES → AcquireState → AcquireState
  | [], st => st
  | roi :: rest, st =>
    match st.cameras.getD i none, sc.node_maps[i]? with
    | some camera, some nm =>
      if keyboard_interrupt (sc.visits st.trace.length).key then
        { visit_pair sc i camera nm roi st with local_running := false, global_running := false }
      else roi_loop sc i rest (visit_pair sc i camera nm roi st)
    | _, _ => st

/-- The loop `for (unsigned int i = 0; i < number_of_cameras; i++)` of one round, from the
indices still to do. -/
def camera_loop (sc : Scene) : List Nat → AcquireState → AcquireState
  | [], st => st
  | i :: rest, st =>
    if !is_camera_valid (st.cameras.getD i none) sc.node_maps[i]? then camera_loop sc rest st
    else if !(roi_loop sc i roi_config_values st).local_running then
      roi_loop sc i roi_config_values st
    else camera_loop sc rest (roi_loop sc i roi_config_values st)

/-- The loop `while (local_running && global_running.load())`; `fuel` bounds the number of
rounds, and `none` means that the loop was still running when the fuel ran out. -/
def acquisition_loop (sc : Scene) (number_of_cameras : Nat) :
    Nat → AcquireState → Option AcquireState
  | 0, st => if st.local_running && st.global_running then none else some st
  | fuel + 1, st =>
    if st.local_running && st.global_running then
      if !(camera_loop sc (List.range number_of_cameras) st).local_running then
        some (camera_loop sc (List.range number_of_cameras) st)
      else
        acquisition_loop sc number_of_cameras fuel
          (camera_loop sc (List.range number_of_cameras) st)
    else some st

/-- The function `CAMERA_MANAGER::acquire_images`: the state when it returns (`result` is
the return value). -/
def acquire_images (sc : Scene) (cameras : List (Option Camera)) (number_of_cameras : Nat)
    (global_running : Bool) (fuel : Nat) : Option AcquireState :=
  acquisition_loop sc number_of_cameras fuel
    ⟨0, true, global_running, fun _ _ => 0, cameras, []⟩

/-- The body of the loop `// Deinitialize all successfully initialized cameras` for one
entry. -/
def de_init_camera (camera : Option Camera) : Option Camera :=
  match camera with
  | none => none
  | some c =>
    if c.initialized then
      if c.deinit_raises then some c else some { c with initialized := false }
    else some c

/-- The four vectors after `de_initialize_cameras`, and the camera objects as the function
leaves them. -/
structure Cleanup where
  cameras : List (Option Camera)
  initialized_cameras : List (Option Camera)
  node_maps : List NodeMap
  node_maps_tl_device : List DeviceNodeMap
  released : List (Option Camera)
deriving DecidableEq

/-- The function `CAMERA_MANAGER::de_initialize_cameras`. -/
def de_initialize_cameras (cameras initialized_cameras : List (Option Camera))
    (_node_maps : List NodeMap) (_node_maps_tl_device : List DeviceNodeMap) : Cleanup where
  cameras := cameras.map (fun _ => none)
  initialized_cameras := []
  node_maps := []
  node_maps_tl_device := []
  released := (stop_camera_acquisition initialized_cameras).map de_init_camera

end CAMERA_MANAGER

namespace CAMERA_MANAGER

/-- The three local vectors of `run_multiple_cameras` while the cameras are initialised. -/
structure InitState where
  initialized_cameras : List (Option Camera)
  node_maps : List NodeMap
  node_maps_tl_device : List DeviceNodeMap
deriving DecidableEq

/-- The body of the loop `// Initialize cameras and retrieve node maps` for one entry of
`cameras`: a null pointer and a failed `print_device_info` skip the camera; an `Init()` that
raises skips it after its transport-layer node map was pushed. -/
def init_camera (camera : Option Camera) (acc : InitState) : InitState :=
  match camera with
  | none => acc
  | some c =>
    if print_device_info c.tl_device ≠ 0 then acc
    else if c.init_raises then
      { acc with node_maps_tl_device := acc.node_maps_tl_device ++ [c.tl_device] }
    else
      { initialized_cameras := acc.initialized_cameras ++ [some { c with initialized := true }]
        node_maps := acc.node_maps ++ [c.node_map]
        node_maps_tl_device := acc.node_maps_tl_device ++ [c.tl_device] }

/-- The loop `for (unsigned int i = 0; i < number_of_cameras; i++)` that initialises the
cameras, from the indices still to do. -/
def init_cameras (cameras : List (Option Camera)) : List Nat → InitState → InitState
  | [], acc => acc
  | i :: rest, acc => init_cameras cameras rest (init_camera (cameras.getD i none) acc)

/-- The steps of `run_multiple_cameras` that return a code. -/
inductive Step where
  | config_pixel_format
  | config_sensor_shutter_mode
  | config_exposure
  | config_gain
  | config_black_level_clamping_enable
  | config_gamma
  | acquire_images
  | reset_exposure
deriving DecidableEq

/-- What `run_multiple_cameras` did: its return value, the run flag afterwards, the steps it
ran with their return codes, the device writes of the configuration steps, the visits of
`acquire_images`, whether `de_initialize_cameras` was called, and the vectors and camera
objects as they are when it returns. -/
structure ManagerRun where
  code : Int
  global_running : Bool
  steps : List (Step × Int)
  writes : List (Nat × Write)
  visits : List VisitRecord
  cleaned : Bool
  cameras : List (Option Camera)
  initialized_cameras : List (Option Camera)
  node_maps : List NodeMap
  node_maps_tl_device : List DeviceNodeMap
  released : List (Option Camera)
deriving DecidableEq

/-- What `ExposureTime->GetValue()` gives for entry `i` of a vector of cameras. -/
def exposure_of (cameras : List (Option Camera)) (i : Nat) : ℚ :=
  match cameras.getD i none with
  | none => 0
  | some c => c.exposure

/-- The function `CAMERA_MANAGER::run_multiple_cameras`; `settings` is what the getters of
`camera_settings` return, `visits` and `fuel` are those of `acquire_images`. -/
def run_multiple_cameras (cameras : List (Option Camera)) (number_of_cameras : Nat)
    (settings : CAMERA_SETTINGS.SETTINGS) (visits : Nat → Visit) (global_running : Bool)
    (folder_path : List Char) (fuel : Nat) : Option ManagerRun :=
  let init := init_cameras cameras (List.range number_of_cameras) ⟨[], [], []⟩
  if init.initialized_cameras.length < number_of_cameras then
    let c := de_initialize_cameras cameras init.initialized_cameras init.node_maps
      init.node_maps_tl_device
    some ⟨-1, global_running, [], [], [], true, c.cameras, c.initialized_cameras, c.node_maps,
      c.node_maps_tl_device, c.released⟩
  else
    let pixel_format := config_pixel_format init.node_maps
    let shutter := config_sensor_shutter_mode init.node_maps
    let exposure := config_exposure init.node_maps settings.exposure
    if exposure.result < 0 then
      some ⟨exposure.result, global_running,
        [(Step.config_pixel_format, pixel_format.result),
          (Step.config_sensor_shutter_mode, shutter.result),
          (Step.config_exposure, exposure.result)],
        pixel_format.writes ++ shutter.writes ++ exposure.writes, [], false, cameras,
        init.initialized_cameras, init.node_maps, init.node_maps_tl_device, []⟩
    else
      let gain := config_gain init.node_maps settings.gain
      let black_level := config_black_level_clamping_enable init.node_maps
      let gamma := config_gamma init.node_maps settings.gamma
      match acquire_images
          ⟨init.node_maps, init.node_maps_tl_device, folder_path,
            exposure_of init.initialized_cameras, visits⟩
          init.initialized_cameras init.initialized_cameras.length global_running fuel with
      | none => none
      | some st =>
        let result := int_or (int_or (int_or (int_or (int_or (int_or 0 pixel_format.result)
          shutter.result) gain.result) black_level.result) gamma.result) st.result
        let reset := reset_exposure init.node_maps
        let c := de_initialize_cameras cameras st.cameras init.node_maps
          init.node_maps_tl_device
        some ⟨if exposure.result = 0 then int_or result reset.result else result,
          st.global_running,
          [(Step.config_pixel_format, pixel_format.result),
            (Step.config_sensor_shutter_mode, shutter.result),
            (Step.config_exposure, exposure.result),
            (Step.config_gain, gain.result),
            (Step.config_black_level_clamping_enable, black_level.result),
            (Step.config_gamma, gamma.result),
            (Step.acquire_images, st.result)]
            ++ (if exposure.result = 0 then [(Step.reset_exposure, reset.result)] else []),
          pixel_format.writes ++ shutter.writes ++ exposure.writes ++ gain.writes
            ++ black_level.writes ++ gamma.writes
            ++ (if exposure.result = 0 then reset.writes else []),
          st.trace, true, c.cameras, c.initialized_cameras, c.node_maps,
          c.node_maps_tl_device, c.released⟩

end CAMERA_MANAGER

/-! ## MonoDualCameraAcquisition: `main` (`main.cpp`) -/

namespace DualMain

/-- The constant `max_retries`. -/
def max_retries : Nat := 3

/-- The string `folder_path` of `main`. -/
def folder_path : List Char := "/path/to/save/images".toList

/-- What the world offers to one pass of the retry loop: whether `System::GetInstance()`
gives a system, the cameras of `GetCameras()`, the text of the settings file (`none`: it
cannot be opened), what the fresh `CAMERA_SETTINGS` object holds, and the visits of the
acquisition. -/
structure Attempt where
  system_ok : Bool
  cameras : List (Option Camera)
  file : Option (List Char)
  uninitialized : CAMERA_SETTINGS.SETTINGS
  visits : Nat → Visit

/-- The variables of `main`: `retries`, the flag `global_running`, the number of passes of
the loop begun so far, the values `retries` had at the loop tests so far, and the `result`
of the latest pass that reached `run_multiple_cameras`, with what that call did. -/
structure MainState where
  retries : Nat
  global_running : Bool
  attempts : Nat
  history : List Nat
  last_result : Option Int
  last_run : Option CAMERA_MANAGER.ManagerRun
deriving DecidableEq

/-- What `main` did: the exit code and the variables when it returns. -/
structure MainRun where
  code : Int
  final : MainState
deriving DecidableEq

/-- The text after the loop: `if (retries == max_retries) return -1; ... return 0;`. -/
def after_loop (st : MainState) : MainRun :=
  ⟨if st.retries = max_retries then -1 else 0, st⟩

/-- The value of `file_content` in a pass of the loop: the lines `load_from_file` read, none
when the file cannot be opened. -/
def Attempt.file_content (a : Attempt) : List (List Char) :=
  match a.file with
  | none => []
  | some text => load_from_file text

/-- One pass of the loop `while (retries < max_retries)`, after the loop test: `Sum.inl` is
the state at the next loop test (`continue`, or the end of the body), `Sum.inr` is how
`main` ends (a `return` in the body, or `break` and the text after the loop).  `none` means
that the acquisition ran out of `fuel`. -/
def pass (a : Attempt) (fuel : Nat) (st : MainState) : Option (MainState ⊕ MainRun) :=
  if !a.system_ok then some (Sum.inr ⟨-1, { st with attempts := st.attempts + 1 }⟩)
  else if a.cameras.length < 2 then
    some (Sum.inl { st with retries := st.retries + 1, attempts := st.attempts + 1 })
  else if a.file_content.isEmpty then
    some (Sum.inr ⟨-1, { st with attempts := st.attempts + 1 }⟩)
  else
    match CAMERA_MANAGER.run_multiple_cameras a.cameras a.cameras.length
        (CAMERA_SETTINGS.get_values a.file_content a.uninitialized).2
        a.visits st.global_running folder_path fuel with
    | none => none
    | some run =>
      if int_or (int_or 0 (CAMERA_SETTINGS.get_values a.file_content a.uninitialized).1)
          run.code = 0 || !run.global_running then
        some (Sum.inr (after_loop
          { st with global_running := run.global_running, attempts := st.attempts + 1,
                    last_result := some (int_or
                      (int_or 0 (CAMERA_SETTINGS.get_values a.file_content a.uninitialized).1)
                      run.code),
                    last_run := some run }))
      else
        some (Sum.inl
          { st with retries := st.retries + 1, global_running := run.global_running,
                    attempts := st.attempts + 1,
                    last_result := some (int_or
                      (int_or 0 (CAMERA_SETTINGS.get_values a.file_content a.uninitialized).1)
                      run.code),
                    last_run := some run })

/-- The loop `while (retries < max_retries)` and what follows it.  `budget` bounds the
number of loop tests (`main` starts it with `max_retries + 1`), `fuel` is that of every
acquisition. -/
def main_loop (world : Nat → Attempt) (fuel : Nat) : Nat → MainState → Option MainRun
  | 0, _ => none
  | budget + 1, st =>
    if st.retries < max_retries then
      match pass (world st.attempts) fuel { st with history := st.history ++ [st.retries] } with
      | none => none
      | some (Sum.inr run) => some run
      | some (Sum.inl st1) => main_loop world fuel budget st1
    else some (after_loop { st with history := st.history ++ [st.retries] })

/-- The function `main` of `MonoDualCameraAcquisition/main.cpp`. -/
def main (world : Nat → Attempt) (fuel : Nat) : Option MainRun :=
  main_loop world fuel (max_retries + 1) ⟨0, true, 0, [], none, none⟩

end DualMain

/-! ## The single-camera tools: acquisition, `run_single_camera` and `main` -/

/-- What the world does during one pass of the frame loop of a single-camera tool: how the
frame fetch goes, whether the OpenCV image made of the frame is empty (the calibration tools
test it), and the key waiting on the terminal when the keyboard is polled. -/
structure Frame where
  grab : CAMERA_MANAGER.Grab
  image_empty : Bool
  key : Option Char
deriving DecidableEq

/-- What the world does while one camera is run: whether `BeginAcquisition()` raises, and
the frames. -/
structure Session where
  begin_raises : Bool
  frames : Nat → Frame

/-- The test `keyboard_input()` followed by `key = getchar(); if (key == 'q' || key == 'Q')`
of the single-camera tools. -/
def quit_requested (key : Option Char) : Bool :=
  match key with
  | none => false
  | some c => c = 'q' || c = 'Q'

/-- The variables of the frame loop: `result`, `running`, the number of calls of
`GetNextImage`, `image_count`, the numbers of the images saved, and whether
`save_data_to_database` was called. -/
structure FrameLoop where
  result : Int
  running : Bool
  fetches : Nat
  image_count : Int
  saved : List Int
  stored : Bool
deriving DecidableEq

/-- What an acquisition function of a single-camera tool did: its return value, the device
writes, whether `BeginAcquisition()` went through, the `timeout` it computed (if it got
there), the number of calls of `GetNextImage`, the numbers of the images saved, whether
`save_data_to_database` was called, and whether `EndAcquisition()` went through. -/
structure Acquisition where
  result : Int
  writes : List Write
  began : Bool
  timeout : Option Nat
  fetches : Nat
  saved : List Int
  stored : Bool
  ended : Bool
deriving DecidableEq

/-- What `run_single_camera` did: its return value, the return codes of the steps it ran,
in order, whether `Init()` or `DeInit()` raised (the `catch` then sets `result = -1`), and
the acquisition. -/
structure SingleRun where
  result : Int
  codes : List Int
  raised : Bool
  acquisition : Option Acquisition
deriving DecidableEq

/-- What `main` of a single-camera tool did: the exit code and the runs of the cameras. -/
structure ProgramRun where
  code : Int
  runs : List SingleRun
deriving DecidableEq

namespace CAMERA_CONFIG

/-- The function `CAMERA_CONFIG::reset_exposure`, the same text in the three single-camera
tools. -/
def reset_exposure (nm : NodeMap) : Outcome :=
  if !nm.ExposureAuto.readable || !nm.ExposureAuto.writable then ⟨-1, []⟩
  else if !nm.ExposureAutoContinuous then ⟨-1, []⟩
  else if nm.ExposureAuto.faulty then ⟨-1, []⟩
  else ⟨0, [Write.entry "ExposureAuto" "Continuous"]⟩

/-- The loop `while (running)` of an acquisition function with the body `body`; `fuel`
bounds the number of passes, and `none` means that the loop was still running when the fuel
ran out. -/
def frame_loop (body : Frame → FrameLoop → FrameLoop) (frames : Nat → Frame) :
    Nat → FrameLoop → Option FrameLoop
  | 0, st => if st.running then none else some st
  | fuel + 1, st =>
    if st.running then frame_loop body frames fuel (body (frames st.fetches) st) else some st

/-- The end of `run_single_camera`, the same text in the three tools: `codes` are the
return codes of the steps so far, OR-ed into `result`; the exposure is reset when `result`
is 0; then `DeInit()`, which sets `result = -1` through the `catch` when it raises. -/
def finish_single_camera (cam : Camera) (codes : List Int) (acq : Acquisition) : SingleRun :=
  ⟨if cam.deinit_raises then -1
    else or_codes (if or_codes codes = 0 then codes ++ [(reset_exposure cam.node_map).result]
      else codes),
    if or_codes codes = 0 then codes ++ [(reset_exposure cam.node_map).result] else codes,
    cam.deinit_raises, some acq⟩

end CAMERA_CONFIG

namespace Infinity

/-- The function `CAMERA_CONFIG::print_device_info`: -1 when the SDK raises, else 0. -/
def print_device_info (tl : DeviceNodeMap) : Int := if tl.info_faulty then -1 else 0

/-- The function `CAMERA_CONFIG::config_pixel_format` (entry `BGR8`): a node or an entry that
is not available is only reported. -/
def config_pixel_format (nm : NodeMap) : Outcome :=
  if nm.PixelFormat.readable && nm.PixelFormat.writable then
    match select_entry_stage "PixelFormat" "BGR8" nm.PixelFormat with
    | none => ⟨-1, []⟩
    | some ws => ⟨0, ws⟩
  else ⟨0, []⟩

/-- The body of the loop `while(running)` of `acquire_images`: the keyboard is polled only
after an image was saved. -/
def frame_body (f : Frame) (st : FrameLoop) : FrameLoop :=
  if f.grab.next_image_raises then { st with result := -1, fetches := st.fetches + 1 }
  else if f.grab.incomplete then { st with fetches := st.fetches + 1 }
  else if f.grab.convert_raises then { st with result := -1, fetches := st.fetches + 1 }
  else if f.grab.save_raises then { st with result := -1, fetches := st.fetches + 1 }
  else
    { st with
      fetches := st.fetches + 1
      image_count := st.image_count + 1
      saved := st.saved ++ [st.image_count + 1]
      running := !quit_requested f.key }

/-- The function `CAMERA_CONFIG::acquire_images` of `main_color_infinity_images.cpp`. -/
def acquire_images (cam : Camera) (w : Session) (fuel : Nat) : Option Acquisition :=
  if !cam.node_map.AcquisitionMode.readable || !cam.node_map.AcquisitionMode.writable then
    some ⟨-1, [], false, none, 0, [], false, false⟩
  else if !cam.node_map.AcquisitionMode.entry_readable then
    some ⟨-1, [], false, none, 0, [], false, false⟩
  else if cam.node_map.AcquisitionMode.faulty then
    some ⟨-1, [], false, none, 0, [], false, false⟩
  else if w.begin_raises then
    some ⟨-1, [Write.entry "AcquisitionMode" "Continuous"], false, none, 0, [], false, false⟩
  else if !cam.node_map.ExposureTime.readable then
    some ⟨-1, [Write.entry "AcquisitionMode" "Continuous"], true, none, 0, [], false, false⟩
  else if cam.node_map.ExposureTime.faulty then
    some ⟨-1, [Write.entry "AcquisitionMode" "Continuous"], true, none, 0, [], false, false⟩
  else
    match CAMERA_CONFIG.frame_loop frame_body w.frames fuel ⟨0, true, 0, 0, [], false⟩ with
    | none => none
    | some st =>
      some ⟨if cam.end_raises then -1 else st.result,
        [Write.entry "AcquisitionMode" "Continuous"], true,
        some (static_cast_uint64 (cam.exposure / 1000 + 1000)), st.fetches, st.saved,
        st.stored, !cam.end_raises⟩

/-- The function `CAMERA_CONFIG::run_single_camera` of `main_color_infinity_images.cpp`,
with the member `settings` before and after. -/
def run_single_camera (cam : Camera) (s : camera_settings) (w : Session) (fuel : Nat) :
    Option (SingleRun × camera_settings) :=
  if cam.init_raises then some (⟨-1, [], true, none⟩, s)
  else
    let r1 := print_device_info cam.tl_device
    let r2 := config_pixel_format cam.node_map
    let r3 := config_roi cam.node_map 1424 408
    let r4 := config_exposure cam.node_map s
    let r5 := config_gain cam.node_map r4.2
    let r6 := config_sharpening cam.node_map r5.2
    let r7 := config_gamma cam.node_map r6.2
    let r8 := config_saturation cam.node_map r7.2
    match acquire_images cam w fuel with
    | none => none
    | some acq =>
      some (CAMERA_CONFIG.finish_single_camera cam
        [r1, r2.result, r3.result, r4.1.result, r5.1.result, r6.1.result, r7.1.result,
          r8.1.result, acq.result] acq, r8.2)

/-- The loop `for (unsigned int i = 0; i < num_cameras; i++)` of `main`, from camera `i`. -/
def run_cameras (world : Nat → Session) (fuel : Nat) :
    Nat → List Camera → camera_settings → ProgramRun → Option ProgramRun
  | _, [], _, acc => some acc
  | i, cam :: rest, s, acc =>
    match run_single_camera cam s (world i) fuel with
    | none => none
    | some (run, s1) =>
      run_cameras world fuel (i + 1) rest s1 ⟨int_or acc.code run.result, acc.runs ++ [run]⟩

/-- The function `main` of `main_color_infinity_images.cpp`: `file` is the text of the
settings file (`none`: it cannot be opened), `initial` what the member `settings` holds
before `get_values`. -/
def main (cameras : List Camera) (file : Option (List Char)) (uninitialized : ℚ)
    (initial : camera_settings) (world : Nat → Session) (fuel : Nat) : Option ProgramRun :=
  if cameras.length = 0 then some ⟨-1, []⟩
  else
    run_cameras world fuel 0 cameras
      (get_values uninitialized
        (match file with
          | none => []
          | some text => load_from_file text) initial)
      ⟨0, []⟩

end Infinity

namespace Trackbar

/-- The globals of a calibration tool that `run_single_camera` reads or the configurators
write: the values applied last (set by the trackbar callbacks, zero at program start) and
the slider positions. -/
structure Globals where
  exposure_value : ℚ
  gain_value : ℚ
  sharpening_value : ℚ
  gamma_value : ℚ
  saturation_value : ℚ
  exposure_value_slider : Int
  gain_value_slider : Int
  sharpening_value_slider : Int
  gamma_value_slider : Int
  saturation_value_slider : Int
deriving DecidableEq

/-- The globals at program start. -/
def Globals.initial : Globals := ⟨0, 0, 0, 0, 0, 200, 12, 4, 2, 5⟩

/-- The function `CAMERA_CONFIG::config_pixel_format` of the calibration tools (`format` is
`BGR8` in the colour tool, `Mono8` in the mono tool): a node that is not available gives
-1, an entry that is not readable is only reported. -/
def config_pixel_format (format : String) (nm : NodeMap) : Outcome :=
  if nm.PixelFormat.readable && nm.PixelFormat.writable then
    match select_entry_stage "PixelFormat" format nm.PixelFormat with
    | none => ⟨-1, []⟩
    | some ws => ⟨0, ws⟩
  else ⟨-1, []⟩

/-- The function `CAMERA_CONFIG::config_sensor_shutter_mode` of `mono_main_trackbar.cpp`. -/
def config_sensor_shutter_mode (nm : NodeMap) : Outcome :=
  if nm.SensorShutterMode.readable && nm.SensorShutterMode.writable then
    match select_entry_stage "SensorShutterMode" "Global" nm.SensorShutterMode with
    | none => ⟨-1, []⟩
    | some ws => ⟨0, ws⟩
  else ⟨0, []⟩

/-- The function `CAMERA_CONFIG::config_black_level_clamping_enable` of
`mono_main_trackbar.cpp`. -/
def config_black_level_clamping_enable (nm : NodeMap) : Outcome :=
  if nm.BlackLevelClampingEnable.readable && nm.BlackLevelClampingEnable.writable then
    if nm.BlackLevelClampingEnable.faulty then ⟨-1, []⟩
    else ⟨0, [Write.enable "BlackLevelClampingEnable"]⟩
  else ⟨0, []⟩

/-- The body of the loop `while (running)` of `acquire_and_display_images`, the same in
both calibration tools up to the order of `imshow` and `waitKey`: the keyboard is polled
only when a complete frame gave a non-empty image. -/
def frame_body (f : Frame) (st : FrameLoop) : FrameLoop :=
  if f.grab.next_image_raises then { st with result := -1, fetches := st.fetches + 1 }
  else if f.grab.incomplete then { st with fetches := st.fetches + 1 }
  else if f.grab.convert_raises then { st with result := -1, fetches := st.fetches + 1 }
  else if !f.image_empty then
    if quit_requested f.key then
      { st with fetches := st.fetches + 1, running := false, stored := true }
    else { st with fetches := st.fetches + 1 }
  else { st with fetches := st.fetches + 1 }

/-- The function `CAMERA_CONFIG::acquire_and_display_images` of both calibration tools (the
colour tool nests the tests, the mono tool returns early; the trackbar callbacks, which run
configurators and drop their return codes, are left out). -/
def acquire_and_display_images (cam : Camera) (w : Session) (fuel : Nat) :
    Option Acquisition :=
  if !cam.node_map.AcquisitionMode.readable || !cam.node_map.AcquisitionMode.writable then
    some ⟨-1, [], false, none, 0, [], false, false⟩
  else if !cam.node_map.AcquisitionMode.entry_readable then
    some ⟨-1, [], false, none, 0, [], false, false⟩
  else if cam.node_map.AcquisitionMode.faulty then
    some ⟨-1, [], false, none, 0, [], false, false⟩
  else if w.begin_raises then
    some ⟨-1, [Write.entry "AcquisitionMode" "Continuous"], false, none, 0, [], false, false⟩
  else if !cam.node_map.ExposureTime.readable || !cam.node_map.ExposureTime.writable then
    some ⟨-1, [Write.entry "AcquisitionMode" "Continuous"], true, none, 0, [], false, false⟩
  else if cam.node_map.ExposureTime.faulty then
    some ⟨-1, [Write.entry "AcquisitionMode" "Continuous"], true, none, 0, [], false, false⟩
  else
    match CAMERA_CONFIG.frame_loop frame_body w.frames fuel ⟨0, true, 0, 0, [], false⟩ with
    | none => none
    | some st =>
      some ⟨if cam.end_raises then -1 else st.result,
        [Write.entry "AcquisitionMode" "Continuous"], true,
        some (static_cast_uint64 (cam.exposure / 1000 + 1000)), st.fetches, st.saved,
        st.stored, !cam.end_raises⟩

/-- The function `CAMERA_CONFIG::run_single_camera` of `color_main_trackbar.cpp`, with the
globals before and after.  (`config_roi` is called with `camera_screen_height`,
`camera_screen_width`, both 408.) -/
def color_run_single_camera (cam : Camera) (g : Globals) (w : Session) (fuel : Nat) :
    Option (SingleRun × Globals) :=
  if cam.init_raises then some (⟨-1, [], true, none⟩, g)
  else
    let r1 := config_pixel_format "BGR8" cam.node_map
    let r2 := config_roi cam.node_map 408 408 0 0
    let r3 := config_exposure color_max_exposure cam.node_map g.exposure_value
      g.exposure_value_slider
    let r4 := config_gain cam.node_map g.gain_value g.gain_value_slider
    let r5 := config_sharpening cam.node_map g.sharpening_value g.sharpening_value_slider
    let r6 := config_gamma cam.node_map g.gamma_value g.gamma_value_slider
    let r7 := config_saturation cam.node_map g.saturation_value g.saturation_value_slider
    match acquire_and_display_images cam w fuel with
    | none => none
    | some acq =>
      some (CAMERA_CONFIG.finish_single_camera cam
        [r1.result, r2.result, r3.1.result, r4.1.result, r5.1.result, r6.1.result,
          r7.1.result, acq.result] acq,
        { g with
          exposure_value_slider := r3.2
          gain_value_slider := r4.2
          sharpening_value_slider := r5.2
          gamma_value_slider := r6.2
          saturation_value_slider := r7.2 })

/-- The function `CAMERA_CONFIG::run_single_camera` of `mono_main_trackbar.cpp`.
(`config_roi` is called with `camera_screen_width` 1424 and `camera_screen_height` 375.) -/
def mono_run_single_camera (cam : Camera) (g : Globals) (w : Session) (fuel : Nat) :
    Option (SingleRun × Globals) :=
  if cam.init_raises then some (⟨-1, [], true, none⟩, g)
  else
    let r1 := config_pixel_format "Mono8" cam.node_map
    let r2 := config_roi cam.node_map 1424 375 0 0
    let r3 := config_sensor_shutter_mode cam.node_map
    let r4 := config_exposure mono_max_exposure cam.node_map g.exposure_value
      g.exposure_value_slider
    let r5 := config_gain cam.node_map g.gain_value g.gain_value_slider
    let r6 := config_black_level_clamping_enable cam.node_map
    let r7 := config_gamma cam.node_map g.gamma_value g.gamma_value_slider
    match acquire_and_display_images cam w fuel with
    | none => none
    | some acq =>
      some (CAMERA_CONFIG.finish_single_camera cam
        [r1.result, r2.result, r3.result, r4.1.result, r5.1.result, r6.result, r7.1.result,
          acq.result] acq,
        { g with
          exposure_value_slider := r4.2
          gain_value_slider := r5.2
          gamma_value_slider := r7.2 })

/-- The loop `for (unsigned int i = 0; i < num_cameras; i++)` of `main`, from camera `i`,
with the tool's `run_single_camera`. -/
def run_cameras (run_single_camera : Camera → Globals → Session → Nat → Option (SingleRun × Globals))
    (world : Nat → Session) (fuel : Nat) :
    Nat → List Camera → Globals → ProgramRun → Option ProgramRun
  | _, [], _, acc => some acc
  | i, cam :: rest, g, acc =>
    match run_single_camera cam g (world i) fuel with
    | none => none
    | some (run, g1) =>
      run_cameras run_single_camera world fuel (i + 1) rest g1
        ⟨int_or acc.code run.result, acc.runs ++ [run]⟩

/-- The function `main` of `color_main_trackbar.cpp`. -/
def color_main (cameras : List Camera) (world : Nat → Session) (fuel : Nat) :
    Option ProgramRun :=
  if cameras.length = 0 then some ⟨-1, []⟩
  else run_cameras color_run_single_camera world fuel 0 cameras Globals.initial ⟨0, []⟩

/-- The function `main` of `mono_main_trackbar.cpp`. -/
def mono_main (cameras : List Camera) (world : Nat → Session) (fuel : Nat) :
    Option ProgramRun :=
  if cameras.length = 0 then some ⟨-1, []⟩
  else run_cameras mono_run_single_camera world fuel 0 cameras Globals.initial ⟨0, []⟩

end Trackbar

/-! ## Decimal literals: what a line of the settings file is compared with -/

/-- The text of an optional sign: none, `+` (`some false`) or `-` (`some true`). -/
def sign_text : Option Bool → List Char
  | none => []
  | some false => ['+']
  | some true => ['-']

/-- The exponent of a decimal floating-point literal: `e` or `E`, an optional sign, digits. -/
structure Exponent where
  upper : Bool
  sign : Option Bool
  digits : List Char

/-- A decimal floating-point literal: an optional sign, the digits of the integer part, an
optional point with the digits of the fraction, an optional exponent. -/
structure DecimalLiteral where
  sign : Option Bool
  whole : List Char
  point : Bool
  fraction : List Char
  exponent : Option Exponent

/-- The characters of an exponent. -/
def Exponent.text (e : Exponent) : List Char :=
  (if e.upper then 'E' else 'e') :: (sign_text e.sign ++ e.digits)

/-- The power of ten an exponent stands for. -/
def Exponent.scale (e : Exponent) : ℚ :=
  if e.sign = some true then 1 / 10 ^ digits_value e.digits else 10 ^ digits_value e.digits

/-- The characters of an optional exponent. -/
def exponent_text : Option Exponent → List Char
  | none => []
  | some e => e.text

/-- The power of ten an optional exponent stands for. -/
def exponent_scale : Option Exponent → ℚ
  | none => 1
  | some e => e.scale

/-- The characters after the integer part of a literal: point, fraction, exponent. -/
def DecimalLiteral.tail_text (d : DecimalLiteral) : List Char :=
  (if d.point then '.' :: d.fraction else []) ++ exponent_text d.exponent

/-- The characters of a literal. -/
def DecimalLiteral.text (d : DecimalLiteral) : List Char :=
  sign_text d.sign ++ (d.whole ++ d.tail_text)

/-- The number a literal denotes. -/
def DecimalLiteral.value (d : DecimalLiteral) : ℚ :=
  (if d.sign = some true then -1 else 1)
    * (((digits_value d.whole : ℚ) + (digits_value d.fraction : ℚ) / 10 ^ d.fraction.length)
      * exponent_scale d.exponent)

/-- The parts of a literal are digits, there is at least one digit before the exponent, a
fraction comes with a point, and an exponent has at least one digit. -/
def DecimalLiteral.WellFormed (d : DecimalLiteral) : Prop :=
  (∀ c ∈ d.whole, isdigit c = true) ∧ (∀ c ∈ d.fraction, isdigit c = true) ∧
  (d.whole ≠ [] ∨ d.fraction ≠ []) ∧ (d.point = false → d.fraction = []) ∧
  (∀ e, d.exponent = some e → e.digits ≠ [] ∧ ∀ c ∈ e.digits, isdigit c = true)

/-- The text `r` does not extend a literal written before it: it does not start with a
digit, a point or an exponent letter. -/
def EndsLiteral (r : List Char) : Prop :=
  ∀ c, r.head? = some c → isdigit c = false ∧ c ≠ '.' ∧ c ≠ 'e' ∧ c ≠ 'E'

/-- The literal converts to a finite `double`: its magnitude lies below the overflow
threshold. -/
def DecimalLiteral.Finite (d : DecimalLiteral) : Prop := |d.value| < overflow_threshold

/-- A value a `double` can hold: its magnitude is at most `double_max`. -/
def InDoubleRange (v : ℚ) : Prop := |v| ≤ double_max

/-- The literal `1e999`, too large for a `double`. -/
def literal_overflow : DecimalLiteral :=
  ⟨none, ['1'], false, [], some ⟨false, none, ['9', '9', '9']⟩⟩

/-- The literal `-1.5e2`. -/
def literal_sample : DecimalLiteral :=
  ⟨some true, ['1'], true, ['5'], some ⟨false, none, ['2']⟩⟩

/-- A decimal number with exactly one fractional digit: a whole number of tenths. -/
def OneDecimal (v : ℚ) : Prop := ∃ k : Int, v = k / 10

/-- The literal that `format_fixed1` prints for a number of `n` tenths, negative or not. -/
def tenths_literal (negative : Bool) (n : Nat) : DecimalLiteral :=
  ⟨if negative then some true else none, to_string_unsigned (n / 10), true,
    to_string_unsigned (n % 10), none⟩

/-! ## What the configurators are compared with -/

/-- The call `node_map.GetNode(name)` for the float nodes of the model. -/
def NodeMap.float_node (nm : NodeMap) (name : String) : Option FloatNode :=
  if name = "ExposureTime" then some nm.ExposureTime
  else if name = "Gain" then some nm.Gain
  else if name = "Gamma" then some nm.Gamma
  else if name = "Sharpening" then some nm.Sharpening
  else if name = "Saturation" then some nm.Saturation
  else none

/-- The call `node_map.GetNode(name)` for the integer nodes of the model. -/
def NodeMap.integer_node (nm : NodeMap) (name : String) : Option IntegerNode :=
  if name = "Width" then some nm.Width
  else if name = "Height" then some nm.Height
  else if name = "OffsetX" then some nm.OffsetX
  else if name = "OffsetY" then some nm.OffsetY
  else none

/-- Every float node of the camera reports a range `[min, max]` with `min ≤ max`. -/
def NodeMap.RangesOrdered (nm : NodeMap) : Prop :=
  ∀ name node, nm.float_node name = some node → node.min ≤ node.max

/-- The runs of the single-camera float configurators on the node map `nm`: the name of the
value node, the requested value, and the device writes of the run.  The capture tool (five
functions) requests the fields of its settings `s`, the calibration tools the argument `v`;
the mono tool's `config_gain` and `config_gamma` have the text of the colour tool's, and its
`config_exposure` differs in the constant `max_exposure` only. -/
def float_configurator_runs (nm : NodeMap) (s : Infinity.camera_settings) (v : ℚ)
    (slider : Int) : List (String × ℚ × List Write) :=
  [ ("ExposureTime", s.exposure, (Infinity.config_exposure nm s).1.writes),
    ("Gain", s.gain, (Infinity.config_gain nm s).1.writes),
    ("Gamma", s.gamma, (Infinity.config_gamma nm s).1.writes),
    ("Sharpening", s.sharpening, (Infinity.config_sharpening nm s).1.writes),
    ("Saturation", s.saturation, (Infinity.config_saturation nm s).1.writes),
    ("ExposureTime", v,
      (Trackbar.config_exposure Trackbar.color_max_exposure nm v slider).1.writes),
    ("ExposureTime", v,
      (Trackbar.config_exposure Trackbar.mono_max_exposure nm v slider).1.writes),
    ("Gain", v, (Trackbar.config_gain nm v slider).1.writes),
    ("Gamma", v, (Trackbar.config_gamma nm v slider).1.writes),
    ("Sharpening", v, (Trackbar.config_sharpening nm v slider).1.writes),
    ("Saturation", v, (Trackbar.config_saturation nm v slider).1.writes) ]

/-- The runs of the three float configurators of `CAMERA_MANAGER` on the cameras
`node_maps`: the name of the value node and the writes, each with its camera index. -/
def manager_configurator_runs (node_maps : List NodeMap) (v : ℚ) :
    List (String × List (Nat × Write)) :=
  [ ("ExposureTime", (CAMERA_MANAGER.config_exposure node_maps v).writes),
    ("Gain", (CAMERA_MANAGER.config_gain node_maps v).writes),
    ("Gamma", (CAMERA_MANAGER.config_gamma node_maps v).writes) ]

/-- The runs of the three `config_roi` functions on the node map `nm`. -/
def roi_configurator_runs (nm : NodeMap) (width height offset_x offset_y : Int) :
    List (List Write) :=
  [ (Infinity.config_roi nm width height).writes,
    (Trackbar.config_roi nm width height offset_x offset_y).writes,
    (CAMERA_MANAGER.config_roi nm offset_x offset_y width height).writes ]

/-- A numeric write lies in the range its node reports (when that range is one, `min ≤ max`). -/
def Write.InRange (nm : NodeMap) : Write → Prop
  | Write.float n x =>
    ∃ node, nm.float_node n = some node ∧ (node.min ≤ node.max → node.min ≤ x ∧ x ≤ node.max)
  | Write.integer n x =>
    ∃ node, nm.integer_node n = some node ∧ (node.min ≤ node.max → node.min ≤ x ∧ x ≤ node.max)
  | _ => True

/-- The write `w` is not an integer write, and if it is a float write it goes to the node
called `name` with the code's clamp of `v` into the range of `node`. -/
def Write.IsClampOf (name : String) (v : ℚ) (node : FloatNode) : Write → Prop
  | Write.float n x => n = name ∧ x = clamp_value v node.min node.max
  | Write.integer _ _ => False
  | _ => True

/-- A return code of the programs: 0, 1 or -1. -/
def ReturnCode (c : Int) : Prop := c = 0 ∨ c = 1 ∨ c = -1

/-- A switch node that is readable and writable. -/
def SwitchNode.available (node : SwitchNode) : Bool := node.readable && node.writable

/-- A float node that is readable and writable. -/
def FloatNode.available (node : FloatNode) : Bool := node.readable && node.writable

/-- The status contract of `config_exposure` of a single-camera tool, for the outcome `r` of
a call with the value `v` on the node map `nm`: 1 exactly on the soft-warning path, with the
clamped value written; 0 exactly when `ExposureAuto` is available, switching it off did not
raise, and the clamped value was written; -1 otherwise. -/
def ExposureContract (nm : NodeMap) (v : ℚ) (r : Outcome) : Prop :=
  (r.result = 1 ↔
      (nm.ExposureAuto.available = false ∧ nm.autoBrightnessMode.available = true
        ∧ nm.ExposureTime.available = true ∧ nm.ExposureTime.faulty = false))
    ∧ (r.result = 1 →
      r.writes = [Write.float "ExposureTime" (clamp_value v nm.ExposureTime.min nm.ExposureTime.max)])
    ∧ (r.result = 0 ↔
      (nm.ExposureAuto.available = true
        ∧ (nm.ExposureAuto.entry_readable = true → nm.ExposureAuto.faulty = false)
        ∧ nm.ExposureTime.available = true ∧ nm.ExposureTime.faulty = false))
    ∧ (r.result = 0 →
      r.writes = (if nm.ExposureAuto.entry_readable then [Write.entry "ExposureAuto" "Off"]
          else [])
        ++ [Write.float "ExposureTime"
          (clamp_value v nm.ExposureTime.min nm.ExposureTime.max)])
    ∧ (r.result = 1 ∨ r.result = 0 ∨ r.result = -1)

/-- The outcome of `config_exposure` of a single-camera tool, path by path. -/
def exposure_paths (ea ab : SwitchNode) (et : FloatNode) (v : ℚ) : Outcome :=
  if ea.available then
    if ea.entry_readable && ea.faulty then ⟨-1, []⟩
    else if et.available && !et.faulty then
      ⟨0, (if ea.entry_readable then [Write.entry "ExposureAuto" "Off"] else [])
        ++ [Write.float "ExposureTime" (clamp_value v et.min et.max)]⟩
    else ⟨-1, if ea.entry_readable then [Write.entry "ExposureAuto" "Off"] else []⟩
  else if ab.available then
    if et.available && !et.faulty then
      ⟨1, [Write.float "ExposureTime" (clamp_value v et.min et.max)]⟩
    else ⟨-1, []⟩
  else ⟨-1, []⟩

/-- The sample node map whose entry `Off` of `ExposureAuto` cannot be read. -/
def NodeMap.off_unreadable : NodeMap :=
  { NodeMap.sample with ExposureAuto := ⟨true, true, false, false⟩ }

/-- The sample camera with a `Gain` node that cannot be read. -/
def NodeMap.gain_unreadable : NodeMap :=
  { NodeMap.sample with Gain := ⟨false, true, 0, 48, false⟩ }

/-- A camera in working order, not yet initialised, holding an exposure of 20 ms. -/
def Camera.sample : Camera :=
  ⟨⟨true, "21012345".toList, false, false⟩, NodeMap.sample, 20000, false, false, false, false,
    false⟩

/-- A frame that arrives complete while the key `key` is waiting. -/
def Frame.ok (key : Option Char) : Frame := ⟨CAMERA_MANAGER.Grab.ok, false, key⟩

/-- A session in which every frame arrives and the user presses `q` during the third. -/
def Session.sample : Session := ⟨false, fun n => Frame.ok (if n = 2 then some 'q' else none)⟩

/-- What the acquisition of `Session.sample` on `Camera.sample` gives: three frames fetched
and saved, then `q`. -/
def Acquisition.sample : Acquisition :=
  ⟨0, [Write.entry "AcquisitionMode" "Continuous"], true,
    some (static_cast_uint64 (Camera.sample.exposure / 1000 + 1000)), 3, [1, 2, 3], false, true⟩

/-- The run of ColorCameraInfinityCapture on `Camera.sample` in which every step returns 0. -/
def SingleRun.sample : SingleRun :=
  ⟨0, [0, 0, 0, 0, 0, 0, 0, 0, 0, 0], false, some Acquisition.sample⟩

namespace CAMERA_MANAGER

/-- Each of the first `n` entries of `cameras` is a camera with a node map: the test
`is_camera_valid` succeeds for every index the camera loop visits. -/
def AllValid (sc : Scene) (n : Nat) (cameras : List (Option Camera)) : Prop :=
  ∀ i, i < n → is_camera_valid (cameras.getD i none) sc.node_maps[i]? = true

/-- No `q` or `Q` is waiting at the keyboard test of the visits `t`, ..., `k - 1`. -/
def QuietBetween (sc : Scene) (t k : Nat) : Prop :=
  ∀ j, t ≤ j → j < k → keyboard_interrupt (sc.visits j).key = false

/-- A state of `acquire_images` in which both flags are set, the cameras are valid, and
`Inv` holds. -/
def Running (sc : Scene) (n : Nat) (Inv : AcquireState → Prop) (st : AcquireState) : Prop :=
  st.local_running = true ∧ st.global_running = true ∧ AllValid sc n st.cameras ∧ Inv st

/-- The round-robin order of the visits: visit number `j` is for camera `(j / 2) % n` and
for the first region when `j` is even, the second when it is odd. -/
def Schedule (n j i : Nat) (roi : ROI_CONFIG_VALUES) : Prop :=
  i = (j / 2) % n ∧ roi_config_values[j % 2]? = some roi

/-- The property `Inv` is kept by a visit that follows the schedule and by clearing the two
flags. -/
def Kept (sc : Scene) (n : Nat) (Inv : AcquireState → Prop) : Prop :=
  (∀ i camera nm roi st, Schedule n st.trace.length i roi → Inv st →
      Inv (visit_pair sc i camera nm roi st))
    ∧ (∀ st, Inv st → Inv { st with local_running := false, global_running := false })

end CAMERA_MANAGER

namespace CAMERA_MANAGER

/-- Every visit on record follows the schedule, was made with the timeout prepared for its
camera, and saved what `capture_image` gives for the frame fetch of that visit. -/
def Recorded (sc : Scene) (n : Nat) (st : AcquireState) : Prop :=
  ∀ j r, st.trace[j]? = some r →
    r.camera = (j / 2) % n
      ∧ r.offset_x = (if j % 2 = 0 then 0 else 1216)
      ∧ r.timeout = prepared_timeout sc r.camera
      ∧ r.saved = capture_image (sc.visits j).grab sc.folder_path
        (prepared_serial_number sc.node_maps_tl_device r.camera) r.image_index r.offset_x

/-- The frame fetch of a visit fails: `GetNextImage`, `Convert` or `Save` raises, or the
image is incomplete. -/
def Grab.fails (g : Grab) : Prop :=
  g.next_image_raises = true ∨ g.incomplete = true ∨ g.convert_raises = true
    ∨ g.save_raises = true

/-- A scene in which both cameras are in working order, every frame arrives, and the user
presses `key` during visit number `k`. -/
def Scene.sample (k : Nat) (key : Char) : Scene :=
  ⟨[NodeMap.sample, NodeMap.sample],
    [⟨true, "21012345".toList, false, false⟩, ⟨true, "21012346".toList, false, false⟩],
    "/data/".toList, fun _ => 20000,
    fun n => ⟨false, Grab.ok, if n = k then some key else none⟩⟩

end CAMERA_MANAGER

namespace CAMERA_MANAGER

/-- A visit on record, with what it saved left out. -/
def VisitRecord.unsaved (r : VisitRecord) : VisitRecord := { r with saved := none }

/-- Two scenes that differ at most in how the frame fetches go. -/
def SameButGrabs (sc sc1 : Scene) : Prop :=
  sc.node_maps = sc1.node_maps ∧ sc.node_maps_tl_device = sc1.node_maps_tl_device
    ∧ sc.folder_path = sc1.folder_path ∧ sc.exposure = sc1.exposure
    ∧ ∀ n, (sc.visits n).begin_raises = (sc1.visits n).begin_raises
      ∧ (sc.visits n).key = (sc1.visits n).key

/-- Two states of `acquire_images` that differ at most in what the visits saved. -/
def SameButSaved (st st1 : AcquireState) : Prop :=
  st.result = st1.result ∧ st.local_running = st1.local_running
    ∧ st.global_running = st1.global_running ∧ st.image_counts = st1.image_counts
    ∧ st.cameras = st1.cameras
    ∧ st.trace.map VisitRecord.unsaved = st1.trace.map VisitRecord.unsaved

/-- The scene `Scene.sample k key`, except that `GetNextImage` raises during visit `j`. -/
def Scene.failing (k : Nat) (key : Char) (j : Nat) : Scene :=
  { Scene.sample k key with
    visits := fun n =>
      ⟨false, if n = j then ⟨true, false, false, false⟩ else Grab.ok,
        if n = k then some key else none⟩ }

end CAMERA_MANAGER

/-- The sample node map with an `ExposureTime` node that cannot be read. -/
def NodeMap.exposure_unreadable : NodeMap :=
  { NodeMap.sample with ExposureTime := ⟨false, true, 33, 500000, false⟩ }

/-- The scene `Scene.sample 0 'q'` with cameras whose `ExposureTime` cannot be read. -/
def CAMERA_MANAGER.Scene.exposure_unreadable : CAMERA_MANAGER.Scene :=
  { CAMERA_MANAGER.Scene.sample 0 'q' with
    node_maps := [NodeMap.exposure_unreadable, NodeMap.exposure_unreadable] }

/-- The sample camera with an `ExposureTime` node that cannot be read. -/
def Camera.exposure_unreadable : Camera :=
  { Camera.sample with node_map := NodeMap.exposure_unreadable }

/-- The sample camera, except that `Init()` raises on it. -/
def Camera.init_fails : Camera := { Camera.sample with init_raises := true }

namespace DualMain

/-- An attempt that fails: the system and the settings file are there, and either fewer than
two cameras are detected, or `run_multiple_cameras` comes back with the run flag still set
and `result` is not 0. -/
def Attempt.Fails (a : Attempt) (fuel : Nat) : Prop :=
  a.system_ok = true
    ∧ (a.cameras.length < 2
      ∨ (a.file_content.isEmpty = false
        ∧ ∃ run, CAMERA_MANAGER.run_multiple_cameras a.cameras a.cameras.length
            (CAMERA_SETTINGS.get_values a.file_content a.uninitialized).2 a.visits true
            folder_path fuel = some run
          ∧ int_or (int_or 0 (CAMERA_SETTINGS.get_values a.file_content a.uninitialized).1)
            run.code ≠ 0
          ∧ run.global_running = true))

/-- What holds at every test of the retry loop: each pass so far ended in a retry, and
`retries` never exceeded `max_retries`. -/
def AtLoopTest (st : MainState) : Prop :=
  st.attempts = st.retries ∧ st.retries ≤ max_retries ∧ ∀ r ∈ st.history, r ≤ max_retries

/-- A world in which no camera is ever detected. -/
def no_cameras (_ : Nat) : Attempt :=
  ⟨true, [], none, ⟨0, 0, 0⟩, fun _ => ⟨false, CAMERA_MANAGER.Grab.ok, none⟩⟩

end DualMain

/-- What `result` of the multi-camera `acquire_images` can be: 0 before the first visit, -1
after it (every visit ORs in the -1 of `start_camera_acquisition`). -/
def CAMERA_MANAGER.ResultAfterVisits (st : CAMERA_MANAGER.AcquireState) : Prop :=
  (st.trace = [] → st.result = 0) ∧ (st.trace ≠ [] → st.result = -1)

/-- How `main` of the dual-camera tool can return 0: the last pass of the loop reached
`run_multiple_cameras`, which returned `mrun`, and then either `result` was 0, which needs
every step of `mrun` to have returned 0, or the run flag was cleared. -/
def DualMain.ReturnsZeroBy (run : DualMain.MainRun) : Prop :=
  ∃ r mrun, run.final.last_result = some r ∧ run.final.last_run = some mrun
    ∧ r = int_or (int_or 0 0) mrun.code
    ∧ run.final.global_running = mrun.global_running
    ∧ (r = 0 ∨ run.final.global_running = false)
    ∧ (r = 0 → mrun.code = 0 ∧ ∀ s ∈ mrun.steps, s.2 = 0)

/-- A run of `run_single_camera` in which every step returned 0 and neither `Init()` nor
`DeInit()` raised. -/
def SingleRun.Clean (run : SingleRun) : Prop :=
  run.raised = false ∧ ∀ c ∈ run.codes, c = 0

/-- What the exit code of a single-camera tool says about the runs of its cameras. -/
def ProgramRun.Tainted (prog : ProgramRun) : Prop :=
  ∃ run ∈ prog.runs, run.raised = true ∨ ∃ c ∈ run.codes, c ≠ 0

/-- A world in which two cameras in working order are detected, the settings file holds one
line, and the user presses `q` during the first visit. -/
def DualMain.user_quits (_ : Nat) : DualMain.Attempt :=
  ⟨true, [some Camera.sample, some Camera.sample], some "Exposure: 20000".toList, ⟨0, 0, 0⟩,
    fun n => ⟨false, CAMERA_MANAGER.Grab.ok, if n = 0 then some 'q' else none⟩⟩

/-- The sample node map with an `ExposureAuto` node that cannot be read. -/
def NodeMap.exposure_auto_unreadable : NodeMap :=
  { NodeMap.sample with ExposureAuto := ⟨false, true, true, false⟩ }

/-- The sample node map whose entry `Continuous` of `ExposureAuto` cannot be read. -/
def NodeMap.continuous_unreadable : NodeMap :=
  { NodeMap.sample with ExposureAutoContinuous := false }

/-- The sample node map on which `ExposureAuto->SetIntValue` raises. -/
def NodeMap.exposure_auto_faulty : NodeMap :=
  { NodeMap.sample with ExposureAuto := ⟨true, true, true, true⟩ }

/-- The sample camera, except that `ExposureAuto->SetIntValue` raises on it. -/
def Camera.exposure_auto_faulty : Camera :=
  { Camera.sample with node_map := NodeMap.exposure_auto_faulty }

namespace CAMERA_MANAGER

/-- The number of visits on record of camera `i` with the offset `x`. -/
def visits_of (trace : List VisitRecord) (i : Nat) (x : Int) : Nat :=
  trace.countP (fun r => decide (r.camera = i ∧ r.offset_x = x))

/-- The running count of every (camera, offset) pair is what as many increments as the pair
has visits on record make of the initial 0. -/
def Counted (st : AcquireState) : Prop :=
  ∀ i x, st.image_counts i x = count_after (visits_of st.trace i x)

/-- The variables of `acquire_images` when the loop is entered. -/
def AcquireState.initial (cameras : List (Option Camera)) (global_running : Bool) :
    AcquireState :=
  ⟨0, true, global_running, fun _ _ => 0, cameras, []⟩

end CAMERA_MANAGER

/-- The scene `Scene.sample k key`, except that the node `DeviceSerialNumber` of the first
camera cannot be read. -/
def CAMERA_MANAGER.Scene.serial_unreadable (k : Nat) (key : Char) : CAMERA_MANAGER.Scene :=
  { CAMERA_MANAGER.Scene.sample k key with
    node_maps_tl_device :=
      [⟨false, "21012345".toList, false, false⟩, ⟨true, "21012346".toList, false, false⟩] }

/-! ## The calibration tools: the trackbar callbacks -/

namespace Trackbar

/-- The constant `sharpening_slider_max_value` of `color_main_trackbar.cpp`. -/
def sharpening_slider_max_value : Int := 9
/-- The constant `saturation_slider_max_value` of `color_main_trackbar.cpp`. -/
def saturation_slider_max_value : Int := 20

/-- The value `trackbar_callback_exposure` assigns to the global `current_exposure_value`:
`min_exposure + (static_cast<double>(exposure_value_slider) / exposure_slider_max_value)
* (max_exposure - min_exposure)`. -/
def current_exposure_value (max_exposure : ℚ) (exposure_value_slider : Int) : ℚ :=
  min_exposure + ((exposure_value_slider : ℚ) / (exposure_slider_max_value : ℚ))
    * (max_exposure - min_exposure)

/-- The value `trackbar_callback_gain` assigns to the global `current_gain_value`. -/
def current_gain_value (gain_value_slider : Int) : ℚ :=
  min_gain + (((gain_value_slider : ℚ) / (gain_slider_max_value : ℚ)) * (max_gain - min_gain))

/-- The value `trackbar_callback_gamma` assigns to the global `current_gamma_value`. -/
def current_gamma_value (gamma_value_slider : Int) : ℚ :=
  min_gamma
    + (((gamma_value_slider : ℚ) / (gamma_slider_max_value : ℚ)) * (max_gamma - min_gamma))

/-- The value `trackbar_callback_sharpening` assigns to the global
`current_sharpening_value`: `sharpening_value_slider - 1`, computed on `int`. -/
def current_sharpening_value (sharpening_value_slider : Int) : ℚ :=
  ((sharpening_value_slider - 1 : Int) : ℚ)

/-- The value `trackbar_callback_saturation` assigns to the global
`current_saturation_value`: `static_cast<double>(saturation_value_slider) / 20.0`. -/
def current_saturation_value (saturation_value_slider : Int) : ℚ :=
  (saturation_value_slider : ℚ) / 20

/-- The function `trackbar_callback_exposure`: the value is computed from the slider, the
configurator is called with a copy of it (the clamp is done on the copy; the return code is
dropped by the callback and kept here for the record), and the value computed is stored in
`exposure_value`. -/
def trackbar_callback_exposure (max_exposure : ℚ) (nm : NodeMap) (g : Globals) :
    Outcome × Globals :=
  let r := config_exposure max_exposure nm
    (current_exposure_value max_exposure g.exposure_value_slider) g.exposure_value_slider
  (r.1, { g with
    exposure_value_slider := r.2
    exposure_value := current_exposure_value max_exposure g.exposure_value_slider })

/-- The function `trackbar_callback_gain`. -/
def trackbar_callback_gain (nm : NodeMap) (g : Globals) : Outcome × Globals :=
  let r := config_gain nm (current_gain_value g.gain_value_slider) g.gain_value_slider
  (r.1, { g with
    gain_value_slider := r.2
    gain_value := current_gain_value g.gain_value_slider })

/-- The function `trackbar_callback_gamma`. -/
def trackbar_callback_gamma (nm : NodeMap) (g : Globals) : Outcome × Globals :=
  let r := config_gamma nm (current_gamma_value g.gamma_value_slider) g.gamma_value_slider
  (r.1, { g with
    gamma_value_slider := r.2
    gamma_value := current_gamma_value g.gamma_value_slider })

/-- The function `trackbar_callback_sharpening` of `color_main_trackbar.cpp`. -/
def trackbar_callback_sharpening (nm : NodeMap) (g : Globals) : Outcome × Globals :=
  let r := config_sharpening nm (current_sharpening_value g.sharpening_value_slider)
    g.sharpening_value_slider
  (r.1, { g with
    sharpening_value_slider := r.2
    sharpening_value := current_sharpening_value g.sharpening_value_slider })

/-- The function `trackbar_callback_saturation` of `color_main_trackbar.cpp`. -/
def trackbar_callback_saturation (nm : NodeMap) (g : Globals) : Outcome × Globals :=
  let r := config_saturation nm (current_saturation_value g.saturation_value_slider)
    g.saturation_value_slider
  (r.1, { g with
    saturation_value_slider := r.2
    saturation_value := current_saturation_value g.saturation_value_slider })

end Trackbar

/-- The sample node map with the gain range 0 to 47.9943 dB. -/
def NodeMap.gain_narrow : NodeMap :=
  { NodeMap.sample with Gain := FloatNode.ok 0 (479943 / 10000) }

/-- The globals at program start with the gain slider moved to its last position. -/
def Trackbar.Globals.gain_at_max : Trackbar.Globals :=
  { Trackbar.Globals.initial with gain_value_slider := 48 }

/-- The value `v` lies inside the range the node reports. -/
def FloatNode.Holds (node : FloatNode) (v : ℚ) : Prop := node.min ≤ v ∧ v ≤ node.max

/-- A float node whose value can be set: readable, writable, and no SDK call raises on it. -/
def FloatNode.sound (node : FloatNode) : Bool :=
  node.readable && node.writable && !node.faulty

/-- A switch on which the selection of an entry goes through: the node is readable and
writable, and `SetIntValue` does not raise when the entry is readable (an entry that is not
readable is passed over). -/
def SwitchNode.selects (node : SwitchNode) : Bool :=
  node.readable && node.writable && (!node.entry_readable || !node.faulty)

/-- A Boolean node that can be set to `true`: readable, writable, and `SetValue` does not
raise. -/
def SwitchNode.enables (node : SwitchNode) : Bool :=
  node.readable && node.writable && !node.faulty

/-- For each run of `float_configurator_runs`, in the same order: whether the code gets as
far as `SetValue` on its value node.  `config_exposure` gets there when `ExposureAuto` was
handled or, `ExposureAuto` not being available, `autoBrightnessMode` is; the capture tool's
`config_gain` passes over a `GainAuto` that is not available, the calibration tools'
`config_gain` returns; the others need their enable node. -/
def float_configurator_reaches (nm : NodeMap) : List Bool :=
  [ (nm.ExposureAuto.selects || (!nm.ExposureAuto.available && nm.autoBrightnessMode.available))
      && nm.ExposureTime.sound,
    (!nm.GainAuto.available || nm.GainAuto.selects) && nm.Gain.sound,
    nm.GammaEnable.enables && nm.Gamma.sound,
    nm.SharpeningEnable.enables && nm.Sharpening.sound,
    nm.SaturationEnable.enables && nm.Saturation.sound,
    (nm.ExposureAuto.selects || (!nm.ExposureAuto.available && nm.autoBrightnessMode.available))
      && nm.ExposureTime.sound,
    (nm.ExposureAuto.selects || (!nm.ExposureAuto.available && nm.autoBrightnessMode.available))
      && nm.ExposureTime.sound,
    nm.GainAuto.selects && nm.Gain.sound,
    nm.GammaEnable.enables && nm.Gamma.sound,
    nm.SharpeningEnable.enables && nm.Sharpening.sound,
    nm.SaturationEnable.enables && nm.Saturation.sound ]

/-- For each run of `manager_configurator_runs`, in the same order: whether the body of the
loop gets as far as `SetValue` on the value node of the camera with the node map `nm`. -/
def manager_configurator_reaches (nm : NodeMap) : List Bool :=
  [ nm.ExposureAuto.selects && nm.ExposureTime.sound,
    nm.GainAuto.selects && nm.Gain.sound,
    nm.GammaEnable.enables && nm.Gamma.sound ]

/-- What a run that may write to the value node called `name` does: when it gets as far as
`SetValue` (`reached`) it writes the clamp of `req`, and else it writes no float. -/
def Reaches (reached : Bool) (name : String) (req : ℚ) (node : FloatNode) (ws : List Write) :
    Prop :=
  (reached = true → Write.float name (clamp_value req node.min node.max) ∈ ws)
    ∧ (reached = false → ∀ n x, Write.float n x ∉ ws)

/-! ## The steps of `run_single_camera` -/

namespace CAMERA_CONFIG

/-- The codes OR-ed into `result` by the end of `run_single_camera`: those of the steps up
to the acquisition and, when their OR is 0, the return value of `reset_exposure`. -/
def codes_with_reset (cam : Camera) (codes : List Int) : List Int :=
  if or_codes codes = 0 then codes ++ [(reset_exposure cam.node_map).result] else codes

end CAMERA_CONFIG

namespace Infinity

/-- The return values that `run_single_camera` of `main_color_infinity_images.cpp` ORs into
`result` before the test `if (result == 0)`, in the order of the calls: `s` is the member
`settings` at entry, which each configurator hands on clamped, and `acquired` is what
`acquire_images` returned. -/
def step_codes (cam : Camera) (s : camera_settings) (acquired : Int) : List Int :=
  [print_device_info cam.tl_device,
    (config_pixel_format cam.node_map).result,
    (config_roi cam.node_map 1424 408).result,
    (config_exposure cam.node_map s).1.result,
    (config_gain cam.node_map (config_exposure cam.node_map s).2).1.result,
    (config_sharpening cam.node_map
      (config_gain cam.node_map (config_exposure cam.node_map s).2).2).1.result,
    (config_gamma cam.node_map
      (config_sharpening cam.node_map
        (config_gain cam.node_map (config_exposure cam.node_map s).2).2).2).1.result,
    (config_saturation cam.node_map
      (config_gamma cam.node_map
        (config_sharpening cam.node_map
          (config_gain cam.node_map (config_exposure cam.node_map s).2).2).2).2).1.result,
    acquired]

end Infinity

namespace Trackbar

/-- The return values that `run_single_camera` of `color_main_trackbar.cpp` ORs into `result`
before the test `if (result == 0)`, in the order of the calls. -/
def color_step_codes (cam : Camera) (g : Globals) (acquired : Int) : List Int :=
  [(config_pixel_format "BGR8" cam.node_map).result,
    (config_roi cam.node_map 408 408 0 0).result,
    (config_exposure color_max_exposure cam.node_map g.exposure_value
      g.exposure_value_slider).1.result,
    (config_gain cam.node_map g.gain_value g.gain_value_slider).1.result,
    (config_sharpening cam.node_map g.sharpening_value g.sharpening_value_slider).1.result,
    (config_gamma cam.node_map g.gamma_value g.gamma_value_slider).1.result,
    (config_saturation cam.node_map g.saturation_value g.saturation_value_slider).1.result,
    acquired]

/-- The return values that `run_single_camera` of `mono_main_trackbar.cpp` ORs into `result`
before the test `if (result == 0)`, in the order of the calls. -/
def mono_step_codes (cam : Camera) (g : Globals) (acquired : Int) : List Int :=
  [(config_pixel_format "Mono8" cam.node_map).result,
    (config_roi cam.node_map 1424 375 0 0).result,
    (config_sensor_shutter_mode cam.node_map).result,
    (config_exposure mono_max_exposure cam.node_map g.exposure_value
      g.exposure_value_slider).1.result,
    (config_gain cam.node_map g.gain_value g.gain_value_slider).1.result,
    (config_black_level_clamping_enable cam.node_map).result,
    (config_gamma cam.node_map g.gamma_value g.gamma_value_slider).1.result,
    acquired]

end Trackbar

/-- The run `run` of `run_single_camera` on `cam` is made of the steps `steps` and of the
acquisition `acquired`: when `Init()` raises nothing else runs; otherwise the acquisition
returned, the codes of the run are those of the steps, with that of the acquisition last
and that of the exposure reset when it ran, and only `DeInit()` can still raise. -/
def SingleRun.Steps (run : SingleRun) (cam : Camera) (steps : Int → List Int)
    (acquired : Option Acquisition) : Prop :=
  if cam.init_raises then run = ⟨-1, [], true, none⟩
  else ∃ acq, acquired = some acq ∧ run.acquisition = some acq
    ∧ run.raised = cam.deinit_raises
    ∧ run.codes = CAMERA_CONFIG.codes_with_reset cam (steps acq.result)

/-- The sample camera without an `ExposureAuto` node: `config_exposure` returns 1. -/
def NodeMap.auto_exposure_absent : NodeMap :=
  { NodeMap.sample with ExposureAuto := SwitchNode.absent }

/-- A camera on which `config_exposure` returns 1 and every other step 0. -/
def Camera.soft_warning : Camera :=
  { Camera.sample with node_map := NodeMap.auto_exposure_absent }

/-- A camera on which `config_exposure` returns 1 and `config_gain` returns -1: it has no
`ExposureAuto` node and its `Gain` node cannot be read. -/
def Camera.gain_fails : Camera :=
  { Camera.sample with
    node_map := { NodeMap.auto_exposure_absent with Gain := ⟨false, true, 0, 48, false⟩ } }

/-- The run of ColorCameraInfinityCapture on `Camera.soft_warning`. -/
def SingleRun.soft_warning : SingleRun :=
  ⟨1, [0, 0, 0, 1, 0, 0, 0, 0, 0], false, some Acquisition.sample⟩

/-- The run of ColorCameraInfinityCapture on `Camera.gain_fails`. -/
def SingleRun.gain_fails : SingleRun :=
  ⟨-1, [0, 0, 0, 1, -1, 0, 0, 0, 0], false, some Acquisition.sample⟩

/-- What the acquisition of a calibration tool gives in `Session.sample`: three frames
fetched and shown, then `q`, which stores the values. -/
def Acquisition.displayed : Acquisition :=
  ⟨0, [Write.entry "AcquisitionMode" "Continuous"], true,
    some (static_cast_uint64 (Camera.sample.exposure / 1000 + 1000)), 3, [], true, true⟩

/-- The run of ColorCameraCalibration on `Camera.gain_fails`. -/
def SingleRun.color_gain_fails : SingleRun :=
  ⟨-1, [0, 0, 1, -1, 0, 0, 0, 0], false, some Acquisition.displayed⟩

/-- The run of MonoCameraCalibration on `Camera.gain_fails`. -/
def SingleRun.mono_gain_fails : SingleRun :=
  ⟨-1, [0, 0, 0, 1, -1, 0, 0, 0], false, some Acquisition.displayed⟩

/-- A step of `run_single_camera` on `cam` failed: `Init()` or `DeInit()` raised, or one of
the return values OR-ed into `result` (those of the steps `steps`, the acquisition
`acquired` among them, and of the exposure reset when it ran) is not 0. -/
def StepFailed (cam : Camera) (steps : Int → List Int) (acquired : Option Acquisition) :
    Prop :=
  cam.init_raises = true ∨ cam.deinit_raises = true
    ∨ ∃ acq c, acquired = some acq
      ∧ c ∈ CAMERA_CONFIG.codes_with_reset cam (steps acq.result) ∧ c ≠ 0

/-! ## Theorems -/

/-- On an ordered range the two-branch clamp of the code is `max lo (min v hi)`. -/
theorem clamp_value_eq_max_min (v lo hi : ℚ) (h : lo ≤ hi) :
    clamp_value v lo hi = max lo (min v hi) := by
  unfold clamp_value
  split_ifs with h1 h2
  · rw [min_eq_right (le_of_lt h1), max_eq_right h]
  · rw [min_eq_left (le_of_lt (lt_of_lt_of_le h2 h)), max_eq_left (le_of_lt h2)]
  · rw [min_eq_left (not_lt.mp h1), max_eq_right (not_lt.mp h2)]

/-- On an ordered range the clamped value lies in the range. -/
theorem clamp_value_mem (v lo hi : ℚ) (h : lo ≤ hi) :
    lo ≤ clamp_value v lo hi ∧ clamp_value v lo hi ≤ hi := by
  rw [clamp_value_eq_max_min v lo hi h]
  exact ⟨le_max_left _ _, max_le h (min_le_right _ _)⟩

/-- The float stage writes nothing but the clamped value. -/
theorem set_float_stage_written (node : FloatNode) (v x : ℚ)
    (h : set_float_stage node v = Stage.written x) : x = clamp_value v node.min node.max := by
  unfold set_float_stage at h
  split_ifs at h
  simpa using h.symm

/-- The integer stage writes only a value that passed the range test. -/
theorem set_integer_stage_written (node : IntegerNode) (v x : Int)
    (h : set_integer_stage node v = Stage.written x) : x = v ∧ node.min ≤ x ∧ x ≤ node.max := by
  unfold set_integer_stage at h
  split_ifs at h with h1 h2 h3
  simp only [ge_iff_le, Bool.and_eq_true, decide_eq_true_eq] at h3
  simp only [Stage.written.injEq] at h
  subst h
  exact ⟨rfl, h3.1, h3.2⟩

/-- The float stage writes exactly when the node is available and sound, and then the
clamped value. -/
theorem set_float_stage_eq_written (node : FloatNode) (v x : ℚ) :
    set_float_stage node v = Stage.written x ↔
      (node.readable = true ∧ node.writable = true ∧ node.faulty = false) ∧
        clamp_value v node.min node.max = x := by
  cases hr : node.readable <;> cases hw : node.writable <;> cases hf : node.faulty <;>
    simp [set_float_stage, hr, hw, hf]

/-- Every write of a single-camera float configurator is a switch write or the code's clamp
of the requested value, written to the configurator's value node. -/
theorem single_runs_clamped (nm : NodeMap) (s : Infinity.camera_settings) (v : ℚ)
    (slider : Int) (name : String) (req : ℚ) (ws : List Write)
    (hrun : (name, req, ws) ∈ float_configurator_runs nm s v slider) :
    ∃ node, nm.float_node name = some node ∧ ∀ w ∈ ws, w.IsClampOf name req node := by
  simp only [float_configurator_runs, List.mem_cons, Prod.mk.injEq, List.mem_singleton,
    List.not_mem_nil, or_false] at hrun
  rcases hrun with h | h | h | h | h | h | h | h | h | h | h <;>
    obtain ⟨rfl, rfl, rfl⟩ := h
  all_goals
    refine ⟨_, by simp only [NodeMap.float_node]; rfl, ?_⟩
    simp only [Infinity.config_exposure, Infinity.config_gain, Infinity.config_gamma,
      Infinity.config_sharpening, Infinity.config_saturation, Trackbar.config_exposure,
      Trackbar.config_gain, Trackbar.config_gamma, Trackbar.config_sharpening,
      Trackbar.config_saturation, select_entry_stage]
    repeat' split
    all_goals (try split_ifs at *)
    all_goals (try simp only [Option.map_some', Option.map_none', Option.some.injEq,
      Prod.mk.injEq, reduceCtorEq] at *)
    all_goals (try cases_type* And)
    all_goals subst_vars
    all_goals simp_all [set_float_stage_eq_written, Write.IsClampOf]

/-- What a loop over the cameras logs: each new entry carries the index of a camera of the
list and a write its body made on that camera's node map. -/
theorem for_each_camera_writes
    (body : Nat → NodeMap → CAMERA_MANAGER.MultiOutcome → CAMERA_MANAGER.MultiOutcome)
    (P : NodeMap → Write → Prop)
    (hbody : ∀ i nm acc, ∃ ws : List Write,
      (body i nm acc).writes = acc.writes ++ ws.map (fun w => (i, w)) ∧
      ∀ w ∈ ws, P nm w) :
    ∀ (nms : List NodeMap) (k : Nat) (acc : CAMERA_MANAGER.MultiOutcome) (e : Nat × Write),
      e ∈ (CAMERA_MANAGER.for_each_camera body k nms acc).writes →
        e ∈ acc.writes ∨ ∃ nm, k ≤ e.1 ∧ nms[e.1 - k]? = some nm ∧ P nm e.2 := by
  intro nms
  induction nms with
  | nil => intro k acc e he; exact Or.inl he
  | cons nm rest ih =>
    intro k acc e he
    rw [CAMERA_MANAGER.for_each_camera] at he
    rcases ih (k + 1) (body k nm acc) e he with h | ⟨nm', hk, hget, hP⟩
    · obtain ⟨ws, hws, hall⟩ := hbody k nm acc
      rw [hws, List.mem_append, List.mem_map] at h
      rcases h with h | ⟨w, hw, rfl⟩
      · exact Or.inl h
      · exact Or.inr ⟨nm, le_refl _, by simp, hall w hw⟩
    · refine Or.inr ⟨nm', by omega, ?_, hP⟩
      have : e.1 - k = (e.1 - (k + 1)) + 1 := by omega
      rw [this, List.getElem?_cons_succ]
      exact hget

/-- The bodies of the three loops of `CAMERA_MANAGER` append to the log switch writes and
the code's clamp of the requested value, written to the value node. -/
theorem manager_bodies_clamped (v : ℚ) (i : Nat) (nm : NodeMap)
    (acc : CAMERA_MANAGER.MultiOutcome) :
    (∃ ws : List Write, (CAMERA_MANAGER.config_exposure_camera v i nm acc).writes
        = acc.writes ++ ws.map (fun w => (i, w)) ∧
      ∀ w ∈ ws, w.IsClampOf "ExposureTime" v nm.ExposureTime) ∧
    (∃ ws : List Write, (CAMERA_MANAGER.config_gain_camera v i nm acc).writes
        = acc.writes ++ ws.map (fun w => (i, w)) ∧
      ∀ w ∈ ws, w.IsClampOf "Gain" v nm.Gain) ∧
    (∃ ws : List Write, (CAMERA_MANAGER.config_gamma_camera v i nm acc).writes
        = acc.writes ++ ws.map (fun w => (i, w)) ∧
      ∀ w ∈ ws, w.IsClampOf "Gamma" v nm.Gamma) := by
  refine ⟨?_, ?_, ?_⟩
  all_goals
    simp only [CAMERA_MANAGER.config_exposure_camera, CAMERA_MANAGER.config_gain_camera,
      CAMERA_MANAGER.config_gamma_camera, select_entry_stage, CAMERA_MANAGER.MultiOutcome.log]
    repeat' split
  all_goals (try split_ifs at *)
  all_goals (try simp only [Option.some.injEq, reduceCtorEq] at *)
  all_goals subst_vars
  all_goals first
    | (refine ⟨_, rfl, ?_⟩; simp_all [set_float_stage_eq_written, Write.IsClampOf])
    | (refine ⟨[], ?_, ?_⟩ <;> simp)

/-- Every entry of the log of a float configurator of `CAMERA_MANAGER` carries the index of
a camera of the list and, on that camera, a switch write or the clamped value. -/
theorem manager_runs_clamped (node_maps : List NodeMap) (v : ℚ) (name : String)
    (ws : List (Nat × Write)) (hrun : (name, ws) ∈ manager_configurator_runs node_maps v) :
    ∀ e ∈ ws, ∃ nm node, node_maps[e.1]? = some nm ∧ nm.float_node name = some node ∧
      e.2.IsClampOf name v node := by
  simp only [manager_configurator_runs, List.mem_cons, Prod.mk.injEq, List.mem_singleton,
    List.not_mem_nil, or_false] at hrun
  intro e he
  rcases hrun with h | h | h <;> obtain ⟨rfl, rfl⟩ := h
  · rcases for_each_camera_writes (CAMERA_MANAGER.config_exposure_camera v)
      (fun nm w => w.IsClampOf "ExposureTime" v nm.ExposureTime)
      (fun i nm acc => (manager_bodies_clamped v i nm acc).1) node_maps 0 ⟨0, []⟩ e he
      with h | ⟨nm, -, hget, hP⟩
    · simp at h
    · exact ⟨nm, nm.ExposureTime, by simpa using hget, by simp [NodeMap.float_node], hP⟩
  · rcases for_each_camera_writes (CAMERA_MANAGER.config_gain_camera v)
      (fun nm w => w.IsClampOf "Gain" v nm.Gain)
      (fun i nm acc => (manager_bodies_clamped v i nm acc).2.1) node_maps 0 ⟨0, []⟩ e he
      with h | ⟨nm, -, hget, hP⟩
    · simp at h
    · exact ⟨nm, nm.Gain, by simpa using hget, by simp [NodeMap.float_node], hP⟩
  · rcases for_each_camera_writes (CAMERA_MANAGER.config_gamma_camera v)
      (fun nm w => w.IsClampOf "Gamma" v nm.Gamma)
      (fun i nm acc => (manager_bodies_clamped v i nm acc).2.2) node_maps 0 ⟨0, []⟩ e he
      with h | ⟨nm, -, hget, hP⟩
    · simp at h
    · exact ⟨nm, nm.Gamma, by simpa using hget, by simp [NodeMap.float_node], hP⟩

/-- The integer stage writes exactly when the node is available and sound and the value
passed the range test, and then the value itself. -/
theorem set_integer_stage_eq_written (node : IntegerNode) (v x : Int) :
    set_integer_stage node v = Stage.written x ↔
      (node.readable = true ∧ node.writable = true ∧ node.faulty = false) ∧
        (node.min ≤ v ∧ v ≤ node.max) ∧ v = x := by
  cases hr : node.readable <;> cases hw : node.writable <;> cases hf : node.faulty <;>
    by_cases h1 : node.min ≤ v <;> by_cases h2 : v ≤ node.max <;>
    simp [set_integer_stage, hr, hw, hf, h1, h2]

/-- A clamped float write lies in the range of its node. -/
theorem Write.inRange_of_isClampOf (nm : NodeMap) (name : String) (v : ℚ) (node : FloatNode)
    (hnode : nm.float_node name = some node) (w : Write) (h : w.IsClampOf name v node) :
    w.InRange nm := by
  cases w with
  | float n x =>
    obtain ⟨rfl, rfl⟩ := h
    exact ⟨node, hnode, fun hord => clamp_value_mem v node.min node.max hord⟩
  | integer n x => exact absurd h id
  | entry n e => trivial
  | enable n => trivial

/-- An integer write of a value that passed the stage lies in the range of its node. -/
theorem integer_write_in_range (nm : NodeMap) (name : String) (node : IntegerNode) (v x : Int)
    (hnode : nm.integer_node name = some node)
    (h : set_integer_stage node v = Stage.written x) : (Write.integer name x).InRange nm := by
  obtain ⟨-, hr, rfl⟩ := (set_integer_stage_eq_written node v x).mp h
  exact ⟨node, hnode, fun _ => hr⟩

/-- One reporting node of a `config_roi` keeps the log in range. -/
theorem roi_writes_in_range (nm : NodeMap) (name : String) (node : IntegerNode) (v : Int)
    (ws : List Write) (hnode : nm.integer_node name = some node)
    (hws : ∀ w ∈ ws, w.InRange nm) :
    ∀ w ∈ roi_writes name (set_integer_stage node v) ws, w.InRange nm := by
  intro w hw
  unfold roi_writes at hw
  split at hw
  · rename_i x hx
    rcases List.mem_append.mp hw with h | h
    · exact hws w h
    · rw [List.mem_singleton.mp h]
      exact integer_write_in_range nm name node v x hnode hx
  · exact hws w hw

/-- One node of the calibration tools' `config_roi` keeps the log in range. -/
theorem roi_node_in_range (nm : NodeMap) (name : String) (node : IntegerNode) (v : Int)
    (ws ws' : List Write) (hnode : nm.integer_node name = some node)
    (hws : ∀ w ∈ ws, w.InRange nm) (h : Trackbar.roi_node name node v ws = some ws') :
    ∀ w ∈ ws', w.InRange nm := by
  unfold Trackbar.roi_node at h
  split at h
  · exact absurd h (by simp)
  · exact absurd h (by simp)
  · simp only [Option.some.injEq] at h
    subst h
    exact hws
  · rename_i x hx
    simp only [Option.some.injEq] at h
    subst h
    intro w hw
    rcases List.mem_append.mp hw with h | h
    · exact hws w h
    · rw [List.mem_singleton.mp h]
      exact integer_write_in_range nm name node v x hnode hx

/-- Every write of `CAMERA_MANAGER::config_roi` lies in the range of its node. -/
theorem manager_config_roi_in_range (nm : NodeMap) (offset_x offset_y width height : Int) :
    ∀ w ∈ (CAMERA_MANAGER.config_roi nm offset_x offset_y width height).writes,
      w.InRange nm := by
  have h0 : ∀ w ∈ ([] : List Write), w.InRange nm := by simp
  have h1 := roi_writes_in_range nm "Width" nm.Width width [] rfl h0
  have h2 := roi_writes_in_range nm "OffsetX" nm.OffsetX offset_x _ rfl h1
  have h3 := roi_writes_in_range nm "Height" nm.Height height _ rfl h2
  have h4 := roi_writes_in_range nm "OffsetY" nm.OffsetY offset_y _ rfl h3
  unfold CAMERA_MANAGER.config_roi
  dsimp only
  repeat' split
  all_goals first | exact h0 | exact h1 | exact h2 | exact h3 | exact h4

/-- Every write of the calibration tools' `config_roi` lies in the range of its node. -/
theorem trackbar_config_roi_in_range (nm : NodeMap) (width height offset_x offset_y : Int) :
    ∀ w ∈ (Trackbar.config_roi nm width height offset_x offset_y).writes, w.InRange nm := by
  have h0 : ∀ w ∈ ([] : List Write), w.InRange nm := by simp
  unfold Trackbar.config_roi
  split
  · exact h0
  · rename_i w1 e1
    have h1 := roi_node_in_range nm "OffsetX" nm.OffsetX offset_x [] w1 rfl h0 e1
    split
    · exact h1
    · rename_i w2 e2
      have h2 := roi_node_in_range nm "OffsetY" nm.OffsetY offset_y w1 w2 rfl h1 e2
      split
      · exact h2
      · rename_i w3 e3
        have h3 := roi_node_in_range nm "Width" nm.Width width w2 w3 rfl h2 e3
        split
        · exact h3
        · rename_i w4 e4
          exact roi_node_in_range nm "Height" nm.Height height w3 w4 rfl h3 e4

/-- Every write of the capture tool's `config_roi` lies in the range of its node. -/
theorem infinity_config_roi_in_range (nm : NodeMap) (width height : Int) :
    ∀ w ∈ (Infinity.config_roi nm width height).writes, w.InRange nm := by
  have h0 : ∀ w ∈ ([] : List Write), w.InRange nm := by simp
  have h1 := roi_writes_in_range nm "Width" nm.Width width [] rfl h0
  have h2 := roi_writes_in_range nm "Height" nm.Height height _ rfl h1
  unfold Infinity.config_roi
  repeat' split
  all_goals first | exact h0 | exact h1 | exact h2

/-- Every write of the three `config_roi` functions lies in the range of its node. -/
theorem roi_runs_in_range (nm : NodeMap) (width height offset_x offset_y : Int)
    (ws : List Write) (hrun : ws ∈ roi_configurator_runs nm width height offset_x offset_y) :
    ∀ w ∈ ws, w.InRange nm := by
  simp only [roi_configurator_runs, List.mem_cons, List.mem_singleton, List.not_mem_nil,
    or_false] at hrun
  rcases hrun with rfl | rfl | rfl
  · exact infinity_config_roi_in_range nm width height
  · exact trackbar_config_roi_in_range nm width height offset_x offset_y
  · exact manager_config_roi_in_range nm offset_x offset_y width height

/-- C2. Values are never applied out of range: whenever a configurator writes a numeric
setting (the float settings exposure, gain, gamma, sharpening, saturation of every tool,
and the integers `Width`, `Height`, `OffsetX`, `OffsetY` written by the three `config_roi`)
to a node that reports a range `[min, max]` with `min ≤ max`, the written value `w`
satisfies `min ≤ w ≤ max`. -/
theorem written_values_in_range (nm : NodeMap) (s : Infinity.camera_settings) (v : ℚ)
    (slider : Int) (node_maps : List NodeMap) (width height offset_x offset_y : Int) :
    (∀ name req ws, (name, req, ws) ∈ float_configurator_runs nm s v slider →
      ∀ w ∈ ws, w.InRange nm) ∧
    (∀ ws ∈ roi_configurator_runs nm width height offset_x offset_y, ∀ w ∈ ws, w.InRange nm) ∧
    (∀ name ws, (name, ws) ∈ manager_configurator_runs node_maps v →
      ∀ e ∈ ws, ∃ cam, node_maps[e.1]? = some cam ∧ e.2.InRange cam) := by
  refine ⟨?_, ?_, ?_⟩
  · intro name req ws hrun w hw
    obtain ⟨node, hnode, hall⟩ := single_runs_clamped nm s v slider name req ws hrun
    exact Write.inRange_of_isClampOf nm name req node hnode w (hall w hw)
  · intro ws hrun
    exact roi_runs_in_range nm width height offset_x offset_y ws hrun
  · intro name ws hrun e he
    obtain ⟨cam, node, hget, hnode, h⟩ := manager_runs_clamped node_maps v name ws hrun e he
    exact ⟨cam, hget, Write.inRange_of_isClampOf cam name v node hnode e.2 h⟩

/-- The witness of C2: on the sample camera the second ROI of the dual-camera tool writes
`OffsetX = 1216`, inside the reported `[0, 1232]`, and the capture tool writes a requested
gain of 50 dB as a value inside the reported `[0, 48]`. -/
theorem written_values_in_range_witness :
    (Write.integer "OffsetX" 1216 ∈ (CAMERA_MANAGER.config_roi NodeMap.sample 1216 0 1216 352).writes
      ∧ (Write.integer "OffsetX" 1216).InRange NodeMap.sample) ∧
    (Write.float "Gain" 48 ∈ (Infinity.config_gain NodeMap.sample ⟨1200, 50, 0, 1, 0⟩).1.writes
      ∧ (Write.float "Gain" 48).InRange NodeMap.sample) := by
  have hmem1 : Write.integer "OffsetX" 1216 ∈
      (CAMERA_MANAGER.config_roi NodeMap.sample 1216 0 1216 352).writes := by decide
  have hmem2 : Write.float "Gain" 48 ∈
      (Infinity.config_gain NodeMap.sample ⟨1200, 50, 0, 1, 0⟩).1.writes := by decide
  have h := written_values_in_range NodeMap.sample ⟨1200, 50, 0, 1, 0⟩ 0 0 [] 1216 352 1216 0
  exact ⟨⟨hmem1, h.2.1 _ (by simp [roi_configurator_runs]) _ hmem1⟩,
    ⟨hmem2, h.1 "Gain" 50 _ (by simp [float_configurator_runs]) _ hmem2⟩⟩

/-! ### File names of the dual-camera tool -/

/-- C3. Evaluation of the code at the running count 8: `acquire_images` passes `8 % 5 = 3`
to `capture_image`, which writes `3 % 3 = 0` into the file name; this is neither
`8 mod 3 = 2` nor `8 mod 5 = 3`. -/
theorem file_name_index_at_eight :
    CAMERA_MANAGER.acquire_circular_index 8 = 3 ∧
    CAMERA_MANAGER.file_name_index 8 = 0 ∧
    CAMERA_MANAGER.file_name_index 8 ≠ 8 % 3 ∧
    CAMERA_MANAGER.file_name_index 8 ≠ 8 % 5 ∧
    CAMERA_MANAGER.capture_image CAMERA_MANAGER.Grab.ok "/data/".toList "2041".toList
        (CAMERA_MANAGER.acquire_circular_index 8) 1216
      = some "/data/Serial_2041_OffsetX_1216_Image_0.jpg".toList := by
  decide

/-- The decimal digits of a value below 3 are the one character `0`, `1` or `2`. -/
theorem to_string_unsigned_mod_three (n : Nat) :
    to_string_unsigned (n % 3) = ['0'] ∨ to_string_unsigned (n % 3) = ['1'] ∨
      to_string_unsigned (n % 3) = ['2'] := by
  have h : n % 3 < 3 := Nat.mod_lt n (by decide)
  generalize n % 3 = m at h
  interval_cases m
  · exact Or.inl (by decide)
  · exact Or.inr (Or.inl (by decide))
  · exact Or.inr (Or.inr (by decide))

/-- The running count stays an `unsigned int`, also after it has wrapped around. -/
theorem count_after_lt (k : Nat) : CAMERA_MANAGER.count_after k < 2 ^ 32 := by
  cases k with
  | zero => decide
  | succ k => exact Nat.mod_lt _ (by decide)

/-- C4. The saved file-name index never grows unbounded: for every `image_index` passed to
`capture_image` and for every running count (any value, and the count after any number `k`
of increments, wrap-around included) the index written into the file name is 0, 1 or 2, and
the name of a saved file ends in `_Image_0.jpg`, `_Image_1.jpg` or `_Image_2.jpg`. -/
theorem file_name_index_bounded (image_index image_count k : Nat) (g : CAMERA_MANAGER.Grab)
    (folder_path device_serial : List Char) (offset_x : Int) :
    CAMERA_MANAGER.capture_circular_index image_index ∈ [0, 1, 2] ∧
    CAMERA_MANAGER.file_name_index image_count ∈ [0, 1, 2] ∧
    CAMERA_MANAGER.file_name_index (CAMERA_MANAGER.count_after k) ∈ [0, 1, 2] ∧
    (∀ p, CAMERA_MANAGER.capture_image g folder_path device_serial image_index offset_x = some p →
      ∃ d ∈ ['0', '1', '2'],
        p = folder_path ++ "Serial_".toList ++ device_serial ++ "_OffsetX_".toList
          ++ to_string_signed offset_x ++ "_Image_".toList ++ [d] ++ ".jpg".toList) := by
  have hmod : ∀ m : Nat, m % 3 ∈ [0, 1, 2] := by
    intro m
    have h : m % 3 < 3 := Nat.mod_lt m (by decide)
    generalize m % 3 = r at h
    interval_cases r <;> simp
  refine ⟨hmod _, hmod _, hmod _, ?_⟩
  intro p hp
  unfold CAMERA_MANAGER.capture_image at hp
  split_ifs at hp
  simp only [Option.some.injEq] at hp
  subst hp
  unfold CAMERA_MANAGER.full_filename CAMERA_MANAGER.capture_circular_index
  rcases to_string_unsigned_mod_three image_index with h | h | h
  · exact ⟨'0', by simp, by rw [h]⟩
  · exact ⟨'1', by simp, by rw [h]⟩
  · exact ⟨'2', by simp, by rw [h]⟩

/-- Before it wraps, the running count after `k` visits is `k`. -/
theorem count_after_eq (k : Nat) (h : k < 2 ^ 32) : CAMERA_MANAGER.count_after k = k := by
  induction k with
  | zero => rfl
  | succ k ih =>
    rw [CAMERA_MANAGER.count_after, ih (by omega), CAMERA_MANAGER.increment_count]
    exact Nat.mod_eq_of_lt h

/-- C5. For the successive running counts `n = 0, 1, 2, ...` of one (camera, offset) pair the
file-name index has period 5, `index (n + 5) = index n` for every `n`, and no shorter one:
for each `p` from 1 to 4 some count `n` (with `n + p` still an `unsigned int`) has
`index (n + p) ≠ index n`.  The counts are those the counter of `acquire_images` takes:
visit `k + 5` of a pair is saved under the index of visit `k`, as long as the counter has
not wrapped. -/
theorem file_name_index_period :
    (∀ n, CAMERA_MANAGER.file_name_index (n + 5) = CAMERA_MANAGER.file_name_index n) ∧
    (∀ p, 1 ≤ p → p ≤ 4 →
      ∃ n, n + p < 2 ^ 32 ∧
        CAMERA_MANAGER.file_name_index (n + p) ≠ CAMERA_MANAGER.file_name_index n) ∧
    (∀ k, k + 5 < 2 ^ 32 →
      CAMERA_MANAGER.file_name_index (CAMERA_MANAGER.count_after (k + 5))
        = CAMERA_MANAGER.file_name_index (CAMERA_MANAGER.count_after k)) := by
  have hperiod : ∀ n,
      CAMERA_MANAGER.file_name_index (n + 5) = CAMERA_MANAGER.file_name_index n := by
    intro n
    unfold CAMERA_MANAGER.file_name_index CAMERA_MANAGER.acquire_circular_index
    rw [Nat.add_mod_right]
  refine ⟨hperiod, ?_, ?_⟩
  · intro p h1 h4
    interval_cases p
    · exact ⟨0, by decide, by decide⟩
    · exact ⟨0, by decide, by decide⟩
    · exact ⟨2, by decide, by decide⟩
    · exact ⟨0, by decide, by decide⟩
  · intro k hk
    rw [count_after_eq (k + 5) hk, count_after_eq k (by omega)]
    exact hperiod k

/-- The witness of C5: 3 is not a period, since the indices at the counts 2 and 5 differ. -/
theorem file_name_index_period_witness :
    (1 ≤ 3 ∧ 3 ≤ 4) ∧
    ∃ n, n + 3 < 2 ^ 32 ∧
      CAMERA_MANAGER.file_name_index (n + 3) ≠ CAMERA_MANAGER.file_name_index n :=
  ⟨by decide, file_name_index_period.2.1 3 (by decide) (by decide)⟩

/-- The witness of C4: the eighth image of the offset 1216 is saved under the index 1. -/
theorem file_name_index_bounded_witness :
    CAMERA_MANAGER.capture_image CAMERA_MANAGER.Grab.ok "/data/".toList "2041".toList 7 1216
      = some "/data/Serial_2041_OffsetX_1216_Image_1.jpg".toList ∧
    ∃ d ∈ ['0', '1', '2'],
      "/data/Serial_2041_OffsetX_1216_Image_1.jpg".toList
        = "/data/".toList ++ "Serial_".toList ++ "2041".toList ++ "_OffsetX_".toList
          ++ to_string_signed 1216 ++ "_Image_".toList ++ [d] ++ ".jpg".toList :=
  ⟨by decide,
    (file_name_index_bounded 7 0 0 CAMERA_MANAGER.Grab.ok "/data/".toList "2041".toList
      1216).2.2.2 _ (by decide)⟩

/-- The function `to_string_unsigned` is the decimal rendering of a natural number. -/
theorem to_string_unsigned_eq (n : Nat) : to_string_unsigned n = (toString n).toList := rfl

/-- The function `to_string_signed` is the decimal rendering of an integer, with a leading
`-` for a negative one. -/
theorem to_string_signed_eq (x : Int) : to_string_signed x = (toString x).toList := by
  unfold to_string_signed
  cases x with
  | ofNat m =>
    have h : ¬ (Int.ofNat m < 0) := by simp
    rw [if_neg h]
    rfl
  | negSucc m =>
    have h : Int.negSucc m < 0 := Int.negSucc_lt_zero m
    rw [if_pos h]
    rfl

/-- C6. For every `folder_path`, `device_serial`, `offset_x` and `image_index`,
`capture_image` saves a complete frame (one that arrives complete and is converted and
saved without an SDK exception) to the path
`folder_path ++ "Serial_" ++ serial ++ "_OffsetX_" ++ dec offset_x ++ "_Image_" ++
dec (image_index mod 3) ++ ".jpg"`, `dec` being the decimal rendering, and whenever it
saves a file it is to exactly this path. -/
theorem capture_image_saves_to_path (g : CAMERA_MANAGER.Grab)
    (folder_path device_serial : List Char) (image_index : Nat) (offset_x : Int) :
    (g = CAMERA_MANAGER.Grab.ok →
      CAMERA_MANAGER.capture_image g folder_path device_serial image_index offset_x
        = some (folder_path ++ "Serial_".toList ++ device_serial ++ "_OffsetX_".toList
            ++ (toString offset_x).toList ++ "_Image_".toList
            ++ (toString (image_index % 3)).toList ++ ".jpg".toList)) ∧
    (∀ p, CAMERA_MANAGER.capture_image g folder_path device_serial image_index offset_x = some p →
      p = folder_path ++ "Serial_".toList ++ device_serial ++ "_OffsetX_".toList
            ++ (toString offset_x).toList ++ "_Image_".toList
            ++ (toString (image_index % 3)).toList ++ ".jpg".toList) := by
  have hname : CAMERA_MANAGER.full_filename folder_path device_serial image_index offset_x
      = folder_path ++ "Serial_".toList ++ device_serial ++ "_OffsetX_".toList
            ++ (toString offset_x).toList ++ "_Image_".toList
            ++ (toString (image_index % 3)).toList ++ ".jpg".toList := by
    unfold CAMERA_MANAGER.full_filename CAMERA_MANAGER.capture_circular_index
    rw [to_string_signed_eq, to_string_unsigned_eq]
  constructor
  · intro hg
    subst hg
    rw [← hname]
    rfl
  · intro p hp
    unfold CAMERA_MANAGER.capture_image at hp
    split_ifs at hp
    simp only [Option.some.injEq] at hp
    rw [← hp, hname]

/-- The witness of C6: the complete frame of image index 4 at the offset -8 is saved as
`/data/Serial_2041_OffsetX_-8_Image_1.jpg`. -/
theorem capture_image_saves_to_path_witness :
    CAMERA_MANAGER.capture_image CAMERA_MANAGER.Grab.ok "/data/".toList "2041".toList 4 (-8)
      = some ("/data/".toList ++ "Serial_".toList ++ "2041".toList ++ "_OffsetX_".toList
            ++ (toString (-8 : Int)).toList ++ "_Image_".toList
            ++ (toString (4 % 3)).toList ++ ".jpg".toList) ∧
    ("/data/".toList ++ "Serial_".toList ++ "2041".toList ++ "_OffsetX_".toList
            ++ (toString (-8 : Int)).toList ++ "_Image_".toList
            ++ (toString (4 % 3)).toList ++ ".jpg".toList)
      = "/data/Serial_2041_OffsetX_-8_Image_1.jpg".toList :=
  ⟨(capture_image_saves_to_path CAMERA_MANAGER.Grab.ok "/data/".toList "2041".toList 4
      (-8)).1 rfl, by decide⟩

/-! ### The frame timeout -/

/-- The cast `static_cast<uint64_t>` truncates: on a value `x` with `e ≤ x < e + 1` for a
natural number `e` below `2 ^ 64` it gives `e`. -/
theorem static_cast_uint64_truncates (x : ℚ) (e : Nat) (h1 : (e : ℚ) ≤ x) (h2 : x < e + 1)
    (h3 : e < 2 ^ 64) : static_cast_uint64 x = e := by
  have h0 : (0 : ℚ) ≤ x := le_trans (Nat.cast_nonneg e) h1
  have hfloor : ⌊x⌋ = (e : Int) := by
    rw [Int.floor_eq_iff]
    exact ⟨by exact_mod_cast h1, by exact_mod_cast h2⟩
  unfold static_cast_uint64 static_cast_int
  rw [if_pos h0, hfloor, Int.toNat_ofNat, Nat.mod_eq_of_lt h3]

/-- C7. When the `ExposureTime` node is readable (and the SDK does not raise),
`calculate_exposure_timeout` returns `e + max 10 (e / 10)` in `uint64_t` arithmetic, where
`e` is the exposure time in microseconds divided by 1000 and truncated: the natural number
with `e ≤ exposure / 1000 < e + 1`, below `2 ^ 64`.  The sum is taken modulo `2 ^ 64`, which
is the exact sum whenever the sum is below `2 ^ 64`.  The function returns 100 when the node
is not readable or the SDK raises. -/
theorem calculate_exposure_timeout_value (node : FloatNode) (exposure : ℚ) :
    (node.readable = true → node.faulty = false →
      ∀ e : Nat, (e : ℚ) ≤ exposure / 1000 → exposure / 1000 < (e : ℚ) + 1 → e < 2 ^ 64 →
        CAMERA_MANAGER.calculate_exposure_timeout node exposure
            = (e + max 10 (e / 10)) % 2 ^ 64 ∧
        (e + max 10 (e / 10) < 2 ^ 64 →
          CAMERA_MANAGER.calculate_exposure_timeout node exposure = e + max 10 (e / 10))) ∧
    (node.readable = false → CAMERA_MANAGER.calculate_exposure_timeout node exposure = 100) ∧
    (node.faulty = true → CAMERA_MANAGER.calculate_exposure_timeout node exposure = 100) := by
  refine ⟨?_, ?_, ?_⟩
  · intro hr hf e h1 h2 h3
    have h : CAMERA_MANAGER.calculate_exposure_timeout node exposure
        = (e + max 10 (e / 10)) % 2 ^ 64 := by
      rw [← static_cast_uint64_truncates (exposure / 1000) e h1 h2 h3]
      simp [CAMERA_MANAGER.calculate_exposure_timeout, hr, hf]
    exact ⟨h, fun hlt => by rw [h, Nat.mod_eq_of_lt hlt]⟩
  · intro hr
    simp [CAMERA_MANAGER.calculate_exposure_timeout, hr]
  · intro hf
    simp [CAMERA_MANAGER.calculate_exposure_timeout, hf]

/-- The truncation of 500000 / 1000 is 500. -/
theorem static_cast_uint64_sample : static_cast_uint64 (500000 / 1000) = 500 := by
  have h : (500000 / 1000 : ℚ) = ((500 : Int) : ℚ) := by norm_num
  unfold static_cast_uint64 static_cast_int
  rw [h, if_pos (by norm_num), Int.floor_intCast]
  decide

/-- The witness of C7: an exposure of 123456.7 µs is 123.4567 ms, truncated to 123 ms, and
the timeout is 123 + 12 ms; an exposure of 20999.9 µs is truncated to 20 ms and the timeout
is 20 + 10 ms; an exposure of 999.9 µs is truncated to 0 ms and the timeout is 10 ms; with a
node that is not readable, or an SDK call that raises, the timeout is 100 ms. -/
theorem calculate_exposure_timeout_value_witness :
    CAMERA_MANAGER.calculate_exposure_timeout (FloatNode.ok 33 500000) (1234567 / 10) = 135 ∧
    CAMERA_MANAGER.calculate_exposure_timeout (FloatNode.ok 33 500000) (209999 / 10) = 30 ∧
    CAMERA_MANAGER.calculate_exposure_timeout (FloatNode.ok 33 500000) (9999 / 10) = 10 ∧
    CAMERA_MANAGER.calculate_exposure_timeout ⟨false, false, 33, 500000, false⟩ 500000 = 100 ∧
    CAMERA_MANAGER.calculate_exposure_timeout ⟨true, true, 33, 500000, true⟩ 500000 = 100 :=
  ⟨((calculate_exposure_timeout_value (FloatNode.ok 33 500000) (1234567 / 10)).1 rfl rfl 123
      (by norm_num) (by norm_num) (by norm_num)).2 (by decide),
    ((calculate_exposure_timeout_value (FloatNode.ok 33 500000) (209999 / 10)).1 rfl rfl 20
      (by norm_num) (by norm_num) (by norm_num)).2 (by decide),
    ((calculate_exposure_timeout_value (FloatNode.ok 33 500000) (9999 / 10)).1 rfl rfl 0
      (by norm_num) (by norm_num) (by norm_num)).2 (by decide),
    (calculate_exposure_timeout_value ⟨false, false, 33, 500000, false⟩ 500000).2.1 rfl,
    (calculate_exposure_timeout_value ⟨true, true, 33, 500000, true⟩ 500000).2.2 rfl⟩

/-! ### Reading a number -/

/-- Skipping over a run that satisfies the test. -/
theorem dropWhile_append_of_all (p : Char → Bool) (w l : List Char)
    (hw : ∀ c ∈ w, p c = true) : (w ++ l).dropWhile p = l.dropWhile p := by
  induction w with
  | nil => rfl
  | cons a w ih =>
    have ha : p a = true := hw a (List.mem_cons_self a w)
    have hw' : ∀ c ∈ w, p c = true := fun c hc => hw c (List.mem_cons_of_mem a hc)
    simp [List.dropWhile_cons, ha, ih hw']

/-- A text whose first character fails the test is not skipped. -/
theorem dropWhile_of_head (p : Char → Bool) (l : List Char)
    (hl : ∀ c, l.head? = some c → p c = false) : l.dropWhile p = l := by
  cases l with
  | nil => rfl
  | cons a l => simp [List.dropWhile_cons, hl a rfl]

/-- A text whose first character fails the test gives an empty run. -/
theorem takeWhile_of_head (p : Char → Bool) (l : List Char)
    (hl : ∀ c, l.head? = some c → p c = false) : l.takeWhile p = [] := by
  cases l with
  | nil => rfl
  | cons a l => simp [List.takeWhile_cons, hl a rfl]

/-- The run taken from a run followed by a text that stops it. -/
theorem takeWhile_append_of_all (p : Char → Bool) (w l : List Char)
    (hw : ∀ c ∈ w, p c = true) (hl : ∀ c, l.head? = some c → p c = false) :
    (w ++ l).takeWhile p = w := by
  induction w with
  | nil => exact takeWhile_of_head p l hl
  | cons a w ih =>
    have ha : p a = true := hw a (List.mem_cons_self a w)
    have hw' : ∀ c ∈ w, p c = true := fun c hc => hw c (List.mem_cons_of_mem a hc)
    simp [List.takeWhile_cons, ha, ih hw']

/-- What is left after a run followed by a text that stops it. -/
theorem dropWhile_append_stop (p : Char → Bool) (w l : List Char)
    (hw : ∀ c ∈ w, p c = true) (hl : ∀ c, l.head? = some c → p c = false) :
    (w ++ l).dropWhile p = l := by
  rw [dropWhile_append_of_all p w l hw, dropWhile_of_head p l hl]

/-- A digit is none of the characters the reader treats specially. -/
theorem isdigit_ne (c : Char) (h : isdigit c = true) :
    c ≠ '-' ∧ c ≠ '+' ∧ c ≠ '.' ∧ c ≠ 'e' ∧ c ≠ 'E' ∧ c ≠ ':' ∧ isspace c = false := by
  refine ⟨?_, ?_, ?_, ?_, ?_, ?_, ?_⟩
  · rintro rfl; exact absurd h (by decide)
  · rintro rfl; exact absurd h (by decide)
  · rintro rfl; exact absurd h (by decide)
  · rintro rfl; exact absurd h (by decide)
  · rintro rfl; exact absurd h (by decide)
  · rintro rfl; exact absurd h (by decide)
  · simp only [isdigit, Bool.and_eq_true, decide_eq_true_eq] at h
    have hne : c ≠ ' ' := by
      rintro rfl
      exact absurd h.1 (by decide)
    simp only [isspace, Bool.or_eq_false_iff, decide_eq_false_iff_not, Bool.and_eq_false_imp,
      decide_eq_true_eq]
    exact ⟨hne, fun _ => by omega⟩

/-- Reading a sign that is written before a text that does not start with one. -/
theorem read_sign_sign_text (sg : Option Bool) (l : List Char)
    (hl : ∀ c, l.head? = some c → c ≠ '-' ∧ c ≠ '+') :
    read_sign (sign_text sg ++ l) = (decide (sg = some true), l) := by
  cases sg with
  | none =>
    cases l with
    | nil => rfl
    | cons c t =>
      obtain ⟨h1, h2⟩ := hl c rfl
      simp [read_sign, sign_text, h1, h2]
  | some b =>
    cases b <;> simp [read_sign, sign_text]

/-- Reading the exponent of a literal, before a text that does not extend it. -/
theorem read_exponent_text (e : Option Exponent) (r : List Char)
    (he : ∀ x, e = some x → x.digits ≠ [] ∧ ∀ c ∈ x.digits, isdigit c = true)
    (hr : EndsLiteral r) :
    read_exponent (exponent_text e ++ r) = some (exponent_scale e) := by
  cases e with
  | none =>
    cases r with
    | nil => rfl
    | cons c t =>
      obtain ⟨-, -, h3, h4⟩ := hr c rfl
      simp [read_exponent, exponent_text, exponent_scale, h3, h4]
  | some x =>
    obtain ⟨hne, hdig⟩ := he x rfl
    have hhead : ∀ c, (x.digits ++ r).head? = some c → c ≠ '-' ∧ c ≠ '+' := by
      intro c hc
      cases hx : x.digits with
      | nil => exact absurd hx hne
      | cons a t =>
        rw [hx] at hc
        simp only [List.cons_append, List.head?_cons, Option.some.injEq] at hc
        subst hc
        have := isdigit_ne a (hdig a (by rw [hx]; exact List.mem_cons_self a t))
        exact ⟨this.1, this.2.1⟩
    have hsign : read_sign (sign_text x.sign ++ x.digits ++ r)
        = (decide (x.sign = some true), x.digits ++ r) := by
      rw [List.append_assoc]
      exact read_sign_sign_text x.sign (x.digits ++ r) hhead
    have htake : (x.digits ++ r).takeWhile isdigit = x.digits :=
      takeWhile_append_of_all isdigit x.digits r hdig (fun c hc => (hr c hc).1)
    have hE : ∀ t, read_exponent ((if x.upper then 'E' else 'e') :: t)
        = if ((read_sign t).2.takeWhile isdigit) = [] then none
          else if (read_sign t).1 then
            some (1 / 10 ^ digits_value ((read_sign t).2.takeWhile isdigit))
          else some (10 ^ digits_value ((read_sign t).2.takeWhile isdigit)) := by
      intro t
      cases x.upper <;> simp [read_exponent]
    simp only [exponent_text, exponent_scale, Exponent.text, List.cons_append]
    rw [hE, hsign]
    simp only [htake, if_neg hne, Exponent.scale]
    by_cases hs : x.sign = some true <;> simp [hs]

/-- Reading the point and the fraction of a literal, before a text that stops them. -/
theorem read_fraction_text (point : Bool) (fraction x : List Char)
    (hf : ∀ c ∈ fraction, isdigit c = true) (hp : point = false → fraction = [])
    (hx : ∀ c, x.head? = some c → isdigit c = false ∧ c ≠ '.') :
    read_fraction ((if point then '.' :: fraction else []) ++ x) = (fraction, x) := by
  cases point with
  | true =>
    simp only [if_true, List.cons_append, read_fraction]
    rw [takeWhile_append_of_all isdigit fraction x hf (fun c hc => (hx c hc).1),
      dropWhile_append_stop isdigit fraction x hf (fun c hc => (hx c hc).1)]
  | false =>
    rw [hp rfl]
    cases x with
    | nil => rfl
    | cons c t => simp [read_fraction, (hx c rfl).2]

/-- The first character after the integer part of a literal in a text, if there is one, is
neither a digit nor a sign. -/
theorem tail_text_head (d : DecimalLiteral) (r : List Char) (hr : EndsLiteral r) :
    ∀ c, (d.tail_text ++ r).head? = some c → isdigit c = false := by
  intro c hc
  unfold DecimalLiteral.tail_text at hc
  cases hp : d.point with
  | true =>
    simp only [hp, if_true, List.cons_append, List.head?_cons, Option.some.injEq] at hc
    subst hc
    decide
  | false =>
    cases he : d.exponent with
    | none =>
      simp only [hp, he, exponent_text, Bool.false_eq_true, if_false, List.nil_append] at hc
      exact (hr c hc).1
    | some x =>
      simp only [hp, he, exponent_text, Exponent.text, Bool.false_eq_true, if_false,
        List.nil_append, List.cons_append, List.head?_cons, Option.some.injEq] at hc
      subst hc
      cases x.upper <;> decide

/-- The first character after the fraction of a literal in a text, if there is one, is
neither a digit nor a point. -/
theorem exponent_text_head (e : Option Exponent) (r : List Char) (hr : EndsLiteral r) :
    ∀ c, (exponent_text e ++ r).head? = some c → isdigit c = false ∧ c ≠ '.' := by
  intro c hc
  cases e with
  | none =>
    have h := hr c (by simpa [exponent_text] using hc)
    exact ⟨h.1, h.2.1⟩
  | some x =>
    simp only [exponent_text, Exponent.text, List.cons_append, List.head?_cons,
      Option.some.injEq] at hc
    subst hc
    cases x.upper <;> exact ⟨by decide, by decide⟩

/-- The power of ten of an exponent is positive. -/
theorem exponent_scale_pos (e : Option Exponent) : 0 < exponent_scale e := by
  cases e with
  | none => exact one_pos
  | some x =>
    show 0 < x.scale
    unfold Exponent.scale
    split_ifs <;> positivity

/-- The magnitude of the number a literal denotes. -/
theorem literal_magnitude (d : DecimalLiteral) :
    |d.value| = ((digits_value d.whole : ℚ)
      + (digits_value d.fraction : ℚ) / 10 ^ d.fraction.length) * exponent_scale d.exponent := by
  have h0 : (0 : ℚ) ≤ ((digits_value d.whole : ℚ)
      + (digits_value d.fraction : ℚ) / 10 ^ d.fraction.length) * exponent_scale d.exponent :=
    mul_nonneg (add_nonneg (Nat.cast_nonneg _) (div_nonneg (Nat.cast_nonneg _) (by positivity)))
      (le_of_lt (exponent_scale_pos _))
  unfold DecimalLiteral.value
  rw [abs_mul, abs_of_nonneg h0]
  split_ifs <;> simp

/-- The field reader on a literal written before a text that does not extend it: the number
the literal denotes, or an overflow when its magnitude is too large for a `double`. -/
theorem extract_field_literal_cases (d : DecimalLiteral) (r : List Char) (hd : d.WellFormed)
    (hr : EndsLiteral r) :
    extract_field (d.text ++ r)
      = if overflow_threshold ≤ |d.value| then Extracted.overflow (decide (d.sign = some true))
        else Extracted.value d.value := by
  obtain ⟨hw, hf, hne, hp, he⟩ := hd
  have hbody_head : ∀ c, (d.whole ++ d.tail_text ++ r).head? = some c → c ≠ '-' ∧ c ≠ '+' := by
    intro c hc
    cases hwh : d.whole with
    | nil =>
      rw [hwh, List.nil_append] at hc
      unfold DecimalLiteral.tail_text at hc
      cases hpt : d.point with
      | true =>
        simp only [hpt, if_true, List.cons_append, List.head?_cons, Option.some.injEq] at hc
        subst hc
        exact ⟨by decide, by decide⟩
      | false =>
        have hfr : d.fraction = [] := hp hpt
        rcases hne with h | h
        · exact absurd hwh h
        · exact absurd hfr h
    | cons a t =>
      rw [hwh] at hc
      simp only [List.cons_append, List.head?_cons, Option.some.injEq] at hc
      subst hc
      have := isdigit_ne a (hw a (by rw [hwh]; exact List.mem_cons_self a t))
      exact ⟨this.1, this.2.1⟩
  have hsign : read_sign (d.text ++ r)
      = (decide (d.sign = some true), d.whole ++ (d.tail_text ++ r)) := by
    unfold DecimalLiteral.text
    rw [List.append_assoc, List.append_assoc]
    exact read_sign_sign_text d.sign _ (by rw [← List.append_assoc]; exact hbody_head)
  have hwhole : (d.whole ++ (d.tail_text ++ r)).takeWhile isdigit = d.whole :=
    takeWhile_append_of_all isdigit d.whole _ hw (tail_text_head d r hr)
  have hafter : (d.whole ++ (d.tail_text ++ r)).dropWhile isdigit = d.tail_text ++ r :=
    dropWhile_append_stop isdigit d.whole _ hw (tail_text_head d r hr)
  have hfrac : read_fraction (d.tail_text ++ r)
      = (d.fraction, exponent_text d.exponent ++ r) := by
    unfold DecimalLiteral.tail_text
    rw [List.append_assoc]
    exact read_fraction_text d.point d.fraction _ hf hp (exponent_text_head d.exponent r hr)
  have hexp := read_exponent_text d.exponent r he hr
  have hnot : ¬ (d.whole = [] ∧ d.fraction = []) := by
    rintro ⟨h1, h2⟩
    rcases hne with h | h
    · exact h h1
    · exact h h2
  unfold extract_field
  simp only [hsign, hwhole, hafter, hfrac, hexp, if_neg hnot]
  rw [literal_magnitude d]
  by_cases hov : overflow_threshold ≤ ((digits_value d.whole : ℚ)
      + (digits_value d.fraction : ℚ) / 10 ^ d.fraction.length) * exponent_scale d.exponent
  · rw [if_pos hov, if_pos hov]
  · rw [if_neg hov, if_neg hov]
    unfold DecimalLiteral.value
    by_cases hs : d.sign = some true <;> simp [hs]

/-- The field reader converts a literal that denotes a finite `double`, written before a text
that does not extend it, to the number the literal denotes. -/
theorem extract_field_literal (d : DecimalLiteral) (r : List Char) (hd : d.WellFormed)
    (hfin : d.Finite) (hr : EndsLiteral r) :
    extract_field (d.text ++ r) = Extracted.value d.value := by
  rw [extract_field_literal_cases d r hd hr, if_neg (not_le.mpr hfin)]

/-- A literal starts with a character that is not white space. -/
theorem literal_text_head (d : DecimalLiteral) (r : List Char) (hd : d.WellFormed) :
    ∃ c t, d.text ++ r = c :: t ∧ isspace c = false := by
  obtain ⟨hw, hf, hne, hp, he⟩ := hd
  unfold DecimalLiteral.text
  cases hs : d.sign with
  | some b =>
    cases b
    · exact ⟨'+', _, rfl, by decide⟩
    · exact ⟨'-', _, rfl, by decide⟩
  | none =>
    cases hwh : d.whole with
    | cons a t =>
      exact ⟨a, _, rfl, (isdigit_ne a (hw a (by rw [hwh]; exact List.mem_cons_self a t))).2.2.2.2.2.2⟩
    | nil =>
      cases hpt : d.point with
      | true =>
        refine ⟨'.', d.fraction ++ exponent_text d.exponent ++ r, ?_, by decide⟩
        simp [sign_text, DecimalLiteral.tail_text, hpt]
      | false =>
        rcases hne with h | h
        · exact absurd hwh h
        · exact absurd (hp hpt) h

/-- White space, a literal, and a text that does not extend it: `stream >> value` reads the
field the literal makes. -/
theorem extract_double_field (w : List Char) (d : DecimalLiteral) (r : List Char)
    (hw : ∀ c ∈ w, isspace c = true) (hd : d.WellFormed) :
    extract_double (w ++ (d.text ++ r)) = extract_field (d.text ++ r) := by
  obtain ⟨c, t, hct, hc⟩ := literal_text_head d r hd
  have hdrop : (w ++ (d.text ++ r)).dropWhile isspace = c :: t := by
    rw [dropWhile_append_of_all isspace w _ hw, hct]
    exact dropWhile_of_head isspace (c :: t) (fun x hx => by
      simp only [List.head?_cons, Option.some.injEq] at hx
      rw [← hx]
      exact hc)
  unfold extract_double
  rw [hdrop]
  simp only
  rw [← hct]

/-- White space, a literal that denotes a finite `double`, and a text that does not extend
it: `stream >> value` reads the number the literal denotes. -/
theorem extract_double_literal (w : List Char) (d : DecimalLiteral) (r : List Char)
    (hw : ∀ c ∈ w, isspace c = true) (hd : d.WellFormed) (hfin : d.Finite)
    (hr : EndsLiteral r) :
    extract_double (w ++ (d.text ++ r)) = Extracted.value d.value := by
  rw [extract_double_field w d r hw hd]
  exact extract_field_literal d r hd hfin hr

/-- White space, a literal too large for a `double`, and a text that does not extend it:
`stream >> value` overflows. -/
theorem extract_double_overflow (w : List Char) (d : DecimalLiteral) (r : List Char)
    (hw : ∀ c ∈ w, isspace c = true) (hd : d.WellFormed) (hov : ¬ d.Finite)
    (hr : EndsLiteral r) :
    extract_double (w ++ (d.text ++ r)) = Extracted.overflow (decide (d.sign = some true)) := by
  rw [extract_double_field w d r hw hd, extract_field_literal_cases d r hd hr,
    if_pos (not_lt.mp hov)]

/-! ### The loaders -/

/-- The call `std::getline(stream, key, ':')` splits a line at its first colon. -/
theorem getline_colon_split (k rest : List Char) (hk : ':' ∉ k) :
    getline_colon (k ++ ':' :: rest) = some (k, rest) := by
  have hall : ∀ c ∈ k, (fun c : Char => decide (c ≠ ':')) c = true := by
    intro c hc
    have : c ≠ ':' := fun h => hk (h ▸ hc)
    simpa using this
  have hstop : ∀ c, (':' :: rest).head? = some c → (fun c : Char => decide (c ≠ ':')) c = false := by
    intro c hc
    simp only [List.head?_cons, Option.some.injEq] at hc
    subst hc
    decide
  have h1 := takeWhile_append_of_all _ k (':' :: rest) hall hstop
  have h2 := dropWhile_append_stop _ k (':' :: rest) hall hstop
  unfold getline_colon
  split
  · rename_i h
    exact absurd h (by simp)
  · rw [h1, h2]
    rfl

/-- Both loaders read the key and the number of a line made of a key without a colon, a
colon, white space, a literal and a text that does not extend it. -/
theorem parse_line_of_literal (k w : List Char) (d : DecimalLiteral) (r : List Char)
    (hk : ':' ∉ k) (hw : ∀ c ∈ w, isspace c = true) (hd : d.WellFormed) (hfin : d.Finite)
    (hr : EndsLiteral r) :
    CAMERA_SETTINGS.parse_line (k ++ ':' :: (w ++ (d.text ++ r))) = (k, d.value) ∧
    ∀ uninitialized,
      Infinity.extract_value_from_line uninitialized (k ++ ':' :: (w ++ (d.text ++ r)))
        = d.value := by
  have hx := extract_double_literal w d r hw hd hfin hr
  constructor
  · unfold CAMERA_SETTINGS.parse_line
    rw [getline_colon_split k _ hk]
    simp only [hx]
  · intro u
    have hall : ∀ c ∈ k, (fun c : Char => decide (c ≠ ':')) c = true := by
      intro c hc
      have : c ≠ ':' := fun h => hk (h ▸ hc)
      simpa using this
    have hstop : ∀ c, (':' :: (w ++ (d.text ++ r))).head? = some c →
        (fun c : Char => decide (c ≠ ':')) c = false := by
      intro c hc
      simp only [List.head?_cons, Option.some.injEq] at hc
      subst hc
      decide
    have h2 := dropWhile_append_stop _ k (':' :: (w ++ (d.text ++ r))) hall hstop
    unfold Infinity.extract_value_from_line
    rw [if_pos (by simp), h2]
    simp only [List.tail_cons, hx]

/-- A key without a colon, a colon, white space, a literal too large for a `double` and a
text that does not extend it: `parse_line` gives the error pair, and the capture tool's
`extract_value_from_line` the largest `double` with the sign of the literal. -/
theorem parse_line_of_overflow (k w : List Char) (d : DecimalLiteral) (r : List Char)
    (hk : ':' ∉ k) (hw : ∀ c ∈ w, isspace c = true) (hd : d.WellFormed) (hov : ¬ d.Finite)
    (hr : EndsLiteral r) :
    CAMERA_SETTINGS.parse_line (k ++ ':' :: (w ++ (d.text ++ r))) = ([], -1) ∧
    ∀ uninitialized,
      Infinity.extract_value_from_line uninitialized (k ++ ':' :: (w ++ (d.text ++ r)))
        = if d.sign = some true then -double_max else double_max := by
  have hx := extract_double_overflow w d r hw hd hov hr
  constructor
  · unfold CAMERA_SETTINGS.parse_line
    rw [getline_colon_split k _ hk]
    simp only [hx]
  · intro u
    have hall : ∀ c ∈ k, (fun c : Char => decide (c ≠ ':')) c = true := by
      intro c hc
      have : c ≠ ':' := fun h => hk (h ▸ hc)
      simpa using this
    have hstop : ∀ c, (':' :: (w ++ (d.text ++ r))).head? = some c →
        (fun c : Char => decide (c ≠ ':')) c = false := by
      intro c hc
      simp only [List.head?_cons, Option.some.injEq] at hc
      subst hc
      decide
    have h2 := dropWhile_append_stop _ k (':' :: (w ++ (d.text ++ r))) hall hstop
    unfold Infinity.extract_value_from_line
    rw [if_pos (by simp), h2]
    simp only [List.tail_cons, hx, decide_eq_true_eq]

/-- The literal `1e999` is well formed, denotes `10^999`, and is too large for a `double`. -/
theorem literal_overflow_spec :
    literal_overflow.WellFormed ∧ literal_overflow.text = "1e999".toList
      ∧ literal_overflow.value = 10 ^ 999 ∧ ¬ literal_overflow.Finite := by
  have h999 : digits_value ['9', '9', '9'] = 999 := by decide
  have h1 : digits_value ['1'] = 1 := by decide
  have hval : literal_overflow.value = 10 ^ 999 := by
    unfold DecimalLiteral.value literal_overflow exponent_scale Exponent.scale
    dsimp only
    rw [if_neg (by decide), if_neg (by decide), h999, h1]
    dsimp only [List.length]
    rw [show digits_value ([] : List Char) = 0 from rfl]
    simp only [Nat.cast_one, Nat.cast_zero, zero_div, add_zero, one_mul, pow_zero]
  refine ⟨⟨by decide, by decide, Or.inl (by decide), by decide, ?_⟩, by decide, hval, ?_⟩
  · intro e he
    simp only [literal_overflow, Option.some.injEq] at he
    subst he
    exact ⟨by decide, by decide⟩
  · unfold DecimalLiteral.Finite
    rw [hval, not_lt, abs_of_nonneg (by positivity)]
    unfold overflow_threshold
    norm_num

/-- C9, the counterexample.  The line `Exposure: 1e999` has the form of the claim (key
`Exposure`, a colon, a blank, the literal `1e999`, nothing after it), but the literal is too
large for a `double`: the extraction sets `failbit`, `parse_line` returns the error pair
`("", -1.0)` and not the key with the value of the literal, and `extract_value_from_line` of
the capture tool returns the largest `double`. -/
theorem parse_line_rejects_overflowing_literal :
    literal_overflow.WellFormed ∧ literal_overflow.text = "1e999".toList
      ∧ literal_overflow.value = 10 ^ 999
      ∧ "Exposure".toList ++ ':' :: (" ".toList ++ (literal_overflow.text ++ []))
        = "Exposure: 1e999".toList
      ∧ CAMERA_SETTINGS.parse_line "Exposure: 1e999".toList = ([], -1)
      ∧ CAMERA_SETTINGS.parse_line "Exposure: 1e999".toList
        ≠ ("Exposure".toList, literal_overflow.value)
      ∧ ∀ uninitialized,
        Infinity.extract_value_from_line uninitialized "Exposure: 1e999".toList
          = double_max := by
  obtain ⟨hwf, htext, hval, hov⟩ := literal_overflow_spec
  have hline : "Exposure".toList ++ ':' :: (" ".toList ++ (literal_overflow.text ++ []))
      = "Exposure: 1e999".toList := by decide
  have h := parse_line_of_overflow "Exposure".toList " ".toList literal_overflow []
    (by decide) (by decide) hwf hov (by intro c hc; cases hc)
  rw [hline] at h
  refine ⟨hwf, htext, hval, hline, h.1, ?_, ?_⟩
  · rw [h.1]
    intro e
    have := congrArg Prod.fst e
    exact absurd this (by decide)
  · intro u
    rw [h.2 u, if_neg (by decide)]

/-- C9, amended.  For every line `k ++ ":" ++ w ++ d ++ r`, where `k` contains no colon, `w`
is white space (possibly none), `d` is a decimal floating-point literal and `r` is text that
does not extend the literal: when `d` denotes a finite `double` (magnitude below the overflow
threshold), `CAMERA_SETTINGS::parse_line` returns the pair `(k, value of d)`, the key being
the text before the first colon and the value the number after it, whatever `r` holds (later
colons included), and `CAMERA_CONFIG::extract_value_from_line` of the capture tool returns
the same number; when `d` is too large for a `double`, `parse_line` returns the error pair
`("", -1.0)` and `extract_value_from_line` the largest `double` with the sign of `d`. -/
theorem parse_line_key_value (k w : List Char) (d : DecimalLiteral) (r : List Char)
    (hk : ':' ∉ k) (hw : ∀ c ∈ w, isspace c = true) (hd : d.WellFormed) (hr : EndsLiteral r) :
    (d.Finite →
      CAMERA_SETTINGS.parse_line (k ++ ':' :: (w ++ (d.text ++ r))) = (k, d.value) ∧
      ∀ uninitialized,
        Infinity.extract_value_from_line uninitialized (k ++ ':' :: (w ++ (d.text ++ r)))
          = d.value) ∧
    (¬ d.Finite →
      CAMERA_SETTINGS.parse_line (k ++ ':' :: (w ++ (d.text ++ r))) = ([], -1) ∧
      ∀ uninitialized,
        Infinity.extract_value_from_line uninitialized (k ++ ':' :: (w ++ (d.text ++ r)))
          = if d.sign = some true then -double_max else double_max) :=
  ⟨fun hfin => parse_line_of_literal k w d r hk hw hd hfin hr,
    fun hov => parse_line_of_overflow k w d r hk hw hd hov hr⟩

/-- The witness of C9: the line `Gain: -1.5e2 dB: x` gives the key `Gain` and the value
-150 in both readers; the line `Gain: 1e999` gives the error pair in `parse_line` and the
largest `double` in `extract_value_from_line`. -/
theorem parse_line_key_value_witness :
    CAMERA_SETTINGS.parse_line "Gain: -1.5e2 dB: x".toList = ("Gain".toList, -150)
      ∧ (∀ uninitialized,
        Infinity.extract_value_from_line uninitialized "Gain: -1.5e2 dB: x".toList = -150)
      ∧ CAMERA_SETTINGS.parse_line "Gain: 1e999".toList = ([], -1)
      ∧ (∀ uninitialized,
        Infinity.extract_value_from_line uninitialized "Gain: 1e999".toList = double_max) := by
  have hd : literal_sample.WellFormed := by
    refine ⟨by decide, by decide, Or.inl (by decide), by decide, ?_⟩
    intro e he
    simp only [literal_sample, Option.some.injEq] at he
    subst he
    exact ⟨by decide, by decide⟩
  have hr : EndsLiteral " dB: x".toList := by
    intro c hc
    simp only [String.toList, List.head?_cons, Option.some.injEq] at hc
    subst hc
    exact ⟨by decide, by decide, by decide, by decide⟩
  have hval : literal_sample.value = -150 := by
    have h1 : '1'.toNat = 49 := rfl
    have h5 : '5'.toNat = 53 := rfl
    have h2 : '2'.toNat = 50 := rfl
    simp only [DecimalLiteral.value, literal_sample, exponent_scale, Exponent.scale,
      digits_value, List.foldl, List.length, h1, h5, h2, reduceCtorEq, if_false, if_true]
    norm_num
  have hfin : literal_sample.Finite := by
    unfold DecimalLiteral.Finite
    rw [hval]
    norm_num [overflow_threshold]
  have h := (parse_line_key_value "Gain".toList " ".toList literal_sample " dB: x".toList
    (by decide) (by decide) hd hr).1 hfin
  have hline : "Gain".toList ++ ':' :: (" ".toList ++ (literal_sample.text ++ " dB: x".toList))
      = "Gain: -1.5e2 dB: x".toList := by decide
  rw [hline, hval] at h
  obtain ⟨hwf, _, _, hov⟩ := literal_overflow_spec
  have h2 := (parse_line_key_value "Gain".toList " ".toList literal_overflow []
    (by decide) (by decide) hwf (by intro c hc; cases hc)).2 hov
  have hline2 : "Gain".toList ++ ':' :: (" ".toList ++ (literal_overflow.text ++ []))
      = "Gain: 1e999".toList := by decide
  rw [hline2] at h2
  refine ⟨h.1, h.2, h2.1, ?_⟩
  intro u
  rw [h2.2 u, if_neg (by decide)]

/-- The two ways `parse_line` can end: the error pair, when no number follows the first
colon, or the text before the first colon with the number after it. -/
theorem parse_line_cases (line : List Char) :
    (CAMERA_SETTINGS.parse_line line = ([], -1) ∧
      ∀ v, extract_double (line.dropWhile (fun c => c ≠ ':')).tail ≠ Extracted.value v) ∨
    (∃ v, extract_double (line.dropWhile (fun c => c ≠ ':')).tail = Extracted.value v ∧
      CAMERA_SETTINGS.parse_line line = (line.takeWhile (fun c => c ≠ ':'), v)) := by
  cases line with
  | nil =>
    left
    refine ⟨rfl, fun v h => ?_⟩
    have h0 : extract_double ([].dropWhile (fun c : Char => decide (c ≠ ':'))).tail
        = Extracted.no_input := rfl
    rw [h0] at h
    cases h
  | cons a l =>
    cases h : extract_double ((a :: l).dropWhile (fun c => c ≠ ':')).tail with
    | no_input =>
      left
      exact ⟨by simp only [CAMERA_SETTINGS.parse_line, getline_colon, h], fun v hv => by cases hv⟩
    | failed =>
      left
      exact ⟨by simp only [CAMERA_SETTINGS.parse_line, getline_colon, h], fun v hv => by cases hv⟩
    | overflow negative =>
      left
      exact ⟨by simp only [CAMERA_SETTINGS.parse_line, getline_colon, h], fun v hv => by cases hv⟩
    | value v =>
      right
      exact ⟨v, rfl, by simp only [CAMERA_SETTINGS.parse_line, getline_colon, h]⟩

/-- A line without a colon leaves nothing to read after the key. -/
theorem after_colon_of_not_mem (line : List Char) (h : ':' ∉ line) :
    (line.dropWhile (fun c => c ≠ ':')).tail = [] := by
  have hall : ∀ c ∈ line, (fun c : Char => decide (c ≠ ':')) c = true := by
    intro c hc
    have : c ≠ ':' := fun e => h (e ▸ hc)
    simpa using this
  have := dropWhile_append_of_all (fun c : Char => decide (c ≠ ':')) line [] hall
  rw [List.append_nil] at this
  rw [this]
  rfl

/-- C10. Unknown keys are ignored: one line of `CAMERA_SETTINGS::get_values` leaves
`exposure`, `gain` and `gamma` unchanged when the text before its first colon is not exactly
`Exposure`, `Gain` or `Gamma`, and when the line does not parse (no colon, or no number after
the first colon); a line with a recognised key and a number `v` changes only the field named
by the key, to `v`.  A file of such ignored lines leaves the settings as they were. -/
theorem get_values_ignores_unknown (settings : CAMERA_SETTINGS.SETTINGS) (line : List Char)
    (file_content : List (List Char)) :
    (line.takeWhile (fun c => c ≠ ':') ≠ "Exposure".toList →
      line.takeWhile (fun c => c ≠ ':') ≠ "Gain".toList →
      line.takeWhile (fun c => c ≠ ':') ≠ "Gamma".toList →
      CAMERA_SETTINGS.get_values_line settings line = settings) ∧
    (':' ∉ line → CAMERA_SETTINGS.get_values_line settings line = settings) ∧
    ((∀ v, extract_double (line.dropWhile (fun c => c ≠ ':')).tail ≠ Extracted.value v) →
      CAMERA_SETTINGS.get_values_line settings line = settings) ∧
    (∀ v, extract_double (line.dropWhile (fun c => c ≠ ':')).tail = Extracted.value v →
      (line.takeWhile (fun c => c ≠ ':') = "Exposure".toList →
        CAMERA_SETTINGS.get_values_line settings line = { settings with exposure := v }) ∧
      (line.takeWhile (fun c => c ≠ ':') = "Gain".toList →
        CAMERA_SETTINGS.get_values_line settings line = { settings with gain := v }) ∧
      (line.takeWhile (fun c => c ≠ ':') = "Gamma".toList →
        CAMERA_SETTINGS.get_values_line settings line = { settings with gamma := v })) ∧
    ((∀ l ∈ file_content, CAMERA_SETTINGS.get_values_line settings l = settings) →
      CAMERA_SETTINGS.get_values file_content settings = (0, settings)) := by
  have hfail : CAMERA_SETTINGS.parse_line line = ([], -1) →
      CAMERA_SETTINGS.get_values_line settings line = settings := by
    intro h
    unfold CAMERA_SETTINGS.get_values_line
    rw [h]
    rw [if_neg (by decide), if_neg (by decide), if_neg (by decide)]
  have hnum : (∀ v, extract_double (line.dropWhile (fun c => c ≠ ':')).tail ≠ Extracted.value v) →
      CAMERA_SETTINGS.get_values_line settings line = settings := by
    intro h
    rcases parse_line_cases line with ⟨hp, -⟩ | ⟨v, hv, -⟩
    · exact hfail hp
    · exact absurd hv (h v)
  refine ⟨?_, ?_, hnum, ?_, ?_⟩
  · intro h1 h2 h3
    rcases parse_line_cases line with ⟨hp, -⟩ | ⟨v, -, hp⟩
    · exact hfail hp
    · unfold CAMERA_SETTINGS.get_values_line
      rw [hp]
      rw [if_neg h1, if_neg h2, if_neg h3]
  · intro h
    apply hnum
    intro v hv
    rw [after_colon_of_not_mem line h] at hv
    have h0 : extract_double [] = Extracted.no_input := rfl
    rw [h0] at hv
    cases hv
  · intro v hv
    have hp : CAMERA_SETTINGS.parse_line line = (line.takeWhile (fun c => c ≠ ':'), v) := by
      rcases parse_line_cases line with ⟨-, hno⟩ | ⟨v', hv', hp⟩
      · exact absurd hv (hno v)
      · rw [hv] at hv'
        simp only [Extracted.value.injEq] at hv'
        rw [hp, hv']
    refine ⟨?_, ?_, ?_⟩
    · intro hk
      unfold CAMERA_SETTINGS.get_values_line
      rw [hp, if_pos hk]
    · intro hk
      unfold CAMERA_SETTINGS.get_values_line
      rw [hp]
      dsimp only
      rw [hk, if_neg (by decide), if_pos rfl]
    · intro hk
      unfold CAMERA_SETTINGS.get_values_line
      rw [hp]
      dsimp only
      rw [hk, if_neg (by decide), if_neg (by decide), if_pos rfl]
  · intro hall
    unfold CAMERA_SETTINGS.get_values
    congr 1
    induction file_content with
    | nil => rfl
    | cons l rest ih =>
      rw [List.foldl_cons, hall l (List.mem_cons_self l rest)]
      exact ih (fun l' hl' => hall l' (List.mem_cons_of_mem l hl'))

/-- The witness of C10: the line `Sharpening: 3.0 ` of the colour tool's file and the line
`Gain 12` without a colon leave the settings alone. -/
theorem get_values_ignores_unknown_witness :
    CAMERA_SETTINGS.get_values_line ⟨1200, 12, 1⟩ "Sharpening: 3.0 ".toList = ⟨1200, 12, 1⟩ ∧
    CAMERA_SETTINGS.get_values_line ⟨1200, 12, 1⟩ "Gain 12".toList = ⟨1200, 12, 1⟩ :=
  ⟨(get_values_ignores_unknown ⟨1200, 12, 1⟩ "Sharpening: 3.0 ".toList []).1
      (by decide) (by decide) (by decide),
    (get_values_ignores_unknown ⟨1200, 12, 1⟩ "Gain 12".toList []).2.1 (by decide)⟩

/-! ### Writing a number and reading it back -/

/-- The decimal digit characters and their values. -/
theorem digitChar_digit (d : Nat) (h : d < 10) :
    isdigit (Nat.digitChar d) = true ∧ (Nat.digitChar d).toNat - 48 = d := by
  interval_cases d <;> exact ⟨by decide, by decide⟩

/-- The digits already produced stay behind the ones still to come. -/
theorem toDigitsCore_append (fuel : Nat) :
    ∀ n ds, Nat.toDigitsCore 10 fuel n ds = Nat.toDigitsCore 10 fuel n [] ++ ds := by
  induction fuel with
  | zero => intro n ds; rfl
  | succ fuel ih =>
    intro n ds
    simp only [Nat.toDigitsCore]
    split_ifs with h
    · rfl
    · rw [ih (n / 10) (Nat.digitChar (n % 10) :: ds), ih (n / 10) [Nat.digitChar (n % 10)]]
      simp

/-- The value of a run of digits with one more digit. -/
theorem digits_value_append_singleton (ds : List Char) (c : Char) :
    digits_value (ds ++ [c]) = 10 * digits_value ds + (c.toNat - 48) := by
  simp [digits_value, List.foldl_append]

/-- With enough fuel the digits printed for `n` are digits and denote `n`. -/
theorem toDigitsCore_spec (fuel : Nat) :
    ∀ n, n < fuel →
      (∀ c ∈ Nat.toDigitsCore 10 fuel n [], isdigit c = true) ∧
      digits_value (Nat.toDigitsCore 10 fuel n []) = n ∧
      Nat.toDigitsCore 10 fuel n [] ≠ [] := by
  induction fuel with
  | zero => intro n h; exact absurd h (Nat.not_lt_zero n)
  | succ fuel ih =>
    intro n hn
    simp only [Nat.toDigitsCore]
    have hd := digitChar_digit (n % 10) (Nat.mod_lt n (by decide))
    split_ifs with h
    · have hlt : n < 10 := by omega
      refine ⟨?_, ?_, by simp⟩
      · intro c hc
        rw [List.mem_singleton.mp hc]
        exact hd.1
      · have := digits_value_append_singleton [] (Nat.digitChar (n % 10))
        simp only [List.nil_append] at this
        rw [this, hd.2]
        simp only [digits_value, List.foldl_nil]
        omega
    · have hlt : n / 10 < fuel := by omega
      obtain ⟨h1, h2, -⟩ := ih (n / 10) hlt
      rw [toDigitsCore_append fuel (n / 10) [Nat.digitChar (n % 10)]]
      refine ⟨?_, ?_, by simp⟩
      · intro c hc
        rcases List.mem_append.mp hc with hc | hc
        · exact h1 c hc
        · rw [List.mem_singleton.mp hc]
          exact hd.1
      · rw [digits_value_append_singleton, h2, hd.2]
        omega

/-- The decimal rendering of `n` consists of digits, is not empty, and denotes `n`. -/
theorem to_string_unsigned_spec (n : Nat) :
    (∀ c ∈ to_string_unsigned n, isdigit c = true) ∧
    digits_value (to_string_unsigned n) = n ∧ to_string_unsigned n ≠ [] :=
  toDigitsCore_spec (n + 1) n (Nat.lt_succ_self n)

/-- The decimal rendering of a value below ten is one character. -/
theorem to_string_unsigned_length (n : Nat) (h : n < 10) : (to_string_unsigned n).length = 1 := by
  interval_cases n <;> decide

/-- Rounding a whole number of tenths changes nothing. -/
theorem round_half_even_natCast (n : Nat) : round_half_even (n : ℚ) = n := by
  have hfloor : ⌊(n : ℚ)⌋ = (n : Int) := Int.floor_natCast n
  unfold round_half_even
  rw [hfloor]
  have h0 : (n : ℚ) - ((n : Int) : ℚ) = 0 := by simp
  rw [h0, if_pos (by norm_num)]

/-- What `format_fixed1` prints for `k` tenths is the literal of `|k|` tenths with the sign
of `k`. -/
theorem format_fixed1_tenths (k : Int) :
    format_fixed1 ((k : ℚ) / 10) = (tenths_literal (decide (k < 0)) k.natAbs).text := by
  have habs : |(k : ℚ) / 10| * 10 = ((k.natAbs : Nat) : ℚ) := by
    rw [abs_div, abs_of_pos (by norm_num : (0 : ℚ) < 10)]
    rw [div_mul_cancel₀ _ (by norm_num : (10 : ℚ) ≠ 0)]
    rw [Nat.cast_natAbs, Int.cast_abs]
  have hneg : ((k : ℚ) / 10 < 0) ↔ k < 0 := by
    rw [div_neg_iff]
    constructor
    · rintro (⟨-, h⟩ | ⟨h, -⟩)
      · exact absurd h (by norm_num)
      · exact_mod_cast h
    · intro h
      exact Or.inr ⟨by exact_mod_cast h, by norm_num⟩
  unfold format_fixed1
  rw [habs, round_half_even_natCast, Int.toNat_natCast]
  by_cases h : k < 0
  · have h' : (k : ℚ) / 10 < 0 := hneg.mpr h
    simp [h, h', tenths_literal, DecimalLiteral.text, DecimalLiteral.tail_text, sign_text,
      exponent_text]
  · have h' : ¬ (k : ℚ) / 10 < 0 := fun hh => h (hneg.mp hh)
    simp [h, h', tenths_literal, DecimalLiteral.text, DecimalLiteral.tail_text, sign_text,
      exponent_text]

/-- The literal of `|k|` tenths with the sign of `k` is well formed and denotes `k / 10`. -/
theorem tenths_literal_spec (k : Int) :
    (tenths_literal (decide (k < 0)) k.natAbs).WellFormed ∧
    (tenths_literal (decide (k < 0)) k.natAbs).value = (k : ℚ) / 10 := by
  obtain ⟨hw1, hw2, hw3⟩ := to_string_unsigned_spec (k.natAbs / 10)
  obtain ⟨hf1, hf2, hf3⟩ := to_string_unsigned_spec (k.natAbs % 10)
  have hlen := to_string_unsigned_length (k.natAbs % 10) (Nat.mod_lt _ (by decide))
  constructor
  · refine ⟨hw1, hf1, Or.inl hw3, ?_, ?_⟩
    · intro h
      exact absurd h (by simp [tenths_literal])
    · intro e he
      exact absurd he (by simp [tenths_literal])
  · have hsplit : ((k.natAbs / 10 : Nat) : ℚ) + ((k.natAbs % 10 : Nat) : ℚ) / 10
        = (k.natAbs : ℚ) / 10 := by
      have h := Nat.div_add_mod k.natAbs 10
      have hq : (10 : ℚ) * ((k.natAbs / 10 : Nat) : ℚ) + ((k.natAbs % 10 : Nat) : ℚ)
          = (k.natAbs : ℚ) := by exact_mod_cast h
      rw [← hq]
      ring
    have hval : (tenths_literal (decide (k < 0)) k.natAbs).value
        = (if k < 0 then -1 else 1) * ((k.natAbs : ℚ) / 10) := by
      unfold DecimalLiteral.value
      simp only [tenths_literal, hw2, hf2, hlen, exponent_scale, pow_one, mul_one, hsplit]
      by_cases h : k < 0 <;> simp [h]
    rw [hval]
    by_cases h : k < 0
    · rw [if_pos h]
      have : ((k.natAbs : Nat) : ℚ) = -(k : ℚ) := by
        rw [Nat.cast_natAbs, Int.cast_abs, abs_of_neg (by exact_mod_cast h)]
      rw [this]
      ring
    · rw [if_neg h]
      have : ((k.natAbs : Nat) : ℚ) = (k : ℚ) := by
        rw [Nat.cast_natAbs, Int.cast_abs, abs_of_nonneg (by exact_mod_cast (not_lt.mp h))]
      rw [this]
      ring

/-- The printed number consists of a sign, digits and a point. -/
theorem format_fixed1_chars (v : ℚ) :
    ∀ c ∈ format_fixed1 v, c = '-' ∨ c = '.' ∨ isdigit c = true := by
  intro c hc
  unfold format_fixed1 at hc
  simp only [List.mem_append, List.mem_singleton] at hc
  rcases hc with ((hc | hc) | hc) | hc
  · split_ifs at hc
    · exact Or.inl (List.mem_singleton.mp hc)
    · exact absurd hc (List.not_mem_nil c)
  · exact Or.inr (Or.inr ((to_string_unsigned_spec _).1 c hc))
  · exact Or.inr (Or.inl hc)
  · exact Or.inr (Or.inr ((to_string_unsigned_spec _).1 c hc))

/-- A character that is no sign, point or digit does not occur in a line of the file whose
label and unit do not hold it. -/
theorem not_mem_settings_line (x : Char) (label unit : List Char) (v : ℚ)
    (hx : x ≠ '-' ∧ x ≠ '.' ∧ isdigit x = false) (hl : x ∉ label) (hu : x ∉ unit) :
    x ∉ label ++ format_fixed1 v ++ unit := by
  intro h
  simp only [List.mem_append] at h
  rcases h with (h | h) | h
  · exact hl h
  · rcases format_fixed1_chars v x h with h | h | h
    · exact hx.1 h
    · exact hx.2.1 h
    · rw [hx.2.2] at h
      exact absurd h (by decide)
  · exact hu h

/-- A pattern whose first character is not in the text is not found. -/
theorem find_eq_false_of_not_mem (p : Char) (ps s : List Char) (h : p ∉ s) :
    find (p :: ps) s = false := by
  induction s with
  | nil => rfl
  | cons c s ih =>
    have hc : p ≠ c := fun e => h (e ▸ List.mem_cons_self c s)
    have hs : p ∉ s := fun e => h (List.mem_cons_of_mem c e)
    simp [find, List.isPrefixOf, hc, ih hs]

/-- A pattern is found in a text that starts with it. -/
theorem find_prefix (p : Char) (ps t : List Char) : find (p :: ps) (p :: ps ++ t) = true := by
  have h : (p :: ps).isPrefixOf (p :: ps ++ t) = true :=
    List.isPrefixOf_iff_prefix.mpr (List.prefix_append (p :: ps) t)
  simp only [List.cons_append] at h ⊢
  unfold find
  rw [h]
  rfl

/-- The loop of `load_from_file` ends a line at the line feed. -/
theorem getlines_line (l : List Char) (hl : newline ∉ l) :
    ∀ current rest,
      getlines current (l ++ newline :: rest) = (current.reverse ++ l) :: getlines [] rest := by
  induction l with
  | nil =>
    intro current rest
    simp [getlines]
  | cons c l ih =>
    intro current rest
    have hc : c ≠ newline := fun e => hl (e ▸ List.mem_cons_self c l)
    have hl' : newline ∉ l := fun e => hl (List.mem_cons_of_mem c e)
    rw [List.cons_append, getlines, if_neg hc, ih hl' (c :: current) rest]
    simp

/-- One statement of `save_data_to_database` is read back as one line. -/
theorem getlines_database_line (label unit rest : List Char) (v : ℚ)
    (hl : newline ∉ label) (hu : newline ∉ unit) :
    getlines [] (Trackbar.database_line label v unit ++ rest)
      = (label ++ format_fixed1 v ++ unit) :: getlines [] rest := by
  have hx : newline ≠ '-' ∧ newline ≠ '.' ∧ isdigit newline = false :=
    ⟨by decide, by decide, by decide⟩
  have h := getlines_line (label ++ format_fixed1 v ++ unit)
    (not_mem_settings_line newline label unit v hx hl hu) [] rest
  unfold Trackbar.database_line
  rw [List.append_assoc _ [newline] rest]
  exact h

/-- Every `double` lies below the overflow threshold. -/
theorem double_max_lt : double_max < overflow_threshold := by
  unfold double_max overflow_threshold
  norm_num

/-- A line of the file, label `key: `, is parsed to the key and the printed number. -/
theorem settings_line_parsed (key unit : List Char) (k : Int) (hk : ':' ∉ key)
    (hu : EndsLiteral unit) (hrange : InDoubleRange ((k : ℚ) / 10)) :
    CAMERA_SETTINGS.parse_line (key ++ ": ".toList ++ format_fixed1 ((k : ℚ) / 10) ++ unit)
        = (key, (k : ℚ) / 10) ∧
    ∀ uninitialized,
      Infinity.extract_value_from_line uninitialized
        (key ++ ": ".toList ++ format_fixed1 ((k : ℚ) / 10) ++ unit) = (k : ℚ) / 10 := by
  obtain ⟨hwf, hval⟩ := tenths_literal_spec k
  have hfin : (tenths_literal (decide (k < 0)) k.natAbs).Finite := by
    unfold DecimalLiteral.Finite
    rw [hval]
    exact lt_of_le_of_lt hrange double_max_lt
  have h := parse_line_of_literal key " ".toList (tenths_literal (decide (k < 0)) k.natAbs) unit
    hk (by decide) hwf hfin hu
  have hline : key ++ ": ".toList ++ format_fixed1 ((k : ℚ) / 10) ++ unit
      = key ++ ':' :: (" ".toList ++ ((tenths_literal (decide (k < 0)) k.natAbs).text ++ unit)) := by
    rw [format_fixed1_tenths k]
    simp [List.append_assoc]
  rw [hline, ← hval]
  exact h

/-- A text that starts with a blank does not extend a number. -/
theorem endsLiteral_of_blank (t : List Char) : EndsLiteral (' ' :: t) := by
  intro c hc
  simp only [List.head?_cons, Option.some.injEq] at hc
  subst hc
  exact ⟨by decide, by decide, by decide, by decide⟩

/-- The file of the colour calibration tool is read back as its five lines. -/
theorem load_color_file (exposure gain sharpening gamma saturation : ℚ) :
    load_from_file
        (Trackbar.color_save_data_to_database exposure gain sharpening gamma saturation)
      = [ "Exposure: ".toList ++ format_fixed1 exposure ++ " [μs] ".toList,
          "Gain: ".toList ++ format_fixed1 gain ++ " [dB] ".toList,
          "Sharpening: ".toList ++ format_fixed1 sharpening ++ " ".toList,
          "Gamma: ".toList ++ format_fixed1 gamma ++ " ".toList,
          "Saturation: ".toList ++ format_fixed1 saturation ++ " ".toList ] := by
  unfold load_from_file Trackbar.color_save_data_to_database
  rw [getlines_database_line _ _ _ _ (by decide) (by decide),
    getlines_database_line _ _ _ _ (by decide) (by decide),
    getlines_database_line _ _ _ _ (by decide) (by decide),
    getlines_database_line _ _ _ _ (by decide) (by decide),
    ← List.append_nil (Trackbar.database_line "Saturation: ".toList saturation " ".toList),
    getlines_database_line _ _ _ _ (by decide) (by decide)]
  rfl

/-- The file of the mono calibration tool is read back as its three lines. -/
theorem load_mono_file (exposure gain gamma : ℚ) :
    load_from_file (Trackbar.mono_save_data_to_database exposure gain gamma)
      = [ "Exposure: ".toList ++ format_fixed1 exposure ++ " [μs] ".toList,
          "Gain: ".toList ++ format_fixed1 gain ++ " [dB] ".toList,
          "Gamma: ".toList ++ format_fixed1 gamma ++ " ".toList ] := by
  unfold load_from_file Trackbar.mono_save_data_to_database
  rw [getlines_database_line _ _ _ _ (by decide) (by decide),
    getlines_database_line _ _ _ _ (by decide) (by decide),
    ← List.append_nil (Trackbar.database_line "Gamma: ".toList gamma " ".toList),
    getlines_database_line _ _ _ _ (by decide) (by decide)]
  rfl

/-- What `CAMERA_SETTINGS::parse_line` makes of a line of the file. -/
theorem parse_settings_line (key label unit : List Char) (v : ℚ) (hv : OneDecimal v)
    (hrange : InDoubleRange v)
    (hlabel : label = key ++ ": ".toList) (hk : ':' ∉ key) (hu : EndsLiteral unit) :
    CAMERA_SETTINGS.parse_line (label ++ format_fixed1 v ++ unit) = (key, v) ∧
    ∀ uninitialized,
      Infinity.extract_value_from_line uninitialized (label ++ format_fixed1 v ++ unit) = v := by
  obtain ⟨k, rfl⟩ := hv
  rw [hlabel]
  exact settings_line_parsed key unit k hk hu hrange

/-- Which key the capture tool's `get_values` finds in each of the five lines. -/
theorem find_in_settings_lines (v : ℚ) :
    find "Exposure".toList ("Exposure: ".toList ++ format_fixed1 v ++ " [μs] ".toList) = true ∧
    (find "Exposure".toList ("Gain: ".toList ++ format_fixed1 v ++ " [dB] ".toList) = false ∧
      find "Gain".toList ("Gain: ".toList ++ format_fixed1 v ++ " [dB] ".toList) = true) ∧
    (find "Exposure".toList ("Sharpening: ".toList ++ format_fixed1 v ++ " ".toList) = false ∧
      find "Gain".toList ("Sharpening: ".toList ++ format_fixed1 v ++ " ".toList) = false ∧
      find "Sharpening".toList ("Sharpening: ".toList ++ format_fixed1 v ++ " ".toList) = true) ∧
    (find "Exposure".toList ("Gamma: ".toList ++ format_fixed1 v ++ " ".toList) = false ∧
      find "Gain".toList ("Gamma: ".toList ++ format_fixed1 v ++ " ".toList) = false ∧
      find "Sharpening".toList ("Gamma: ".toList ++ format_fixed1 v ++ " ".toList) = false ∧
      find "Gamma".toList ("Gamma: ".toList ++ format_fixed1 v ++ " ".toList) = true) ∧
    (find "Exposure".toList ("Saturation: ".toList ++ format_fixed1 v ++ " ".toList) = false ∧
      find "Gain".toList ("Saturation: ".toList ++ format_fixed1 v ++ " ".toList) = false ∧
      find "Sharpening".toList ("Saturation: ".toList ++ format_fixed1 v ++ " ".toList) = false ∧
      find "Gamma".toList ("Saturation: ".toList ++ format_fixed1 v ++ " ".toList) = false ∧
      find "Saturation".toList ("Saturation: ".toList ++ format_fixed1 v ++ " ".toList)
        = true) := by
  have hE : ('E' : Char) ≠ '-' ∧ ('E' : Char) ≠ '.' ∧ isdigit 'E' = false :=
    ⟨by decide, by decide, by decide⟩
  have hG : ('G' : Char) ≠ '-' ∧ ('G' : Char) ≠ '.' ∧ isdigit 'G' = false :=
    ⟨by decide, by decide, by decide⟩
  have hS : ('S' : Char) ≠ '-' ∧ ('S' : Char) ≠ '.' ∧ isdigit 'S' = false :=
    ⟨by decide, by decide, by decide⟩
  have hpre : ∀ (p : Char) (ps sep unit : List Char),
      find (p :: ps) ((p :: ps ++ sep) ++ format_fixed1 v ++ unit) = true := by
    intro p ps sep unit
    rw [List.append_assoc, List.append_assoc]
    exact find_prefix p ps _
  have hno : ∀ (p : Char) (ps label unit : List Char),
      (p ≠ '-' ∧ p ≠ '.' ∧ isdigit p = false) → p ∉ label → p ∉ unit →
      find (p :: ps) (label ++ format_fixed1 v ++ unit) = false := by
    intro p ps label unit hp hl hu
    exact find_eq_false_of_not_mem p ps _ (not_mem_settings_line p label unit v hp hl hu)
  have hskip : ∀ (p c : Char) (ps label unit : List Char),
      (p :: ps).isPrefixOf (c :: (label ++ format_fixed1 v ++ unit)) = false →
      (p ≠ '-' ∧ p ≠ '.' ∧ isdigit p = false) → p ∉ label → p ∉ unit →
      find (p :: ps) ((c :: label) ++ format_fixed1 v ++ unit) = false := by
    intro p c ps label unit h1 hp hl hu
    have h2 := hno p ps label unit hp hl hu
    show find (p :: ps) (c :: (label ++ format_fixed1 v ++ unit)) = false
    rw [find, h1, h2]
    rfl
  refine ⟨hpre 'E' "xposure".toList ": ".toList _, ⟨?_, hpre 'G' "ain".toList ": ".toList _⟩,
    ⟨?_, ?_, hpre 'S' "harpening".toList ": ".toList _⟩,
    ⟨?_, ?_, ?_, hpre 'G' "amma".toList ": ".toList _⟩,
    ⟨?_, ?_, ?_, ?_, hpre 'S' "aturation".toList ": ".toList _⟩⟩
  · exact hno 'E' "xposure".toList _ _ hE (by decide) (by decide)
  · exact hno 'E' "xposure".toList _ _ hE (by decide) (by decide)
  · exact hno 'G' "ain".toList _ _ hG (by decide) (by decide)
  · exact hno 'E' "xposure".toList _ _ hE (by decide) (by decide)
  · exact hskip 'G' 'G' "ain".toList "amma: ".toList _ rfl hG (by decide) (by decide)
  · exact hno 'S' "harpening".toList _ _ hS (by decide) (by decide)
  · exact hno 'E' "xposure".toList _ _ hE (by decide) (by decide)
  · exact hno 'G' "ain".toList _ _ hG (by decide) (by decide)
  · exact hskip 'S' 'S' "harpening".toList "aturation: ".toList _ rfl hS (by decide) (by decide)
  · exact hno 'G' "amma".toList _ _ hG (by decide) (by decide)

/-- C8. Settings round trip: for settings whose fields are `double` values (magnitude at most
`double_max`) with exactly one fractional digit (negative ones included), the lines
`save_data_to_database` writes
(`Exposure: <v> [μs] `, `Gain: <v> [dB] `, `Sharpening: <v> `, `Gamma: <v> `,
`Saturation: <v> `), read back with `load_from_file` and parsed by the loader's
`get_values`, give settings with the same field values, whatever the settings held
before: for the five-field loader of the capture tool on the colour tool's file, and for the
three-field `CAMERA_SETTINGS` loader on the mono tool's file and on the colour tool's file. -/
theorem settings_round_trip (exposure gain sharpening gamma saturation uninitialized : ℚ)
    (before : Infinity.camera_settings) (before3 : CAMERA_SETTINGS.SETTINGS)
    (he : OneDecimal exposure) (hg : OneDecimal gain) (hs : OneDecimal sharpening)
    (hm : OneDecimal gamma) (ht : OneDecimal saturation)
    (hre : InDoubleRange exposure) (hrg : InDoubleRange gain) (hrs : InDoubleRange sharpening)
    (hrm : InDoubleRange gamma) (hrt : InDoubleRange saturation) :
    Infinity.get_values uninitialized
        (load_from_file
          (Trackbar.color_save_data_to_database exposure gain sharpening gamma saturation))
        before
      = ⟨exposure, gain, sharpening, gamma, saturation⟩ ∧
    CAMERA_SETTINGS.get_values
        (load_from_file (Trackbar.mono_save_data_to_database exposure gain gamma)) before3
      = (0, ⟨exposure, gain, gamma⟩) ∧
    CAMERA_SETTINGS.get_values
        (load_from_file
          (Trackbar.color_save_data_to_database exposure gain sharpening gamma saturation))
        before3
      = (0, ⟨exposure, gain, gamma⟩) := by
  have hu1 : EndsLiteral " [μs] ".toList := endsLiteral_of_blank _
  have hu2 : EndsLiteral " [dB] ".toList := endsLiteral_of_blank _
  have hu3 : EndsLiteral " ".toList := endsLiteral_of_blank _
  have p1 := parse_settings_line "Exposure".toList "Exposure: ".toList _ exposure he hre
    (by decide) (by decide) hu1
  have p2 := parse_settings_line "Gain".toList "Gain: ".toList _ gain hg hrg
    (by decide) (by decide) hu2
  have p3 := parse_settings_line "Sharpening".toList "Sharpening: ".toList _ sharpening hs hrs
    (by decide) (by decide) hu3
  have p4 := parse_settings_line "Gamma".toList "Gamma: ".toList _ gamma hm hrm
    (by decide) (by decide) hu3
  have p5 := parse_settings_line "Saturation".toList "Saturation: ".toList _ saturation ht hrt
    (by decide) (by decide) hu3
  have l1 : ∀ t : CAMERA_SETTINGS.SETTINGS, CAMERA_SETTINGS.get_values_line t
      ("Exposure: ".toList ++ format_fixed1 exposure ++ " [μs] ".toList)
      = { t with exposure := exposure } := by
    intro t
    unfold CAMERA_SETTINGS.get_values_line
    rw [p1.1]
    dsimp only
    rw [if_pos rfl]
  have l2 : ∀ t : CAMERA_SETTINGS.SETTINGS, CAMERA_SETTINGS.get_values_line t
      ("Gain: ".toList ++ format_fixed1 gain ++ " [dB] ".toList) = { t with gain := gain } := by
    intro t
    unfold CAMERA_SETTINGS.get_values_line
    rw [p2.1]
    dsimp only
    rw [if_neg (by decide), if_pos rfl]
  have l3 : ∀ t : CAMERA_SETTINGS.SETTINGS, CAMERA_SETTINGS.get_values_line t
      ("Sharpening: ".toList ++ format_fixed1 sharpening ++ " ".toList) = t := by
    intro t
    unfold CAMERA_SETTINGS.get_values_line
    rw [p3.1]
    dsimp only
    rw [if_neg (by decide), if_neg (by decide), if_neg (by decide)]
  have l4 : ∀ t : CAMERA_SETTINGS.SETTINGS, CAMERA_SETTINGS.get_values_line t
      ("Gamma: ".toList ++ format_fixed1 gamma ++ " ".toList) = { t with gamma := gamma } := by
    intro t
    unfold CAMERA_SETTINGS.get_values_line
    rw [p4.1]
    dsimp only
    rw [if_neg (by decide), if_neg (by decide), if_pos rfl]
  have l5 : ∀ t : CAMERA_SETTINGS.SETTINGS, CAMERA_SETTINGS.get_values_line t
      ("Saturation: ".toList ++ format_fixed1 saturation ++ " ".toList) = t := by
    intro t
    unfold CAMERA_SETTINGS.get_values_line
    rw [p5.1]
    dsimp only
    rw [if_neg (by decide), if_neg (by decide), if_neg (by decide)]
  obtain ⟨f1, -, -, -, -⟩ := find_in_settings_lines exposure
  obtain ⟨-, ⟨f2a, f2b⟩, -, -, -⟩ := find_in_settings_lines gain
  obtain ⟨-, -, ⟨f3a, f3b, f3c⟩, -, -⟩ := find_in_settings_lines sharpening
  obtain ⟨-, -, -, ⟨f4a, f4b, f4c, f4d⟩, -⟩ := find_in_settings_lines gamma
  obtain ⟨-, -, -, -, ⟨f5a, f5b, f5c, f5d, f5e⟩⟩ := find_in_settings_lines saturation
  refine ⟨?_, ?_, ?_⟩
  · rw [load_color_file]
    simp only [Infinity.get_values, List.foldl_cons, List.foldl_nil, Infinity.get_values_line,
      f1, f2a, f2b, f3a, f3b, f3c, f4a, f4b, f4c, f4d, f5a, f5b, f5c, f5d, f5e,
      p1.2, p2.2, p3.2, p4.2, p5.2, if_true, Bool.false_eq_true, if_false]
  · rw [load_mono_file]
    simp only [CAMERA_SETTINGS.get_values, List.foldl_cons, List.foldl_nil, l1, l2, l4]
  · rw [load_color_file]
    simp only [CAMERA_SETTINGS.get_values, List.foldl_cons, List.foldl_nil, l1, l2, l3, l4, l5]

/-- The witness of C8: exposure 1200.0, gain 12.0, sharpening -1.0, gamma 0.5 and
saturation 0.3 come back unchanged from the file, in both loaders. -/
theorem settings_round_trip_witness :
    Infinity.get_values 0
        (load_from_file (Trackbar.color_save_data_to_database 1200 12 (-1) (1 / 2) (3 / 10)))
        ⟨0, 0, 0, 0, 0⟩
      = ⟨1200, 12, -1, 1 / 2, 3 / 10⟩ ∧
    CAMERA_SETTINGS.get_values
        (load_from_file (Trackbar.mono_save_data_to_database 1200 12 (1 / 2))) ⟨0, 0, 0⟩
      = (0, ⟨1200, 12, 1 / 2⟩) ∧
    CAMERA_SETTINGS.get_values
        (load_from_file (Trackbar.color_save_data_to_database 1200 12 (-1) (1 / 2) (3 / 10)))
        ⟨0, 0, 0⟩
      = (0, ⟨1200, 12, 1 / 2⟩) :=
  settings_round_trip 1200 12 (-1) (1 / 2) (3 / 10) 0 ⟨0, 0, 0, 0, 0⟩ ⟨0, 0, 0⟩
    ⟨12000, by norm_num⟩ ⟨120, by norm_num⟩ ⟨-10, by norm_num⟩ ⟨5, by norm_num⟩
    ⟨3, by norm_num⟩ (by norm_num [InDoubleRange, double_max])
    (by norm_num [InDoubleRange, double_max]) (by norm_num [InDoubleRange, double_max])
    (by norm_num [InDoubleRange, double_max, abs_of_pos])
    (by norm_num [InDoubleRange, double_max, abs_of_pos])

/-! ### Return codes -/

theorem int_or_codes {a b : Int} (ha : ReturnCode a) (hb : ReturnCode b) :
    ReturnCode (int_or a b) ∧ (int_or a b = 0 ↔ a = 0 ∧ b = 0)
      ∧ (a = -1 ∨ b = -1 → int_or a b = -1) := by
  rcases ha with rfl | rfl | rfl <;> rcases hb with rfl | rfl | rfl <;>
    refine ⟨?_, ?_, ?_⟩ <;> first | decide | (unfold ReturnCode; decide)

theorem foldl_int_or_codes (codes : List Int) :
    ∀ acc : Int, ReturnCode acc → (∀ c ∈ codes, ReturnCode c) →
      ReturnCode (codes.foldl int_or acc)
        ∧ (codes.foldl int_or acc = 0 ↔ acc = 0 ∧ ∀ c ∈ codes, c = 0)
        ∧ (acc = -1 ∨ -1 ∈ codes → codes.foldl int_or acc = -1) := by
  induction codes with
  | nil => intro acc h _; simp [h]
  | cons c cs ih =>
    intro acc hacc hcs
    have hc : ReturnCode c := hcs c (List.mem_cons_self _ _)
    have h1 := int_or_codes hacc hc
    have h2 := ih (int_or acc c) h1.1 (fun x hx => hcs x (List.mem_cons_of_mem _ hx))
    refine ⟨h2.1, ?_, ?_⟩
    · rw [List.foldl_cons, h2.2.1, h1.2.1]
      simp [and_assoc]
    · intro h
      rw [List.foldl_cons]
      apply h2.2.2
      rcases h with h | h
      · exact Or.inl (h1.2.2 (Or.inl h))
      · rcases List.mem_cons.mp h with h | h
        · exact Or.inl (h1.2.2 (Or.inr h.symm))
        · exact Or.inr h

theorem or_codes_spec (codes : List Int) (h : ∀ c ∈ codes, ReturnCode c) :
    ReturnCode (or_codes codes) ∧ (or_codes codes = 0 ↔ ∀ c ∈ codes, c = 0)
      ∧ (-1 ∈ codes → or_codes codes = -1) := by
  have := foldl_int_or_codes codes 0 (Or.inl rfl) h
  refine ⟨this.1, ?_, fun hm => this.2.2 (Or.inr hm)⟩
  unfold or_codes
  rw [this.2.1]; simp

/-! ### The status codes of the configurators -/

theorem infinity_config_exposure_paths (nm : NodeMap) (s : Infinity.camera_settings) :
    (Infinity.config_exposure nm s).1
      = exposure_paths nm.ExposureAuto nm.autoBrightnessMode nm.ExposureTime s.exposure := by
  unfold exposure_paths Infinity.config_exposure SwitchNode.available FloatNode.available
  simp only [select_entry_stage, set_float_stage]
  generalize nm.ExposureAuto = ea
  generalize nm.autoBrightnessMode = ab
  generalize nm.ExposureTime = et
  rcases ea with ⟨_ | _, _ | _, _ | _, _ | _⟩ <;> rcases ab with ⟨_ | _, _ | _, _, _⟩ <;>
    rcases et with ⟨_ | _, _ | _, _, _, _ | _⟩ <;> rfl

theorem trackbar_config_exposure_paths (max_exposure : ℚ) (nm : NodeMap) (v : ℚ)
    (slider : Int) :
    (Trackbar.config_exposure max_exposure nm v slider).1
      = exposure_paths nm.ExposureAuto nm.autoBrightnessMode nm.ExposureTime v := by
  unfold exposure_paths Trackbar.config_exposure SwitchNode.available FloatNode.available
  simp only [select_entry_stage, set_float_stage]
  generalize nm.ExposureAuto = ea
  generalize nm.autoBrightnessMode = ab
  generalize nm.ExposureTime = et
  rcases ea with ⟨_ | _, _ | _, _ | _, _ | _⟩ <;> rcases ab with ⟨_ | _, _ | _, _, _⟩ <;>
    rcases et with ⟨_ | _, _ | _, _, _, _ | _⟩ <;> rfl

theorem exposure_paths_contract (nm : NodeMap) (v : ℚ) :
    ExposureContract nm v
      (exposure_paths nm.ExposureAuto nm.autoBrightnessMode nm.ExposureTime v) := by
  unfold ExposureContract exposure_paths SwitchNode.available FloatNode.available
  split_ifs <;> simp_all

/-- C14, amended: `config_exposure` of the single-camera tools returns 1 exactly when
`ExposureAuto` is not both readable and writable, `autoBrightnessMode` is readable and
writable, `ExposureTime` is readable and writable and no SDK call raises, and then its only
write is the clamped value to `ExposureTime`; it returns 0 exactly when `ExposureAuto` is
readable and writable, `SetIntValue`, which is called only when the entry `Off` is readable,
did not raise, and the clamped value was written: automatic exposure is switched off before
that write when the entry `Off` is readable, and is left as it is when the entry is not
readable; in every other case it returns -1.  This holds for
`main_color_infinity_images.cpp` and, whatever the tool's `max_exposure` and slider
position, for the two calibration tools. -/
theorem config_exposure_status_contract (nm : NodeMap) :
    (∀ s : Infinity.camera_settings,
        ExposureContract nm s.exposure (Infinity.config_exposure nm s).1)
      ∧ (∀ (max_exposure v : ℚ) (slider : Int),
        ExposureContract nm v (Trackbar.config_exposure max_exposure nm v slider).1) := by
  constructor
  · intro s
    rw [infinity_config_exposure_paths]
    exact exposure_paths_contract nm s.exposure
  · intro m v slider
    rw [trackbar_config_exposure_paths]
    exact exposure_paths_contract nm v

/-- C14, the counterexample.  On a camera whose `ExposureAuto` is readable and writable but
whose entry `Off` is not readable, `config_exposure` of the capture tool and of the two
calibration tools passes over `SetIntValue`, writes the exposure time and returns 0:
automatic exposure was not switched off, and no soft warning is given. -/
theorem config_exposure_returns_zero_without_switching_off :
    NodeMap.off_unreadable.ExposureAuto.readable = true
      ∧ NodeMap.off_unreadable.ExposureAuto.writable = true
      ∧ NodeMap.off_unreadable.ExposureAuto.entry_readable = false
      ∧ (Infinity.config_exposure NodeMap.off_unreadable ⟨1200, 12, 1, 1, 1 / 2⟩).1
        = ⟨0, [Write.float "ExposureTime" 1200]⟩
      ∧ (Trackbar.config_exposure Trackbar.color_max_exposure NodeMap.off_unreadable 1200
          200).1 = ⟨0, [Write.float "ExposureTime" 1200]⟩
      ∧ (Trackbar.config_exposure Trackbar.mono_max_exposure NodeMap.off_unreadable 1200
          200).1 = ⟨0, [Write.float "ExposureTime" 1200]⟩
      ∧ Write.entry "ExposureAuto" "Off"
        ∉ (Infinity.config_exposure NodeMap.off_unreadable ⟨1200, 12, 1, 1, 1 / 2⟩).1.writes := by
  have hc : clamp_value 1200 33 500000 = 1200 := by
    unfold clamp_value
    norm_num
  have h1 : (Infinity.config_exposure NodeMap.off_unreadable ⟨1200, 12, 1, 1, 1 / 2⟩).1
      = ⟨0, [Write.float "ExposureTime" 1200]⟩ := by
    rw [infinity_config_exposure_paths, ← hc]
    rfl
  refine ⟨rfl, rfl, rfl, h1, ?_, ?_, ?_⟩
  · rw [trackbar_config_exposure_paths, ← hc]
    rfl
  · rw [trackbar_config_exposure_paths, ← hc]
    rfl
  · rw [h1]
    simp

/-! ### Starting the acquisition -/

/-- C20: `start_camera_acquisition` returns -1 when `BeginAcquisition()` goes through (the
camera is then streaming) and -1 when it raises `Spinnaker::Exception` (the camera is left
as it was); it never returns 0. -/
theorem start_camera_acquisition_returns_minus_one (camera : Camera) :
    (CAMERA_MANAGER.start_camera_acquisition camera false
        = (-1, { camera with streaming := true }))
      ∧ (CAMERA_MANAGER.start_camera_acquisition camera true = (-1, camera))
      ∧ (∀ begin_raises : Bool,
        (CAMERA_MANAGER.start_camera_acquisition camera begin_raises).1 = -1
          ∧ (CAMERA_MANAGER.start_camera_acquisition camera begin_raises).1 ≠ 0) := by
  refine ⟨rfl, rfl, ?_⟩
  intro b
  cases b <;> simp [CAMERA_MANAGER.start_camera_acquisition]

/-- C15, as stated, fails for `CAMERA_MANAGER`: with one camera whose `Gain` node is not
readable, `CAMERA_MANAGER::config_gain` skips the camera and returns 0, not -1. -/
theorem manager_config_gain_unreadable_returns_zero :
    NodeMap.gain_unreadable.Gain.readable = false
      ∧ (CAMERA_MANAGER.config_gain [NodeMap.gain_unreadable] 10).result = 0
      ∧ (CAMERA_MANAGER.config_gain [NodeMap.gain_unreadable] 10).result ≠ -1 := by
  refine ⟨rfl, ?_, ?_⟩ <;>
    simp [CAMERA_MANAGER.config_gain, CAMERA_MANAGER.for_each_camera,
      CAMERA_MANAGER.config_gain_camera, NodeMap.gain_unreadable, NodeMap.sample,
      SwitchNode.ok, select_entry_stage, set_float_stage, CAMERA_MANAGER.MultiOutcome.log]

/-- C15, amended: when the value node is not readable or not writable, every configurator
of the calibration tools returns -1, and so do `config_exposure`, `config_gain` and
`config_saturation` of ColorCameraInfinityCapture; its `config_gamma` and
`config_sharpening` return -1 only if their enable node is available, else 0; and the loop
body of a `CAMERA_MANAGER` configurator leaves `result` as it was for such a camera, unless
switching the automatic mode off (or the enable node on) raised, which gives -1. -/
theorem value_node_unavailable_status (nm : NodeMap) :
    (nm.ExposureTime.available = false →
        (∀ (m v : ℚ) (slider : Int), (Trackbar.config_exposure m nm v slider).1.result = -1)
          ∧ (∀ s, (Infinity.config_exposure nm s).1.result = -1)
          ∧ (∀ (v : ℚ) (i : Nat) (acc : CAMERA_MANAGER.MultiOutcome),
            (CAMERA_MANAGER.config_exposure_camera v i nm acc).result
              = if nm.ExposureAuto.available && nm.ExposureAuto.entry_readable
                  && nm.ExposureAuto.faulty then -1 else acc.result))
      ∧ (nm.Gain.available = false →
        (∀ (v : ℚ) (slider : Int), (Trackbar.config_gain nm v slider).1.result = -1)
          ∧ (∀ s, (Infinity.config_gain nm s).1.result = -1)
          ∧ (∀ (v : ℚ) (i : Nat) (acc : CAMERA_MANAGER.MultiOutcome),
            (CAMERA_MANAGER.config_gain_camera v i nm acc).result
              = if nm.GainAuto.available && nm.GainAuto.entry_readable
                  && nm.GainAuto.faulty then -1 else acc.result))
      ∧ (nm.Gamma.available = false →
        (∀ (v : ℚ) (slider : Int), (Trackbar.config_gamma nm v slider).1.result = -1)
          ∧ (∀ s, (Infinity.config_gamma nm s).1.result
              = if nm.GammaEnable.available then -1 else 0)
          ∧ (∀ (v : ℚ) (i : Nat) (acc : CAMERA_MANAGER.MultiOutcome),
            (CAMERA_MANAGER.config_gamma_camera v i nm acc).result
              = if nm.GammaEnable.available && nm.GammaEnable.faulty then -1
                else acc.result))
      ∧ (nm.Sharpening.available = false →
        (∀ (v : ℚ) (slider : Int), (Trackbar.config_sharpening nm v slider).1.result = -1)
          ∧ (∀ s, (Infinity.config_sharpening nm s).1.result
              = if nm.SharpeningEnable.available then -1 else 0))
      ∧ (nm.Saturation.available = false →
        (∀ (v : ℚ) (slider : Int), (Trackbar.config_saturation nm v slider).1.result = -1)
          ∧ (∀ s, (Infinity.config_saturation nm s).1.result = -1)) := by
  refine ⟨?_, ?_, ?_, ?_, ?_⟩
  · intro h
    have h1 : ∀ v, set_float_stage nm.ExposureTime v = Stage.unavailable := by
      intro v; unfold FloatNode.available at h; unfold set_float_stage
      rw [if_pos]; revert h; cases nm.ExposureTime.readable <;> cases nm.ExposureTime.writable <;> simp
    refine ⟨?_, ?_, ?_⟩
    · intro m v slider
      rw [trackbar_config_exposure_paths]; unfold exposure_paths
      rw [h]; split_ifs <;> simp_all
    · intro s
      rw [infinity_config_exposure_paths]; unfold exposure_paths
      rw [h]; split_ifs <;> simp_all
    · intro v i acc
      unfold CAMERA_MANAGER.config_exposure_camera SwitchNode.available select_entry_stage
      rw [h1]
      split_ifs <;> simp_all [CAMERA_MANAGER.MultiOutcome.log]
  · intro h
    have h1 : ∀ v, set_float_stage nm.Gain v = Stage.unavailable := by
      intro v; unfold FloatNode.available at h; unfold set_float_stage
      rw [if_pos]; revert h; cases nm.Gain.readable <;> cases nm.Gain.writable <;> simp
    refine ⟨?_, ?_, ?_⟩
    · intro v slider
      unfold Trackbar.config_gain select_entry_stage; rw [h1]
      split_ifs <;> simp_all
    · intro s
      unfold Infinity.config_gain select_entry_stage; simp only [h1]
      split_ifs <;> simp_all
    · intro v i acc
      unfold CAMERA_MANAGER.config_gain_camera SwitchNode.available select_entry_stage
      rw [h1]
      split_ifs <;> simp_all [CAMERA_MANAGER.MultiOutcome.log]
  · intro h
    have h1 : ∀ v, set_float_stage nm.Gamma v = Stage.unavailable := by
      intro v; unfold FloatNode.available at h; unfold set_float_stage
      rw [if_pos]; revert h; cases nm.Gamma.readable <;> cases nm.Gamma.writable <;> simp
    refine ⟨?_, ?_, ?_⟩
    · intro v slider
      unfold Trackbar.config_gamma; rw [h1]
      split_ifs <;> simp_all
    · intro s
      unfold Infinity.config_gamma SwitchNode.available; rw [h1]
      split_ifs <;> simp_all
    · intro v i acc
      unfold CAMERA_MANAGER.config_gamma_camera SwitchNode.available
      rw [h1]
      split_ifs <;> simp_all [CAMERA_MANAGER.MultiOutcome.log]
  · intro h
    have h1 : ∀ v, set_float_stage nm.Sharpening v = Stage.unavailable := by
      intro v; unfold FloatNode.available at h; unfold set_float_stage
      rw [if_pos]; revert h; cases nm.Sharpening.readable <;> cases nm.Sharpening.writable <;> simp
    refine ⟨?_, ?_⟩
    · intro v slider
      unfold Trackbar.config_sharpening; rw [h1]
      split_ifs <;> simp_all
    · intro s
      unfold Infinity.config_sharpening SwitchNode.available; rw [h1]
      split_ifs <;> simp_all
  · intro h
    have h1 : ∀ v, set_float_stage nm.Saturation v = Stage.unavailable := by
      intro v; unfold FloatNode.available at h; unfold set_float_stage
      rw [if_pos]; revert h; cases nm.Saturation.readable <;> cases nm.Saturation.writable <;> simp
    refine ⟨?_, ?_⟩
    · intro v slider
      unfold Trackbar.config_saturation; rw [h1]
      split_ifs <;> simp_all
    · intro s
      unfold Infinity.config_saturation; rw [h1]
      split_ifs <;> simp_all

theorem value_node_unavailable_status_witness :
    NodeMap.gain_unreadable.Gain.available = false
      ∧ (Trackbar.config_gain NodeMap.gain_unreadable 10 12).1.result = -1
      ∧ (CAMERA_MANAGER.config_gain_camera 10 0 NodeMap.gain_unreadable ⟨0, []⟩).result = 0 :=
  ⟨rfl, ((value_node_unavailable_status NodeMap.gain_unreadable).2.1 rfl).1 10 12,
    (((value_node_unavailable_status NodeMap.gain_unreadable).2.1 rfl).2.2 10 0 ⟨0, []⟩).trans
      rfl⟩

/-! ### The step codes of the single-camera tools -/

theorem select_entry_stage_cases (name entry : String) (node : SwitchNode) :
    select_entry_stage name entry node = none
      ∨ select_entry_stage name entry node = some []
      ∨ select_entry_stage name entry node = some [Write.entry name entry] := by
  unfold select_entry_stage; split_ifs <;> simp

theorem exposure_paths_code (ea ab : SwitchNode) (et : FloatNode) (v : ℚ) :
    ReturnCode (exposure_paths ea ab et v).result := by
  unfold exposure_paths ReturnCode; split_ifs <;> simp

theorem infinity_print_device_info_code (tl : DeviceNodeMap) :
    ReturnCode (Infinity.print_device_info tl) := by
  unfold Infinity.print_device_info ReturnCode; split_ifs <;> simp

theorem infinity_config_pixel_format_code (nm : NodeMap) :
    ReturnCode (Infinity.config_pixel_format nm).result := by
  unfold Infinity.config_pixel_format ReturnCode; repeat' split
  all_goals simp

theorem infinity_config_roi_code (nm : NodeMap) (w h : Int) :
    ReturnCode (Infinity.config_roi nm w h).result := by
  unfold Infinity.config_roi ReturnCode; repeat' split
  all_goals simp

theorem infinity_config_exposure_code (nm : NodeMap) (s : Infinity.camera_settings) :
    ReturnCode (Infinity.config_exposure nm s).1.result := by
  rw [infinity_config_exposure_paths]; exact exposure_paths_code _ _ _ _

theorem infinity_config_gain_code (nm : NodeMap) (s : Infinity.camera_settings) :
    ReturnCode (Infinity.config_gain nm s).1.result := by
  unfold Infinity.config_gain ReturnCode
  rcases select_entry_stage_cases "GainAuto" "Off" nm.GainAuto with h | h | h <;>
    simp only [h] <;> repeat' split
  all_goals simp_all

theorem infinity_config_sharpening_code (nm : NodeMap) (s : Infinity.camera_settings) :
    ReturnCode (Infinity.config_sharpening nm s).1.result := by
  unfold Infinity.config_sharpening ReturnCode; repeat' split
  all_goals simp

theorem infinity_config_gamma_code (nm : NodeMap) (s : Infinity.camera_settings) :
    ReturnCode (Infinity.config_gamma nm s).1.result := by
  unfold Infinity.config_gamma ReturnCode; repeat' split
  all_goals simp

theorem infinity_config_saturation_code (nm : NodeMap) (s : Infinity.camera_settings) :
    ReturnCode (Infinity.config_saturation nm s).1.result := by
  unfold Infinity.config_saturation ReturnCode; repeat' split
  all_goals simp

theorem reset_exposure_code (nm : NodeMap) :
    ReturnCode (CAMERA_CONFIG.reset_exposure nm).result := by
  unfold CAMERA_CONFIG.reset_exposure ReturnCode; repeat' split
  all_goals simp

theorem trackbar_config_pixel_format_code (format : String) (nm : NodeMap) :
    ReturnCode (Trackbar.config_pixel_format format nm).result := by
  unfold Trackbar.config_pixel_format ReturnCode; repeat' split
  all_goals simp

theorem trackbar_config_sensor_shutter_mode_code (nm : NodeMap) :
    ReturnCode (Trackbar.config_sensor_shutter_mode nm).result := by
  unfold Trackbar.config_sensor_shutter_mode ReturnCode; repeat' split
  all_goals simp

theorem trackbar_config_black_level_code (nm : NodeMap) :
    ReturnCode (Trackbar.config_black_level_clamping_enable nm).result := by
  unfold Trackbar.config_black_level_clamping_enable ReturnCode; repeat' split
  all_goals simp

theorem trackbar_config_roi_code (nm : NodeMap) (w h x y : Int) :
    ReturnCode (Trackbar.config_roi nm w h x y).result := by
  unfold Trackbar.config_roi ReturnCode; repeat' split
  all_goals simp

theorem trackbar_config_exposure_code (m : ℚ) (nm : NodeMap) (v : ℚ) (slider : Int) :
    ReturnCode (Trackbar.config_exposure m nm v slider).1.result := by
  rw [trackbar_config_exposure_paths]; exact exposure_paths_code _ _ _ _

theorem trackbar_config_gain_code (nm : NodeMap) (v : ℚ) (slider : Int) :
    ReturnCode (Trackbar.config_gain nm v slider).1.result := by
  unfold Trackbar.config_gain ReturnCode; repeat' split
  all_goals simp

theorem trackbar_config_sharpening_code (nm : NodeMap) (v : ℚ) (slider : Int) :
    ReturnCode (Trackbar.config_sharpening nm v slider).1.result := by
  unfold Trackbar.config_sharpening ReturnCode; repeat' split
  all_goals simp

theorem trackbar_config_gamma_code (nm : NodeMap) (v : ℚ) (slider : Int) :
    ReturnCode (Trackbar.config_gamma nm v slider).1.result := by
  unfold Trackbar.config_gamma ReturnCode; repeat' split
  all_goals simp

theorem trackbar_config_saturation_code (nm : NodeMap) (v : ℚ) (slider : Int) :
    ReturnCode (Trackbar.config_saturation nm v slider).1.result := by
  unfold Trackbar.config_saturation ReturnCode; repeat' split
  all_goals simp

/-! ### The frame loop of the single-camera tools -/

theorem frame_loop_invariant (P : FrameLoop → Prop) (body : Frame → FrameLoop → FrameLoop)
    (hbody : ∀ f st, P st → P (body f st)) (frames : Nat → Frame) :
    ∀ (fuel : Nat) (st out : FrameLoop), P st →
      CAMERA_CONFIG.frame_loop body frames fuel st = some out → P out ∧ out.running = false := by
  intro fuel
  induction fuel with
  | zero =>
    intro st out hP h
    unfold CAMERA_CONFIG.frame_loop at h
    split_ifs at h with hr
    simp only [Option.some.injEq] at h
    subst h
    exact ⟨hP, by simpa using hr⟩
  | succ n ih =>
    intro st out hP h
    unfold CAMERA_CONFIG.frame_loop at h
    split_ifs at h with hr
    · exact ih _ _ (hbody _ _ hP) h
    · simp only [Option.some.injEq] at h
      subst h
      exact ⟨hP, by simpa using hr⟩

theorem infinity_frame_body_code (f : Frame) (st : FrameLoop)
    (h : st.result = 0 ∨ st.result = -1) :
    (Infinity.frame_body f st).result = 0 ∨ (Infinity.frame_body f st).result = -1 := by
  unfold Infinity.frame_body; split_ifs <;> simp [h]

theorem trackbar_frame_body_code (f : Frame) (st : FrameLoop)
    (h : st.result = 0 ∨ st.result = -1) :
    (Trackbar.frame_body f st).result = 0 ∨ (Trackbar.frame_body f st).result = -1 := by
  unfold Trackbar.frame_body; split_ifs <;> simp [h]

theorem infinity_acquire_images_code (cam : Camera) (w : Session) (fuel : Nat)
    (acq : Acquisition) (h : Infinity.acquire_images cam w fuel = some acq) :
    acq.result = 0 ∨ acq.result = -1 := by
  unfold Infinity.acquire_images at h
  cases hl : CAMERA_CONFIG.frame_loop Infinity.frame_body w.frames fuel ⟨0, true, 0, 0, [], false⟩ with
  | none =>
    simp only [hl] at h
    split_ifs at h
    all_goals (cases h; simp)
  | some st =>
    have := (frame_loop_invariant (fun st => st.result = 0 ∨ st.result = -1) _
      infinity_frame_body_code w.frames fuel _ st (Or.inl rfl) hl).1
    simp only [hl] at h
    split_ifs at h
    all_goals (cases h; simp [this])

theorem trackbar_acquire_code (cam : Camera) (w : Session) (fuel : Nat)
    (acq : Acquisition) (h : Trackbar.acquire_and_display_images cam w fuel = some acq) :
    acq.result = 0 ∨ acq.result = -1 := by
  unfold Trackbar.acquire_and_display_images at h
  cases hl : CAMERA_CONFIG.frame_loop Trackbar.frame_body w.frames fuel ⟨0, true, 0, 0, [], false⟩ with
  | none =>
    simp only [hl] at h
    split_ifs at h
    all_goals (cases h; simp)
  | some st =>
    have := (frame_loop_invariant (fun st => st.result = 0 ∨ st.result = -1) _
      trackbar_frame_body_code w.frames fuel _ st (Or.inl rfl) hl).1
    simp only [hl] at h
    split_ifs at h
    all_goals (cases h; simp [this])

/-! ### The aggregate of `run_single_camera` -/

theorem finish_single_camera_codes (cam : Camera) (codes : List Int) (acq : Acquisition)
    (h : ∀ c ∈ codes, ReturnCode c) :
    ∀ c ∈ (CAMERA_CONFIG.finish_single_camera cam codes acq).codes, ReturnCode c := by
  unfold CAMERA_CONFIG.finish_single_camera
  dsimp only
  split_ifs
  · intro c hc
    rcases List.mem_append.mp hc with hc | hc
    · exact h c hc
    · rw [List.mem_singleton.mp hc]; exact reset_exposure_code _
  · exact h

theorem finish_single_camera_result (cam : Camera) (codes : List Int) (acq : Acquisition) :
    (CAMERA_CONFIG.finish_single_camera cam codes acq).result
      = if (CAMERA_CONFIG.finish_single_camera cam codes acq).raised then -1
        else or_codes (CAMERA_CONFIG.finish_single_camera cam codes acq).codes := by
  unfold CAMERA_CONFIG.finish_single_camera
  rfl

theorem single_run_shape (cam : Camera) (w : Session) (fuel : Nat) (run : SingleRun)
    (h : (∃ s s', Infinity.run_single_camera cam s w fuel = some (run, s'))
      ∨ (∃ g g', Trackbar.color_run_single_camera cam g w fuel = some (run, g'))
      ∨ (∃ g g', Trackbar.mono_run_single_camera cam g w fuel = some (run, g'))) :
    run = ⟨-1, [], true, none⟩
      ∨ ∃ codes acq, (∀ c ∈ codes, ReturnCode c)
        ∧ run = CAMERA_CONFIG.finish_single_camera cam codes acq := by
  rcases h with ⟨s, s', h⟩ | ⟨g, g', h⟩ | ⟨g, g', h⟩
  · unfold Infinity.run_single_camera at h
    split_ifs at h
    · cases h; exact Or.inl rfl
    · cases hacq : Infinity.acquire_images cam w fuel with
      | none => simp [hacq] at h
      | some acq =>
        simp only [hacq, Option.some.injEq, Prod.mk.injEq] at h
        refine Or.inr ⟨_, acq, ?_, h.1.symm⟩
        have ha := infinity_acquire_images_code cam w fuel acq hacq
        intro c hc
        simp only [List.mem_cons, List.mem_singleton, List.not_mem_nil, or_false] at hc
        rcases hc with rfl | rfl | rfl | rfl | rfl | rfl | rfl | rfl | rfl
        · exact infinity_print_device_info_code _
        · exact infinity_config_pixel_format_code _
        · exact infinity_config_roi_code _ _ _
        · exact infinity_config_exposure_code _ _
        · exact infinity_config_gain_code _ _
        · exact infinity_config_sharpening_code _ _
        · exact infinity_config_gamma_code _ _
        · exact infinity_config_saturation_code _ _
        · rcases ha with ha | ha
          · exact Or.inl ha
          · exact Or.inr (Or.inr ha)
  · unfold Trackbar.color_run_single_camera at h
    split_ifs at h
    · cases h; exact Or.inl rfl
    · cases hacq : Trackbar.acquire_and_display_images cam w fuel with
      | none => simp [hacq] at h
      | some acq =>
        simp only [hacq, Option.some.injEq, Prod.mk.injEq] at h
        refine Or.inr ⟨_, acq, ?_, h.1.symm⟩
        have ha := trackbar_acquire_code cam w fuel acq hacq
        intro c hc
        simp only [List.mem_cons, List.mem_singleton, List.not_mem_nil, or_false] at hc
        rcases hc with rfl | rfl | rfl | rfl | rfl | rfl | rfl | rfl
        · exact trackbar_config_pixel_format_code _ _
        · exact trackbar_config_roi_code _ _ _ _ _
        · exact trackbar_config_exposure_code _ _ _ _
        · exact trackbar_config_gain_code _ _ _
        · exact trackbar_config_sharpening_code _ _ _
        · exact trackbar_config_gamma_code _ _ _
        · exact trackbar_config_saturation_code _ _ _
        · rcases ha with ha | ha
          · exact Or.inl ha
          · exact Or.inr (Or.inr ha)
  · unfold Trackbar.mono_run_single_camera at h
    split_ifs at h
    · cases h; exact Or.inl rfl
    · cases hacq : Trackbar.acquire_and_display_images cam w fuel with
      | none => simp [hacq] at h
      | some acq =>
        simp only [hacq, Option.some.injEq, Prod.mk.injEq] at h
        refine Or.inr ⟨_, acq, ?_, h.1.symm⟩
        have ha := trackbar_acquire_code cam w fuel acq hacq
        intro c hc
        simp only [List.mem_cons, List.mem_singleton, List.not_mem_nil, or_false] at hc
        rcases hc with rfl | rfl | rfl | rfl | rfl | rfl | rfl | rfl
        · exact trackbar_config_pixel_format_code _ _
        · exact trackbar_config_roi_code _ _ _ _ _
        · exact trackbar_config_sensor_shutter_mode_code _
        · exact trackbar_config_exposure_code _ _ _ _
        · exact trackbar_config_gain_code _ _ _
        · exact trackbar_config_black_level_code _
        · exact trackbar_config_gamma_code _ _ _
        · rcases ha with ha | ha
          · exact Or.inl ha
          · exact Or.inr (Or.inr ha)

theorem single_run_aggregate (cam : Camera) (w : Session) (fuel : Nat) (run : SingleRun)
    (h : (∃ s s', Infinity.run_single_camera cam s w fuel = some (run, s'))
      ∨ (∃ g g', Trackbar.color_run_single_camera cam g w fuel = some (run, g'))
      ∨ (∃ g g', Trackbar.mono_run_single_camera cam g w fuel = some (run, g'))) :
    (∀ c ∈ run.codes, c = 0 ∨ c = 1 ∨ c = -1)
      ∧ run.result = (if run.raised then -1 else or_codes run.codes)
      ∧ (or_codes run.codes = 0 ↔ ∀ c ∈ run.codes, c = 0)
      ∧ (-1 ∈ run.codes → or_codes run.codes = -1) := by
  have hcodes : ∀ c ∈ run.codes, ReturnCode c := by
    rcases single_run_shape cam w fuel run h with rfl | ⟨codes, acq, hc, rfl⟩
    · simp
    · exact finish_single_camera_codes cam codes acq hc
  refine ⟨hcodes, ?_, (or_codes_spec _ hcodes).2.1, (or_codes_spec _ hcodes).2.2⟩
  rcases single_run_shape cam w fuel run h with rfl | ⟨codes, acq, _, rfl⟩
  · rfl
  · exact finish_single_camera_result cam codes acq

theorem sample_infinity_acquisition :
    Infinity.acquire_images Camera.sample Session.sample 3 = some Acquisition.sample := by
  simp [Infinity.acquire_images, CAMERA_CONFIG.frame_loop, Infinity.frame_body, Camera.sample,
    NodeMap.sample, SwitchNode.ok, FloatNode.ok, Session.sample, Frame.ok,
    CAMERA_MANAGER.Grab.ok, quit_requested, Acquisition.sample]

theorem sample_infinity_run :
    Infinity.run_single_camera Camera.sample ⟨100, 10, 1, 1, 1 / 2⟩ Session.sample 3
      = some (SingleRun.sample, ⟨100, 10, 1, 1, 1 / 2⟩) := by
  unfold Infinity.run_single_camera
  rw [sample_infinity_acquisition]
  have e1 : or_codes [0, 0, 0, 0, 0, 0, 0, 0, 0] = 0 := by decide
  have e2 : or_codes [0, 0, 0, 0, 0, 0, 0, 0, 0, 0] = 0 := by decide
  norm_num [CAMERA_CONFIG.finish_single_camera, Infinity.print_device_info,
    Infinity.config_pixel_format, Infinity.config_roi, Infinity.config_exposure,
    Infinity.config_gain, Infinity.config_sharpening, Infinity.config_gamma,
    Infinity.config_saturation, CAMERA_CONFIG.reset_exposure, Camera.sample, NodeMap.sample,
    SwitchNode.ok, FloatNode.ok, IntegerNode.ok, select_entry_stage, set_float_stage,
    set_integer_stage, roi_writes, clamp_value, e1, e2, SingleRun.sample, Acquisition.sample]

/-! ### The acquisition loop of the dual-camera tool -/

namespace CAMERA_MANAGER

theorem stop_camera_some (c : Camera) : ∃ c1, stop_camera (some c) = some c1 := by
  unfold stop_camera; dsimp only; split_ifs <;> exact ⟨_, rfl⟩

theorem visit_pair_trace_length (sc : Scene) (i : Nat) (camera : Camera) (nm : NodeMap)
    (roi : ROI_CONFIG_VALUES) (st : AcquireState) :
    (visit_pair sc i camera nm roi st).trace.length = st.trace.length + 1 := by
  simp [visit_pair]

theorem visit_pair_flags (sc : Scene) (i : Nat) (camera : Camera) (nm : NodeMap)
    (roi : ROI_CONFIG_VALUES) (st : AcquireState) :
    (visit_pair sc i camera nm roi st).local_running = st.local_running
      ∧ (visit_pair sc i camera nm roi st).global_running = st.global_running := by
  simp [visit_pair]

theorem is_camera_valid_iff (camera : Option Camera) (node_map : Option NodeMap) :
    is_camera_valid camera node_map = true
      ↔ ∃ c nm, camera = some c ∧ node_map = some nm := by
  unfold is_camera_valid
  cases camera <;> cases node_map <;> simp

theorem visit_pair_valid (sc : Scene) (n i : Nat) (camera : Camera) (nm : NodeMap)
    (roi : ROI_CONFIG_VALUES) (st : AcquireState) (h : AllValid sc n st.cameras) :
    AllValid sc n (visit_pair sc i camera nm roi st).cameras := by
  intro j hj
  obtain ⟨c, nmj, hc, hnm⟩ := (is_camera_valid_iff _ _).mp (h j hj)
  rw [is_camera_valid_iff]
  obtain ⟨c1, hc1⟩ := stop_camera_some (start_camera_acquisition camera
    (sc.visits st.trace.length).begin_raises).2
  simp only [visit_pair, List.getD_eq_getElem?_getD, List.getElem?_set] at hc ⊢
  by_cases hij : i = j
  · subst hij
    have hlen : i < st.cameras.length := by
      by_contra hcon
      rw [List.getElem?_eq_none (Nat.le_of_not_lt hcon)] at hc
      simp at hc
    exact ⟨c1, nmj, by simp [hlen, hc1], hnm⟩
  · exact ⟨c, nmj, by simp [hij, hc], hnm⟩

theorem running_visit (sc : Scene) (n : Nat) (Inv : AcquireState → Prop) (hk : Kept sc n Inv)
    (i : Nat) (camera : Camera) (nm : NodeMap) (roi : ROI_CONFIG_VALUES) (st : AcquireState)
    (hS : Schedule n st.trace.length i roi)
    (h : Running sc n Inv st) : Running sc n Inv (visit_pair sc i camera nm roi st) := by
  obtain ⟨h1, h2, h3, h4⟩ := h
  have hf := visit_pair_flags sc i camera nm roi st
  exact ⟨hf.1.trans h1, hf.2.trans h2, visit_pair_valid sc n i camera nm roi st h3,
    hk.1 i camera nm roi st hS h4⟩

theorem roi_loop_cons (sc : Scene) (i : Nat) (roi : ROI_CONFIG_VALUES)
    (rest : List ROI_CONFIG_VALUES) (st : AcquireState) (camera : Camera) (nm : NodeMap)
    (hc : st.cameras.getD i none = some camera) (hnm : sc.node_maps[i]? = some nm) :
    roi_loop sc i (roi :: rest) st
      = if keyboard_interrupt (sc.visits st.trace.length).key then
          { visit_pair sc i camera nm roi st with
            local_running := false, global_running := false }
        else roi_loop sc i rest (visit_pair sc i camera nm roi st) := by
  rw [roi_loop]
  simp only [hc, hnm]

theorem roi_loop_quiet (sc : Scene) (n : Nat) (Inv : AcquireState → Prop) (hk : Kept sc n Inv)
    (i : Nat) (hi : i < n) (rois : List ROI_CONFIG_VALUES) :
    ∀ st, Running sc n Inv st →
      (∀ q roi, rois[q]? = some roi → Schedule n (st.trace.length + q) i roi) →
      QuietBetween sc st.trace.length (st.trace.length + rois.length) →
      Running sc n Inv (roi_loop sc i rois st)
        ∧ (roi_loop sc i rois st).trace.length = st.trace.length + rois.length := by
  induction rois with
  | nil => intro st h _ _; simp [roi_loop, h]
  | cons roi rest ih =>
    intro st h hS hq
    obtain ⟨c, nm, hc, hnm⟩ := (is_camera_valid_iff _ _).mp (h.2.2.1 i hi)
    rw [roi_loop_cons sc i roi rest st c nm hc hnm,
      if_neg (by simp [hq st.trace.length (Nat.le_refl _) (by simp)])]
    have h1 := running_visit sc n Inv hk i c nm roi st (hS 0 roi List.getElem?_cons_zero) h
    have hl := visit_pair_trace_length sc i c nm roi st
    have := ih _ h1 (by
      intro q r hr
      have e : (visit_pair sc i c nm roi st).trace.length + q
          = st.trace.length + (q + 1) := by omega
      rw [e]
      exact hS (q + 1) r (List.getElem?_cons_succ.trans hr)) (by
      intro j hj1 hj2
      rw [hl] at hj1 hj2
      exact hq j (by omega) (by simp only [List.length_cons]; omega))
    refine ⟨this.1, ?_⟩
    rw [this.2, hl, List.length_cons]; omega

theorem roi_loop_quit (sc : Scene) (n : Nat) (Inv : AcquireState → Prop) (hk : Kept sc n Inv)
    (i : Nat) (hi : i < n) (rois : List ROI_CONFIG_VALUES) :
    ∀ st k, Running sc n Inv st →
      (∀ q roi, rois[q]? = some roi → Schedule n (st.trace.length + q) i roi) →
      st.trace.length ≤ k → k < st.trace.length + rois.length →
      QuietBetween sc st.trace.length k → keyboard_interrupt (sc.visits k).key = true →
      (roi_loop sc i rois st).trace.length = k + 1
        ∧ (roi_loop sc i rois st).local_running = false
        ∧ (roi_loop sc i rois st).global_running = false
        ∧ Inv (roi_loop sc i rois st) := by
  induction rois with
  | nil => intro st k _ _ h1 h2; simp at h2; omega
  | cons roi rest ih =>
    intro st k h hS hk1 hk2 hq hkey
    obtain ⟨c, nm, hc, hnm⟩ := (is_camera_valid_iff _ _).mp (h.2.2.1 i hi)
    rw [roi_loop_cons sc i roi rest st c nm hc hnm]
    have h1 := running_visit sc n Inv hk i c nm roi st (hS 0 roi List.getElem?_cons_zero) h
    have hl := visit_pair_trace_length sc i c nm roi st
    by_cases hkt : k = st.trace.length
    · subst hkt
      rw [if_pos hkey]
      exact ⟨by simp [hl], rfl, rfl, hk.2 _ h1.2.2.2⟩
    · rw [if_neg (by simp [hq st.trace.length (Nat.le_refl _) (by omega)])]
      exact ih _ k h1 (by
        intro q r hr
        have e : (visit_pair sc i c nm roi st).trace.length + q
            = st.trace.length + (q + 1) := by omega
        rw [e]
        exact hS (q + 1) r (List.getElem?_cons_succ.trans hr)) (by omega)
        (by simp only [List.length_cons] at hk2; omega)
        (fun j hj1 hj2 => hq j (by omega) hj2) hkey

theorem camera_loop_cons (sc : Scene) (n : Nat) (Inv : AcquireState → Prop) (i : Nat)
    (hi : i < n) (rest : List Nat) (st : AcquireState) (h : Running sc n Inv st) :
    camera_loop sc (i :: rest) st
      = if !(roi_loop sc i roi_config_values st).local_running then
          roi_loop sc i roi_config_values st
        else camera_loop sc rest (roi_loop sc i roi_config_values st) := by
  have hv := h.2.2.1 i hi
  rw [camera_loop, if_neg (by rw [hv]; simp)]

theorem camera_loop_quiet (sc : Scene) (n : Nat) (Inv : AcquireState → Prop)
    (hk : Kept sc n Inv) (indices : List Nat) (hin : ∀ i ∈ indices, i < n) :
    ∀ st, Running sc n Inv st →
      (∀ p i q roi, indices[p]? = some i → roi_config_values[q]? = some roi →
        Schedule n (st.trace.length + 2 * p + q) i roi) →
      QuietBetween sc st.trace.length (st.trace.length + 2 * indices.length) →
      Running sc n Inv (camera_loop sc indices st)
        ∧ (camera_loop sc indices st).trace.length
          = st.trace.length + 2 * indices.length := by
  induction indices with
  | nil => intro st h _ _; simp [camera_loop, h]
  | cons i rest ih =>
    intro st h hS hq
    have hi : i < n := hin i (List.mem_cons_self _ _)
    have h1 := roi_loop_quiet sc n Inv hk i hi roi_config_values st h
      (fun q roi hr => by simpa using hS 0 i q roi List.getElem?_cons_zero hr)
      (fun j hj1 hj2 => hq j hj1 (by
        simp only [roi_config_values, List.length_cons, List.length_nil] at hj2 ⊢; omega))
    rw [camera_loop_cons sc n Inv i hi rest st h, if_neg (by simp [h1.1.1])]
    have hl : (roi_loop sc i roi_config_values st).trace.length = st.trace.length + 2 := by
      rw [h1.2]; rfl
    have := ih (fun j hj => hin j (List.mem_cons_of_mem _ hj)) _ h1.1 (by
      intro p i1 q roi hp hr
      have e : (roi_loop sc i roi_config_values st).trace.length + 2 * p + q
          = st.trace.length + 2 * (p + 1) + q := by omega
      rw [e]
      exact hS (p + 1) i1 q roi (List.getElem?_cons_succ.trans hp) hr) (by
      intro j hj1 hj2
      rw [hl] at hj1 hj2
      exact hq j (by omega) (by simp only [List.length_cons]; omega))
    refine ⟨this.1, ?_⟩
    rw [this.2, hl, List.length_cons]; omega

theorem camera_loop_quit (sc : Scene) (n : Nat) (Inv : AcquireState → Prop)
    (hk : Kept sc n Inv) (indices : List Nat) (hin : ∀ i ∈ indices, i < n) :
    ∀ st k, Running sc n Inv st →
      (∀ p i q roi, indices[p]? = some i → roi_config_values[q]? = some roi →
        Schedule n (st.trace.length + 2 * p + q) i roi) →
      st.trace.length ≤ k → k < st.trace.length + 2 * indices.length →
      QuietBetween sc st.trace.length k → keyboard_interrupt (sc.visits k).key = true →
      (camera_loop sc indices st).trace.length = k + 1
        ∧ (camera_loop sc indices st).local_running = false
        ∧ (camera_loop sc indices st).global_running = false
        ∧ Inv (camera_loop sc indices st) := by
  induction indices with
  | nil => intro st k _ _ h1 h2; simp at h2; omega
  | cons i rest ih =>
    intro st k h hS hk1 hk2 hq hkey
    have hi : i < n := hin i (List.mem_cons_self _ _)
    have hS0 : ∀ q roi, roi_config_values[q]? = some roi →
        Schedule n (st.trace.length + q) i roi :=
      fun q roi hr => by simpa using hS 0 i q roi List.getElem?_cons_zero hr
    rw [camera_loop_cons sc n Inv i hi rest st h]
    by_cases hkt : k < st.trace.length + 2
    · have h1 := roi_loop_quit sc n Inv hk i hi roi_config_values st k h hS0 hk1
        (by simpa [roi_config_values] using hkt) hq hkey
      rw [if_pos (by simp [h1.2.1])]
      exact h1
    · have h1 := roi_loop_quiet sc n Inv hk i hi roi_config_values st h hS0
        (fun j hj1 hj2 => hq j hj1 (by
          simp only [roi_config_values, List.length_cons, List.length_nil] at hj2; omega))
      have hl : (roi_loop sc i roi_config_values st).trace.length = st.trace.length + 2 := by
        rw [h1.2]; rfl
      rw [if_neg (by simp [h1.1.1])]
      exact ih (fun j hj => hin j (List.mem_cons_of_mem _ hj)) _ k h1.1 (by
        intro p i1 q roi hp hr
        have e : (roi_loop sc i roi_config_values st).trace.length + 2 * p + q
            = st.trace.length + 2 * (p + 1) + q := by omega
        rw [e]
        exact hS (p + 1) i1 q roi (List.getElem?_cons_succ.trans hp) hr) (by omega)
        (by simp only [List.length_cons] at hk2; omega)
        (fun j hj1 hj2 => hq j (by omega) hj2) hkey

theorem range_getElem?_some (n p i : Nat) (h : (List.range n)[p]? = some i) :
    i = p ∧ p < n := by
  have hp : p < (List.range n).length := by
    by_contra hcon
    rw [List.getElem?_eq_none (Nat.le_of_not_lt hcon)] at h
    cases h
  rw [List.getElem?_eq_getElem hp, List.getElem_range] at h
  exact ⟨(Option.some.inj h).symm, by simpa using hp⟩

theorem acquisition_loop_quit (sc : Scene) (n : Nat) (hn : 0 < n)
    (Inv : AcquireState → Prop) (hk : Kept sc n Inv) :
    ∀ fuel st k, Running sc n Inv st →
      (∀ round p q roi, p < n → roi_config_values[q]? = some roi →
        Schedule n (st.trace.length + round * (2 * n) + 2 * p + q) p roi) →
      st.trace.length ≤ k → k < st.trace.length + fuel →
      QuietBetween sc st.trace.length k → keyboard_interrupt (sc.visits k).key = true →
      ∃ out, acquisition_loop sc n fuel st = some out
        ∧ out.trace.length = k + 1 ∧ out.local_running = false
        ∧ out.global_running = false ∧ Inv out := by
  intro fuel
  induction fuel with
  | zero => intro st k _ _ h1 h2; omega
  | succ f ih =>
    intro st k h hS hk1 hk2 hq hkey
    have hin : ∀ i ∈ List.range n, i < n := fun i hi => List.mem_range.mp hi
    have hS0 : ∀ p i q roi, (List.range n)[p]? = some i → roi_config_values[q]? = some roi →
        Schedule n (st.trace.length + 2 * p + q) i roi := by
      intro p i q roi hp hr
      obtain ⟨rfl, hpn⟩ := range_getElem?_some n p i hp
      simpa using hS 0 i q roi hpn hr
    rw [acquisition_loop, if_pos (by simp [h.1, h.2.1])]
    by_cases hkt : k < st.trace.length + 2 * n
    · have h1 := camera_loop_quit sc n Inv hk (List.range n) hin st k h hS0 hk1
        (by simpa using hkt) hq hkey
      rw [if_pos (by simp [h1.2.1])]
      exact ⟨_, rfl, h1⟩
    · have h1 := camera_loop_quiet sc n Inv hk (List.range n) hin st h hS0
        (fun j hj1 hj2 => hq j hj1 (by simp only [List.length_range] at hj2; omega))
      have hl : (camera_loop sc (List.range n) st).trace.length
          = st.trace.length + 2 * n := by
        rw [h1.2, List.length_range]
      rw [if_neg (by simp [h1.1.1])]
      exact ih _ k h1.1 (by
        intro round p q roi hp hr
        have e : (camera_loop sc (List.range n) st).trace.length + round * (2 * n) + 2 * p + q
            = st.trace.length + (round + 1) * (2 * n) + 2 * p + q := by
          rw [hl]; ring
        rw [e]
        exact hS (round + 1) p q roi hp hr) (by omega) (by omega)
        (fun j hj1 hj2 => hq j (by omega) hj2) hkey

theorem schedule_of_position (n round p q : Nat) (roi : ROI_CONFIG_VALUES) (hp : p < n)
    (hr : roi_config_values[q]? = some roi) :
    Schedule n (0 + round * (2 * n) + 2 * p + q) p roi := by
  have hq : q < 2 := by
    by_contra hcon
    rw [List.getElem?_eq_none (by simpa [roi_config_values] using Nat.le_of_not_lt hcon)] at hr
    cases hr
  have e : 0 + round * (2 * n) + 2 * p + q = 2 * (p + round * n) + q := by ring
  have e1 : (2 * (p + round * n) + q) / 2 = p + round * n := by omega
  have e2 : (2 * (p + round * n) + q) % 2 = q := by omega
  unfold Schedule
  rw [e, e1, e2, Nat.add_mul_mod_self_right, Nat.mod_eq_of_lt hp]
  exact ⟨rfl, hr⟩

theorem recorded_kept (sc : Scene) (n : Nat) : Kept sc n (Recorded sc n) := by
  refine ⟨?_, fun st h => h⟩
  intro i camera nm roi st hS h j r hr
  simp only [visit_pair, List.getElem?_append] at hr
  split_ifs at hr with hj
  · exact h j r hr
  · have hj2 : j = st.trace.length := by
      by_contra hne
      have : 1 ≤ j - st.trace.length := by omega
      rw [List.getElem?_eq_none (by simpa using this)] at hr
      cases hr
    subst hj2
    simp only [Nat.sub_self, List.getElem?_cons_zero, Option.some.injEq] at hr
    subst hr
    refine ⟨hS.1, ?_, rfl, rfl⟩
    have h2 := hS.2
    dsimp only
    rcases Nat.mod_two_eq_zero_or_one st.trace.length with hm | hm
    · rw [hm] at h2
      rw [if_pos hm]
      simp only [roi_config_values, List.getElem?_cons_zero, Option.some.injEq] at h2
      rw [← h2]
    · rw [hm] at h2
      rw [if_neg (by omega)]
      simp only [roi_config_values, List.getElem?_cons_succ, List.getElem?_cons_zero,
        Option.some.injEq] at h2
      rw [← h2]

theorem capture_image_fails (g : Grab) (folder_path device_serial : List Char)
    (image_index : Nat) (offset_x : Int) (h : g.fails) :
    capture_image g folder_path device_serial image_index offset_x = none := by
  unfold capture_image
  rcases h with h | h | h | h <;> simp [h]

theorem acquire_images_quit (sc : Scene) (cameras : List (Option Camera)) (n fuel k : Nat)
    (hn : 0 < n) (hvalid : AllValid sc n cameras) (hquiet : QuietBetween sc 0 k)
    (hkey : keyboard_interrupt (sc.visits k).key = true) (hfuel : k < fuel) :
    ∃ st, acquire_images sc cameras n true fuel = some st
      ∧ st.trace.length = k + 1 ∧ st.local_running = false ∧ st.global_running = false
      ∧ Recorded sc n st := by
  unfold acquire_images
  exact acquisition_loop_quit sc n hn (Recorded sc n) (recorded_kept sc n) fuel _ k
    ⟨rfl, rfl, hvalid, by intro j r hr; simp at hr⟩
    (fun round p q roi hp hr => schedule_of_position n round p q roi hp hr)
    (Nat.zero_le _) (by simpa using hfuel) hquiet hkey

end CAMERA_MANAGER

/-- C17: when `q` or `Q` is waiting at the keyboard test that follows the capture of visit
`k` (and at no earlier test), `acquire_images` returns, given fuel for more than `k` rounds,
with `global_running` and `local_running` false and exactly `k + 1` visits made: no ROI is
applied and no image captured after that visit.  At a keyboard test where no key or another
key is waiting, the ROI loop goes on with the remaining ROIs from the state the visit left,
in which both flags are as they were. -/
theorem acquire_images_unwinds_on_quit (sc : CAMERA_MANAGER.Scene) (cameras : List (Option Camera))
    (n fuel k : Nat) (hn : 0 < n) (hvalid : CAMERA_MANAGER.AllValid sc n cameras)
    (hquiet : CAMERA_MANAGER.QuietBetween sc 0 k)
    (hkey : (sc.visits k).key = some 'q' ∨ (sc.visits k).key = some 'Q') (hfuel : k < fuel) :
    (∃ st, CAMERA_MANAGER.acquire_images sc cameras n true fuel = some st
        ∧ st.global_running = false ∧ st.local_running = false ∧ st.trace.length = k + 1)
      ∧ (∀ (i : Nat) (roi : CAMERA_MANAGER.ROI_CONFIG_VALUES)
          (rest : List CAMERA_MANAGER.ROI_CONFIG_VALUES) (st : CAMERA_MANAGER.AcquireState)
          (camera : Camera) (nm : NodeMap),
        st.cameras.getD i none = some camera → sc.node_maps[i]? = some nm →
        (sc.visits st.trace.length).key ≠ some 'q' →
        (sc.visits st.trace.length).key ≠ some 'Q' →
        CAMERA_MANAGER.roi_loop sc i (roi :: rest) st
            = CAMERA_MANAGER.roi_loop sc i rest (CAMERA_MANAGER.visit_pair sc i camera nm roi st)
          ∧ (CAMERA_MANAGER.visit_pair sc i camera nm roi st).global_running = st.global_running
          ∧ (CAMERA_MANAGER.visit_pair sc i camera nm roi st).local_running = st.local_running) := by
  constructor
  · have hk : CAMERA_MANAGER.keyboard_interrupt (sc.visits k).key = true := by
      rcases hkey with h | h <;> rw [h] <;> rfl
    obtain ⟨st, h1, h2, h3, h4, _⟩ :=
      CAMERA_MANAGER.acquire_images_quit sc cameras n fuel k hn hvalid hquiet hk hfuel
    exact ⟨st, h1, h4, h3, h2⟩
  · intro i roi rest st camera nm hc hnm hq1 hq2
    have hno : CAMERA_MANAGER.keyboard_interrupt (sc.visits st.trace.length).key = false := by
      unfold CAMERA_MANAGER.keyboard_interrupt CAMERA_MANAGER.handle_keyboard_interrupt
      cases hkey2 : (sc.visits st.trace.length).key with
      | none => rfl
      | some c =>
        rw [hkey2] at hq1 hq2
        have h1 : c ≠ 'q' := fun h => hq1 (by rw [h])
        have h2 : c ≠ 'Q' := fun h => hq2 (by rw [h])
        simp [h1, h2]
    rw [CAMERA_MANAGER.roi_loop_cons sc i roi rest st camera nm hc hnm,
      if_neg (by simp [hno])]
    exact ⟨rfl, (CAMERA_MANAGER.visit_pair_flags sc i camera nm roi st).2,
      (CAMERA_MANAGER.visit_pair_flags sc i camera nm roi st).1⟩

theorem sample_cameras_valid (k : Nat) (key : Char) :
    CAMERA_MANAGER.AllValid (CAMERA_MANAGER.Scene.sample k key) 2
      [some Camera.sample, some Camera.sample] := by
  intro i hi
  interval_cases i <;> rfl

theorem sample_scene_quiet (k : Nat) (key : Char) :
    CAMERA_MANAGER.QuietBetween (CAMERA_MANAGER.Scene.sample k key) 0 k := by
  intro j _ hj
  have : j ≠ k := by omega
  simp [CAMERA_MANAGER.Scene.sample, this, CAMERA_MANAGER.keyboard_interrupt]

theorem acquire_images_unwinds_on_quit_witness :
    ∃ st, CAMERA_MANAGER.acquire_images (CAMERA_MANAGER.Scene.sample 2 'q')
        [some Camera.sample, some Camera.sample] 2 true 3 = some st
      ∧ st.global_running = false ∧ st.local_running = false ∧ st.trace.length = 2 + 1 :=
  (acquire_images_unwinds_on_quit (CAMERA_MANAGER.Scene.sample 2 'q')
    [some Camera.sample, some Camera.sample] 2 3 2 (by decide) (sample_cameras_valid 2 'q')
    (sample_scene_quiet 2 'q') (Or.inl rfl) (by decide)).1

namespace CAMERA_MANAGER

theorem prepared_timeout_same (sc sc1 : Scene) (h : SameButGrabs sc sc1) (i : Nat) :
    prepared_timeout sc i = prepared_timeout sc1 i := by
  unfold prepared_timeout
  rw [h.1, h.2.1, h.2.2.2.1]

theorem visit_pair_same (sc sc1 : Scene) (h : SameButGrabs sc sc1) (i : Nat) (camera : Camera)
    (nm : NodeMap) (roi : ROI_CONFIG_VALUES) (st st1 : AcquireState)
    (hs : SameButSaved st st1) :
    SameButSaved (visit_pair sc i camera nm roi st) (visit_pair sc1 i camera nm roi st1) := by
  obtain ⟨h1, h2, h3, h4, h5, h6⟩ := hs
  have hlen : st.trace.length = st1.trace.length := by
    simpa using congrArg List.length h6
  unfold SameButSaved visit_pair
  dsimp only
  rw [h1, h2, h3, h4, h5, hlen, (h.2.2.2.2 st1.trace.length).1, prepared_timeout_same sc sc1 h,
    List.map_append, List.map_append, h6]
  exact ⟨rfl, rfl, rfl, rfl, rfl, rfl⟩

theorem roi_loop_same (sc sc1 : Scene) (h : SameButGrabs sc sc1) (i : Nat)
    (rois : List ROI_CONFIG_VALUES) :
    ∀ st st1, SameButSaved st st1 →
      SameButSaved (roi_loop sc i rois st) (roi_loop sc1 i rois st1) := by
  induction rois with
  | nil => intro st st1 hs; simpa [roi_loop] using hs
  | cons roi rest ih =>
    intro st st1 hs
    have hlen : st.trace.length = st1.trace.length := by
      simpa using congrArg List.length hs.2.2.2.2.2
    rw [roi_loop, roi_loop, ← hs.2.2.2.2.1, ← h.1, ← hlen, ← (h.2.2.2.2 st.trace.length).2]
    cases hc : st.cameras.getD i none with
    | none => exact hs
    | some camera =>
      cases hnm : sc.node_maps[i]? with
      | none => exact hs
      | some nm =>
        dsimp only
        have hv := visit_pair_same sc sc1 h i camera nm roi st st1 hs
        split_ifs
        · exact ⟨hv.1, rfl, rfl, hv.2.2.2.1, hv.2.2.2.2.1, hv.2.2.2.2.2⟩
        · exact ih _ _ hv

theorem camera_loop_same (sc sc1 : Scene) (h : SameButGrabs sc sc1) (indices : List Nat) :
    ∀ st st1, SameButSaved st st1 →
      SameButSaved (camera_loop sc indices st) (camera_loop sc1 indices st1) := by
  induction indices with
  | nil => intro st st1 hs; simpa [camera_loop] using hs
  | cons i rest ih =>
    intro st st1 hs
    have hr := roi_loop_same sc sc1 h i roi_config_values st st1 hs
    rw [camera_loop, camera_loop, ← hs.2.2.2.2.1, ← h.1, ← hr.2.1]
    split_ifs
    · exact ih _ _ hs
    · exact hr
    · exact ih _ _ hr

theorem acquisition_loop_same (sc sc1 : Scene) (h : SameButGrabs sc sc1) (n : Nat) :
    ∀ fuel st st1 out, SameButSaved st st1 → acquisition_loop sc n fuel st = some out →
      ∃ out1, acquisition_loop sc1 n fuel st1 = some out1 ∧ SameButSaved out out1 := by
  intro fuel
  induction fuel with
  | zero =>
    intro st st1 out hs ho
    rw [acquisition_loop] at ho ⊢
    rw [← hs.2.1, ← hs.2.2.1]
    split_ifs at ho ⊢
    cases ho
    exact ⟨_, rfl, hs⟩
  | succ f ih =>
    intro st st1 out hs ho
    have hc := camera_loop_same sc sc1 h (List.range n) st st1 hs
    rw [acquisition_loop] at ho ⊢
    rw [← hs.2.1, ← hs.2.2.1, ← hc.2.1]
    split_ifs at ho ⊢
    · cases ho; exact ⟨_, rfl, hc⟩
    · exact ih _ _ out hc ho
    · cases ho; exact ⟨_, rfl, hs⟩

end CAMERA_MANAGER


theorem same_but_saved_refl (st : CAMERA_MANAGER.AcquireState) :
    CAMERA_MANAGER.SameButSaved st st := ⟨rfl, rfl, rfl, rfl, rfl, rfl⟩

/-- C18: a capture that fails during visit `j` of `acquire_images` (an exception from the
frame fetch, the conversion or the save, or an incomplete image) does not end the function.
If the first `q` or `Q` comes at visit `k > j`, the function returns, given fuel for more
than `k` rounds, with visit `j` on record as having saved nothing and with visit `j + 1`
made after it, for the next pair of the round-robin order: camera `((j + 1) / 2) % n`, the
first region when `j + 1` is even and the second when it is odd.  Moreover the run is, up to
what the visits saved, the same as the run `sc1` in which the frame fetches go differently
(for instance all succeed): the same return value, flags and counts, and the same (camera,
ROI) pairs visited in the same order with the same image index, timeout and device
writes. -/
theorem capture_failure_is_not_fatal (sc sc1 : CAMERA_MANAGER.Scene)
    (cameras : List (Option Camera)) (n fuel k j : Nat) (hn : 0 < n)
    (hvalid : CAMERA_MANAGER.AllValid sc n cameras)
    (hquiet : CAMERA_MANAGER.QuietBetween sc 0 k)
    (hkey : CAMERA_MANAGER.keyboard_interrupt (sc.visits k).key = true) (hfuel : k < fuel)
    (hj : j < k) (hfail : (sc.visits j).grab.fails)
    (hsame : CAMERA_MANAGER.SameButGrabs sc sc1) :
    ∃ st st1 rj rnext, CAMERA_MANAGER.acquire_images sc cameras n true fuel = some st
      ∧ st.trace[j]? = some rj ∧ rj.saved = none
      ∧ st.trace[j + 1]? = some rnext ∧ rnext.camera = ((j + 1) / 2) % n
      ∧ rnext.offset_x = (if (j + 1) % 2 = 0 then 0 else 1216)
      ∧ CAMERA_MANAGER.acquire_images sc1 cameras n true fuel = some st1
      ∧ CAMERA_MANAGER.SameButSaved st st1 := by
  obtain ⟨st, h1, h2, _, _, h5⟩ :=
    CAMERA_MANAGER.acquire_images_quit sc cameras n fuel k hn hvalid hquiet hkey hfuel
  obtain ⟨st1, h6, h7⟩ := CAMERA_MANAGER.acquisition_loop_same sc sc1 hsame n fuel _ _ st
    (same_but_saved_refl _) h1
  have hj1 : j < st.trace.length := by omega
  have hj2 : j + 1 < st.trace.length := by omega
  have r1 := h5 j _ (List.getElem?_eq_getElem hj1)
  have r2 := h5 (j + 1) _ (List.getElem?_eq_getElem hj2)
  refine ⟨st, st1, st.trace[j], st.trace[j + 1], h1, List.getElem?_eq_getElem hj1, ?_,
    List.getElem?_eq_getElem hj2, r2.1, r2.2.1, h6, h7⟩
  rw [r1.2.2.2]
  exact CAMERA_MANAGER.capture_image_fails _ _ _ _ _ hfail

theorem failing_scene_quiet (k : Nat) (key : Char) (j : Nat) :
    CAMERA_MANAGER.QuietBetween (CAMERA_MANAGER.Scene.failing k key j) 0 k := by
  intro i _ hi
  have : i ≠ k := by omega
  simp [CAMERA_MANAGER.Scene.failing, this, CAMERA_MANAGER.keyboard_interrupt]

theorem failing_cameras_valid (k : Nat) (key : Char) (j : Nat) :
    CAMERA_MANAGER.AllValid (CAMERA_MANAGER.Scene.failing k key j) 2
      [some Camera.sample, some Camera.sample] := by
  intro i hi
  interval_cases i <;> rfl

theorem failing_same_but_grabs (k : Nat) (key : Char) (j : Nat) :
    CAMERA_MANAGER.SameButGrabs (CAMERA_MANAGER.Scene.failing k key j)
      (CAMERA_MANAGER.Scene.sample k key) :=
  ⟨rfl, rfl, rfl, rfl, fun _ => ⟨rfl, rfl⟩⟩

theorem capture_failure_is_not_fatal_witness :
    (CAMERA_MANAGER.Scene.failing 2 'q' 0).visits 0
        = ⟨false, ⟨true, false, false, false⟩, none⟩
      ∧ ∃ st st1 rj rnext,
        CAMERA_MANAGER.acquire_images (CAMERA_MANAGER.Scene.failing 2 'q' 0)
            [some Camera.sample, some Camera.sample] 2 true 3 = some st
          ∧ st.trace[0]? = some rj ∧ rj.saved = none
          ∧ st.trace[0 + 1]? = some rnext ∧ rnext.camera = ((0 + 1) / 2) % 2
          ∧ rnext.offset_x = (if (0 + 1) % 2 = 0 then 0 else 1216)
          ∧ CAMERA_MANAGER.acquire_images (CAMERA_MANAGER.Scene.sample 2 'q')
            [some Camera.sample, some Camera.sample] 2 true 3 = some st1
          ∧ CAMERA_MANAGER.SameButSaved st st1 :=
  ⟨rfl, capture_failure_is_not_fatal (CAMERA_MANAGER.Scene.failing 2 'q' 0)
    (CAMERA_MANAGER.Scene.sample 2 'q') [some Camera.sample, some Camera.sample] 2 3 2 0
    (by decide) (failing_cameras_valid 2 'q' 0) (failing_scene_quiet 2 'q' 0) rfl (by decide)
    (by decide) (Or.inl rfl) (failing_same_but_grabs 2 'q' 0)⟩

/-! ### The frame timeout when the exposure time cannot be read -/

theorem unreadable_scene_valid :
    CAMERA_MANAGER.AllValid CAMERA_MANAGER.Scene.exposure_unreadable 2
      [some Camera.sample, some Camera.sample] := by
  intro i hi
  interval_cases i <;> rfl

theorem unreadable_scene_quiet :
    CAMERA_MANAGER.QuietBetween CAMERA_MANAGER.Scene.exposure_unreadable 0 0 := by
  intro j _ hj
  omega

/-- C19, as stated, fails for the multi-camera `acquire_images`: with two cameras whose
`ExposureTime` cannot be read, it does not abort; the first visit is made for camera 0 with
the default timeout of 100 ms, and its frame is fetched and saved. -/
theorem dual_acquire_images_fetches_without_exposure :
    (∀ nm ∈ CAMERA_MANAGER.Scene.exposure_unreadable.node_maps,
        nm.ExposureTime.readable = false)
      ∧ ∃ st r, CAMERA_MANAGER.acquire_images CAMERA_MANAGER.Scene.exposure_unreadable
          [some Camera.sample, some Camera.sample] 2 true 1 = some st
        ∧ st.trace[0]? = some r ∧ r.camera = 0 ∧ r.timeout = 100
        ∧ r.saved = some (CAMERA_MANAGER.full_filename "/data/".toList "21012345".toList
            r.image_index 0) := by
  constructor
  · intro nm hnm
    simp only [CAMERA_MANAGER.Scene.exposure_unreadable, List.mem_cons, List.mem_singleton,
      List.not_mem_nil, or_false, or_self] at hnm
    rw [hnm]; rfl
  · obtain ⟨st, h1, h2, _, _, h5⟩ :=
      CAMERA_MANAGER.acquire_images_quit CAMERA_MANAGER.Scene.exposure_unreadable
        [some Camera.sample, some Camera.sample] 2 1 0 (by decide) unreadable_scene_valid
        unreadable_scene_quiet rfl (by decide)
    have h0 : 0 < st.trace.length := by omega
    have r := h5 0 _ (List.getElem?_eq_getElem h0)
    have hc : st.trace[0].camera = 0 := r.1
    have ho : st.trace[0].offset_x = 0 := r.2.1
    refine ⟨st, st.trace[0], h1, List.getElem?_eq_getElem h0, hc, ?_, ?_⟩
    · rw [r.2.2.1, hc]; rfl
    · rw [r.2.2.2, hc, ho]; rfl

/-- C19, amended: when `ExposureTime` cannot be read, the acquisition functions of the three
single-camera tools return -1 without computing a timeout and without fetching a frame
(whatever the fuel).  The multi-camera `acquire_images` goes on: every visit `j` of a camera
whose serial number was read and whose `ExposureTime` cannot be read is made all the same,
with the default timeout 100, and saves what its frame fetch gives. -/
theorem exposure_unreadable_acquisition :
    (∀ (cam : Camera) (w : Session) (fuel : Nat),
        cam.node_map.ExposureTime.readable = false →
        (∃ acq, Infinity.acquire_images cam w fuel = some acq ∧ acq.result = -1
            ∧ acq.timeout = none ∧ acq.fetches = 0)
          ∧ (∃ acq, Trackbar.acquire_and_display_images cam w fuel = some acq
            ∧ acq.result = -1 ∧ acq.timeout = none ∧ acq.fetches = 0))
      ∧ (∀ (sc : CAMERA_MANAGER.Scene) (cameras : List (Option Camera)) (n fuel k j : Nat)
          (nm : NodeMap),
        0 < n → CAMERA_MANAGER.AllValid sc n cameras → CAMERA_MANAGER.QuietBetween sc 0 k →
        CAMERA_MANAGER.keyboard_interrupt (sc.visits k).key = true → k < fuel → j ≤ k →
        sc.node_maps[(j / 2) % n]? = some nm → nm.ExposureTime.readable = false →
        (CAMERA_MANAGER.prepared_serial_number sc.node_maps_tl_device
          ((j / 2) % n)).isEmpty = false →
        ∃ st r, CAMERA_MANAGER.acquire_images sc cameras n true fuel = some st
          ∧ st.trace[j]? = some r ∧ r.camera = (j / 2) % n
          ∧ r.timeout = 100
          ∧ r.saved = CAMERA_MANAGER.capture_image (sc.visits j).grab sc.folder_path
            (CAMERA_MANAGER.prepared_serial_number sc.node_maps_tl_device r.camera)
            r.image_index r.offset_x) := by
  constructor
  · intro cam w fuel h
    constructor
    · unfold Infinity.acquire_images
      simp only [h, Bool.not_false, if_true]
      split_ifs <;> exact ⟨_, rfl, rfl, rfl, rfl⟩
    · unfold Trackbar.acquire_and_display_images
      simp only [h, Bool.not_false, Bool.true_or, if_true]
      split_ifs <;> exact ⟨_, rfl, rfl, rfl, rfl⟩
  · intro sc cameras n fuel k j nm hn hvalid hquiet hkey hfuel hj hnm hread hserial
    obtain ⟨st, h1, h2, _, _, h5⟩ :=
      CAMERA_MANAGER.acquire_images_quit sc cameras n fuel k hn hvalid hquiet hkey hfuel
    have hj1 : j < st.trace.length := by omega
    have r := h5 j _ (List.getElem?_eq_getElem hj1)
    refine ⟨st, st.trace[j], h1, List.getElem?_eq_getElem hj1, r.1, ?_, r.2.2.2⟩
    rw [r.2.2.1, r.1]
    unfold CAMERA_MANAGER.prepared_timeout
    rw [hnm, hserial]
    simp [CAMERA_MANAGER.calculate_exposure_timeout, hread]

theorem exposure_unreadable_acquisition_witness :
    Camera.exposure_unreadable.node_map.ExposureTime.readable = false
      ∧ (∃ acq, Infinity.acquire_images Camera.exposure_unreadable Session.sample 3 = some acq
          ∧ acq.result = -1 ∧ acq.timeout = none ∧ acq.fetches = 0)
      ∧ ∃ st r, CAMERA_MANAGER.acquire_images CAMERA_MANAGER.Scene.exposure_unreadable
          [some Camera.sample, some Camera.sample] 2 true 1 = some st
        ∧ st.trace[0]? = some r ∧ r.camera = (0 / 2) % 2
        ∧ r.timeout = 100
        ∧ r.saved = CAMERA_MANAGER.capture_image
          (CAMERA_MANAGER.Scene.exposure_unreadable.visits 0).grab
          CAMERA_MANAGER.Scene.exposure_unreadable.folder_path
          (CAMERA_MANAGER.prepared_serial_number
            CAMERA_MANAGER.Scene.exposure_unreadable.node_maps_tl_device r.camera)
          r.image_index r.offset_x :=
  ⟨rfl,
    (exposure_unreadable_acquisition.1 Camera.exposure_unreadable Session.sample 3 rfl).1,
    exposure_unreadable_acquisition.2 CAMERA_MANAGER.Scene.exposure_unreadable
      [some Camera.sample, some Camera.sample] 2 1 0 0 NodeMap.exposure_unreadable
      (by decide) unreadable_scene_valid unreadable_scene_quiet rfl (by decide) (by decide)
      rfl rfl (by decide)⟩

/-! ### The run of the dual-camera tool -/

/-- C16: if fewer than `number_of_cameras` cameras are initialised, `run_multiple_cameras`
returns -1 (whatever the fuel), having run no configuration step and no acquisition (no
step, no device write, no visit), after `de_initialize_cameras`, which stopped and
de-initialised the cameras that had been initialised, left `initialized_cameras`,
`node_maps` and `node_maps_tl_device` empty and set every entry of `cameras` to null. -/
theorem run_multiple_cameras_aborts_after_cleanup (cameras : List (Option Camera))
    (number_of_cameras : Nat) (settings : CAMERA_SETTINGS.SETTINGS) (visits : Nat → Visit)
    (global_running : Bool) (folder_path : List Char) (fuel : Nat)
    (h : (CAMERA_MANAGER.init_cameras cameras (List.range number_of_cameras)
      ⟨[], [], []⟩).initialized_cameras.length < number_of_cameras) :
    ∃ run, CAMERA_MANAGER.run_multiple_cameras cameras number_of_cameras settings visits
        global_running folder_path fuel = some run
      ∧ run.code = -1 ∧ run.steps = [] ∧ run.writes = [] ∧ run.visits = []
      ∧ run.cleaned = true ∧ run.initialized_cameras = [] ∧ run.node_maps = []
      ∧ run.node_maps_tl_device = [] ∧ run.cameras.length = cameras.length
      ∧ (∀ c ∈ run.cameras, c = none)
      ∧ run.released = (CAMERA_MANAGER.stop_camera_acquisition
          (CAMERA_MANAGER.init_cameras cameras (List.range number_of_cameras)
            ⟨[], [], []⟩).initialized_cameras).map CAMERA_MANAGER.de_init_camera
      ∧ run.global_running = global_running := by
  unfold CAMERA_MANAGER.run_multiple_cameras
  simp only [if_pos h]
  refine ⟨_, rfl, rfl, rfl, rfl, rfl, rfl, rfl, rfl, rfl, ?_, ?_, rfl, rfl⟩
  · simp [CAMERA_MANAGER.de_initialize_cameras]
  · intro c hc
    simp only [CAMERA_MANAGER.de_initialize_cameras, List.mem_map] at hc
    obtain ⟨_, _, rfl⟩ := hc
    rfl

theorem run_multiple_cameras_aborts_after_cleanup_witness :
    (CAMERA_MANAGER.init_cameras [some Camera.sample, some Camera.init_fails] (List.range 2)
        ⟨[], [], []⟩).initialized_cameras.length < 2
      ∧ ∃ run, CAMERA_MANAGER.run_multiple_cameras [some Camera.sample, some Camera.init_fails]
          2 ⟨20000, 10, 1⟩ (fun _ => ⟨false, CAMERA_MANAGER.Grab.ok, none⟩) true
          "/data/".toList 0 = some run
        ∧ run.code = -1 ∧ run.steps = [] ∧ run.writes = [] ∧ run.visits = []
        ∧ run.cleaned = true ∧ run.initialized_cameras = [] ∧ run.node_maps = []
        ∧ run.node_maps_tl_device = []
        ∧ run.cameras.length = [some Camera.sample, some Camera.init_fails].length
        ∧ (∀ c ∈ run.cameras, c = none)
        ∧ run.released = (CAMERA_MANAGER.stop_camera_acquisition
            (CAMERA_MANAGER.init_cameras [some Camera.sample, some Camera.init_fails]
              (List.range 2) ⟨[], [], []⟩).initialized_cameras).map
            CAMERA_MANAGER.de_init_camera
        ∧ run.global_running = true :=
  ⟨by decide,
    run_multiple_cameras_aborts_after_cleanup [some Camera.sample, some Camera.init_fails] 2
      ⟨20000, 10, 1⟩ (fun _ => ⟨false, CAMERA_MANAGER.Grab.ok, none⟩) true "/data/".toList 0
      (by decide)⟩

/-! ### The retry loop of the dual-camera tool -/

namespace DualMain

theorem pass_cases (a : Attempt) (fuel : Nat) (st : MainState) :
    (pass a fuel st = none
        ∧ CAMERA_MANAGER.run_multiple_cameras a.cameras a.cameras.length
          (CAMERA_SETTINGS.get_values a.file_content a.uninitialized).2 a.visits
          st.global_running folder_path fuel = none)
      ∨ (∃ st1, pass a fuel st = some (Sum.inl st1) ∧ st1.retries = st.retries + 1
        ∧ st1.attempts = st.attempts + 1 ∧ st1.history = st.history)
      ∨ (∃ run, pass a fuel st = some (Sum.inr run) ∧ run.final.retries = st.retries
        ∧ run.final.attempts = st.attempts + 1 ∧ run.final.history = st.history
        ∧ (run.code = 0 ∨ run.code = -1)) := by
  unfold pass
  split_ifs with h1 h2 h3
  · exact Or.inr (Or.inr ⟨_, rfl, rfl, rfl, rfl, Or.inr rfl⟩)
  · exact Or.inr (Or.inl ⟨_, rfl, rfl, rfl, rfl⟩)
  · exact Or.inr (Or.inr ⟨_, rfl, rfl, rfl, rfl, Or.inr rfl⟩)
  · cases hr : CAMERA_MANAGER.run_multiple_cameras a.cameras a.cameras.length
        (CAMERA_SETTINGS.get_values a.file_content a.uninitialized).2 a.visits
        st.global_running folder_path fuel with
    | none => exact Or.inl ⟨rfl, rfl⟩
    | some run =>
      dsimp only
      split_ifs
      · refine Or.inr (Or.inr ⟨_, rfl, rfl, rfl, rfl, ?_⟩)
        unfold after_loop; dsimp only; split_ifs
        · exact Or.inr rfl
        · exact Or.inl rfl
      · exact Or.inr (Or.inl ⟨_, rfl, rfl, rfl, rfl⟩)

theorem pass_of_fails (a : Attempt) (fuel : Nat) (st : MainState) (h : a.Fails fuel)
    (hg : st.global_running = true) :
    ∃ st1, pass a fuel st = some (Sum.inl st1) ∧ st1.retries = st.retries + 1
      ∧ st1.attempts = st.attempts + 1 ∧ st1.history = st.history
      ∧ st1.global_running = true := by
  obtain ⟨h1, h2⟩ := h
  unfold pass
  rw [if_neg (by simp [h1])]
  rcases h2 with h2 | ⟨h3, run, h4, h5, h6⟩
  · rw [if_pos h2]
    exact ⟨_, rfl, rfl, rfl, rfl, hg⟩
  · by_cases hc : a.cameras.length < 2
    · rw [if_pos hc]
      exact ⟨_, rfl, rfl, rfl, rfl, hg⟩
    · rw [if_neg hc, if_neg (by simp [h3]), hg, h4]
      dsimp only
      rw [if_neg (by simp [h5, h6])]
      exact ⟨_, rfl, rfl, rfl, rfl, h6⟩

theorem main_loop_bounds (world : Nat → Attempt) (fuel : Nat) :
    ∀ budget st run, AtLoopTest st → main_loop world fuel budget st = some run →
      run.final.attempts ≤ max_retries ∧ run.final.retries ≤ max_retries
        ∧ (∀ r ∈ run.final.history, r ≤ max_retries) ∧ (run.code = 0 ∨ run.code = -1) := by
  intro budget
  induction budget with
  | zero => intro st run _ h; simp [main_loop] at h
  | succ b ih =>
    intro st run hst h
    obtain ⟨h1, h2, h3⟩ := hst
    have hh : ∀ r ∈ st.history ++ [st.retries], r ≤ max_retries := by
      intro r hr
      rcases List.mem_append.mp hr with hr | hr
      · exact h3 r hr
      · rw [List.mem_singleton.mp hr]; exact h2
    rw [main_loop] at h
    split_ifs at h with hlt
    · rcases pass_cases (world st.attempts) fuel
          { st with history := st.history ++ [st.retries] } with
        ⟨hp, _⟩ | ⟨st1, hp, e1, e2, e3⟩ | ⟨r, hp, e1, e2, e3, e4⟩
      · rw [hp] at h; cases h
      · rw [hp] at h
        dsimp only at h e1 e2 e3
        exact ih st1 run ⟨by omega, by omega, by rw [e3]; exact hh⟩ h
      · rw [hp] at h
        dsimp only at h e1 e2 e3
        cases h
        exact ⟨by omega, by omega, by rw [e3]; exact hh, e4⟩
    · cases h
      refine ⟨by simpa [after_loop, h1] using h2, h2, hh, ?_⟩
      unfold after_loop; dsimp only; split_ifs
      · exact Or.inr rfl
      · exact Or.inl rfl

theorem main_loop_none (world : Nat → Attempt) (fuel : Nat) :
    ∀ budget st, AtLoopTest st → max_retries - st.retries < budget →
      main_loop world fuel budget st = none →
      ∃ i, i < max_retries ∧ ∃ g, CAMERA_MANAGER.run_multiple_cameras (world i).cameras
        (world i).cameras.length
        (CAMERA_SETTINGS.get_values (world i).file_content (world i).uninitialized).2
        (world i).visits g folder_path fuel = none := by
  intro budget
  induction budget with
  | zero => intro st _ h; omega
  | succ b ih =>
    intro st hst hb h
    obtain ⟨h1, h2, h3⟩ := hst
    have hh : ∀ r ∈ st.history ++ [st.retries], r ≤ max_retries := by
      intro r hr
      rcases List.mem_append.mp hr with hr | hr
      · exact h3 r hr
      · rw [List.mem_singleton.mp hr]; exact h2
    rw [main_loop] at h
    split_ifs at h with hlt
    rcases pass_cases (world st.attempts) fuel
        { st with history := st.history ++ [st.retries] } with
      ⟨_, hp⟩ | ⟨st1, hp, e1, e2, e3⟩ | ⟨r, hp, _⟩
    · exact ⟨st.attempts, by omega, _, hp⟩
    · rw [hp] at h
      dsimp only at h e1 e2 e3
      exact ih st1 ⟨by omega, by omega, by rw [e3]; exact hh⟩ (by omega) h
    · rw [hp] at h; cases h

theorem main_loop_all_fail (world : Nat → Attempt) (fuel : Nat) :
    ∀ budget st, AtLoopTest st → st.global_running = true →
      max_retries - st.retries < budget →
      (∀ i, st.attempts ≤ i → i < max_retries → (world i).Fails fuel) →
      ∃ run, main_loop world fuel budget st = some run ∧ run.code = -1
        ∧ run.final.attempts = max_retries ∧ run.final.retries = max_retries := by
  intro budget
  induction budget with
  | zero => intro st _ _ h; omega
  | succ b ih =>
    intro st hst hg hb hf
    obtain ⟨h1, h2, h3⟩ := hst
    have hh : ∀ r ∈ st.history ++ [st.retries], r ≤ max_retries := by
      intro r hr
      rcases List.mem_append.mp hr with hr | hr
      · exact h3 r hr
      · rw [List.mem_singleton.mp hr]; exact h2
    rw [main_loop]
    split_ifs with hlt
    · obtain ⟨st1, hp, e1, e2, e3, e4⟩ := pass_of_fails (world st.attempts) fuel
        { st with history := st.history ++ [st.retries] }
        (hf st.attempts (Nat.le_refl _) (by omega)) hg
      rw [hp]
      dsimp only at e1 e2 e3 ⊢
      exact ih st1 ⟨by omega, by omega, by rw [e3]; exact hh⟩ e4 (by omega)
        (fun i hi1 hi2 => hf i (by omega) hi2)
    · have e : st.retries = max_retries := by omega
      exact ⟨_, rfl, by simp [after_loop, e], by simp [after_loop, h1, e],
        by simp [after_loop, e]⟩

end DualMain

/-- C11: the main loop of the dual-camera tool makes at most `max_retries` = 3 attempts, and
`retries` never exceeds 3: when `main` returns, the number of passes of the loop and the
final `retries` are at most 3, and so was `retries` at every loop test.  The loop itself
always ends: `main` can fail to return only if the acquisition of one of the first three
attempts does not return.  If each of the first three attempts fails (fewer than two cameras
detected, or a non-zero `result` with the run flag still set), `main` returns -1 after
exactly three attempts, with `retries` at 3. -/
theorem main_retry_budget (world : Nat → DualMain.Attempt) (fuel : Nat) :
    (∀ run, DualMain.main world fuel = some run →
        run.final.attempts ≤ DualMain.max_retries ∧ run.final.retries ≤ DualMain.max_retries
          ∧ ∀ r ∈ run.final.history, r ≤ DualMain.max_retries)
      ∧ (DualMain.main world fuel = none →
        ∃ i, i < DualMain.max_retries ∧ ∃ g,
          CAMERA_MANAGER.run_multiple_cameras (world i).cameras (world i).cameras.length
            (CAMERA_SETTINGS.get_values (world i).file_content (world i).uninitialized).2
            (world i).visits g DualMain.folder_path fuel = none)
      ∧ ((∀ i, i < DualMain.max_retries → (world i).Fails fuel) →
        ∃ run, DualMain.main world fuel = some run ∧ run.code = -1
          ∧ run.final.attempts = DualMain.max_retries
          ∧ run.final.retries = DualMain.max_retries) := by
  have h0 : DualMain.AtLoopTest ⟨0, true, 0, [], none, none⟩ :=
    ⟨rfl, Nat.zero_le _, by intro r hr; cases hr⟩
  refine ⟨?_, ?_, ?_⟩
  · intro run h
    have := DualMain.main_loop_bounds world fuel _ _ run h0 h
    exact ⟨this.1, this.2.1, this.2.2.1⟩
  · intro h
    exact DualMain.main_loop_none world fuel _ _ h0 (by decide) h
  · intro h
    exact DualMain.main_loop_all_fail world fuel _ _ h0 rfl (by decide)
      (fun i _ hi => h i hi)

theorem no_cameras_fails (i fuel : Nat) : (DualMain.no_cameras i).Fails fuel :=
  ⟨rfl, Or.inl (show (0 : Nat) < 2 by decide)⟩

theorem main_retry_budget_witness :
    (∀ i, i < DualMain.max_retries → (DualMain.no_cameras i).Fails 0)
      ∧ ∃ run, DualMain.main DualMain.no_cameras 0 = some run ∧ run.code = -1
        ∧ run.final.attempts = DualMain.max_retries
        ∧ run.final.retries = DualMain.max_retries :=
  ⟨fun i _ => no_cameras_fails i 0,
    (main_retry_budget DualMain.no_cameras 0).2.2 (fun i _ => no_cameras_fails i 0)⟩

/-! ### The return codes of the dual-camera tool -/

namespace CAMERA_MANAGER

theorem for_each_camera_code (body : Nat → NodeMap → MultiOutcome → MultiOutcome)
    (hbody : ∀ i nm acc, (body i nm acc).result = acc.result ∨ (body i nm acc).result = -1)
    (node_maps : List NodeMap) :
    ∀ (i : Nat) (acc : MultiOutcome),
      (for_each_camera body i node_maps acc).result = acc.result
        ∨ (for_each_camera body i node_maps acc).result = -1 := by
  induction node_maps with
  | nil => intro i acc; exact Or.inl rfl
  | cons nm rest ih =>
    intro i acc
    rw [for_each_camera]
    rcases ih (i + 1) (body i nm acc) with h | h
    · rw [h]; exact hbody i nm acc
    · exact Or.inr h

theorem log_result (acc : MultiOutcome) (i : Nat) (ws : List Write) :
    (acc.log i ws).result = acc.result := rfl

theorem config_pixel_format_code (node_maps : List NodeMap) :
    (config_pixel_format node_maps).result = 0 ∨ (config_pixel_format node_maps).result = -1 :=
  for_each_camera_code _ (by
    intro i nm acc
    unfold config_pixel_format_camera
    split_ifs
    · exact Or.inl rfl
    · split
      · exact Or.inr rfl
      · exact Or.inl rfl) node_maps 0 ⟨0, []⟩

theorem config_sensor_shutter_mode_code (node_maps : List NodeMap) :
    (config_sensor_shutter_mode node_maps).result = 0
      ∨ (config_sensor_shutter_mode node_maps).result = -1 :=
  for_each_camera_code _ (by
    intro i nm acc
    unfold config_sensor_shutter_mode_camera
    split_ifs
    · exact Or.inl rfl
    · split
      · exact Or.inr rfl
      · exact Or.inl rfl) node_maps 0 ⟨0, []⟩

theorem config_black_level_code (node_maps : List NodeMap) :
    (config_black_level_clamping_enable node_maps).result = 0
      ∨ (config_black_level_clamping_enable node_maps).result = -1 :=
  for_each_camera_code _ (by
    intro i nm acc
    unfold config_black_level_clamping_enable_camera
    split_ifs
    · exact Or.inl rfl
    · exact Or.inr rfl
    · exact Or.inl rfl) node_maps 0 ⟨0, []⟩

theorem reset_exposure_zero (node_maps : List NodeMap) :
    (reset_exposure node_maps).result = 0 := by
  have h : ∀ (nms : List NodeMap) (i : Nat) (acc : MultiOutcome),
      (for_each_camera reset_exposure_camera i nms acc).result = acc.result := by
    intro nms
    induction nms with
    | nil => intro i acc; rfl
    | cons nm rest ih =>
      intro i acc
      rw [for_each_camera, ih]
      unfold reset_exposure_camera
      split_ifs <;> rfl
  exact h node_maps 0 ⟨0, []⟩

theorem config_exposure_code (node_maps : List NodeMap) (v : ℚ) :
    (config_exposure node_maps v).result = 0 ∨ (config_exposure node_maps v).result = -1 :=
  for_each_camera_code _ (by
    intro i nm acc
    unfold config_exposure_camera
    split_ifs
    · split
      · exact Or.inr rfl
      · split
        · exact Or.inl rfl
        · exact Or.inr rfl
        · exact Or.inl rfl
    · exact Or.inl rfl) node_maps 0 ⟨0, []⟩

theorem config_gain_code (node_maps : List NodeMap) (v : ℚ) :
    (config_gain node_maps v).result = 0 ∨ (config_gain node_maps v).result = -1 :=
  for_each_camera_code _ (by
    intro i nm acc
    unfold config_gain_camera
    split_ifs
    · exact Or.inl rfl
    · split
      · exact Or.inr rfl
      · split
        · exact Or.inl rfl
        · exact Or.inr rfl
        · exact Or.inl rfl) node_maps 0 ⟨0, []⟩

theorem config_gamma_code (node_maps : List NodeMap) (v : ℚ) :
    (config_gamma node_maps v).result = 0 ∨ (config_gamma node_maps v).result = -1 :=
  for_each_camera_code _ (by
    intro i nm acc
    unfold config_gamma_camera
    split_ifs
    · exact Or.inl rfl
    · exact Or.inr rfl
    · split
      · exact Or.inl rfl
      · exact Or.inr rfl
      · exact Or.inl rfl) node_maps 0 ⟨0, []⟩

theorem config_roi_code (nm : NodeMap) (x y w h : Int) :
    ReturnCode (config_roi nm x y w h).result := by
  unfold config_roi ReturnCode; repeat' split
  all_goals simp

theorem set_acquisition_mode_code (nm : NodeMap) :
    ReturnCode (set_acquisition_mode nm).result := by
  unfold set_acquisition_mode ReturnCode; split_ifs <;> simp

theorem roi_loop_keeps (sc : Scene) (Inv : AcquireState → Prop)
    (hv : ∀ i camera nm roi st, Inv st → Inv (visit_pair sc i camera nm roi st))
    (hq : ∀ st, Inv st → Inv { st with local_running := false, global_running := false })
    (i : Nat) (rois : List ROI_CONFIG_VALUES) :
    ∀ st, Inv st → Inv (roi_loop sc i rois st) := by
  induction rois with
  | nil => intro st h; simpa [roi_loop] using h
  | cons roi rest ih =>
    intro st h
    rw [roi_loop]
    split
    · split_ifs
      · exact hq _ (hv _ _ _ _ _ h)
      · exact ih _ (hv _ _ _ _ _ h)
    · exact h

theorem camera_loop_keeps (sc : Scene) (Inv : AcquireState → Prop)
    (hv : ∀ i camera nm roi st, Inv st → Inv (visit_pair sc i camera nm roi st))
    (hq : ∀ st, Inv st → Inv { st with local_running := false, global_running := false })
    (indices : List Nat) :
    ∀ st, Inv st → Inv (camera_loop sc indices st) := by
  induction indices with
  | nil => intro st h; simpa [camera_loop] using h
  | cons i rest ih =>
    intro st h
    rw [camera_loop]
    split_ifs
    · exact ih _ h
    · exact roi_loop_keeps sc Inv hv hq i _ _ h
    · exact ih _ (roi_loop_keeps sc Inv hv hq i _ _ h)

theorem acquisition_loop_keeps (sc : Scene) (n : Nat) (Inv : AcquireState → Prop)
    (hv : ∀ i camera nm roi st, Inv st → Inv (visit_pair sc i camera nm roi st))
    (hq : ∀ st, Inv st → Inv { st with local_running := false, global_running := false }) :
    ∀ fuel st out, Inv st → acquisition_loop sc n fuel st = some out → Inv out := by
  intro fuel
  induction fuel with
  | zero =>
    intro st out h ho
    rw [acquisition_loop] at ho
    split_ifs at ho
    cases ho; exact h
  | succ f ih =>
    intro st out h ho
    rw [acquisition_loop] at ho
    split_ifs at ho
    · cases ho; exact camera_loop_keeps sc Inv hv hq _ _ h
    · exact ih _ out (camera_loop_keeps sc Inv hv hq _ _ h) ho
    · cases ho; exact h

theorem visit_pair_result (sc : Scene) (i : Nat) (camera : Camera) (nm : NodeMap)
    (roi : ROI_CONFIG_VALUES) (st : AcquireState) (h : ReturnCode st.result) :
    (visit_pair sc i camera nm roi st).result = -1 := by
  have h1 := (int_or_codes h (config_roi_code nm roi.offset_x roi.offset_y roi.width
    roi.height)).1
  have h2 := (int_or_codes h1 (set_acquisition_mode_code nm)).1
  have h3 : (start_camera_acquisition camera (sc.visits st.trace.length).begin_raises).1
      = -1 := by
    unfold start_camera_acquisition; split_ifs <;> rfl
  simp only [visit_pair, h3]
  exact (int_or_codes h2 (Or.inr (Or.inr rfl))).2.2 (Or.inr rfl)

theorem result_after_visits_kept (sc : Scene) :
    (∀ i camera nm roi st, ResultAfterVisits st →
        ResultAfterVisits (visit_pair sc i camera nm roi st))
      ∧ (∀ st, ResultAfterVisits st →
        ResultAfterVisits { st with local_running := false, global_running := false }) := by
  refine ⟨?_, fun st h => h⟩
  intro i camera nm roi st h
  have hc : ReturnCode st.result := by
    by_cases ht : st.trace = []
    · exact Or.inl (h.1 ht)
    · exact Or.inr (Or.inr (h.2 ht))
  refine ⟨?_, fun _ => visit_pair_result sc i camera nm roi st hc⟩
  intro ht
  simp [visit_pair] at ht

theorem acquire_images_result (sc : Scene) (cameras : List (Option Camera)) (n : Nat)
    (g : Bool) (fuel : Nat) (st : AcquireState)
    (h : acquire_images sc cameras n g fuel = some st) : ResultAfterVisits st := by
  unfold acquire_images at h
  exact acquisition_loop_keeps sc n ResultAfterVisits (result_after_visits_kept sc).1
    (result_after_visits_kept sc).2 fuel _ st ⟨fun _ => rfl, fun hne => absurd rfl hne⟩ h

end CAMERA_MANAGER

namespace CAMERA_MANAGER

theorem zero_or_minus_one_code {c : Int} (h : c = 0 ∨ c = -1) : ReturnCode c := by
  rcases h with h | h
  · exact Or.inl h
  · exact Or.inr (Or.inr h)

theorem code_zero_or_minus_one {c : Int} (h : ReturnCode c) (h1 : c ≠ 1) : c = 0 ∨ c = -1 := by
  rcases h with h | h | h
  · exact Or.inl h
  · exact absurd h h1
  · exact Or.inr h

theorem int_or_zero_or_minus_one {a b : Int} (ha : a = 0 ∨ a = -1) (hb : b = 0 ∨ b = -1) :
    int_or a b = 0 ∨ int_or a b = -1 := by
  rcases ha with rfl | rfl <;> rcases hb with rfl | rfl <;> decide

theorem run_multiple_cameras_codes (cameras : List (Option Camera)) (n : Nat)
    (settings : CAMERA_SETTINGS.SETTINGS) (visits : Nat → Visit) (g : Bool)
    (folder_path : List Char) (fuel : Nat) (run : ManagerRun)
    (h : run_multiple_cameras cameras n settings visits g folder_path fuel = some run) :
    (run.code = 0 ∨ run.code = -1) ∧ (∀ s ∈ run.steps, s.2 = 0 ∨ s.2 = -1)
      ∧ (run.code = 0 → ∀ s ∈ run.steps, s.2 = 0)
      ∧ (run.visits ≠ [] → run.code = -1) := by
  unfold run_multiple_cameras at h
  dsimp only at h
  generalize init_cameras cameras (List.range n) ⟨[], [], []⟩ = init at h
  have he := config_exposure_code init.node_maps settings.exposure
  by_cases h1 : init.initialized_cameras.length < n
  · rw [if_pos h1] at h
    cases h
    exact ⟨Or.inr rfl, by simp, by simp, by simp⟩
  · rw [if_neg h1] at h
    by_cases h2 : (config_exposure init.node_maps settings.exposure).result < 0
    · rw [if_pos h2] at h
      cases h
      have he1 : (config_exposure init.node_maps settings.exposure).result = -1 := by
        rcases he with he | he
        · rw [he] at h2; exact absurd h2 (by decide)
        · exact he
      refine ⟨Or.inr he1, ?_, ?_, by simp⟩
      · intro s hs
        simp only [List.mem_cons, List.mem_singleton, List.not_mem_nil, or_false] at hs
        rcases hs with rfl | rfl | rfl
        · exact config_pixel_format_code _
        · exact config_sensor_shutter_mode_code _
        · exact he
      · intro h0
        dsimp only at h0
        rw [he1] at h0
        exact absurd h0 (by decide)
    · rw [if_neg h2] at h
      have he0 : (config_exposure init.node_maps settings.exposure).result = 0 := by
        rcases he with he | he
        · exact he
        · rw [he] at h2; exact absurd (by decide) h2
      cases hacq : acquire_images
          ⟨init.node_maps, init.node_maps_tl_device, folder_path,
            exposure_of init.initialized_cameras, visits⟩
          init.initialized_cameras init.initialized_cameras.length g fuel with
      | none => rw [hacq] at h; cases h
      | some st =>
        rw [hacq] at h
        simp only [he0, if_true, Option.some.injEq] at h
        subst h
        have hst := acquire_images_result _ _ _ _ _ st hacq
        have hstc : st.result = 0 ∨ st.result = -1 := by
          by_cases ht : st.trace = []
          · exact Or.inl (hst.1 ht)
          · exact Or.inr (hst.2 ht)
        have h3 := config_pixel_format_code init.node_maps
        have h4 := config_sensor_shutter_mode_code init.node_maps
        have h5 := config_gain_code init.node_maps settings.gain
        have h6 := config_black_level_code init.node_maps
        have h7 := config_gamma_code init.node_maps settings.gamma
        have h8 := reset_exposure_zero init.node_maps
        dsimp only
        refine ⟨?_, ?_, ?_, ?_⟩
        · have c1 := int_or_zero_or_minus_one (Or.inl (rfl : (0 : Int) = 0)) h3
          have c2 := int_or_zero_or_minus_one c1 h4
          have c3 := int_or_zero_or_minus_one c2 h5
          have c4 := int_or_zero_or_minus_one c3 h6
          have c5 := int_or_zero_or_minus_one c4 h7
          have c6 := int_or_zero_or_minus_one c5 hstc
          exact int_or_zero_or_minus_one c6 (Or.inl h8)
        · intro s hs
          simp only [List.cons_append, List.nil_append, List.mem_cons, List.mem_singleton,
            List.not_mem_nil, or_false] at hs
          rcases hs with rfl | rfl | rfl | rfl | rfl | rfl | rfl | rfl
          · exact h3
          · exact h4
          · exact Or.inl rfl
          · exact h5
          · exact h6
          · exact h7
          · exact hstc
          · exact Or.inl h8
        · intro h0 s hs
          have c1 := (int_or_codes (Or.inl (rfl : (0 : Int) = 0))
            (zero_or_minus_one_code h3))
          have c2 := int_or_codes c1.1 (zero_or_minus_one_code h4)
          have c3 := int_or_codes c2.1 (zero_or_minus_one_code h5)
          have c4 := int_or_codes c3.1 (zero_or_minus_one_code h6)
          have c5 := int_or_codes c4.1 (zero_or_minus_one_code h7)
          have c6 := int_or_codes c5.1 (zero_or_minus_one_code hstc)
          have c7 := int_or_codes c6.1 (zero_or_minus_one_code (Or.inl h8))
          have z7 := c7.2.1.mp h0
          have z6 := c6.2.1.mp z7.1
          have z5 := c5.2.1.mp z6.1
          have z4 := c4.2.1.mp z5.1
          have z3 := c3.2.1.mp z4.1
          have z2 := c2.2.1.mp z3.1
          have z1 := c1.2.1.mp z2.1
          simp only [List.cons_append, List.nil_append, List.mem_cons, List.mem_singleton,
            List.not_mem_nil, or_false] at hs
          rcases hs with rfl | rfl | rfl | rfl | rfl | rfl | rfl | rfl
          · exact z1.2
          · exact z2.2
          · rfl
          · exact z3.2
          · exact z4.2
          · exact z5.2
          · exact z6.2
          · exact h8
        · intro hv
          have hs1 : st.result = -1 := hst.2 hv
          have c1 := (int_or_codes (Or.inl (rfl : (0 : Int) = 0))
            (zero_or_minus_one_code h3))
          have c2 := int_or_codes c1.1 (zero_or_minus_one_code h4)
          have c3 := int_or_codes c2.1 (zero_or_minus_one_code h5)
          have c4 := int_or_codes c3.1 (zero_or_minus_one_code h6)
          have c5 := int_or_codes c4.1 (zero_or_minus_one_code h7)
          have c6 := int_or_codes c5.1 (zero_or_minus_one_code hstc)
          have c7 := int_or_codes c6.1 (zero_or_minus_one_code (Or.inl h8))
          exact c7.2.2 (Or.inl (c6.2.2 (Or.inr hs1)))

end CAMERA_MANAGER

namespace DualMain

theorem pass_return_cases (a : Attempt) (fuel : Nat) (st : MainState) (run : MainRun)
    (h : pass a fuel st = some (Sum.inr run)) :
    run.code = -1 ∨ (st.retries ≠ max_retries → ReturnsZeroBy run) := by
  unfold pass at h
  by_cases h1 : (!a.system_ok) = true
  · rw [if_pos h1] at h; cases h; exact Or.inl rfl
  rw [if_neg h1] at h
  by_cases h2 : a.cameras.length < 2
  · rw [if_pos h2] at h; cases h
  rw [if_neg h2] at h
  by_cases h3 : a.file_content.isEmpty = true
  · rw [if_pos h3] at h; cases h; exact Or.inl rfl
  rw [if_neg h3] at h
  cases hr : CAMERA_MANAGER.run_multiple_cameras a.cameras a.cameras.length
      (CAMERA_SETTINGS.get_values a.file_content a.uninitialized).2 a.visits
      st.global_running folder_path fuel with
  | none => rw [hr] at h; cases h
  | some mrun =>
    rw [hr] at h
    dsimp only at h
    by_cases h4 : (decide (int_or (int_or 0
        (CAMERA_SETTINGS.get_values a.file_content a.uninitialized).1) mrun.code = 0)
        || !mrun.global_running) = true
    · rw [if_pos h4] at h
      cases h
      right
      intro _
      have hc := CAMERA_MANAGER.run_multiple_cameras_codes _ _ _ _ _ _ _ mrun hr
      have hz : int_or (int_or 0 0) mrun.code = 0 → mrun.code = 0 := by
        rcases hc.1 with e | e <;> rw [e] <;> decide
      refine ⟨_, mrun, rfl, rfl, rfl, rfl, ?_, ?_⟩
      · simp only [after_loop, Bool.or_eq_true, decide_eq_true_eq, Bool.not_eq_true'] at h4 ⊢
        exact h4
      · intro h0
        exact ⟨hz h0, hc.2.2.1 (hz h0)⟩
    · rw [if_neg h4] at h; cases h

theorem main_loop_zero (world : Nat → Attempt) (fuel : Nat) :
    ∀ budget st run, AtLoopTest st → main_loop world fuel budget st = some run →
      run.code = 0 → ReturnsZeroBy run := by
  intro budget
  induction budget with
  | zero => intro st run _ h; simp [main_loop] at h
  | succ b ih =>
    intro st run hst h h0
    obtain ⟨h1, h2, h3⟩ := hst
    have hh : ∀ r ∈ st.history ++ [st.retries], r ≤ max_retries := by
      intro r hr
      rcases List.mem_append.mp hr with hr | hr
      · exact h3 r hr
      · rw [List.mem_singleton.mp hr]; exact h2
    rw [main_loop] at h
    split_ifs at h with hlt
    · rcases pass_cases (world st.attempts) fuel
          { st with history := st.history ++ [st.retries] } with
        ⟨hp, _⟩ | ⟨st1, hp, e1, e2, e3⟩ | ⟨r, hp, _⟩
      · rw [hp] at h; cases h
      · rw [hp] at h
        dsimp only at h e1 e2 e3
        exact ih st1 run ⟨by omega, by omega, by rw [e3]; exact hh⟩ h h0
      · rw [hp] at h
        dsimp only at h
        cases h
        rcases pass_return_cases _ _ _ _ hp with hm | hz
        · rw [hm] at h0; exact absurd h0 (by decide)
        · exact hz (by dsimp only; omega)
    · cases h
      exfalso
      have e : st.retries = max_retries := by omega
      simp [after_loop, e] at h0

end DualMain

/-! ### The exit codes of the programs -/

theorem single_run_result (cam : Camera) (w : Session) (fuel : Nat) (run : SingleRun)
    (h : (∃ s s1, Infinity.run_single_camera cam s w fuel = some (run, s1))
      ∨ (∃ g g1, Trackbar.color_run_single_camera cam g w fuel = some (run, g1))
      ∨ (∃ g g1, Trackbar.mono_run_single_camera cam g w fuel = some (run, g1))) :
    ReturnCode run.result ∧ (run.result = 0 ↔ run.Clean) := by
  obtain ⟨h1, h2, h3, _⟩ := single_run_aggregate cam w fuel run h
  have hc := or_codes_spec run.codes h1
  unfold SingleRun.Clean
  rw [h2]
  cases hr : run.raised with
  | true => simp [ReturnCode]
  | false =>
    simp only [Bool.false_eq_true, if_false, true_and]
    exact ⟨hc.1, h3⟩

theorem runs_code (runs : List SingleRun)
    (h : ∀ run ∈ runs, ReturnCode run.result ∧ (run.result = 0 ↔ run.Clean)) :
    ((runs.map (fun run => run.result)).foldl int_or 0 = 0 ↔ ∀ run ∈ runs, run.Clean) := by
  have hc : ∀ c ∈ runs.map (fun run => run.result), ReturnCode c := by
    intro c hc
    obtain ⟨run, hr, rfl⟩ := List.mem_map.mp hc
    exact (h run hr).1
  rw [(foldl_int_or_codes _ 0 (Or.inl rfl) hc).2.1]
  constructor
  · intro hz run hr
    exact (h run hr).2.mp (hz.2 _ (List.mem_map.mpr ⟨run, hr, rfl⟩))
  · intro hz
    refine ⟨rfl, ?_⟩
    intro c hc
    obtain ⟨run, hr, rfl⟩ := List.mem_map.mp hc
    exact (h run hr).2.mpr (hz run hr)

theorem infinity_run_cameras_spec (world : Nat → Session) (fuel : Nat) :
    ∀ (cams : List Camera) (i : Nat) (s : Infinity.camera_settings) (acc prog : ProgramRun),
      Infinity.run_cameras world fuel i cams s acc = some prog →
      ∃ runs, prog.runs = acc.runs ++ runs
        ∧ prog.code = (runs.map (fun run => run.result)).foldl int_or acc.code
        ∧ ∀ run ∈ runs, ReturnCode run.result ∧ (run.result = 0 ↔ run.Clean) := by
  intro cams
  induction cams with
  | nil =>
    intro i s acc prog h
    rw [Infinity.run_cameras] at h
    cases h
    exact ⟨[], by simp, rfl, by simp⟩
  | cons cam rest ih =>
    intro i s acc prog h
    rw [Infinity.run_cameras] at h
    cases hr : Infinity.run_single_camera cam s (world i) fuel with
    | none => rw [hr] at h; cases h
    | some x =>
      obtain ⟨run, s1⟩ := x
      rw [hr] at h
      dsimp only at h
      obtain ⟨runs, e1, e2, e3⟩ := ih _ _ _ _ h
      refine ⟨run :: runs, by simpa using e1, by simpa using e2, ?_⟩
      intro r hr2
      rcases List.mem_cons.mp hr2 with rfl | hr2
      · exact single_run_result cam (world i) fuel _ (Or.inl ⟨_, _, hr⟩)
      · exact e3 r hr2

theorem trackbar_run_cameras_spec
    (rsc : Camera → Trackbar.Globals → Session → Nat → Option (SingleRun × Trackbar.Globals))
    (hrsc : ∀ cam g w fuel run g1, rsc cam g w fuel = some (run, g1) →
      ReturnCode run.result ∧ (run.result = 0 ↔ run.Clean))
    (world : Nat → Session) (fuel : Nat) :
    ∀ (cams : List Camera) (i : Nat) (g : Trackbar.Globals) (acc prog : ProgramRun),
      Trackbar.run_cameras rsc world fuel i cams g acc = some prog →
      ∃ runs, prog.runs = acc.runs ++ runs
        ∧ prog.code = (runs.map (fun run => run.result)).foldl int_or acc.code
        ∧ ∀ run ∈ runs, ReturnCode run.result ∧ (run.result = 0 ↔ run.Clean) := by
  intro cams
  induction cams with
  | nil =>
    intro i g acc prog h
    rw [Trackbar.run_cameras] at h
    cases h
    exact ⟨[], by simp, rfl, by simp⟩
  | cons cam rest ih =>
    intro i g acc prog h
    rw [Trackbar.run_cameras] at h
    cases hr : rsc cam g (world i) fuel with
    | none => rw [hr] at h; cases h
    | some x =>
      obtain ⟨run, g1⟩ := x
      rw [hr] at h
      dsimp only at h
      obtain ⟨runs, e1, e2, e3⟩ := ih _ _ _ _ h
      refine ⟨run :: runs, by simpa using e1, by simpa using e2, ?_⟩
      intro r hr2
      rcases List.mem_cons.mp hr2 with rfl | hr2
      · exact hrsc cam g (world i) fuel _ g1 hr
      · exact e3 r hr2

theorem single_camera_exit_code (cameras : List Camera) (world : Nat → Session) (fuel : Nat)
    (prog : ProgramRun)
    (h : (∃ file u initial, Infinity.main cameras file u initial world fuel = some prog)
      ∨ Trackbar.color_main cameras world fuel = some prog
      ∨ Trackbar.mono_main cameras world fuel = some prog) :
    (prog.code = 0 ↔ cameras ≠ [] ∧ ∀ run ∈ prog.runs, run.Clean)
      ∧ (prog.Tainted → prog.code ≠ 0) := by
  have key : prog.code = 0 ↔ cameras ≠ [] ∧ ∀ run ∈ prog.runs, run.Clean := by
    by_cases hc : cameras = []
    · subst hc
      have : prog = ⟨-1, []⟩ := by
        rcases h with ⟨f, u, s, h⟩ | h | h
        · simpa [Infinity.main] using h.symm
        · simpa [Trackbar.color_main] using h.symm
        · simpa [Trackbar.mono_main] using h.symm
      subst this
      simp
    · have hlen : ¬ cameras.length = 0 := by simpa using hc
      have : ∃ runs, prog.runs = [] ++ runs
          ∧ prog.code = (runs.map (fun run => run.result)).foldl int_or 0
          ∧ ∀ run ∈ runs, ReturnCode run.result ∧ (run.result = 0 ↔ run.Clean) := by
        rcases h with ⟨f, u, s, h⟩ | h | h
        · unfold Infinity.main at h
          rw [if_neg hlen] at h
          exact infinity_run_cameras_spec world fuel _ _ _ _ _ h
        · unfold Trackbar.color_main at h
          rw [if_neg hlen] at h
          exact trackbar_run_cameras_spec _ (fun cam g w fuel run g1 hr =>
            single_run_result cam w fuel run (Or.inr (Or.inl ⟨_, _, hr⟩))) world fuel _ _ _ _ _ h
        · unfold Trackbar.mono_main at h
          rw [if_neg hlen] at h
          exact trackbar_run_cameras_spec _ (fun cam g w fuel run g1 hr =>
            single_run_result cam w fuel run (Or.inr (Or.inr ⟨_, _, hr⟩))) world fuel _ _ _ _ _ h
      obtain ⟨runs, e1, e2, e3⟩ := this
      rw [List.nil_append] at e1
      rw [e2, e1, runs_code runs e3]
      simp [hc]
  refine ⟨key, ?_⟩
  rintro ⟨run, hr, ht⟩ h0
  have hclean := (key.mp h0).2 run hr
  rcases ht with ht | ⟨c, hc, hne⟩
  · rw [hclean.1] at ht; cases ht
  · exact hne (hclean.2 c hc)

theorem run_multiple_cameras_returns (cameras : List (Option Camera)) (n : Nat)
    (settings : CAMERA_SETTINGS.SETTINGS) (visits : Nat → Visit) (g : Bool)
    (folder_path : List Char) (fuel : Nat) (st : CAMERA_MANAGER.AcquireState)
    (hcount : ¬ (CAMERA_MANAGER.init_cameras cameras (List.range n)
      ⟨[], [], []⟩).initialized_cameras.length < n)
    (hexp : ¬ (CAMERA_MANAGER.config_exposure
      (CAMERA_MANAGER.init_cameras cameras (List.range n) ⟨[], [], []⟩).node_maps
      settings.exposure).result < 0)
    (hst : CAMERA_MANAGER.acquire_images
      ⟨(CAMERA_MANAGER.init_cameras cameras (List.range n) ⟨[], [], []⟩).node_maps,
        (CAMERA_MANAGER.init_cameras cameras (List.range n) ⟨[], [], []⟩).node_maps_tl_device,
        folder_path,
        CAMERA_MANAGER.exposure_of
          (CAMERA_MANAGER.init_cameras cameras (List.range n) ⟨[], [], []⟩).initialized_cameras,
        visits⟩
      (CAMERA_MANAGER.init_cameras cameras (List.range n) ⟨[], [], []⟩).initialized_cameras
      (CAMERA_MANAGER.init_cameras cameras (List.range n)
        ⟨[], [], []⟩).initialized_cameras.length g fuel = some st) :
    ∃ mrun, CAMERA_MANAGER.run_multiple_cameras cameras n settings visits g folder_path fuel
        = some mrun
      ∧ mrun.global_running = st.global_running ∧ mrun.visits = st.trace
      ∧ (CAMERA_MANAGER.Step.acquire_images, st.result) ∈ mrun.steps := by
  unfold CAMERA_MANAGER.run_multiple_cameras
  dsimp only
  rw [if_neg hcount, if_neg hexp, hst]
  exact ⟨_, rfl, rfl, rfl, by simp⟩

theorem sample_cameras_initialised :
    CAMERA_MANAGER.init_cameras [some Camera.sample, some Camera.sample] (List.range 2)
        ⟨[], [], []⟩
      = ⟨[some { Camera.sample with initialized := true },
            some { Camera.sample with initialized := true }],
          [NodeMap.sample, NodeMap.sample],
          [Camera.sample.tl_device, Camera.sample.tl_device]⟩ := by
  rfl

theorem sample_exposure_configured (v : ℚ) :
    (CAMERA_MANAGER.config_exposure [NodeMap.sample, NodeMap.sample] v).result = 0 := by
  simp [CAMERA_MANAGER.config_exposure, CAMERA_MANAGER.for_each_camera,
    CAMERA_MANAGER.config_exposure_camera, select_entry_stage, set_float_stage,
    NodeMap.sample, SwitchNode.ok, FloatNode.ok, CAMERA_MANAGER.MultiOutcome.log]

theorem user_quits_run (settings : CAMERA_SETTINGS.SETTINGS) :
    ∃ mrun, CAMERA_MANAGER.run_multiple_cameras [some Camera.sample, some Camera.sample] 2
        settings (DualMain.user_quits 0).visits true DualMain.folder_path 1 = some mrun
      ∧ mrun.global_running = false ∧ mrun.code = -1
      ∧ (CAMERA_MANAGER.Step.acquire_images, -1) ∈ mrun.steps := by
  have hvalid : CAMERA_MANAGER.AllValid
      ⟨[NodeMap.sample, NodeMap.sample],
        [Camera.sample.tl_device, Camera.sample.tl_device], DualMain.folder_path,
        CAMERA_MANAGER.exposure_of [some { Camera.sample with initialized := true },
          some { Camera.sample with initialized := true }],
        (DualMain.user_quits 0).visits⟩ 2
      [some { Camera.sample with initialized := true },
        some { Camera.sample with initialized := true }] := by
    intro i hi
    interval_cases i <;> rfl
  obtain ⟨st, h1, h2, _, h4, _⟩ := CAMERA_MANAGER.acquire_images_quit _ _ 2 1 0 (by decide)
    hvalid (by intro j _ hj; omega) rfl (by decide)
  have hres := CAMERA_MANAGER.acquire_images_result _ _ _ _ _ st h1
  have hne : st.trace ≠ [] := by
    intro e; rw [e] at h2; cases h2
  obtain ⟨mrun, e1, e2, e3, e4⟩ := run_multiple_cameras_returns
    [some Camera.sample, some Camera.sample] 2 settings (DualMain.user_quits 0).visits true
    DualMain.folder_path 1 st
    (by rw [sample_cameras_initialised]; decide)
    (by rw [sample_cameras_initialised, sample_exposure_configured]; decide)
    (by rw [sample_cameras_initialised]; exact h1)
  refine ⟨mrun, e1, e2.trans h4, ?_, ?_⟩
  · exact (CAMERA_MANAGER.run_multiple_cameras_codes _ _ _ _ _ _ _ mrun e1).2.2.2
      (by rw [e3]; exact hne)
  · rw [← hres.2 hne]; exact e4

theorem user_quits_main :
    ∃ run mrun, DualMain.main DualMain.user_quits 1 = some run ∧ run.code = 0
      ∧ run.final.last_run = some mrun ∧ mrun.code = -1
      ∧ (CAMERA_MANAGER.Step.acquire_images, -1) ∈ mrun.steps
      ∧ run.final.last_result = some (-1) := by
  have hfile : (DualMain.user_quits 0).file_content.isEmpty = false := by
    simp [DualMain.user_quits, DualMain.Attempt.file_content, load_from_file, getlines,
      newline]
  obtain ⟨mrun, e1, e2, e3, e4⟩ := user_quits_run
    (CAMERA_SETTINGS.get_values (DualMain.user_quits 0).file_content
      (DualMain.user_quits 0).uninitialized).2
  have hpass : DualMain.pass (DualMain.user_quits 0) 1 ⟨0, true, 0, [0], none, none⟩
      = some (Sum.inr ⟨0, ⟨0, false, 1, [0], some (-1), some mrun⟩⟩) := by
    unfold DualMain.pass
    rw [if_neg (by simp [DualMain.user_quits]),
      if_neg (by simp [DualMain.user_quits]), if_neg (by simp [hfile])]
    have e1' : CAMERA_MANAGER.run_multiple_cameras (DualMain.user_quits 0).cameras
        (DualMain.user_quits 0).cameras.length
        (CAMERA_SETTINGS.get_values (DualMain.user_quits 0).file_content
          (DualMain.user_quits 0).uninitialized).2
        (DualMain.user_quits 0).visits true DualMain.folder_path 1 = some mrun := e1
    dsimp only
    rw [e1']
    dsimp only
    rw [if_pos (by simp [e2])]
    simp [DualMain.after_loop, DualMain.max_retries, e2, e3, CAMERA_SETTINGS.get_values]
    decide
  refine ⟨⟨0, ⟨0, false, 1, [0], some (-1), some mrun⟩⟩, mrun, ?_, rfl, rfl, e3, e4, rfl⟩
  unfold DualMain.main
  rw [DualMain.main_loop, if_pos (by decide)]
  dsimp only
  have : ([] : List Nat) ++ [0] = [0] := rfl
  rw [this, hpass]

/-- C12, as stated, fails for the dual-camera tool: two cameras in working order are
detected, the settings are loaded, the user presses `q` during the first visit.  The
acquisition returns -1 (the -1 of `start_camera_acquisition`), `run_multiple_cameras`
returns -1 and `result` is -1, but the run flag is cleared, so the loop is left and `main`
returns 0. -/
theorem dual_main_returns_zero_after_failed_stage :
    ∃ run mrun, DualMain.main DualMain.user_quits 1 = some run ∧ run.code = 0
      ∧ run.final.last_run = some mrun ∧ mrun.code = -1
      ∧ (CAMERA_MANAGER.Step.acquire_images, -1) ∈ mrun.steps
      ∧ run.final.last_result = some (-1) :=
  user_quits_main

namespace DualMain

theorem pass_flag (a : Attempt) (fuel : Nat) (st : MainState) (hg : st.global_running = true) :
    (∀ st1, pass a fuel st = some (Sum.inl st1) → st1.global_running = true)
      ∧ (∀ run, pass a fuel st = some (Sum.inr run) → st.retries ≠ max_retries →
        run.final.global_running = false → run.code = 0) := by
  unfold pass
  by_cases h1 : (!a.system_ok) = true
  · rw [if_pos h1]
    refine ⟨fun st1 h => (by cases h), ?_⟩
    intro run h _ hf
    cases h
    rw [hg] at hf; cases hf
  rw [if_neg h1]
  by_cases h2 : a.cameras.length < 2
  · rw [if_pos h2]
    refine ⟨?_, fun run h => (by cases h)⟩
    intro st1 h
    cases h
    exact hg
  rw [if_neg h2]
  by_cases h3 : a.file_content.isEmpty = true
  · rw [if_pos h3]
    refine ⟨fun st1 h => (by cases h), ?_⟩
    intro run h _ hf
    cases h
    rw [hg] at hf; cases hf
  rw [if_neg h3]
  cases hr : CAMERA_MANAGER.run_multiple_cameras a.cameras a.cameras.length
      (CAMERA_SETTINGS.get_values a.file_content a.uninitialized).2 a.visits
      st.global_running folder_path fuel with
  | none => exact ⟨fun st1 h => (by cases h), fun run h => (by cases h)⟩
  | some mrun =>
    dsimp only
    by_cases h4 : (decide (int_or (int_or 0
        (CAMERA_SETTINGS.get_values a.file_content a.uninitialized).1) mrun.code = 0)
        || !mrun.global_running) = true
    · rw [if_pos h4]
      refine ⟨fun st1 h => (by cases h), ?_⟩
      intro run h hne _
      cases h
      simp [after_loop, hne]
    · rw [if_neg h4]
      refine ⟨?_, fun run h => (by cases h)⟩
      intro st1 h
      cases h
      simp only [Bool.or_eq_true, decide_eq_true_eq, Bool.not_eq_true', not_or,
        Bool.not_eq_false] at h4
      exact h4.2

theorem main_loop_flag (world : Nat → Attempt) (fuel : Nat) :
    ∀ budget st run, AtLoopTest st → st.global_running = true →
      main_loop world fuel budget st = some run → run.final.global_running = false →
      run.code = 0 := by
  intro budget
  induction budget with
  | zero => intro st run _ _ h; simp [main_loop] at h
  | succ b ih =>
    intro st run hst hg h hf
    obtain ⟨h1, h2, h3⟩ := hst
    have hh : ∀ r ∈ st.history ++ [st.retries], r ≤ max_retries := by
      intro r hr
      rcases List.mem_append.mp hr with hr | hr
      · exact h3 r hr
      · rw [List.mem_singleton.mp hr]; exact h2
    rw [main_loop] at h
    split_ifs at h with hlt
    · have hfl := pass_flag (world st.attempts) fuel
        { st with history := st.history ++ [st.retries] } hg
      rcases pass_cases (world st.attempts) fuel
          { st with history := st.history ++ [st.retries] } with
        ⟨hp, _⟩ | ⟨st1, hp, e1, e2, e3⟩ | ⟨r, hp, _⟩
      · rw [hp] at h; cases h
      · have hg1 := hfl.1 st1 hp
        rw [hp] at h
        dsimp only at h e1 e2 e3
        exact ih st1 run ⟨by omega, by omega, by rw [e3]; exact hh⟩ hg1 h hf
      · have := hfl.2 r hp (by dsimp only; omega)
        rw [hp] at h
        dsimp only at h
        cases h
        exact this hf
    · cases h
      simp only [after_loop] at hf
      rw [hg] at hf; cases hf

end DualMain

theorem sample_infinity_main :
    Infinity.main [Camera.sample] none 0 ⟨100, 10, 1, 1, 1 / 2⟩ (fun _ => Session.sample) 3
      = some ⟨0, [SingleRun.sample]⟩ := by
  unfold Infinity.main
  rw [if_neg (by decide)]
  simp only [Infinity.get_values, List.foldl_nil, Infinity.run_cameras, sample_infinity_run]
  rfl

/-! ### The return value of `CAMERA_MANAGER::reset_exposure` -/

/-- C21. The function `CAMERA_MANAGER::reset_exposure` returns 0 for every vector of node
maps.  With a camera whose `ExposureAuto` cannot be read, whose entry `Continuous` cannot be
read, or on which `SetIntValue` raises, it still returns 0 and enables automatic exposure on
the other camera only; `CAMERA_CONFIG::reset_exposure` of the single-camera tools returns -1
on each of these three cameras. -/
theorem reset_exposure_hides_errors :
    (∀ node_maps : List NodeMap, (CAMERA_MANAGER.reset_exposure node_maps).result = 0)
      ∧ NodeMap.exposure_auto_unreadable.ExposureAuto.readable = false
      ∧ CAMERA_MANAGER.reset_exposure [NodeMap.exposure_auto_unreadable, NodeMap.sample]
        = ⟨0, [(1, Write.entry "ExposureAuto" "Continuous")]⟩
      ∧ CAMERA_MANAGER.reset_exposure [NodeMap.sample, NodeMap.continuous_unreadable]
        = ⟨0, [(0, Write.entry "ExposureAuto" "Continuous")]⟩
      ∧ CAMERA_MANAGER.reset_exposure [NodeMap.exposure_auto_faulty, NodeMap.sample]
        = ⟨0, [(1, Write.entry "ExposureAuto" "Continuous")]⟩
      ∧ CAMERA_CONFIG.reset_exposure NodeMap.exposure_auto_unreadable = ⟨-1, []⟩
      ∧ CAMERA_CONFIG.reset_exposure NodeMap.continuous_unreadable = ⟨-1, []⟩
      ∧ CAMERA_CONFIG.reset_exposure NodeMap.exposure_auto_faulty = ⟨-1, []⟩ :=
  ⟨CAMERA_MANAGER.reset_exposure_zero, rfl, rfl, rfl, rfl, rfl, rfl, rfl⟩

/-! ### The return value of `CAMERA_MANAGER::config_roi` -/

/-- C22. The function `CAMERA_MANAGER::config_roi` returns -1 exactly when an SDK call
raises or the height is out of range.  On the sample camera a width, an `offset_x` or an
`offset_y` of 5000 is out of range and is not written, and the function returns 0; a height
of 5000 gives -1. -/
theorem config_roi_reports_only_height :
    (∀ (nm : NodeMap) (offset_x offset_y width height : Int),
        (CAMERA_MANAGER.config_roi nm offset_x offset_y width height).result
          = if set_integer_stage nm.Width width = Stage.raised
              ∨ set_integer_stage nm.OffsetX offset_x = Stage.raised
              ∨ set_integer_stage nm.Height height = Stage.raised
              ∨ set_integer_stage nm.OffsetY offset_y = Stage.raised
              ∨ set_integer_stage nm.Height height = Stage.rejected then -1 else 0)
      ∧ set_integer_stage NodeMap.sample.Width 5000 = Stage.rejected
      ∧ CAMERA_MANAGER.config_roi NodeMap.sample 0 0 5000 352
        = ⟨0, [Write.integer "OffsetX" 0, Write.integer "Height" 352,
            Write.integer "OffsetY" 0]⟩
      ∧ CAMERA_MANAGER.config_roi NodeMap.sample 5000 0 1216 352
        = ⟨0, [Write.integer "Width" 1216, Write.integer "Height" 352,
            Write.integer "OffsetY" 0]⟩
      ∧ CAMERA_MANAGER.config_roi NodeMap.sample 0 5000 1216 352
        = ⟨0, [Write.integer "Width" 1216, Write.integer "OffsetX" 0,
            Write.integer "Height" 352]⟩
      ∧ CAMERA_MANAGER.config_roi NodeMap.sample 0 0 1216 5000
        = ⟨-1, [Write.integer "Width" 1216, Write.integer "OffsetX" 0,
            Write.integer "OffsetY" 0]⟩ := by
  refine ⟨?_, by decide, by decide, by decide, by decide, by decide⟩
  intro nm offset_x offset_y width height
  unfold CAMERA_MANAGER.config_roi
  cases h1 : set_integer_stage nm.Width width <;>
    cases h2 : set_integer_stage nm.OffsetX offset_x <;>
    cases h3 : set_integer_stage nm.Height height <;>
    cases h4 : set_integer_stage nm.OffsetY offset_y <;> simp

/-! ### Returns that leave the camera as it is -/

/-- C28. With two cameras, `SetIntValue` raising on the `ExposureAuto` of the first:
`config_exposure` returns -1 and `run_multiple_cameras` returns -1 at once, without
`de_initialize_cameras`: both cameras are still initialised, the node-map vectors still hold
their entries and no entry of `cameras` is null. -/
theorem run_multiple_cameras_returns_without_cleanup (settings : CAMERA_SETTINGS.SETTINGS)
    (visits : Nat → Visit) (global_running : Bool) (folder_path : List Char) (fuel : Nat) :
    ∃ run, CAMERA_MANAGER.run_multiple_cameras
          [some Camera.exposure_auto_faulty, some Camera.sample] 2 settings visits
          global_running folder_path fuel = some run
      ∧ run.code = -1
      ∧ (CAMERA_MANAGER.Step.config_exposure, -1) ∈ run.steps
      ∧ run.cleaned = false
      ∧ run.initialized_cameras
        = [some { Camera.exposure_auto_faulty with initialized := true },
            some { Camera.sample with initialized := true }]
      ∧ run.node_maps = [NodeMap.exposure_auto_faulty, NodeMap.sample]
      ∧ run.node_maps_tl_device = [Camera.sample.tl_device, Camera.sample.tl_device]
      ∧ run.cameras = [some Camera.exposure_auto_faulty, some Camera.sample]
      ∧ run.released = [] := by
  exact ⟨_, rfl, rfl, List.Mem.tail _ (List.Mem.tail _ (List.Mem.head _)), rfl, rfl, rfl, rfl,
    rfl, rfl⟩

/-- C29. With a camera whose `ExposureTime` cannot be read and a `BeginAcquisition()` that
goes through, `acquire_images` of the capture tool and `acquire_and_display_images` of the
calibration tools return -1 after `BeginAcquisition()` and without `EndAcquisition()`,
whatever the frames and the fuel. -/
theorem acquisition_returns_while_streaming (frames : Nat → Frame) (fuel : Nat) :
    Camera.exposure_unreadable.node_map.ExposureTime.readable = false
      ∧ Infinity.acquire_images Camera.exposure_unreadable ⟨false, frames⟩ fuel
        = some ⟨-1, [Write.entry "AcquisitionMode" "Continuous"], true, none, 0, [], false,
            false⟩
      ∧ Trackbar.acquire_and_display_images Camera.exposure_unreadable ⟨false, frames⟩ fuel
        = some ⟨-1, [Write.entry "AcquisitionMode" "Continuous"], true, none, 0, [], false,
            false⟩ :=
  ⟨rfl, rfl, rfl⟩

/-! ### The return value of the dual-camera `acquire_images` after a visit -/

namespace CAMERA_MANAGER

/-- One pass of the initialisation loop keeps the node maps paired with the initialised
cameras, none of which is null. -/
theorem init_camera_paired (camera : Option Camera) (acc : InitState)
    (h : acc.node_maps.length = acc.initialized_cameras.length
      ∧ ∀ c ∈ acc.initialized_cameras, c ≠ none) :
    (init_camera camera acc).node_maps.length
        = (init_camera camera acc).initialized_cameras.length
      ∧ ∀ c ∈ (init_camera camera acc).initialized_cameras, c ≠ none := by
  unfold init_camera
  cases camera with
  | none => exact h
  | some c =>
    dsimp only
    split_ifs
    · exact h
    · exact h
    · refine ⟨by simp [h.1], ?_⟩
      intro x hx
      rcases List.mem_append.mp hx with hx | hx
      · exact h.2 x hx
      · rw [List.mem_singleton.mp hx]; simp

/-- The initialisation loop keeps the node maps paired with the initialised cameras. -/
theorem init_cameras_paired (cameras : List (Option Camera)) (indices : List Nat) :
    ∀ acc : InitState,
      (acc.node_maps.length = acc.initialized_cameras.length
        ∧ ∀ c ∈ acc.initialized_cameras, c ≠ none) →
      (init_cameras cameras indices acc).node_maps.length
          = (init_cameras cameras indices acc).initialized_cameras.length
        ∧ ∀ c ∈ (init_cameras cameras indices acc).initialized_cameras, c ≠ none := by
  induction indices with
  | nil => intro acc h; exact h
  | cons i rest ih =>
    intro acc h
    exact ih _ (init_camera_paired _ acc h)

/-- The cameras `run_multiple_cameras` hands to `acquire_images` all pass `is_camera_valid`. -/
theorem initialized_cameras_valid (cameras : List (Option Camera)) (n : Nat)
    (folder_path : List Char) (exposure : Nat → ℚ) (visits : Nat → Visit) :
    AllValid
      ⟨(init_cameras cameras (List.range n) ⟨[], [], []⟩).node_maps,
        (init_cameras cameras (List.range n) ⟨[], [], []⟩).node_maps_tl_device,
        folder_path, exposure, visits⟩
      (init_cameras cameras (List.range n) ⟨[], [], []⟩).initialized_cameras.length
      (init_cameras cameras (List.range n) ⟨[], [], []⟩).initialized_cameras := by
  obtain ⟨h1, h2⟩ := init_cameras_paired cameras (List.range n) ⟨[], [], []⟩
    ⟨rfl, fun c hc => by cases hc⟩
  intro i hi
  unfold is_camera_valid
  dsimp only
  have hi2 : i < (init_cameras cameras (List.range n) ⟨[], [], []⟩).node_maps.length := by
    rw [h1]; exact hi
  rw [List.getD_eq_getElem?_getD, List.getElem?_eq_getElem hi, List.getElem?_eq_getElem hi2]
  have hne := h2 _ (List.getElem_mem hi)
  cases hc : (init_cameras cameras (List.range n) ⟨[], [], []⟩).initialized_cameras[i] with
  | none => exact absurd hc hne
  | some c => rfl

end CAMERA_MANAGER

/-- C27. When the user presses `q` or `Q` during visit `k` (and not before), the cameras
being valid, `acquire_images` returns with `k + 1` visits made and the return value -1; and
`run_multiple_cameras`, once all `m` cameras are initialised and `config_exposure` did not
fail, returns -1 with these `k + 1` visits.  Whenever `acquire_images` returns after at
least one visit its return value is -1, whatever the SDK calls did, and whenever
`run_multiple_cameras` returns after a visit its return value is -1. -/
theorem acquire_images_returns_minus_one_after_visit (sc : CAMERA_MANAGER.Scene)
    (cams : List (Option Camera)) (n fuel k : Nat) (hn : 0 < n)
    (hvalid : CAMERA_MANAGER.AllValid sc n cams) (hquiet : CAMERA_MANAGER.QuietBetween sc 0 k)
    (hkey : CAMERA_MANAGER.keyboard_interrupt (sc.visits k).key = true) (hfuel : k < fuel)
    (cameras : List (Option Camera)) (m : Nat) (settings : CAMERA_SETTINGS.SETTINGS)
    (hm : 0 < m)
    (hcount : ¬ (CAMERA_MANAGER.init_cameras cameras (List.range m)
      ⟨[], [], []⟩).initialized_cameras.length < m)
    (hexp : ¬ (CAMERA_MANAGER.config_exposure
      (CAMERA_MANAGER.init_cameras cameras (List.range m) ⟨[], [], []⟩).node_maps
      settings.exposure).result < 0) :
    (∃ st, CAMERA_MANAGER.acquire_images sc cams n true fuel = some st
        ∧ st.trace.length = k + 1 ∧ st.result = -1 ∧ st.result ≠ 0)
      ∧ (∃ run, CAMERA_MANAGER.run_multiple_cameras cameras m settings sc.visits true
          sc.folder_path fuel = some run
        ∧ run.visits.length = k + 1 ∧ run.code = -1 ∧ run.code ≠ 0)
      ∧ (∀ (sc1 : CAMERA_MANAGER.Scene) (cams1 : List (Option Camera)) (n1 : Nat) (g : Bool)
          (fuel1 : Nat) (st : CAMERA_MANAGER.AcquireState),
        CAMERA_MANAGER.acquire_images sc1 cams1 n1 g fuel1 = some st → st.trace ≠ [] →
        st.result = -1)
      ∧ (∀ (cameras1 : List (Option Camera)) (m1 : Nat)
          (settings1 : CAMERA_SETTINGS.SETTINGS) (visits : Nat → Visit) (g : Bool)
          (folder_path : List Char) (fuel1 : Nat) (run : CAMERA_MANAGER.ManagerRun),
        CAMERA_MANAGER.run_multiple_cameras cameras1 m1 settings1 visits g folder_path fuel1
          = some run → run.visits ≠ [] → run.code = -1) := by
  have hne : ∀ (l : List CAMERA_MANAGER.VisitRecord), l.length = k + 1 → l ≠ [] := by
    intro l hl e; rw [e] at hl; cases hl
  refine ⟨?_, ?_, ?_, ?_⟩
  · obtain ⟨st, h1, h2, _, _, _⟩ :=
      CAMERA_MANAGER.acquire_images_quit sc cams n fuel k hn hvalid hquiet hkey hfuel
    have hr := (CAMERA_MANAGER.acquire_images_result sc cams n true fuel st h1).2 (hne _ h2)
    exact ⟨st, h1, h2, hr, by rw [hr]; decide⟩
  · have hpos : 0 < (CAMERA_MANAGER.init_cameras cameras (List.range m)
        ⟨[], [], []⟩).initialized_cameras.length := by omega
    obtain ⟨st, h1, h2, _, _, _⟩ :=
      CAMERA_MANAGER.acquire_images_quit
        ⟨(CAMERA_MANAGER.init_cameras cameras (List.range m) ⟨[], [], []⟩).node_maps,
          (CAMERA_MANAGER.init_cameras cameras (List.range m) ⟨[], [], []⟩).node_maps_tl_device,
          sc.folder_path,
          CAMERA_MANAGER.exposure_of
            (CAMERA_MANAGER.init_cameras cameras (List.range m)
              ⟨[], [], []⟩).initialized_cameras,
          sc.visits⟩
        (CAMERA_MANAGER.init_cameras cameras (List.range m) ⟨[], [], []⟩).initialized_cameras
        _ fuel k hpos (CAMERA_MANAGER.initialized_cameras_valid cameras m _ _ _) hquiet hkey
        hfuel
    obtain ⟨run, e1, _, e3, _⟩ := run_multiple_cameras_returns cameras m settings sc.visits
      true sc.folder_path fuel st hcount hexp h1
    have hv : run.visits ≠ [] := by rw [e3]; exact hne _ h2
    have hc := (CAMERA_MANAGER.run_multiple_cameras_codes cameras m settings sc.visits true
      sc.folder_path fuel run e1).2.2.2 hv
    exact ⟨run, e1, by rw [e3]; exact h2, hc, by rw [hc]; decide⟩
  · intro sc1 cams1 n1 g fuel1 st h hv
    exact (CAMERA_MANAGER.acquire_images_result sc1 cams1 n1 g fuel1 st h).2 hv
  · intro cameras1 m1 settings1 visits g folder_path fuel1 run h hv
    exact (CAMERA_MANAGER.run_multiple_cameras_codes cameras1 m1 settings1 visits g
      folder_path fuel1 run h).2.2.2 hv

/-- Witness for C27: two cameras in working order, `q` pressed during the first visit. -/
theorem acquire_images_returns_minus_one_after_visit_witness :
    (∃ st, CAMERA_MANAGER.acquire_images (CAMERA_MANAGER.Scene.sample 0 'q')
          [some Camera.sample, some Camera.sample] 2 true 1 = some st
        ∧ st.trace.length = 0 + 1 ∧ st.result = -1 ∧ st.result ≠ 0)
      ∧ (∃ run, CAMERA_MANAGER.run_multiple_cameras [some Camera.sample, some Camera.sample] 2
          ⟨20000, 10, 1⟩ (CAMERA_MANAGER.Scene.sample 0 'q').visits true
          (CAMERA_MANAGER.Scene.sample 0 'q').folder_path 1 = some run
        ∧ run.visits.length = 0 + 1 ∧ run.code = -1 ∧ run.code ≠ 0) :=
  have h := acquire_images_returns_minus_one_after_visit (CAMERA_MANAGER.Scene.sample 0 'q')
    [some Camera.sample, some Camera.sample] 2 1 0 (by decide) (sample_cameras_valid 0 'q')
    (sample_scene_quiet 0 'q') rfl (by decide) [some Camera.sample, some Camera.sample] 2
    ⟨20000, 10, 1⟩ (by decide) (by rw [sample_cameras_initialised]; decide)
    (by rw [sample_cameras_initialised, sample_exposure_configured]; decide)
  ⟨h.1, h.2.1⟩

/-! ### The running image counts of the dual-camera tool -/

namespace CAMERA_MANAGER

/-- A visit adds one visit of its pair to the record. -/
theorem visits_of_visit_pair (sc : Scene) (i : Nat) (camera : Camera) (nm : NodeMap)
    (roi : ROI_CONFIG_VALUES) (st : AcquireState) (j : Nat) (x : Int) :
    visits_of (visit_pair sc i camera nm roi st).trace j x
      = visits_of st.trace j x + (if j = i ∧ x = roi.offset_x then 1 else 0) := by
  unfold visits_of visit_pair
  dsimp only
  rw [List.countP_append]
  congr 1
  by_cases h : j = i ∧ x = roi.offset_x
  · rw [if_pos h]
    simp [List.countP_cons, h.1, h.2]
  · rw [if_neg h]
    have h2 : ¬ (i = j ∧ roi.offset_x = x) := fun e => h ⟨e.1.symm, e.2.symm⟩
    simp [List.countP_cons, h2]

/-- The counts of a visit, pair by pair. -/
theorem visit_pair_counts (sc : Scene) (i : Nat) (camera : Camera) (nm : NodeMap)
    (roi : ROI_CONFIG_VALUES) (st : AcquireState) (j : Nat) (x : Int) :
    (visit_pair sc i camera nm roi st).image_counts j x
      = if j = i ∧ x = roi.offset_x then increment_count (st.image_counts j x)
        else st.image_counts j x := rfl

/-- Every visit and the clearing of the flags keep the counts those of the record. -/
theorem counted_kept (sc : Scene) :
    (∀ i camera nm roi st, Counted st → Counted (visit_pair sc i camera nm roi st))
      ∧ (∀ st, Counted st →
        Counted { st with local_running := false, global_running := false }) := by
  refine ⟨?_, fun st h => h⟩
  intro i camera nm roi st h j x
  rw [visit_pair_counts, visits_of_visit_pair, h j x]
  by_cases e : j = i ∧ x = roi.offset_x
  · rw [if_pos e, if_pos e]; rfl
  · rw [if_neg e, if_neg e]; rfl

end CAMERA_MANAGER

/-- C25. A visit of the pair (camera `i`, region `roi`) in `acquire_images` makes the
running count of that pair the increment of what it was (one more, as long as the
`unsigned int` does not wrap) and leaves the count of every other pair as it was; the counts
after the visit are the same in every world, so they do not depend on what `capture_image`
did.  When `acquire_images` returns, the count of every pair is what as many increments as
the pair has visits on record make of 0. -/
theorem visit_increments_only_its_count (sc : CAMERA_MANAGER.Scene) (i : Nat)
    (camera : Camera) (nm : NodeMap) (roi : CAMERA_MANAGER.ROI_CONFIG_VALUES)
    (st : CAMERA_MANAGER.AcquireState) :
    (CAMERA_MANAGER.visit_pair sc i camera nm roi st).image_counts i roi.offset_x
        = CAMERA_MANAGER.increment_count (st.image_counts i roi.offset_x)
      ∧ (st.image_counts i roi.offset_x + 1 < 2 ^ 32 →
        (CAMERA_MANAGER.visit_pair sc i camera nm roi st).image_counts i roi.offset_x
          = st.image_counts i roi.offset_x + 1)
      ∧ (∀ (j : Nat) (x : Int), ¬ (j = i ∧ x = roi.offset_x) →
        (CAMERA_MANAGER.visit_pair sc i camera nm roi st).image_counts j x
          = st.image_counts j x)
      ∧ (∀ sc1 : CAMERA_MANAGER.Scene,
        (CAMERA_MANAGER.visit_pair sc1 i camera nm roi st).image_counts
          = (CAMERA_MANAGER.visit_pair sc i camera nm roi st).image_counts)
      ∧ (∀ (cameras : List (Option Camera)) (n : Nat) (g : Bool) (fuel : Nat)
          (out : CAMERA_MANAGER.AcquireState),
        CAMERA_MANAGER.acquire_images sc cameras n g fuel = some out →
        ∀ (j : Nat) (x : Int),
          out.image_counts j x
              = CAMERA_MANAGER.count_after (CAMERA_MANAGER.visits_of out.trace j x)
            ∧ (CAMERA_MANAGER.visits_of out.trace j x < 2 ^ 32 →
              out.image_counts j x = CAMERA_MANAGER.visits_of out.trace j x)) := by
  have h1 := CAMERA_MANAGER.visit_pair_counts sc i camera nm roi st i roi.offset_x
  rw [if_pos ⟨rfl, rfl⟩] at h1
  refine ⟨h1, ?_, ?_, fun _ => rfl, ?_⟩
  · intro hlt
    rw [h1, CAMERA_MANAGER.increment_count, Nat.mod_eq_of_lt hlt]
  · intro j x hne
    rw [CAMERA_MANAGER.visit_pair_counts, if_neg hne]
  · intro cameras n g fuel out hout j x
    have hc : CAMERA_MANAGER.Counted out :=
      CAMERA_MANAGER.acquisition_loop_keeps sc n CAMERA_MANAGER.Counted
        (CAMERA_MANAGER.counted_kept sc).1 (CAMERA_MANAGER.counted_kept sc).2 fuel _ out
        (fun _ _ => rfl) hout
    exact ⟨hc j x, fun hlt => by rw [hc j x, count_after_eq _ hlt]⟩

/-- Witness for C25: the first visit of camera 0 with the first region, in a world where
`GetNextImage` raises during that visit: nothing is saved and the count of the pair goes from
0 to 1. -/
theorem visit_increments_only_its_count_witness :
    (0 : Nat) + 1 < 2 ^ 32
      ∧ CAMERA_MANAGER.capture_image ((CAMERA_MANAGER.Scene.failing 0 'q' 0).visits 0).grab
          "/data/".toList "21012345".toList 0 0 = none
      ∧ (CAMERA_MANAGER.visit_pair (CAMERA_MANAGER.Scene.failing 0 'q' 0) 0 Camera.sample
          NodeMap.sample ⟨0, 0, 1216, 352⟩
          (CAMERA_MANAGER.AcquireState.initial [some Camera.sample, some Camera.sample]
            true)).image_counts 0 0 = 0 + 1 :=
  ⟨by decide, rfl,
    (visit_increments_only_its_count (CAMERA_MANAGER.Scene.failing 0 'q' 0) 0 Camera.sample
      NodeMap.sample ⟨0, 0, 1216, 352⟩
      (CAMERA_MANAGER.AcquireState.initial [some Camera.sample, some Camera.sample]
        true)).2.1 (by decide)⟩

/-! ### A camera whose serial number cannot be read -/

/-- C26. Two cameras in working order, the serial number of the first not readable, `q`
pressed during the first visit: `get_camera_serial_number` gives the empty string for the
first camera, and `acquire_images` visits that camera all the same: the region is written to
it, the frame is fetched with the initial timeout 1000 and saved under a name with an empty
serial number. -/
theorem acquire_images_visits_camera_without_serial :
    CAMERA_MANAGER.get_camera_serial_number ⟨false, "21012345".toList, false, false⟩ = []
      ∧ CAMERA_MANAGER.prepared_serial_number
          (CAMERA_MANAGER.Scene.serial_unreadable 0 'q').node_maps_tl_device 0 = []
      ∧ ∃ st r, CAMERA_MANAGER.acquire_images (CAMERA_MANAGER.Scene.serial_unreadable 0 'q')
            [some Camera.sample, some Camera.sample] 2 true 1 = some st
        ∧ st.trace = [r] ∧ r.camera = 0 ∧ r.offset_x = 0 ∧ r.timeout = 1000
        ∧ r.writes = [Write.integer "Width" 1216, Write.integer "OffsetX" 0,
            Write.integer "Height" 352, Write.integer "OffsetY" 0,
            Write.entry "AcquisitionMode" "Continuous"]
        ∧ r.saved = some "/data/Serial__OffsetX_0_Image_0.jpg".toList
        ∧ st.image_counts 0 0 = 1 :=
  ⟨rfl, rfl, _, _, rfl, rfl, rfl, rfl, rfl, rfl, rfl, rfl⟩

/-! ### File names tell the pairs and the slots apart -/

/-- Different unsigned values have different decimal renderings. -/
theorem to_string_unsigned_injective (a b : Nat)
    (h : to_string_unsigned a = to_string_unsigned b) : a = b := by
  have ha := (to_string_unsigned_spec a).2.1
  have hb := (to_string_unsigned_spec b).2.1
  rw [h, hb] at ha
  exact ha.symm

/-- Different signed values have different decimal renderings. -/
theorem to_string_signed_injective (x y : Int)
    (h : to_string_signed x = to_string_signed y) : x = y := by
  have hminus : ∀ a b : Nat, '-' :: to_string_unsigned a ≠ to_string_unsigned b := by
    intro a b e
    have hd := (to_string_unsigned_spec b).1 '-' (by rw [← e]; exact List.mem_cons_self _ _)
    exact absurd hd (by decide)
  unfold to_string_signed at h
  by_cases hx : x < 0
  · by_cases hy : y < 0
    · rw [if_pos hx, if_pos hy] at h
      have := to_string_unsigned_injective _ _ (List.cons_injective h)
      omega
    · rw [if_pos hx, if_neg hy] at h
      exact absurd h (hminus _ _)
  · by_cases hy : y < 0
    · rw [if_neg hx, if_pos hy] at h
      exact absurd h.symm (hminus _ _)
    · rw [if_neg hx, if_neg hy] at h
      have := to_string_unsigned_injective _ _ h
      omega

/-- C23. For a fixed folder path and serial number, two file names built by `capture_image`
are equal if and only if the two `offset_x` are equal and the two `image_index` agree modulo
3; the same holds for the files two successful captures save. -/
theorem full_filename_injective (folder_path device_serial : List Char)
    (offset_x1 offset_x2 : Int) (image_index1 image_index2 : Nat) :
    (CAMERA_MANAGER.full_filename folder_path device_serial image_index1 offset_x1
          = CAMERA_MANAGER.full_filename folder_path device_serial image_index2 offset_x2
        ↔ offset_x1 = offset_x2 ∧ image_index1 % 3 = image_index2 % 3)
      ∧ (CAMERA_MANAGER.capture_image CAMERA_MANAGER.Grab.ok folder_path device_serial
            image_index1 offset_x1
          = CAMERA_MANAGER.capture_image CAMERA_MANAGER.Grab.ok folder_path device_serial
            image_index2 offset_x2
        ↔ offset_x1 = offset_x2 ∧ image_index1 % 3 = image_index2 % 3) := by
  have main : CAMERA_MANAGER.full_filename folder_path device_serial image_index1 offset_x1
        = CAMERA_MANAGER.full_filename folder_path device_serial image_index2 offset_x2
      ↔ offset_x1 = offset_x2 ∧ image_index1 % 3 = image_index2 % 3 := by
    constructor
    · intro h
      unfold CAMERA_MANAGER.full_filename CAMERA_MANAGER.capture_circular_index at h
      simp only [List.append_assoc] at h
      have h1 := List.append_cancel_left (List.append_cancel_left (List.append_cancel_left
        (List.append_cancel_left h)))
      have hl1 := to_string_unsigned_length (image_index1 % 3) (by omega)
      have hl2 := to_string_unsigned_length (image_index2 % 3) (by omega)
      obtain ⟨ha, hb⟩ := List.append_inj' h1 (by simp [hl1, hl2])
      have hc := List.append_cancel_right (List.append_cancel_left hb)
      exact ⟨to_string_signed_injective _ _ ha, to_string_unsigned_injective _ _ hc⟩
    · rintro ⟨h1, h2⟩
      unfold CAMERA_MANAGER.full_filename CAMERA_MANAGER.capture_circular_index
      rw [h1, h2]
  refine ⟨main, ?_⟩
  rw [← main]
  unfold CAMERA_MANAGER.capture_image CAMERA_MANAGER.Grab.ok
  simp

/-! ### The trackbar callbacks -/

/-- Truncating a whole number gives that number. -/
theorem static_cast_int_intCast (s : Int) : static_cast_int (s : ℚ) = s := by
  unfold static_cast_int
  split_ifs with h
  · exact Int.floor_intCast s
  · rw [← Int.cast_neg, Int.floor_intCast]; omega

/-- C24. The value a trackbar callback stores is the value computed from the slider, whatever
the device: it does not depend on the node map.  With the gain slider at 48 on a camera whose
gain range is 0 to 47.9943 dB, `config_gain` succeeds and writes 47.9943 to the node `Gain`,
while `gain_value` holds 48. -/
theorem trackbar_callback_stores_unclamped_value :
    (∀ (nm : NodeMap) (g : Trackbar.Globals),
        (Trackbar.trackbar_callback_exposure Trackbar.color_max_exposure nm g).2.exposure_value
            = Trackbar.current_exposure_value Trackbar.color_max_exposure
              g.exposure_value_slider
          ∧ (Trackbar.trackbar_callback_exposure Trackbar.mono_max_exposure nm
              g).2.exposure_value
            = Trackbar.current_exposure_value Trackbar.mono_max_exposure
              g.exposure_value_slider
          ∧ (Trackbar.trackbar_callback_gain nm g).2.gain_value
            = Trackbar.current_gain_value g.gain_value_slider
          ∧ (Trackbar.trackbar_callback_gamma nm g).2.gamma_value
            = Trackbar.current_gamma_value g.gamma_value_slider
          ∧ (Trackbar.trackbar_callback_sharpening nm g).2.sharpening_value
            = Trackbar.current_sharpening_value g.sharpening_value_slider
          ∧ (Trackbar.trackbar_callback_saturation nm g).2.saturation_value
            = Trackbar.current_saturation_value g.saturation_value_slider)
      ∧ (Trackbar.trackbar_callback_gain NodeMap.gain_narrow
            Trackbar.Globals.gain_at_max).1
          = ⟨0, [Write.entry "GainAuto" "Off", Write.float "Gain" (479943 / 10000)]⟩
      ∧ (Trackbar.trackbar_callback_gain NodeMap.gain_narrow
            Trackbar.Globals.gain_at_max).2.gain_value = 48
      ∧ (Trackbar.trackbar_callback_gain NodeMap.gain_narrow
            Trackbar.Globals.gain_at_max).2.gain_value ≠ 479943 / 10000 := by
  have hv : Trackbar.current_gain_value 48 = 48 := by
    norm_num [Trackbar.current_gain_value, Trackbar.min_gain, Trackbar.max_gain,
      Trackbar.gain_slider_max_value]
  refine ⟨fun nm g => ⟨rfl, rfl, rfl, rfl, rfl, rfl⟩, ?_, ?_, ?_⟩
  · show (Trackbar.config_gain NodeMap.gain_narrow (Trackbar.current_gain_value 48) 48).1 = _
    rw [hv]
    norm_num [Trackbar.config_gain, NodeMap.gain_narrow, NodeMap.sample, SwitchNode.ok,
      FloatNode.ok, select_entry_stage, set_float_stage, clamp_value]
  · show Trackbar.current_gain_value 48 = 48
    exact hv
  · show Trackbar.current_gain_value 48 ≠ 479943 / 10000
    rw [hv]; norm_num

/-! ### From the slider to the value and back -/

/-- A value inside the range is left as it is by the clamp. -/
theorem clamp_value_of_mem (v lo hi : ℚ) (h1 : lo ≤ v) (h2 : v ≤ hi) :
    clamp_value v lo hi = v := by
  unfold clamp_value
  rw [if_neg (not_lt.mpr h2), if_neg (not_lt.mpr h1)]

/-- The slider update of `config_exposure` undoes the formula of the callback. -/
theorem exposure_slider_of_value (max_exposure : ℚ) (h : max_exposure - Trackbar.min_exposure ≠ 0)
    (s : Int) :
    static_cast_int ((Trackbar.current_exposure_value max_exposure s - Trackbar.min_exposure)
      / (max_exposure - Trackbar.min_exposure) * Trackbar.exposure_slider_max_value) = s := by
  have e : (Trackbar.current_exposure_value max_exposure s - Trackbar.min_exposure)
      / (max_exposure - Trackbar.min_exposure) * Trackbar.exposure_slider_max_value
      = (s : ℚ) := by
    unfold Trackbar.current_exposure_value Trackbar.exposure_slider_max_value
    push_cast
    field_simp
    ring
  rw [e, static_cast_int_intCast]

/-- The slider update of `config_gain` undoes the formula of the callback. -/
theorem gain_slider_of_value (s : Int) :
    static_cast_int ((Trackbar.current_gain_value s - Trackbar.min_gain)
      / (Trackbar.max_gain - Trackbar.min_gain) * Trackbar.gain_slider_max_value) = s := by
  have e : (Trackbar.current_gain_value s - Trackbar.min_gain)
      / (Trackbar.max_gain - Trackbar.min_gain) * Trackbar.gain_slider_max_value
      = (s : ℚ) := by
    unfold Trackbar.current_gain_value Trackbar.gain_slider_max_value Trackbar.min_gain
      Trackbar.max_gain
    push_cast
    field_simp
  rw [e, static_cast_int_intCast]

/-- The slider update of `config_gamma` undoes the formula of the callback. -/
theorem gamma_slider_of_value (s : Int) :
    static_cast_int ((Trackbar.current_gamma_value s - Trackbar.min_gamma)
      / (Trackbar.max_gamma - Trackbar.min_gamma) * Trackbar.gamma_slider_max_value) = s := by
  have e : (Trackbar.current_gamma_value s - Trackbar.min_gamma)
      / (Trackbar.max_gamma - Trackbar.min_gamma) * Trackbar.gamma_slider_max_value
      = (s : ℚ) := by
    unfold Trackbar.current_gamma_value Trackbar.gamma_slider_max_value Trackbar.min_gamma
      Trackbar.max_gamma
    push_cast
    field_simp
    ring
  rw [e, static_cast_int_intCast]

/-- The slider update of `config_sharpening` undoes the formula of the callback. -/
theorem sharpening_slider_of_value (s : Int) :
    static_cast_int (Trackbar.current_sharpening_value s + 1) = s := by
  have e : Trackbar.current_sharpening_value s + 1 = (s : ℚ) := by
    unfold Trackbar.current_sharpening_value
    push_cast
    ring
  rw [e, static_cast_int_intCast]

/-- The slider update of `config_saturation` undoes the formula of the callback. -/
theorem saturation_slider_of_value (s : Int) :
    static_cast_int (Trackbar.current_saturation_value s * 20) = s := by
  have e : Trackbar.current_saturation_value s * 20 = (s : ℚ) := by
    unfold Trackbar.current_saturation_value
    field_simp
  rw [e, static_cast_int_intCast]

namespace Trackbar

/-- The slider after `config_exposure`: left as it was, or set from the clamped value. -/
theorem config_exposure_slider (max_exposure : ℚ) (nm : NodeMap) (v : ℚ) (slider : Int) :
    (config_exposure max_exposure nm v slider).2 = slider
      ∨ (config_exposure max_exposure nm v slider).2
        = static_cast_int ((clamp_value v nm.ExposureTime.min nm.ExposureTime.max
            - min_exposure) / (max_exposure - min_exposure) * exposure_slider_max_value) := by
  unfold config_exposure
  simp only [select_entry_stage, set_float_stage]
  generalize nm.ExposureAuto = ea
  generalize nm.autoBrightnessMode = ab
  generalize nm.ExposureTime = et
  rcases ea with ⟨_ | _, _ | _, _ | _, _ | _⟩ <;> rcases ab with ⟨_ | _, _ | _, _, _⟩ <;>
    rcases et with ⟨_ | _, _ | _, _, _, _ | _⟩ <;>
    first
    | exact Or.inl rfl
    | exact Or.inr rfl

/-- The slider after `config_gain`. -/
theorem config_gain_slider (nm : NodeMap) (v : ℚ) (slider : Int) :
    (config_gain nm v slider).2 = slider
      ∨ (config_gain nm v slider).2
        = static_cast_int ((clamp_value v nm.Gain.min nm.Gain.max - min_gain)
            / (max_gain - min_gain) * gain_slider_max_value) := by
  unfold config_gain
  simp only [select_entry_stage, set_float_stage]
  generalize nm.GainAuto = ga
  generalize nm.Gain = et
  rcases ga with ⟨_ | _, _ | _, _ | _, _ | _⟩ <;>
    rcases et with ⟨_ | _, _ | _, _, _, _ | _⟩ <;>
    first
    | exact Or.inl rfl
    | exact Or.inr rfl

/-- The slider after `config_gamma`. -/
theorem config_gamma_slider (nm : NodeMap) (v : ℚ) (slider : Int) :
    (config_gamma nm v slider).2 = slider
      ∨ (config_gamma nm v slider).2
        = static_cast_int ((clamp_value v nm.Gamma.min nm.Gamma.max - min_gamma)
            / (max_gamma - min_gamma) * gamma_slider_max_value) := by
  unfold config_gamma
  simp only [set_float_stage]
  generalize nm.GammaEnable = ga
  generalize nm.Gamma = et
  rcases ga with ⟨_ | _, _ | _, _, _ | _⟩ <;>
    rcases et with ⟨_ | _, _ | _, _, _, _ | _⟩ <;>
    first
    | exact Or.inl rfl
    | exact Or.inr rfl

/-- The slider after `config_sharpening`. -/
theorem config_sharpening_slider (nm : NodeMap) (v : ℚ) (slider : Int) :
    (config_sharpening nm v slider).2 = slider
      ∨ (config_sharpening nm v slider).2
        = static_cast_int (clamp_value v nm.Sharpening.min nm.Sharpening.max + 1) := by
  unfold config_sharpening
  simp only [set_float_stage]
  generalize nm.SharpeningEnable = ga
  generalize nm.Sharpening = et
  rcases ga with ⟨_ | _, _ | _, _, _ | _⟩ <;>
    rcases et with ⟨_ | _, _ | _, _, _, _ | _⟩ <;>
    first
    | exact Or.inl rfl
    | exact Or.inr rfl

/-- The slider after `config_saturation`. -/
theorem config_saturation_slider (nm : NodeMap) (v : ℚ) (slider : Int) :
    (config_saturation nm v slider).2 = slider
      ∨ (config_saturation nm v slider).2
        = static_cast_int (clamp_value v nm.Saturation.min nm.Saturation.max * 20) := by
  unfold config_saturation
  simp only [set_float_stage]
  generalize nm.SaturationEnable = ga
  generalize nm.Saturation = et
  rcases ga with ⟨_ | _, _ | _, _, _ | _⟩ <;>
    rcases et with ⟨_ | _, _ | _, _, _, _ | _⟩ <;>
    first
    | exact Or.inl rfl
    | exact Or.inr rfl

end Trackbar

/-- C30. Over the rationals, for a slider position `s` between 0 and the slider maximum whose
value (by the formula of the trackbar callback) lies inside the range of the device node,
the slider update of the configurator, applied to the value the configurator writes, gives
`s` again, and the callback as a whole leaves the slider at `s`: exposure (colour tool, 33 to
500000, and mono tool, 33 to 150000), gain, gamma, sharpening and saturation. -/
theorem slider_round_trip (nm : NodeMap) (g : Trackbar.Globals) :
    (0 ≤ g.exposure_value_slider →
        g.exposure_value_slider ≤ Trackbar.exposure_slider_max_value →
        nm.ExposureTime.Holds (Trackbar.current_exposure_value Trackbar.color_max_exposure
          g.exposure_value_slider) →
        static_cast_int ((clamp_value (Trackbar.current_exposure_value
              Trackbar.color_max_exposure g.exposure_value_slider)
              nm.ExposureTime.min nm.ExposureTime.max - Trackbar.min_exposure)
            / (Trackbar.color_max_exposure - Trackbar.min_exposure)
            * Trackbar.exposure_slider_max_value) = g.exposure_value_slider
          ∧ (Trackbar.trackbar_callback_exposure Trackbar.color_max_exposure nm
              g).2.exposure_value_slider = g.exposure_value_slider)
      ∧ (0 ≤ g.exposure_value_slider →
        g.exposure_value_slider ≤ Trackbar.exposure_slider_max_value →
        nm.ExposureTime.Holds (Trackbar.current_exposure_value Trackbar.mono_max_exposure
          g.exposure_value_slider) →
        static_cast_int ((clamp_value (Trackbar.current_exposure_value
              Trackbar.mono_max_exposure g.exposure_value_slider)
              nm.ExposureTime.min nm.ExposureTime.max - Trackbar.min_exposure)
            / (Trackbar.mono_max_exposure - Trackbar.min_exposure)
            * Trackbar.exposure_slider_max_value) = g.exposure_value_slider
          ∧ (Trackbar.trackbar_callback_exposure Trackbar.mono_max_exposure nm
              g).2.exposure_value_slider = g.exposure_value_slider)
      ∧ (0 ≤ g.gain_value_slider → g.gain_value_slider ≤ Trackbar.gain_slider_max_value →
        nm.Gain.Holds (Trackbar.current_gain_value g.gain_value_slider) →
        static_cast_int ((clamp_value (Trackbar.current_gain_value g.gain_value_slider)
              nm.Gain.min nm.Gain.max - Trackbar.min_gain)
            / (Trackbar.max_gain - Trackbar.min_gain) * Trackbar.gain_slider_max_value)
            = g.gain_value_slider
          ∧ (Trackbar.trackbar_callback_gain nm g).2.gain_value_slider = g.gain_value_slider)
      ∧ (0 ≤ g.gamma_value_slider → g.gamma_value_slider ≤ Trackbar.gamma_slider_max_value →
        nm.Gamma.Holds (Trackbar.current_gamma_value g.gamma_value_slider) →
        static_cast_int ((clamp_value (Trackbar.current_gamma_value g.gamma_value_slider)
              nm.Gamma.min nm.Gamma.max - Trackbar.min_gamma)
            / (Trackbar.max_gamma - Trackbar.min_gamma) * Trackbar.gamma_slider_max_value)
            = g.gamma_value_slider
          ∧ (Trackbar.trackbar_callback_gamma nm g).2.gamma_value_slider
            = g.gamma_value_slider)
      ∧ (0 ≤ g.sharpening_value_slider →
        g.sharpening_value_slider ≤ Trackbar.sharpening_slider_max_value →
        nm.Sharpening.Holds (Trackbar.current_sharpening_value g.sharpening_value_slider) →
        static_cast_int (clamp_value
              (Trackbar.current_sharpening_value g.sharpening_value_slider)
              nm.Sharpening.min nm.Sharpening.max + 1) = g.sharpening_value_slider
          ∧ (Trackbar.trackbar_callback_sharpening nm g).2.sharpening_value_slider
            = g.sharpening_value_slider)
      ∧ (0 ≤ g.saturation_value_slider →
        g.saturation_value_slider ≤ Trackbar.saturation_slider_max_value →
        nm.Saturation.Holds (Trackbar.current_saturation_value g.saturation_value_slider) →
        static_cast_int (clamp_value
              (Trackbar.current_saturation_value g.saturation_value_slider)
              nm.Saturation.min nm.Saturation.max * 20) = g.saturation_value_slider
          ∧ (Trackbar.trackbar_callback_saturation nm g).2.saturation_value_slider
            = g.saturation_value_slider) := by
  have hcolor : Trackbar.color_max_exposure - Trackbar.min_exposure ≠ 0 := by
    norm_num [Trackbar.color_max_exposure, Trackbar.min_exposure]
  have hmono : Trackbar.mono_max_exposure - Trackbar.min_exposure ≠ 0 := by
    norm_num [Trackbar.mono_max_exposure, Trackbar.min_exposure]
  refine ⟨?_, ?_, ?_, ?_, ?_, ?_⟩
  · intro _ _ hr
    have e := exposure_slider_of_value Trackbar.color_max_exposure hcolor
      g.exposure_value_slider
    rw [clamp_value_of_mem _ _ _ hr.1 hr.2]
    refine ⟨e, ?_⟩
    show (Trackbar.config_exposure Trackbar.color_max_exposure nm _ g.exposure_value_slider).2
      = g.exposure_value_slider
    rcases Trackbar.config_exposure_slider Trackbar.color_max_exposure nm
      (Trackbar.current_exposure_value Trackbar.color_max_exposure g.exposure_value_slider)
      g.exposure_value_slider with h | h
    · exact h
    · rw [h, clamp_value_of_mem _ _ _ hr.1 hr.2]; exact e
  · intro _ _ hr
    have e := exposure_slider_of_value Trackbar.mono_max_exposure hmono
      g.exposure_value_slider
    rw [clamp_value_of_mem _ _ _ hr.1 hr.2]
    refine ⟨e, ?_⟩
    show (Trackbar.config_exposure Trackbar.mono_max_exposure nm _ g.exposure_value_slider).2
      = g.exposure_value_slider
    rcases Trackbar.config_exposure_slider Trackbar.mono_max_exposure nm
      (Trackbar.current_exposure_value Trackbar.mono_max_exposure g.exposure_value_slider)
      g.exposure_value_slider with h | h
    · exact h
    · rw [h, clamp_value_of_mem _ _ _ hr.1 hr.2]; exact e
  · intro _ _ hr
    have e := gain_slider_of_value g.gain_value_slider
    rw [clamp_value_of_mem _ _ _ hr.1 hr.2]
    refine ⟨e, ?_⟩
    show (Trackbar.config_gain nm _ g.gain_value_slider).2 = g.gain_value_slider
    rcases Trackbar.config_gain_slider nm (Trackbar.current_gain_value g.gain_value_slider)
      g.gain_value_slider with h | h
    · exact h
    · rw [h, clamp_value_of_mem _ _ _ hr.1 hr.2]; exact e
  · intro _ _ hr
    have e := gamma_slider_of_value g.gamma_value_slider
    rw [clamp_value_of_mem _ _ _ hr.1 hr.2]
    refine ⟨e, ?_⟩
    show (Trackbar.config_gamma nm _ g.gamma_value_slider).2 = g.gamma_value_slider
    rcases Trackbar.config_gamma_slider nm (Trackbar.current_gamma_value g.gamma_value_slider)
      g.gamma_value_slider with h | h
    · exact h
    · rw [h, clamp_value_of_mem _ _ _ hr.1 hr.2]; exact e
  · intro _ _ hr
    have e := sharpening_slider_of_value g.sharpening_value_slider
    rw [clamp_value_of_mem _ _ _ hr.1 hr.2]
    refine ⟨e, ?_⟩
    show (Trackbar.config_sharpening nm _ g.sharpening_value_slider).2
      = g.sharpening_value_slider
    rcases Trackbar.config_sharpening_slider nm
      (Trackbar.current_sharpening_value g.sharpening_value_slider)
      g.sharpening_value_slider with h | h
    · exact h
    · rw [h, clamp_value_of_mem _ _ _ hr.1 hr.2]; exact e
  · intro _ _ hr
    have e := saturation_slider_of_value g.saturation_value_slider
    rw [clamp_value_of_mem _ _ _ hr.1 hr.2]
    refine ⟨e, ?_⟩
    show (Trackbar.config_saturation nm _ g.saturation_value_slider).2
      = g.saturation_value_slider
    rcases Trackbar.config_saturation_slider nm
      (Trackbar.current_saturation_value g.saturation_value_slider)
      g.saturation_value_slider with h | h
    · exact h
    · rw [h, clamp_value_of_mem _ _ _ hr.1 hr.2]; exact e

/-- Witness for C30: the sample camera and the slider positions of program start (200, 12,
2, 4 and 5): every value lies inside the range of its node, and each callback leaves its
slider where it is. -/
theorem slider_round_trip_witness :
    (Trackbar.trackbar_callback_exposure Trackbar.color_max_exposure NodeMap.sample
          Trackbar.Globals.initial).2.exposure_value_slider = 200
      ∧ (Trackbar.trackbar_callback_exposure Trackbar.mono_max_exposure NodeMap.sample
          Trackbar.Globals.initial).2.exposure_value_slider = 200
      ∧ (Trackbar.trackbar_callback_gain NodeMap.sample
          Trackbar.Globals.initial).2.gain_value_slider = 12
      ∧ (Trackbar.trackbar_callback_gamma NodeMap.sample
          Trackbar.Globals.initial).2.gamma_value_slider = 2
      ∧ (Trackbar.trackbar_callback_sharpening NodeMap.sample
          Trackbar.Globals.initial).2.sharpening_value_slider = 4
      ∧ (Trackbar.trackbar_callback_saturation NodeMap.sample
          Trackbar.Globals.initial).2.saturation_value_slider = 5 :=
  have h := slider_round_trip NodeMap.sample Trackbar.Globals.initial
  ⟨(h.1 (by decide) (by decide)
      (by norm_num [FloatNode.Holds, NodeMap.sample, FloatNode.ok,
        Trackbar.current_exposure_value, Trackbar.Globals.initial, Trackbar.min_exposure,
        Trackbar.color_max_exposure, Trackbar.exposure_slider_max_value])).2,
    (h.2.1 (by decide) (by decide)
      (by norm_num [FloatNode.Holds, NodeMap.sample, FloatNode.ok,
        Trackbar.current_exposure_value, Trackbar.Globals.initial, Trackbar.min_exposure,
        Trackbar.mono_max_exposure, Trackbar.exposure_slider_max_value])).2,
    (h.2.2.1 (by decide) (by decide)
      (by norm_num [FloatNode.Holds, NodeMap.sample, FloatNode.ok,
        Trackbar.current_gain_value, Trackbar.Globals.initial, Trackbar.min_gain,
        Trackbar.max_gain, Trackbar.gain_slider_max_value])).2,
    (h.2.2.2.1 (by decide) (by decide)
      (by norm_num [FloatNode.Holds, NodeMap.sample, FloatNode.ok,
        Trackbar.current_gamma_value, Trackbar.Globals.initial, Trackbar.min_gamma,
        Trackbar.max_gamma, Trackbar.gamma_slider_max_value])).2,
    (h.2.2.2.2.1 (by decide) (by decide)
      (by norm_num [FloatNode.Holds, NodeMap.sample, FloatNode.ok,
        Trackbar.current_sharpening_value, Trackbar.Globals.initial])).2,
    (h.2.2.2.2.2 (by decide) (by decide)
      (by norm_num [FloatNode.Holds, NodeMap.sample, FloatNode.ok,
        Trackbar.current_saturation_value, Trackbar.Globals.initial])).2⟩

/-! ### Clamping: the clamped value is written -/

theorem exposure_paths_reach (ea ab : SwitchNode) (et : FloatNode) (v : ℚ) :
    Reaches ((ea.selects || (!ea.available && ab.available)) && et.sound) "ExposureTime" v et
      (exposure_paths ea ab et v).writes := by
  unfold Reaches exposure_paths SwitchNode.selects SwitchNode.available FloatNode.sound
    FloatNode.available
  split_ifs <;> simp_all

theorem infinity_config_gain_reach (nm : NodeMap) (s : Infinity.camera_settings) :
    Reaches ((!nm.GainAuto.available || nm.GainAuto.selects) && nm.Gain.sound) "Gain" s.gain
      nm.Gain (Infinity.config_gain nm s).1.writes := by
  unfold Reaches Infinity.config_gain set_float_stage select_entry_stage SwitchNode.selects
    SwitchNode.available FloatNode.sound
  split_ifs <;> simp_all
  all_goals (intros; rcases ‹_ = false ∨ _ = false› with h | h <;> simp_all)

theorem infinity_config_gamma_reach (nm : NodeMap) (s : Infinity.camera_settings) :
    Reaches (nm.GammaEnable.enables && nm.Gamma.sound) "Gamma" s.gamma nm.Gamma
      (Infinity.config_gamma nm s).1.writes := by
  unfold Reaches Infinity.config_gamma set_float_stage SwitchNode.enables FloatNode.sound
  split_ifs <;> simp_all
  all_goals (intros; rcases ‹_ = false ∨ _ = false› with h | h <;> simp_all)

theorem infinity_config_sharpening_reach (nm : NodeMap) (s : Infinity.camera_settings) :
    Reaches (nm.SharpeningEnable.enables && nm.Sharpening.sound) "Sharpening" s.sharpening
      nm.Sharpening (Infinity.config_sharpening nm s).1.writes := by
  unfold Reaches Infinity.config_sharpening set_float_stage SwitchNode.enables FloatNode.sound
  split_ifs <;> simp_all
  all_goals (intros; rcases ‹_ = false ∨ _ = false› with h | h <;> simp_all)

theorem infinity_config_saturation_reach (nm : NodeMap) (s : Infinity.camera_settings) :
    Reaches (nm.SaturationEnable.enables && nm.Saturation.sound) "Saturation" s.saturation
      nm.Saturation (Infinity.config_saturation nm s).1.writes := by
  unfold Reaches Infinity.config_saturation set_float_stage SwitchNode.enables FloatNode.sound
  split_ifs <;> simp_all
  all_goals (intros; rcases ‹_ = false ∨ _ = false› with h | h <;> simp_all)

theorem trackbar_config_gain_reach (nm : NodeMap) (v : ℚ) (slider : Int) :
    Reaches (nm.GainAuto.selects && nm.Gain.sound) "Gain" v
      nm.Gain (Trackbar.config_gain nm v slider).1.writes := by
  unfold Reaches Trackbar.config_gain set_float_stage select_entry_stage SwitchNode.selects
    FloatNode.sound
  split_ifs <;> simp_all
  all_goals (intros; rcases ‹_ = false ∨ _ = false› with h | h <;> simp_all)

theorem trackbar_config_gamma_reach (nm : NodeMap) (v : ℚ) (slider : Int) :
    Reaches (nm.GammaEnable.enables && nm.Gamma.sound) "Gamma" v nm.Gamma
      (Trackbar.config_gamma nm v slider).1.writes := by
  unfold Reaches Trackbar.config_gamma set_float_stage SwitchNode.enables FloatNode.sound
  split_ifs <;> simp_all
  all_goals (intros; rcases ‹_ = false ∨ _ = false› with h | h <;> simp_all)

theorem trackbar_config_sharpening_reach (nm : NodeMap) (v : ℚ) (slider : Int) :
    Reaches (nm.SharpeningEnable.enables && nm.Sharpening.sound) "Sharpening" v nm.Sharpening
      (Trackbar.config_sharpening nm v slider).1.writes := by
  unfold Reaches Trackbar.config_sharpening set_float_stage SwitchNode.enables FloatNode.sound
  split_ifs <;> simp_all
  all_goals (intros; rcases ‹_ = false ∨ _ = false› with h | h <;> simp_all)

theorem trackbar_config_saturation_reach (nm : NodeMap) (v : ℚ) (slider : Int) :
    Reaches (nm.SaturationEnable.enables && nm.Saturation.sound) "Saturation" v nm.Saturation
      (Trackbar.config_saturation nm v slider).1.writes := by
  unfold Reaches Trackbar.config_saturation set_float_stage SwitchNode.enables FloatNode.sound
  split_ifs <;> simp_all
  all_goals (intros; rcases ‹_ = false ∨ _ = false› with h | h <;> simp_all)

/-- Whether a single-camera float configurator writes to its value node: when it gets as far
as `SetValue` it writes the clamp of the requested value, and else it writes no float. -/
theorem single_runs_reach (nm : NodeMap) (s : Infinity.camera_settings) (v : ℚ)
    (slider : Int) (reached : Bool) (name : String) (req : ℚ) (ws : List Write)
    (hrun : (reached, name, req, ws)
      ∈ (float_configurator_reaches nm).zip (float_configurator_runs nm s v slider)) :
    ∃ node, nm.float_node name = some node ∧ Reaches reached name req node ws := by
  simp only [float_configurator_reaches, float_configurator_runs, List.zip_cons_cons,
    List.zip_nil_right, List.mem_cons, Prod.mk.injEq, List.not_mem_nil, or_false] at hrun
  rcases hrun with h | h | h | h | h | h | h | h | h | h | h <;>
    obtain ⟨rfl, rfl, rfl, rfl⟩ := h
  · refine ⟨_, by simp only [NodeMap.float_node]; rfl, ?_⟩
    rw [infinity_config_exposure_paths]
    exact exposure_paths_reach _ _ _ _
  · exact ⟨_, by simp only [NodeMap.float_node]; rfl, infinity_config_gain_reach nm s⟩
  · exact ⟨_, by simp only [NodeMap.float_node]; rfl, infinity_config_gamma_reach nm s⟩
  · exact ⟨_, by simp only [NodeMap.float_node]; rfl, infinity_config_sharpening_reach nm s⟩
  · exact ⟨_, by simp only [NodeMap.float_node]; rfl, infinity_config_saturation_reach nm s⟩
  · refine ⟨_, by simp only [NodeMap.float_node]; rfl, ?_⟩
    rw [trackbar_config_exposure_paths]
    exact exposure_paths_reach _ _ _ _
  · refine ⟨_, by simp only [NodeMap.float_node]; rfl, ?_⟩
    rw [trackbar_config_exposure_paths]
    exact exposure_paths_reach _ _ _ _
  · exact ⟨_, by simp only [NodeMap.float_node]; rfl, trackbar_config_gain_reach nm _ slider⟩
  · exact ⟨_, by simp only [NodeMap.float_node]; rfl, trackbar_config_gamma_reach nm _ slider⟩
  · exact ⟨_, by simp only [NodeMap.float_node]; rfl,
      trackbar_config_sharpening_reach nm _ slider⟩
  · exact ⟨_, by simp only [NodeMap.float_node]; rfl,
      trackbar_config_saturation_reach nm _ slider⟩

/-- The bodies of the three loops of `CAMERA_MANAGER` append to the log the writes of their
camera, among them the clamp of the requested value when the body gets as far as `SetValue`,
and no float otherwise. -/
theorem manager_bodies_reach (v : ℚ) (i : Nat) (nm : NodeMap)
    (acc : CAMERA_MANAGER.MultiOutcome) :
    (∃ ws : List Write, (CAMERA_MANAGER.config_exposure_camera v i nm acc).writes
        = acc.writes ++ ws.map (fun w => (i, w)) ∧
      Reaches (nm.ExposureAuto.selects && nm.ExposureTime.sound) "ExposureTime" v
        nm.ExposureTime ws) ∧
    (∃ ws : List Write, (CAMERA_MANAGER.config_gain_camera v i nm acc).writes
        = acc.writes ++ ws.map (fun w => (i, w)) ∧
      Reaches (nm.GainAuto.selects && nm.Gain.sound) "Gain" v nm.Gain ws) ∧
    (∃ ws : List Write, (CAMERA_MANAGER.config_gamma_camera v i nm acc).writes
        = acc.writes ++ ws.map (fun w => (i, w)) ∧
      Reaches (nm.GammaEnable.enables && nm.Gamma.sound) "Gamma" v nm.Gamma ws) := by
  refine ⟨?_, ?_, ?_⟩
  all_goals
    simp only [CAMERA_MANAGER.config_exposure_camera, CAMERA_MANAGER.config_gain_camera,
      CAMERA_MANAGER.config_gamma_camera, select_entry_stage, set_float_stage,
      CAMERA_MANAGER.MultiOutcome.log, Reaches, SwitchNode.selects, SwitchNode.enables,
      FloatNode.sound]
    split_ifs
  all_goals first
    | (refine ⟨_, rfl, ?_⟩; simp_all; done)
    | (refine ⟨[], ?_, ?_⟩ <;> simp_all <;> done)
    | (refine ⟨_, rfl, ?_⟩; simp_all
       intros; rcases ‹_ = false ∨ _ = false› with h | h <;> simp_all)
    | (refine ⟨[], ?_, ?_⟩ <;> simp_all
       intros; rcases ‹_ = false ∨ _ = false› with h | h <;> simp_all)

/-- What is in the log stays in the log of a loop whose body only appends. -/
theorem for_each_camera_keeps
    (body : Nat → NodeMap → CAMERA_MANAGER.MultiOutcome → CAMERA_MANAGER.MultiOutcome)
    (hbody : ∀ i nm acc, ∃ ws : List Write,
      (body i nm acc).writes = acc.writes ++ ws.map (fun w => (i, w))) :
    ∀ (nms : List NodeMap) (k : Nat) (acc : CAMERA_MANAGER.MultiOutcome) (e : Nat × Write),
      e ∈ acc.writes → e ∈ (CAMERA_MANAGER.for_each_camera body k nms acc).writes := by
  intro nms
  induction nms with
  | nil => intro k acc e he; exact he
  | cons nm rest ih =>
    intro k acc e he
    rw [CAMERA_MANAGER.for_each_camera]
    apply ih
    obtain ⟨ws, hws⟩ := hbody k nm acc
    rw [hws]
    exact List.mem_append_left _ he

/-- What the body writes for the camera at position `i` is in the log of the loop. -/
theorem for_each_camera_logs
    (body : Nat → NodeMap → CAMERA_MANAGER.MultiOutcome → CAMERA_MANAGER.MultiOutcome)
    (Q : NodeMap → Write → Prop)
    (hbody : ∀ i nm acc, ∃ ws : List Write,
      (body i nm acc).writes = acc.writes ++ ws.map (fun w => (i, w)) ∧
      ∀ w, Q nm w → w ∈ ws) :
    ∀ (nms : List NodeMap) (k : Nat) (acc : CAMERA_MANAGER.MultiOutcome) (i : Nat)
      (nm : NodeMap) (w : Write), nms[i]? = some nm → Q nm w →
      (k + i, w) ∈ (CAMERA_MANAGER.for_each_camera body k nms acc).writes := by
  have hkeep := for_each_camera_keeps body (fun i nm acc => by
    obtain ⟨ws, h, -⟩ := hbody i nm acc
    exact ⟨ws, h⟩)
  intro nms
  induction nms with
  | nil => intro k acc i nm w hget; cases hget
  | cons nm0 rest ih =>
    intro k acc i nm w hget hQ
    rw [CAMERA_MANAGER.for_each_camera]
    cases i with
    | zero =>
      rw [List.getElem?_cons_zero] at hget
      cases hget
      apply hkeep
      obtain ⟨ws, hws, hall⟩ := hbody k nm0 acc
      rw [hws]
      exact List.mem_append_right _ (List.mem_map.mpr ⟨w, hall w hQ, rfl⟩)
    | succ j =>
      rw [List.getElem?_cons_succ] at hget
      have := ih (k + 1) (body k nm0 acc) j nm w hget hQ
      rw [show k + (j + 1) = k + 1 + j by omega]
      exact this

/-- Whether a float configurator of `CAMERA_MANAGER` writes to the value node of camera `i`:
when the body gets as far as `SetValue` for that camera the log holds the clamp of the
requested value for it, and else it holds no float for it. -/
theorem manager_runs_reach (node_maps : List NodeMap) (v : ℚ) (i : Nat) (cam : NodeMap)
    (hcam : node_maps[i]? = some cam) (reached : Bool) (name : String)
    (ws : List (Nat × Write))
    (hrun : (reached, name, ws)
      ∈ (manager_configurator_reaches cam).zip (manager_configurator_runs node_maps v)) :
    ∃ node, cam.float_node name = some node
      ∧ (reached = true → (i, Write.float name (clamp_value v node.min node.max)) ∈ ws)
      ∧ (reached = false → ∀ n x, (i, Write.float n x) ∉ ws) := by
  have hfloat : ∀ (c : Bool) (nme : String) (node : FloatNode) (l : List Write),
      Reaches c nme v node l → ∀ w ∈ l, ∀ n x, w = Write.float n x → c = true := by
    intro c nme node l h w hw n x e
    cases hc : c with
    | true => rfl
    | false => exact absurd (e ▸ hw) (h.2 hc n x)
  have hkey : ∀ (body : Nat → NodeMap → CAMERA_MANAGER.MultiOutcome
        → CAMERA_MANAGER.MultiOutcome) (c : NodeMap → Bool) (nme : String)
      (node : NodeMap → FloatNode),
      (∀ j nm acc, ∃ l : List Write,
        (body j nm acc).writes = acc.writes ++ l.map (fun w => (j, w)) ∧
        Reaches (c nm) nme v (node nm) l) →
      (c cam = true → (i, Write.float nme (clamp_value v (node cam).min (node cam).max))
          ∈ (CAMERA_MANAGER.for_each_camera body 0 node_maps ⟨0, []⟩).writes)
        ∧ (c cam = false → ∀ n x, (i, Write.float n x)
          ∉ (CAMERA_MANAGER.for_each_camera body 0 node_maps ⟨0, []⟩).writes) := by
    intro body c nme node hbody
    constructor
    · intro hc
      have h := for_each_camera_logs body
        (fun nm w => c nm = true ∧ w = Write.float nme (clamp_value v (node nm).min (node nm).max))
        (fun j nm acc => by
          obtain ⟨l, hl, hr⟩ := hbody j nm acc
          refine ⟨l, hl, ?_⟩
          rintro w ⟨hcn, rfl⟩
          exact hr.1 hcn)
        node_maps 0 ⟨0, []⟩ i cam _ hcam ⟨hc, rfl⟩
      rw [Nat.zero_add] at h
      exact h
    · intro hc n x hmem
      rcases for_each_camera_writes body (fun nm w => ∀ n x, w = Write.float n x → c nm = true)
        (fun j nm acc => by
          obtain ⟨l, hl, hr⟩ := hbody j nm acc
          exact ⟨l, hl, hfloat _ _ _ _ hr⟩)
        node_maps 0 ⟨0, []⟩ _ hmem with h | ⟨nm, -, hget, hP⟩
      · cases h
      · rw [Nat.sub_zero, hcam] at hget
        cases hget
        have := hP n x rfl
        rw [hc] at this
        cases this
  simp only [manager_configurator_reaches, manager_configurator_runs, List.zip_cons_cons,
    List.zip_nil_right, List.mem_cons, Prod.mk.injEq, List.not_mem_nil, or_false] at hrun
  rcases hrun with h | h | h <;> obtain ⟨rfl, rfl, rfl⟩ := h
  · exact ⟨cam.ExposureTime, by simp only [NodeMap.float_node]; rfl,
      hkey (CAMERA_MANAGER.config_exposure_camera v)
        (fun nm => nm.ExposureAuto.selects && nm.ExposureTime.sound) "ExposureTime"
        (fun nm => nm.ExposureTime) (fun j nm acc => (manager_bodies_reach v j nm acc).1)⟩
  · exact ⟨cam.Gain, by simp only [NodeMap.float_node]; rfl,
      hkey (CAMERA_MANAGER.config_gain_camera v)
        (fun nm => nm.GainAuto.selects && nm.Gain.sound) "Gain"
        (fun nm => nm.Gain) (fun j nm acc => (manager_bodies_reach v j nm acc).2.1)⟩
  · exact ⟨cam.Gamma, by simp only [NodeMap.float_node]; rfl,
      hkey (CAMERA_MANAGER.config_gamma_camera v)
        (fun nm => nm.GammaEnable.enables && nm.Gamma.sound) "Gamma"
        (fun nm => nm.Gamma) (fun j nm acc => (manager_bodies_reach v j nm acc).2.2)⟩

/-- C1. Clamping: whatever value `req` is requested and whatever range the device reports
for the value node, with `min ≤ max`, the value a parameter configurator (`config_exposure`,
`config_gain`, `config_gamma`, `config_sharpening`, `config_saturation`; of the capture tool,
of the two calibration tools and of `CAMERA_MANAGER`) writes to a float node is written to
its own value node and equals `max min (min req max)`; and the configurator does write that
value whenever it gets as far as `SetValue` on the value node, and writes no float when it
does not. -/
theorem configurators_write_clamped_value (nm : NodeMap) (s : Infinity.camera_settings)
    (v : ℚ) (slider : Int) (node_maps : List NodeMap) :
    (∀ name req ws, (name, req, ws) ∈ float_configurator_runs nm s v slider →
      ∀ n x, Write.float n x ∈ ws →
        ∃ node, nm.float_node name = some node ∧ n = name ∧
          (node.min ≤ node.max → x = max node.min (min req node.max))) ∧
    (∀ name ws, (name, ws) ∈ manager_configurator_runs node_maps v →
      ∀ i n x, (i, Write.float n x) ∈ ws →
        ∃ cam node, node_maps[i]? = some cam ∧ cam.float_node name = some node ∧ n = name ∧
          (node.min ≤ node.max → x = max node.min (min v node.max))) ∧
    (∀ reached name req ws, (reached, name, req, ws)
        ∈ (float_configurator_reaches nm).zip (float_configurator_runs nm s v slider) →
      ∃ node, nm.float_node name = some node ∧
        (reached = true → node.min ≤ node.max →
          Write.float name (max node.min (min req node.max)) ∈ ws) ∧
        (reached = false → ∀ n x, Write.float n x ∉ ws)) ∧
    (∀ i cam, node_maps[i]? = some cam → ∀ reached name ws, (reached, name, ws)
        ∈ (manager_configurator_reaches cam).zip (manager_configurator_runs node_maps v) →
      ∃ node, cam.float_node name = some node ∧
        (reached = true → node.min ≤ node.max →
          (i, Write.float name (max node.min (min v node.max))) ∈ ws) ∧
        (reached = false → ∀ n x, (i, Write.float n x) ∉ ws)) := by
  refine ⟨?_, ?_, ?_, ?_⟩
  · intro name req ws hrun n x hx
    obtain ⟨node, hnode, hall⟩ := single_runs_clamped nm s v slider name req ws hrun
    have h := hall _ hx
    exact ⟨node, hnode, h.1, fun hord => by rw [h.2, clamp_value_eq_max_min _ _ _ hord]⟩
  · intro name ws hrun i n x hx
    obtain ⟨cam, node, hget, hnode, h⟩ := manager_runs_clamped node_maps v name ws hrun _ hx
    exact ⟨cam, node, hget, hnode, h.1,
      fun hord => by rw [h.2, clamp_value_eq_max_min _ _ _ hord]⟩
  · intro reached name req ws hrun
    obtain ⟨node, hnode, h1, h2⟩ := single_runs_reach nm s v slider reached name req ws hrun
    exact ⟨node, hnode,
      fun hr hord => by rw [← clamp_value_eq_max_min _ _ _ hord]; exact h1 hr, h2⟩
  · intro i cam hcam reached name ws hrun
    obtain ⟨node, hnode, h1, h2⟩ := manager_runs_reach node_maps v i cam hcam reached name ws hrun
    exact ⟨node, hnode,
      fun hr hord => by rw [← clamp_value_eq_max_min _ _ _ hord]; exact h1 hr, h2⟩

/-- The witness of C1: on the sample camera every one of the fourteen configurators writes
the clamp of what is requested.  The capture tool is asked for an exposure of 10 µs, a gain
of 50 dB, a sharpening of -3, a gamma of 5 and a saturation of 0.5 and writes 33, 48, -1, 4
and 0.5; the calibration tools and `CAMERA_MANAGER` are asked for 600000 and write the
maximum of each node (for `CAMERA_MANAGER`, on the second camera). -/
theorem configurators_write_clamped_value_witness :
    (Write.float "ExposureTime" 33
        ∈ (Infinity.config_exposure NodeMap.sample ⟨10, 50, -3, 5, 1 / 2⟩).1.writes
      ∧ Write.float "Gain" 48
        ∈ (Infinity.config_gain NodeMap.sample ⟨10, 50, -3, 5, 1 / 2⟩).1.writes
      ∧ Write.float "Gamma" 4
        ∈ (Infinity.config_gamma NodeMap.sample ⟨10, 50, -3, 5, 1 / 2⟩).1.writes
      ∧ Write.float "Sharpening" (-1)
        ∈ (Infinity.config_sharpening NodeMap.sample ⟨10, 50, -3, 5, 1 / 2⟩).1.writes
      ∧ Write.float "Saturation" (1 / 2)
        ∈ (Infinity.config_saturation NodeMap.sample ⟨10, 50, -3, 5, 1 / 2⟩).1.writes)
      ∧ (Write.float "ExposureTime" 500000
          ∈ (Trackbar.config_exposure Trackbar.color_max_exposure NodeMap.sample 600000
            200).1.writes
        ∧ Write.float "ExposureTime" 500000
          ∈ (Trackbar.config_exposure Trackbar.mono_max_exposure NodeMap.sample 600000
            200).1.writes
        ∧ Write.float "Gain" 48 ∈ (Trackbar.config_gain NodeMap.sample 600000 200).1.writes
        ∧ Write.float "Gamma" 4 ∈ (Trackbar.config_gamma NodeMap.sample 600000 200).1.writes
        ∧ Write.float "Sharpening" 8
          ∈ (Trackbar.config_sharpening NodeMap.sample 600000 200).1.writes
        ∧ Write.float "Saturation" 1
          ∈ (Trackbar.config_saturation NodeMap.sample 600000 200).1.writes)
      ∧ ((1, Write.float "ExposureTime" 500000)
          ∈ (CAMERA_MANAGER.config_exposure [NodeMap.sample, NodeMap.sample] 600000).writes
        ∧ (1, Write.float "Gain" 48)
          ∈ (CAMERA_MANAGER.config_gain [NodeMap.sample, NodeMap.sample] 600000).writes
        ∧ (1, Write.float "Gamma" 4)
          ∈ (CAMERA_MANAGER.config_gamma [NodeMap.sample, NodeMap.sample] 600000).writes) := by
  have h := (configurators_write_clamped_value NodeMap.sample ⟨10, 50, -3, 5, 1 / 2⟩ 600000
    200 [NodeMap.sample, NodeMap.sample]).2.2
  have hs : ∀ reached name req ws, (reached, name, req, ws)
        ∈ (float_configurator_reaches NodeMap.sample).zip
          (float_configurator_runs NodeMap.sample ⟨10, 50, -3, 5, 1 / 2⟩ 600000 200) →
      ∀ node, NodeMap.sample.float_node name = some node → reached = true →
      node.min ≤ node.max → Write.float name (max node.min (min req node.max)) ∈ ws := by
    intro reached name req ws hrun node hnode hr hord
    obtain ⟨node1, hn1, h1, -⟩ := h.1 reached name req ws hrun
    rw [hnode] at hn1
    cases hn1
    exact h1 hr hord
  have hm : ∀ reached name ws, (reached, name, ws)
        ∈ (manager_configurator_reaches NodeMap.sample).zip
          (manager_configurator_runs [NodeMap.sample, NodeMap.sample] 600000) →
      ∀ node, NodeMap.sample.float_node name = some node → reached = true →
      node.min ≤ node.max →
      (1, Write.float name (max node.min (min 600000 node.max))) ∈ ws := by
    intro reached name ws hrun node hnode hr hord
    obtain ⟨node1, hn1, h1, -⟩ := h.2 1 NodeMap.sample rfl reached name ws hrun
    rw [hnode] at hn1
    cases hn1
    exact h1 hr hord
  have e1 : max (33 : ℚ) (min 10 500000) = 33 := by norm_num
  have e2 : max (0 : ℚ) (min 50 48) = 48 := by norm_num
  have e3 : max (1 / 4 : ℚ) (min 5 4) = 4 := by norm_num
  have e4 : max (-1 : ℚ) (min (-3) 8) = -1 := by norm_num
  have e5 : max (0 : ℚ) (min (1 / 2) 1) = 1 / 2 := by norm_num
  have e6 : max (33 : ℚ) (min 600000 500000) = 500000 := by norm_num
  have e7 : max (0 : ℚ) (min 600000 48) = 48 := by norm_num
  have e8 : max (1 / 4 : ℚ) (min 600000 4) = 4 := by norm_num
  have e9 : max (-1 : ℚ) (min 600000 8) = 8 := by norm_num
  have e10 : max (0 : ℚ) (min 600000 1) = 1 := by norm_num
  refine ⟨⟨?_, ?_, ?_, ?_, ?_⟩, ⟨?_, ?_, ?_, ?_, ?_, ?_⟩, ⟨?_, ?_, ?_⟩⟩
  · have := hs true "ExposureTime" 10 _ (List.Mem.head _) (FloatNode.ok 33 500000) rfl rfl
      (by norm_num [FloatNode.ok])
    simp only [FloatNode.ok] at this
    rw [e1] at this
    exact this
  · have := hs true "Gain" 50 _ (List.Mem.tail _ (List.Mem.head _)) (FloatNode.ok 0 48) rfl rfl
      (by norm_num [FloatNode.ok])
    simp only [FloatNode.ok] at this
    rw [e2] at this
    exact this
  · have := hs true "Gamma" 5 _ (List.Mem.tail _ (List.Mem.tail _ (List.Mem.head _))) (FloatNode.ok (1 / 4) 4) rfl rfl
      (by norm_num [FloatNode.ok])
    simp only [FloatNode.ok] at this
    rw [e3] at this
    exact this
  · have := hs true "Sharpening" (-3) _ (List.Mem.tail _ (List.Mem.tail _ (List.Mem.tail _ (List.Mem.head _)))) (FloatNode.ok (-1) 8) rfl rfl
      (by norm_num [FloatNode.ok])
    simp only [FloatNode.ok] at this
    rw [e4] at this
    exact this
  · have := hs true "Saturation" (1 / 2) _ (List.Mem.tail _ (List.Mem.tail _ (List.Mem.tail _ (List.Mem.tail _ (List.Mem.head _))))) (FloatNode.ok 0 1) rfl rfl
      (by norm_num [FloatNode.ok])
    simp only [FloatNode.ok] at this
    rw [e5] at this
    exact this
  · have := hs true "ExposureTime" 600000 _ (List.Mem.tail _ (List.Mem.tail _ (List.Mem.tail _ (List.Mem.tail _ (List.Mem.tail _ (List.Mem.head _)))))) (FloatNode.ok 33 500000) rfl rfl
      (by norm_num [FloatNode.ok])
    simp only [FloatNode.ok] at this
    rw [e6] at this
    exact this
  · have := hs true "ExposureTime" 600000 _ (List.Mem.tail _ (List.Mem.tail _ (List.Mem.tail _ (List.Mem.tail _ (List.Mem.tail _ (List.Mem.tail _ (List.Mem.head _))))))) (FloatNode.ok 33 500000) rfl rfl
      (by norm_num [FloatNode.ok])
    simp only [FloatNode.ok] at this
    rw [e6] at this
    exact this
  · have := hs true "Gain" 600000 _ (List.Mem.tail _ (List.Mem.tail _ (List.Mem.tail _ (List.Mem.tail _ (List.Mem.tail _ (List.Mem.tail _ (List.Mem.tail _ (List.Mem.head _)))))))) (FloatNode.ok 0 48) rfl rfl
      (by norm_num [FloatNode.ok])
    simp only [FloatNode.ok] at this
    rw [e7] at this
    exact this
  · have := hs true "Gamma" 600000 _ (List.Mem.tail _ (List.Mem.tail _ (List.Mem.tail _ (List.Mem.tail _ (List.Mem.tail _ (List.Mem.tail _ (List.Mem.tail _ (List.Mem.tail _ (List.Mem.head _))))))))) (FloatNode.ok (1 / 4) 4) rfl rfl
      (by norm_num [FloatNode.ok])
    simp only [FloatNode.ok] at this
    rw [e8] at this
    exact this
  · have := hs true "Sharpening" 600000 _ (List.Mem.tail _ (List.Mem.tail _ (List.Mem.tail _ (List.Mem.tail _ (List.Mem.tail _ (List.Mem.tail _ (List.Mem.tail _ (List.Mem.tail _ (List.Mem.tail _ (List.Mem.head _)))))))))) (FloatNode.ok (-1) 8) rfl rfl
      (by norm_num [FloatNode.ok])
    simp only [FloatNode.ok] at this
    rw [e9] at this
    exact this
  · have := hs true "Saturation" 600000 _ (List.Mem.tail _ (List.Mem.tail _ (List.Mem.tail _ (List.Mem.tail _ (List.Mem.tail _ (List.Mem.tail _ (List.Mem.tail _ (List.Mem.tail _ (List.Mem.tail _ (List.Mem.tail _ (List.Mem.head _))))))))))) (FloatNode.ok 0 1) rfl rfl
      (by norm_num [FloatNode.ok])
    simp only [FloatNode.ok] at this
    rw [e10] at this
    exact this
  · have := hm true "ExposureTime" _ (List.Mem.head _) (FloatNode.ok 33 500000) rfl rfl
      (by norm_num [FloatNode.ok])
    simp only [FloatNode.ok] at this
    rw [e6] at this
    exact this
  · have := hm true "Gain" _ (List.Mem.tail _ (List.Mem.head _)) (FloatNode.ok 0 48) rfl rfl
      (by norm_num [FloatNode.ok])
    simp only [FloatNode.ok] at this
    rw [e7] at this
    exact this
  · have := hm true "Gamma" _ (List.Mem.tail _ (List.Mem.tail _ (List.Mem.head _))) (FloatNode.ok (1 / 4) 4) rfl rfl
      (by norm_num [FloatNode.ok])
    simp only [FloatNode.ok] at this
    rw [e8] at this
    exact this

/-! ### The steps behind the codes of `run_single_camera` -/

theorem infinity_run_steps (cam : Camera) (s s' : Infinity.camera_settings) (w : Session)
    (fuel : Nat) (run : SingleRun)
    (h : Infinity.run_single_camera cam s w fuel = some (run, s')) :
    run.Steps cam (Infinity.step_codes cam s) (Infinity.acquire_images cam w fuel) := by
  unfold Infinity.run_single_camera at h
  unfold SingleRun.Steps
  split_ifs at h ⊢
  · cases h; rfl
  · cases hacq : Infinity.acquire_images cam w fuel with
    | none => simp [hacq] at h
    | some acq =>
      simp only [hacq, Option.some.injEq, Prod.mk.injEq] at h
      obtain ⟨rfl, _⟩ := h
      exact ⟨acq, rfl, rfl, rfl, rfl⟩

theorem color_run_steps (cam : Camera) (g g' : Trackbar.Globals) (w : Session)
    (fuel : Nat) (run : SingleRun)
    (h : Trackbar.color_run_single_camera cam g w fuel = some (run, g')) :
    run.Steps cam (Trackbar.color_step_codes cam g)
      (Trackbar.acquire_and_display_images cam w fuel) := by
  unfold Trackbar.color_run_single_camera at h
  unfold SingleRun.Steps
  split_ifs at h ⊢
  · cases h; rfl
  · cases hacq : Trackbar.acquire_and_display_images cam w fuel with
    | none => simp [hacq] at h
    | some acq =>
      simp only [hacq, Option.some.injEq, Prod.mk.injEq] at h
      obtain ⟨rfl, _⟩ := h
      exact ⟨acq, rfl, rfl, rfl, rfl⟩

theorem mono_run_steps (cam : Camera) (g g' : Trackbar.Globals) (w : Session)
    (fuel : Nat) (run : SingleRun)
    (h : Trackbar.mono_run_single_camera cam g w fuel = some (run, g')) :
    run.Steps cam (Trackbar.mono_step_codes cam g)
      (Trackbar.acquire_and_display_images cam w fuel) := by
  unfold Trackbar.mono_run_single_camera at h
  unfold SingleRun.Steps
  split_ifs at h ⊢
  · cases h; rfl
  · cases hacq : Trackbar.acquire_and_display_images cam w fuel with
    | none => simp [hacq] at h
    | some acq =>
      simp only [hacq, Option.some.injEq, Prod.mk.injEq] at h
      obtain ⟨rfl, _⟩ := h
      exact ⟨acq, rfl, rfl, rfl, rfl⟩

theorem soft_warning_infinity_acquisition :
    Infinity.acquire_images Camera.soft_warning Session.sample 3 = some Acquisition.sample := by
  simp [Infinity.acquire_images, CAMERA_CONFIG.frame_loop, Infinity.frame_body,
    Camera.soft_warning, NodeMap.auto_exposure_absent, Camera.sample,
    NodeMap.sample, SwitchNode.ok, FloatNode.ok, Session.sample, Frame.ok,
    CAMERA_MANAGER.Grab.ok, quit_requested, Acquisition.sample]

theorem gain_fails_infinity_acquisition :
    Infinity.acquire_images Camera.gain_fails Session.sample 3 = some Acquisition.sample := by
  simp [Infinity.acquire_images, CAMERA_CONFIG.frame_loop, Infinity.frame_body,
    Camera.gain_fails, NodeMap.auto_exposure_absent, Camera.sample,
    NodeMap.sample, SwitchNode.ok, FloatNode.ok, Session.sample, Frame.ok,
    CAMERA_MANAGER.Grab.ok, quit_requested, Acquisition.sample]

theorem soft_warning_infinity_run :
    Infinity.run_single_camera Camera.soft_warning ⟨100, 10, 1, 1, 1 / 2⟩ Session.sample 3
      = some (SingleRun.soft_warning, ⟨100, 10, 1, 1, 1 / 2⟩) := by
  unfold Infinity.run_single_camera
  rw [soft_warning_infinity_acquisition]
  have e1 : or_codes [0, 0, 0, 1, 0, 0, 0, 0, 0] = 1 := by decide
  norm_num [CAMERA_CONFIG.finish_single_camera, Infinity.print_device_info,
    Infinity.config_pixel_format, Infinity.config_roi, Infinity.config_exposure,
    Infinity.config_gain, Infinity.config_sharpening, Infinity.config_gamma,
    Infinity.config_saturation, CAMERA_CONFIG.reset_exposure, Camera.soft_warning,
    NodeMap.auto_exposure_absent, Camera.sample, NodeMap.sample,
    SwitchNode.ok, SwitchNode.absent, FloatNode.ok, IntegerNode.ok, select_entry_stage,
    set_float_stage, set_integer_stage, roi_writes, clamp_value, e1, SingleRun.soft_warning,
    Acquisition.sample]

theorem gain_fails_infinity_run :
    Infinity.run_single_camera Camera.gain_fails ⟨100, 10, 1, 1, 1 / 2⟩ Session.sample 3
      = some (SingleRun.gain_fails, ⟨100, 10, 1, 1, 1 / 2⟩) := by
  unfold Infinity.run_single_camera
  rw [gain_fails_infinity_acquisition]
  have e1 : or_codes [0, 0, 0, 1, -1, 0, 0, 0, 0] = -1 := by decide
  norm_num [CAMERA_CONFIG.finish_single_camera, Infinity.print_device_info,
    Infinity.config_pixel_format, Infinity.config_roi, Infinity.config_exposure,
    Infinity.config_gain, Infinity.config_sharpening, Infinity.config_gamma,
    Infinity.config_saturation, CAMERA_CONFIG.reset_exposure, Camera.gain_fails,
    NodeMap.auto_exposure_absent, Camera.sample, NodeMap.sample,
    SwitchNode.ok, SwitchNode.absent, FloatNode.ok, IntegerNode.ok, select_entry_stage,
    set_float_stage, set_integer_stage, roi_writes, clamp_value, e1, SingleRun.gain_fails,
    Acquisition.sample]

theorem init_fails_infinity_run :
    Infinity.run_single_camera Camera.init_fails ⟨100, 10, 1, 1, 1 / 2⟩ Session.sample 3
      = some (⟨-1, [], true, none⟩, ⟨100, 10, 1, 1, 1 / 2⟩) := by
  unfold Infinity.run_single_camera
  rw [if_pos (by decide)]

theorem gain_fails_step_codes :
    Infinity.step_codes Camera.gain_fails ⟨100, 10, 1, 1, 1 / 2⟩ 0
      = [0, 0, 0, 1, -1, 0, 0, 0, 0] := by
  norm_num [Infinity.step_codes, Infinity.print_device_info,
    Infinity.config_pixel_format, Infinity.config_roi, Infinity.config_exposure,
    Infinity.config_gain, Infinity.config_sharpening, Infinity.config_gamma,
    Infinity.config_saturation, Camera.gain_fails,
    NodeMap.auto_exposure_absent, Camera.sample, NodeMap.sample,
    SwitchNode.ok, SwitchNode.absent, FloatNode.ok, IntegerNode.ok, select_entry_stage,
    set_float_stage, set_integer_stage, roi_writes, clamp_value]

theorem soft_warning_step_codes :
    Infinity.step_codes Camera.soft_warning ⟨100, 10, 1, 1, 1 / 2⟩ 0
      = [0, 0, 0, 1, 0, 0, 0, 0, 0] := by
  norm_num [Infinity.step_codes, Infinity.print_device_info,
    Infinity.config_pixel_format, Infinity.config_roi, Infinity.config_exposure,
    Infinity.config_gain, Infinity.config_sharpening, Infinity.config_gamma,
    Infinity.config_saturation, Camera.soft_warning,
    NodeMap.auto_exposure_absent, Camera.sample, NodeMap.sample,
    SwitchNode.ok, SwitchNode.absent, FloatNode.ok, IntegerNode.ok, select_entry_stage,
    set_float_stage, set_integer_stage, roi_writes, clamp_value]

theorem gain_fails_display :
    Trackbar.acquire_and_display_images Camera.gain_fails Session.sample 3
      = some Acquisition.displayed := by
  simp [Trackbar.acquire_and_display_images, CAMERA_CONFIG.frame_loop, Trackbar.frame_body,
    Camera.gain_fails, NodeMap.auto_exposure_absent, Camera.sample,
    NodeMap.sample, SwitchNode.ok, FloatNode.ok, Session.sample, Frame.ok,
    CAMERA_MANAGER.Grab.ok, quit_requested, Acquisition.displayed]

theorem gain_fails_color_run :
    (Trackbar.color_run_single_camera Camera.gain_fails Trackbar.Globals.initial
      Session.sample 3).map Prod.fst = some SingleRun.color_gain_fails := by
  unfold Trackbar.color_run_single_camera
  rw [gain_fails_display]
  have e1 : or_codes [0, 0, 1, -1, 0, 0, 0, 0] = -1 := by decide
  norm_num [CAMERA_CONFIG.finish_single_camera, Trackbar.config_pixel_format,
    Trackbar.config_roi, Trackbar.roi_node, Trackbar.config_exposure,
    Trackbar.config_gain, Trackbar.config_sharpening, Trackbar.config_gamma,
    Trackbar.config_saturation, CAMERA_CONFIG.reset_exposure, Camera.gain_fails,
    NodeMap.auto_exposure_absent, Camera.sample, NodeMap.sample, Trackbar.Globals.initial,
    Trackbar.color_max_exposure, SwitchNode.ok, SwitchNode.absent, FloatNode.ok,
    IntegerNode.ok, select_entry_stage, set_float_stage, set_integer_stage, clamp_value, e1,
    SingleRun.color_gain_fails, Acquisition.displayed]

theorem gain_fails_mono_run :
    (Trackbar.mono_run_single_camera Camera.gain_fails Trackbar.Globals.initial
      Session.sample 3).map Prod.fst = some SingleRun.mono_gain_fails := by
  unfold Trackbar.mono_run_single_camera
  rw [gain_fails_display]
  have e1 : or_codes [0, 0, 0, 1, -1, 0, 0, 0] = -1 := by decide
  norm_num [CAMERA_CONFIG.finish_single_camera, Trackbar.config_pixel_format,
    Trackbar.config_roi, Trackbar.roi_node, Trackbar.config_exposure,
    Trackbar.config_gain, Trackbar.config_sensor_shutter_mode,
    Trackbar.config_black_level_clamping_enable, Trackbar.config_gamma,
    CAMERA_CONFIG.reset_exposure, Camera.gain_fails, NodeMap.auto_exposure_absent,
    Camera.sample, NodeMap.sample, Trackbar.Globals.initial, Trackbar.mono_max_exposure,
    SwitchNode.ok, SwitchNode.absent, FloatNode.ok, IntegerNode.ok, select_entry_stage,
    set_float_stage, set_integer_stage, clamp_value, e1, SingleRun.mono_gain_fails,
    Acquisition.displayed]

theorem map_fst_some {α β : Type} (o : Option (α × β)) (a : α)
    (h : o.map Prod.fst = some a) : ∃ b, o = some (a, b) := by
  cases o with
  | none => cases h
  | some x =>
    obtain ⟨x1, x2⟩ := x
    simp only [Option.map_some', Option.some.injEq] at h
    subst h
    exact ⟨x2, rfl⟩

/-- C13: the aggregate of `run_single_camera` (of each of the three single-camera tools) is
the bitwise OR, on two's-complement `int`, of the return codes of the steps it ran; every
code is 0, 1 or -1; the aggregate is 0 if and only if every code is 0, and it is -1 whenever
some code is -1.  The function returns the aggregate, unless `Init()` or `DeInit()` raised,
in which case it returns -1.  The codes are the return values of the tool's steps, in the
order of the calls: device information (capture tool), pixel format, region of interest,
shutter mode (mono tool), exposure, gain, black level clamping (mono tool) or sharpening,
gamma, saturation, then the acquisition, then the exposure reset when the OR of the codes
before it is 0; none of them is left out. -/
theorem run_single_camera_aggregate (cam : Camera) (w : Session) (fuel : Nat) (run : SingleRun)
    (h : (∃ s s', Infinity.run_single_camera cam s w fuel = some (run, s'))
      ∨ (∃ g g', Trackbar.color_run_single_camera cam g w fuel = some (run, g'))
      ∨ (∃ g g', Trackbar.mono_run_single_camera cam g w fuel = some (run, g'))) :
    (∀ c ∈ run.codes, c = 0 ∨ c = 1 ∨ c = -1)
      ∧ run.result = (if run.raised then -1 else run.codes.foldl int_or 0)
      ∧ (run.codes.foldl int_or 0 = 0 ↔ ∀ c ∈ run.codes, c = 0)
      ∧ (-1 ∈ run.codes → run.codes.foldl int_or 0 = -1)
      ∧ (∀ s s', Infinity.run_single_camera cam s w fuel = some (run, s') →
        run.Steps cam (Infinity.step_codes cam s) (Infinity.acquire_images cam w fuel))
      ∧ (∀ g g', Trackbar.color_run_single_camera cam g w fuel = some (run, g') →
        run.Steps cam (Trackbar.color_step_codes cam g)
          (Trackbar.acquire_and_display_images cam w fuel))
      ∧ (∀ g g', Trackbar.mono_run_single_camera cam g w fuel = some (run, g') →
        run.Steps cam (Trackbar.mono_step_codes cam g)
          (Trackbar.acquire_and_display_images cam w fuel)) :=
  ⟨(single_run_aggregate cam w fuel run h).1, (single_run_aggregate cam w fuel run h).2.1,
    (single_run_aggregate cam w fuel run h).2.2.1, (single_run_aggregate cam w fuel run h).2.2.2,
    fun s s' hr => infinity_run_steps cam s s' w fuel run hr,
    fun g g' hr => color_run_steps cam g g' w fuel run hr,
    fun g g' hr => mono_run_steps cam g g' w fuel run hr⟩

theorem run_single_camera_aggregate_witness :
    Infinity.run_single_camera Camera.gain_fails ⟨100, 10, 1, 1, 1 / 2⟩ Session.sample 3
        = some (SingleRun.gain_fails, ⟨100, 10, 1, 1, 1 / 2⟩)
      ∧ Infinity.step_codes Camera.gain_fails ⟨100, 10, 1, 1, 1 / 2⟩ 0
        = [0, 0, 0, 1, -1, 0, 0, 0, 0]
      ∧ SingleRun.gain_fails.codes = [0, 0, 0, 1, -1, 0, 0, 0, 0]
      ∧ SingleRun.gain_fails.codes.foldl int_or 0 = -1
      ∧ SingleRun.gain_fails.result = -1
      ∧ SingleRun.gain_fails.Steps Camera.gain_fails
        (Infinity.step_codes Camera.gain_fails ⟨100, 10, 1, 1, 1 / 2⟩)
        (Infinity.acquire_images Camera.gain_fails Session.sample 3)
      ∧ Infinity.run_single_camera Camera.soft_warning ⟨100, 10, 1, 1, 1 / 2⟩ Session.sample 3
        = some (SingleRun.soft_warning, ⟨100, 10, 1, 1, 1 / 2⟩)
      ∧ Infinity.step_codes Camera.soft_warning ⟨100, 10, 1, 1, 1 / 2⟩ 0
        = [0, 0, 0, 1, 0, 0, 0, 0, 0]
      ∧ SingleRun.soft_warning.codes = [0, 0, 0, 1, 0, 0, 0, 0, 0]
      ∧ SingleRun.soft_warning.codes.foldl int_or 0 ≠ 0
      ∧ SingleRun.soft_warning.result = SingleRun.soft_warning.codes.foldl int_or 0
      ∧ SingleRun.soft_warning.result = 1
      ∧ Infinity.run_single_camera Camera.init_fails ⟨100, 10, 1, 1, 1 / 2⟩ Session.sample 3
        = some (⟨-1, [], true, none⟩, ⟨100, 10, 1, 1, 1 / 2⟩)
      ∧ (⟨-1, [], true, none⟩ : SingleRun).Steps Camera.init_fails
        (Infinity.step_codes Camera.init_fails ⟨100, 10, 1, 1, 1 / 2⟩)
        (Infinity.acquire_images Camera.init_fails Session.sample 3)
      ∧ (Trackbar.color_run_single_camera Camera.gain_fails Trackbar.Globals.initial
        Session.sample 3).map Prod.fst = some SingleRun.color_gain_fails
      ∧ SingleRun.color_gain_fails.codes = [0, 0, 1, -1, 0, 0, 0, 0]
      ∧ SingleRun.color_gain_fails.codes.foldl int_or 0 = -1
      ∧ SingleRun.color_gain_fails.Steps Camera.gain_fails
        (Trackbar.color_step_codes Camera.gain_fails Trackbar.Globals.initial)
        (Trackbar.acquire_and_display_images Camera.gain_fails Session.sample 3)
      ∧ (Trackbar.mono_run_single_camera Camera.gain_fails Trackbar.Globals.initial
        Session.sample 3).map Prod.fst = some SingleRun.mono_gain_fails
      ∧ SingleRun.mono_gain_fails.codes = [0, 0, 0, 1, -1, 0, 0, 0]
      ∧ SingleRun.mono_gain_fails.codes.foldl int_or 0 = -1
      ∧ SingleRun.mono_gain_fails.Steps Camera.gain_fails
        (Trackbar.mono_step_codes Camera.gain_fails Trackbar.Globals.initial)
        (Trackbar.acquire_and_display_images Camera.gain_fails Session.sample 3) := by
  obtain ⟨gc, hc⟩ := map_fst_some _ _ gain_fails_color_run
  obtain ⟨gm, hm⟩ := map_fst_some _ _ gain_fails_mono_run
  have t1 := run_single_camera_aggregate Camera.gain_fails Session.sample 3
    SingleRun.gain_fails (Or.inl ⟨_, _, gain_fails_infinity_run⟩)
  have t2 := run_single_camera_aggregate Camera.soft_warning Session.sample 3
    SingleRun.soft_warning (Or.inl ⟨_, _, soft_warning_infinity_run⟩)
  have t3 := run_single_camera_aggregate Camera.init_fails Session.sample 3
    ⟨-1, [], true, none⟩ (Or.inl ⟨_, _, init_fails_infinity_run⟩)
  have t4 := run_single_camera_aggregate Camera.gain_fails Session.sample 3
    SingleRun.color_gain_fails (Or.inr (Or.inl ⟨_, _, hc⟩))
  have t5 := run_single_camera_aggregate Camera.gain_fails Session.sample 3
    SingleRun.mono_gain_fails (Or.inr (Or.inr ⟨_, _, hm⟩))
  exact ⟨gain_fails_infinity_run, gain_fails_step_codes, rfl, t1.2.2.2.1 (by decide),
    t1.2.1.trans (t1.2.2.2.1 (by decide)), t1.2.2.2.2.1 _ _ gain_fails_infinity_run,
    soft_warning_infinity_run, soft_warning_step_codes, rfl,
    fun h0 => absurd (t2.2.2.1.mp h0 1 (by decide)) (by decide), t2.2.1, rfl,
    init_fails_infinity_run, t3.2.2.2.2.1 _ _ init_fails_infinity_run,
    gain_fails_color_run, rfl, t4.2.2.2.1 (by decide), t4.2.2.2.2.2.1 _ _ hc,
    gain_fails_mono_run, rfl, t5.2.2.2.1 (by decide), t5.2.2.2.2.2.2 _ _ hm⟩

/-! ### The runs behind the exit code of a single-camera tool -/

theorem infinity_run_cameras_runs (world : Nat → Session) (fuel : Nat) :
    ∀ (cams : List Camera) (i : Nat) (s : Infinity.camera_settings) (acc prog : ProgramRun),
      Infinity.run_cameras world fuel i cams s acc = some prog →
      ∃ runs, prog.runs = acc.runs ++ runs ∧ runs.length = cams.length
        ∧ ∀ (j : Nat) (cam : Camera), cams[j]? = some cam →
          ∃ (run : SingleRun) (s1 : Infinity.camera_settings), runs[j]? = some run
          ∧ run.Steps cam (Infinity.step_codes cam s1)
            (Infinity.acquire_images cam (world (i + j)) fuel) := by
  intro cams
  induction cams with
  | nil =>
    intro i s acc prog h
    rw [Infinity.run_cameras] at h
    cases h
    exact ⟨[], by simp, rfl, by simp⟩
  | cons cam rest ih =>
    intro i s acc prog h
    rw [Infinity.run_cameras] at h
    cases hr : Infinity.run_single_camera cam s (world i) fuel with
    | none => rw [hr] at h; cases h
    | some x =>
      obtain ⟨run, s1⟩ := x
      rw [hr] at h
      dsimp only at h
      obtain ⟨runs, e1, e2, e3⟩ := ih _ _ _ _ h
      refine ⟨run :: runs, by simpa using e1, by simp [e2], ?_⟩
      intro j c hj
      cases j with
      | zero =>
        simp only [List.getElem?_cons_zero, Option.some.injEq] at hj
        subst hj
        exact ⟨run, s, List.getElem?_cons_zero, infinity_run_steps _ _ _ _ _ _ hr⟩
      | succ j =>
        simp only [List.getElem?_cons_succ] at hj
        obtain ⟨r, s2, hr1, hr2⟩ := e3 j c hj
        have hi : i + 1 + j = i + (j + 1) := by omega
        rw [hi] at hr2
        exact ⟨r, s2, by simpa using hr1, hr2⟩

theorem trackbar_run_cameras_runs
    (rsc : Camera → Trackbar.Globals → Session → Nat → Option (SingleRun × Trackbar.Globals))
    (steps : Camera → Trackbar.Globals → Int → List Int)
    (hrsc : ∀ cam g w fuel run g1, rsc cam g w fuel = some (run, g1) →
      run.Steps cam (steps cam g) (Trackbar.acquire_and_display_images cam w fuel))
    (world : Nat → Session) (fuel : Nat) :
    ∀ (cams : List Camera) (i : Nat) (g : Trackbar.Globals) (acc prog : ProgramRun),
      Trackbar.run_cameras rsc world fuel i cams g acc = some prog →
      ∃ runs, prog.runs = acc.runs ++ runs ∧ runs.length = cams.length
        ∧ ∀ (j : Nat) (cam : Camera), cams[j]? = some cam →
          ∃ (run : SingleRun) (g1 : Trackbar.Globals), runs[j]? = some run
          ∧ run.Steps cam (steps cam g1)
            (Trackbar.acquire_and_display_images cam (world (i + j)) fuel) := by
  intro cams
  induction cams with
  | nil =>
    intro i g acc prog h
    rw [Trackbar.run_cameras] at h
    cases h
    exact ⟨[], by simp, rfl, by simp⟩
  | cons cam rest ih =>
    intro i g acc prog h
    rw [Trackbar.run_cameras] at h
    cases hr : rsc cam g (world i) fuel with
    | none => rw [hr] at h; cases h
    | some x =>
      obtain ⟨run, g1⟩ := x
      rw [hr] at h
      dsimp only at h
      obtain ⟨runs, e1, e2, e3⟩ := ih _ _ _ _ h
      refine ⟨run :: runs, by simpa using e1, by simp [e2], ?_⟩
      intro j c hj
      cases j with
      | zero =>
        simp only [List.getElem?_cons_zero, Option.some.injEq] at hj
        subst hj
        exact ⟨run, g, List.getElem?_cons_zero, hrsc _ _ _ _ _ _ hr⟩
      | succ j =>
        simp only [List.getElem?_cons_succ] at hj
        obtain ⟨r, g2, hr1, hr2⟩ := e3 j c hj
        have hi : i + 1 + j = i + (j + 1) := by omega
        rw [hi] at hr2
        exact ⟨r, g2, by simpa using hr1, hr2⟩

theorem infinity_main_runs (cameras : List Camera) (file : Option (List Char)) (u : ℚ)
    (initial : Infinity.camera_settings) (world : Nat → Session) (fuel : Nat)
    (prog : ProgramRun) (h : Infinity.main cameras file u initial world fuel = some prog) :
    prog.runs.length = cameras.length
      ∧ ∀ (j : Nat) (cam : Camera), cameras[j]? = some cam →
        ∃ (run : SingleRun) (s : Infinity.camera_settings), prog.runs[j]? = some run
        ∧ run.Steps cam (Infinity.step_codes cam s)
          (Infinity.acquire_images cam (world j) fuel) := by
  unfold Infinity.main at h
  split_ifs at h with hlen
  · cases h
    exact ⟨hlen.symm, by
      intro j cam hj
      rw [List.length_eq_zero.mp hlen] at hj
      simp at hj⟩
  · obtain ⟨runs, e1, e2, e3⟩ := infinity_run_cameras_runs world fuel _ _ _ _ _ h
    rw [List.nil_append] at e1
    rw [e1]
    refine ⟨e2, ?_⟩
    intro j cam hj
    obtain ⟨run, s, h1, h2⟩ := e3 j cam hj
    rw [Nat.zero_add] at h2
    exact ⟨run, s, h1, h2⟩

theorem trackbar_main_runs
    (rsc : Camera → Trackbar.Globals → Session → Nat → Option (SingleRun × Trackbar.Globals))
    (steps : Camera → Trackbar.Globals → Int → List Int)
    (hrsc : ∀ cam g w fuel run g1, rsc cam g w fuel = some (run, g1) →
      run.Steps cam (steps cam g) (Trackbar.acquire_and_display_images cam w fuel))
    (cameras : List Camera) (world : Nat → Session) (fuel : Nat) (prog : ProgramRun)
    (h : (if cameras.length = 0 then some ⟨-1, []⟩
      else Trackbar.run_cameras rsc world fuel 0 cameras Trackbar.Globals.initial ⟨0, []⟩)
      = some prog) :
    prog.runs.length = cameras.length
      ∧ ∀ (j : Nat) (cam : Camera), cameras[j]? = some cam →
        ∃ (run : SingleRun) (g : Trackbar.Globals), prog.runs[j]? = some run
        ∧ run.Steps cam (steps cam g)
          (Trackbar.acquire_and_display_images cam (world j) fuel) := by
  split_ifs at h with hlen
  · cases h
    exact ⟨hlen.symm, by
      intro j cam hj
      rw [List.length_eq_zero.mp hlen] at hj
      simp at hj⟩
  · obtain ⟨runs, e1, e2, e3⟩ := trackbar_run_cameras_runs rsc steps hrsc world fuel _ _ _ _ _ h
    rw [List.nil_append] at e1
    rw [e1]
    refine ⟨e2, ?_⟩
    intro j cam hj
    obtain ⟨run, s, h1, h2⟩ := e3 j cam hj
    rw [Nat.zero_add] at h2
    exact ⟨run, s, h1, h2⟩

theorem gain_fails_infinity_main :
    Infinity.main [Camera.sample, Camera.gain_fails] none 0 ⟨100, 10, 1, 1, 1 / 2⟩
      (fun _ => Session.sample) 3 = some ⟨-1, [SingleRun.sample, SingleRun.gain_fails]⟩ := by
  unfold Infinity.main
  rw [if_neg (by decide)]
  simp only [Infinity.get_values, List.foldl_nil, Infinity.run_cameras, sample_infinity_run,
    gain_fails_infinity_run]
  rfl

theorem soft_warning_infinity_main :
    Infinity.main [Camera.soft_warning] none 0 ⟨100, 10, 1, 1, 1 / 2⟩
      (fun _ => Session.sample) 3 = some ⟨1, [SingleRun.soft_warning]⟩ := by
  unfold Infinity.main
  rw [if_neg (by decide)]
  simp only [Infinity.get_values, List.foldl_nil, Infinity.run_cameras,
    soft_warning_infinity_run]
  rfl

theorem gain_fails_color_main :
    Trackbar.color_main [Camera.gain_fails] (fun _ => Session.sample) 3
      = some ⟨-1, [SingleRun.color_gain_fails]⟩ := by
  obtain ⟨g1, h1⟩ := map_fst_some _ _ gain_fails_color_run
  unfold Trackbar.color_main
  rw [if_neg (by decide)]
  simp only [Trackbar.run_cameras, h1]
  rfl

theorem gain_fails_mono_main :
    Trackbar.mono_main [Camera.gain_fails] (fun _ => Session.sample) 3
      = some ⟨-1, [SingleRun.mono_gain_fails]⟩ := by
  obtain ⟨g1, h1⟩ := map_fst_some _ _ gain_fails_mono_run
  unfold Trackbar.mono_main
  rw [if_neg (by decide)]
  simp only [Trackbar.run_cameras, h1]
  rfl

theorem step_failed_taints (run : SingleRun) (cam : Camera) (steps : Int → List Int)
    (acquired : Option Acquisition) (hs : run.Steps cam steps acquired)
    (hf : StepFailed cam steps acquired) :
    run.raised = true ∨ ∃ c ∈ run.codes, c ≠ 0 := by
  unfold SingleRun.Steps at hs
  split_ifs at hs with hinit
  · subst hs; exact Or.inl rfl
  · obtain ⟨acq, ha, _, hr, hc⟩ := hs
    rcases hf with hf | hf | ⟨acq1, c, ha1, hc1, hne⟩
    · exact absurd hf hinit
    · exact Or.inl (hr.trans hf)
    · rw [ha] at ha1
      cases ha1
      exact Or.inr ⟨c, by rw [hc]; exact hc1, hne⟩

theorem soft_warning_exposure_code (s : Infinity.camera_settings) :
    (Infinity.config_exposure Camera.soft_warning.node_map s).1.result = 1 := by
  simp [Infinity.config_exposure, Camera.soft_warning, NodeMap.auto_exposure_absent,
    Camera.sample, NodeMap.sample, SwitchNode.ok, SwitchNode.absent, FloatNode.ok,
    set_float_stage]

theorem mem_codes_with_reset (cam : Camera) (codes : List Int) (c : Int) (h : c ∈ codes) :
    c ∈ CAMERA_CONFIG.codes_with_reset cam codes := by
  unfold CAMERA_CONFIG.codes_with_reset
  split_ifs
  · exact List.mem_append_left _ h
  · exact h

theorem soft_warning_step_failed (s : Infinity.camera_settings) :
    StepFailed Camera.soft_warning (Infinity.step_codes Camera.soft_warning s)
      (Infinity.acquire_images Camera.soft_warning Session.sample 3) := by
  refine Or.inr (Or.inr ⟨Acquisition.sample, 1, soft_warning_infinity_acquisition,
    mem_codes_with_reset _ _ _ ?_, by decide⟩)
  unfold Infinity.step_codes
  rw [soft_warning_exposure_code]
  simp

/-- C12, amended.  In the three single-camera programs a non-zero from any stage taints the
run: the exit code is 0 exactly when a camera was detected and, for every camera, every
step of `run_single_camera` returned 0 and neither `Init()` nor `DeInit()` raised; it is
non-zero as soon as one step of one camera returned non-zero.  The runs are those of the
detected cameras, in order, and the codes of each run are the return values of the steps
of the tool's `run_single_camera` on that camera (configuration steps, acquisition,
exposure reset): a camera on which a step fails makes the exit code non-zero.  In the
dual-camera tool `main` returns 0 or -1, and it returns 0 only if, in the last pass,
`result` was 0 (then `run_multiple_cameras` and each of its steps returned 0) or the run
flag was cleared; once the user has stopped the run (flag cleared) it returns 0 whatever
the stages returned. -/
theorem exit_code_taint :
    (∀ (cameras : List Camera) (world : Nat → Session) (fuel : Nat) (prog : ProgramRun),
        ((∃ file u initial, Infinity.main cameras file u initial world fuel = some prog)
          ∨ Trackbar.color_main cameras world fuel = some prog
          ∨ Trackbar.mono_main cameras world fuel = some prog) →
        (prog.code = 0 ↔ cameras ≠ [] ∧ ∀ run ∈ prog.runs, run.Clean)
          ∧ (prog.Tainted → prog.code ≠ 0)
          ∧ prog.runs.length = cameras.length
          ∧ (∀ (j : Nat) (cam : Camera), cameras[j]? = some cam →
            ∃ run : SingleRun, prog.runs[j]? = some run
              ∧ ((∃ file u initial, Infinity.main cameras file u initial world fuel = some prog) →
                ∃ s : Infinity.camera_settings,
                  run.Steps cam (Infinity.step_codes cam s)
                    (Infinity.acquire_images cam (world j) fuel)
                  ∧ (StepFailed cam (Infinity.step_codes cam s)
                    (Infinity.acquire_images cam (world j) fuel) → prog.code ≠ 0))
              ∧ (Trackbar.color_main cameras world fuel = some prog →
                ∃ g : Trackbar.Globals,
                  run.Steps cam (Trackbar.color_step_codes cam g)
                    (Trackbar.acquire_and_display_images cam (world j) fuel)
                  ∧ (StepFailed cam (Trackbar.color_step_codes cam g)
                    (Trackbar.acquire_and_display_images cam (world j) fuel) → prog.code ≠ 0))
              ∧ (Trackbar.mono_main cameras world fuel = some prog →
                ∃ g : Trackbar.Globals,
                  run.Steps cam (Trackbar.mono_step_codes cam g)
                    (Trackbar.acquire_and_display_images cam (world j) fuel)
                  ∧ (StepFailed cam (Trackbar.mono_step_codes cam g)
                    (Trackbar.acquire_and_display_images cam (world j) fuel)
                      → prog.code ≠ 0))))
      ∧ (∀ (world : Nat → DualMain.Attempt) (fuel : Nat) (run : DualMain.MainRun),
        DualMain.main world fuel = some run →
        (run.code = 0 ∨ run.code = -1)
          ∧ (run.code = 0 → DualMain.ReturnsZeroBy run)
          ∧ (run.final.global_running = false → run.code = 0)) := by
  have h0 : DualMain.AtLoopTest ⟨0, true, 0, [], none, none⟩ :=
    ⟨rfl, Nat.zero_le _, by intro r hr; cases hr⟩
  refine ⟨?_, ?_⟩
  · intro cameras world fuel prog h
    have hcode := single_camera_exit_code cameras world fuel prog h
    have hlen : prog.runs.length = cameras.length := by
      rcases h with ⟨f, u, s, h⟩ | h | h
      · exact (infinity_main_runs _ _ _ _ _ _ _ h).1
      · exact (trackbar_main_runs _ _
          (fun cam g w fuel run g1 hr => color_run_steps cam g g1 w fuel run hr)
          _ _ _ _ h).1
      · exact (trackbar_main_runs _ _
          (fun cam g w fuel run g1 hr => mono_run_steps cam g g1 w fuel run hr)
          _ _ _ _ h).1
    refine ⟨hcode.1, hcode.2, hlen, ?_⟩
    intro j cam hj
    have hjlt : j < prog.runs.length := by
      rw [hlen]
      exact (List.getElem?_eq_some.mp hj).1
    refine ⟨prog.runs[j], List.getElem?_eq_getElem hjlt, ?_, ?_, ?_⟩
    · rintro ⟨f, u, s, hm⟩
      obtain ⟨run, s1, e1, e2⟩ := (infinity_main_runs _ _ _ _ _ _ _ hm).2 j cam hj
      rw [List.getElem?_eq_getElem hjlt, Option.some.injEq] at e1
      rw [e1]
      exact ⟨s1, e2, fun hf => hcode.2
        ⟨run, by rw [← e1]; exact List.getElem_mem _, step_failed_taints _ _ _ _ e2 hf⟩⟩
    · intro hm
      obtain ⟨run, g1, e1, e2⟩ := (trackbar_main_runs _ _
        (fun cam g w fuel run g1 hr => color_run_steps cam g g1 w fuel run hr)
        _ _ _ _ hm).2 j cam hj
      rw [List.getElem?_eq_getElem hjlt, Option.some.injEq] at e1
      rw [e1]
      exact ⟨g1, e2, fun hf => hcode.2
        ⟨run, by rw [← e1]; exact List.getElem_mem _, step_failed_taints _ _ _ _ e2 hf⟩⟩
    · intro hm
      obtain ⟨run, g1, e1, e2⟩ := (trackbar_main_runs _ _
        (fun cam g w fuel run g1 hr => mono_run_steps cam g g1 w fuel run hr)
        _ _ _ _ hm).2 j cam hj
      rw [List.getElem?_eq_getElem hjlt, Option.some.injEq] at e1
      rw [e1]
      exact ⟨g1, e2, fun hf => hcode.2
        ⟨run, by rw [← e1]; exact List.getElem_mem _, step_failed_taints _ _ _ _ e2 hf⟩⟩
  · intro world fuel run h
    exact ⟨(DualMain.main_loop_bounds world fuel _ _ run h0 h).2.2.2,
      DualMain.main_loop_zero world fuel _ _ run h0 h,
      DualMain.main_loop_flag world fuel _ _ run h0 rfl h⟩

theorem exit_code_taint_witness :
    Infinity.main [Camera.sample, Camera.gain_fails] none 0 ⟨100, 10, 1, 1, 1 / 2⟩
        (fun _ => Session.sample) 3 = some ⟨-1, [SingleRun.sample, SingleRun.gain_fails]⟩
      ∧ (⟨-1, [SingleRun.sample, SingleRun.gain_fails]⟩ : ProgramRun).Tainted
      ∧ (⟨-1, [SingleRun.sample, SingleRun.gain_fails]⟩ : ProgramRun).code ≠ 0
      ∧ (∃ s : Infinity.camera_settings,
        SingleRun.gain_fails.Steps Camera.gain_fails (Infinity.step_codes Camera.gain_fails s)
          (Infinity.acquire_images Camera.gain_fails Session.sample 3))
      ∧ Infinity.main [Camera.soft_warning] none 0 ⟨100, 10, 1, 1, 1 / 2⟩
        (fun _ => Session.sample) 3 = some ⟨1, [SingleRun.soft_warning]⟩
      ∧ (∀ s, StepFailed Camera.soft_warning (Infinity.step_codes Camera.soft_warning s)
        (Infinity.acquire_images Camera.soft_warning Session.sample 3))
      ∧ (⟨1, [SingleRun.soft_warning]⟩ : ProgramRun).code ≠ 0
      ∧ Trackbar.color_main [Camera.gain_fails] (fun _ => Session.sample) 3
        = some ⟨-1, [SingleRun.color_gain_fails]⟩
      ∧ (⟨-1, [SingleRun.color_gain_fails]⟩ : ProgramRun).Tainted
      ∧ (⟨-1, [SingleRun.color_gain_fails]⟩ : ProgramRun).code ≠ 0
      ∧ Trackbar.mono_main [Camera.gain_fails] (fun _ => Session.sample) 3
        = some ⟨-1, [SingleRun.mono_gain_fails]⟩
      ∧ (⟨-1, [SingleRun.mono_gain_fails]⟩ : ProgramRun).Tainted
      ∧ (⟨-1, [SingleRun.mono_gain_fails]⟩ : ProgramRun).code ≠ 0
      ∧ Infinity.main [Camera.sample] none 0 ⟨100, 10, 1, 1, 1 / 2⟩ (fun _ => Session.sample) 3
        = some ⟨0, [SingleRun.sample]⟩
      ∧ ((⟨0, [SingleRun.sample]⟩ : ProgramRun).code = 0
        ↔ [Camera.sample] ≠ [] ∧ ∀ run ∈ (⟨0, [SingleRun.sample]⟩ : ProgramRun).runs,
          run.Clean)
      ∧ (∃ run, DualMain.main DualMain.user_quits 1 = some run ∧ run.code = 0
        ∧ DualMain.ReturnsZeroBy run) := by
  have t1 := exit_code_taint.1 [Camera.sample, Camera.gain_fails] (fun _ => Session.sample) 3
    ⟨-1, [SingleRun.sample, SingleRun.gain_fails]⟩
    (Or.inl ⟨none, 0, ⟨100, 10, 1, 1, 1 / 2⟩, gain_fails_infinity_main⟩)
  have t2 := exit_code_taint.1 [Camera.soft_warning] (fun _ => Session.sample) 3
    ⟨1, [SingleRun.soft_warning]⟩
    (Or.inl ⟨none, 0, ⟨100, 10, 1, 1, 1 / 2⟩, soft_warning_infinity_main⟩)
  have t3 := exit_code_taint.1 [Camera.gain_fails] (fun _ => Session.sample) 3
    ⟨-1, [SingleRun.color_gain_fails]⟩ (Or.inr (Or.inl gain_fails_color_main))
  have t4 := exit_code_taint.1 [Camera.gain_fails] (fun _ => Session.sample) 3
    ⟨-1, [SingleRun.mono_gain_fails]⟩ (Or.inr (Or.inr gain_fails_mono_main))
  have t5 := exit_code_taint.1 [Camera.sample] (fun _ => Session.sample) 3
    ⟨0, [SingleRun.sample]⟩ (Or.inl ⟨none, 0, ⟨100, 10, 1, 1, 1 / 2⟩, sample_infinity_main⟩)
  have n1 : (⟨-1, [SingleRun.sample, SingleRun.gain_fails]⟩ : ProgramRun).Tainted :=
    ⟨SingleRun.gain_fails, List.Mem.tail _ (List.Mem.head _),
      Or.inr ⟨-1, by decide, by decide⟩⟩
  have n3 : (⟨-1, [SingleRun.color_gain_fails]⟩ : ProgramRun).Tainted :=
    ⟨SingleRun.color_gain_fails, List.Mem.head _, Or.inr ⟨-1, by decide, by decide⟩⟩
  have n4 : (⟨-1, [SingleRun.mono_gain_fails]⟩ : ProgramRun).Tainted :=
    ⟨SingleRun.mono_gain_fails, List.Mem.head _, Or.inr ⟨-1, by decide, by decide⟩⟩
  obtain ⟨r1, hr1, hi1, _, _⟩ := t1.2.2.2 1 Camera.gain_fails rfl
  obtain ⟨s1, hs1, _⟩ := hi1 ⟨none, 0, ⟨100, 10, 1, 1, 1 / 2⟩, gain_fails_infinity_main⟩
  have er1 : r1 = SingleRun.gain_fails := (Option.some.inj hr1).symm
  rw [er1] at hs1
  obtain ⟨r2, _, hi2, _, _⟩ := t2.2.2.2 0 Camera.soft_warning rfl
  obtain ⟨s2, _, hf2⟩ := hi2 ⟨none, 0, ⟨100, 10, 1, 1, 1 / 2⟩, soft_warning_infinity_main⟩
  obtain ⟨run, mrun, hd, hd0, _⟩ := user_quits_main
  exact ⟨gain_fails_infinity_main, n1, t1.2.1 n1, ⟨s1, hs1⟩, soft_warning_infinity_main,
    soft_warning_step_failed, hf2 (soft_warning_step_failed s2),
    gain_fails_color_main, n3, t3.2.1 n3, gain_fails_mono_main, n4, t4.2.1 n4,
    sample_infinity_main, t5.1,
    ⟨run, hd, hd0, (exit_code_taint.2 DualMain.user_quits 1 run hd).2.1 hd0⟩⟩

end SpinnakerCamera
